import Mathlib

/-!
# ForgeVk: selection and resource logic of `ForgeAPI/ForgeAPI/main.cpp`

A shallow embedding of the decision logic of `HelloTriangleApplication`:
memory-type search, image-layout transitions, swapchain parameter selection,
depth-format probing, adapter and queue family selection, the swapchain
lifecycle (`CreateSwapChain`, `ReleaseSwapchain`, `RecreateSwapChain` and the
rebuild functions), the frame (`Draw`), the resource helpers (`CreateBuffer`,
`CreateImage`, the one-shot command buffer), and the whole run:
`InitializeVulkan`, `MainLoop`, `EndProgram`.

Conventions of the embedding
* C++ `uint32_t` values are natural numbers; where the source can leave the
  32-bit range the reduction `% 2 ^ 32` is written out (`u32`).
* C++ `int` values are integers; `static_cast<uint32_t>` is `castU32`.
* Vulkan enumerators and flag bits are natural numbers carrying the values of
  the Vulkan headers.
* `throw std::runtime_error(msg)` is `Except.error msg`.
* Calls into the Vulkan driver that the claims talk about are recorded in a
  call trace (`List VkCall`).
* Member functions that change the application object are state transformers
  (`Step`) on a `Session`; what the driver, the window system and the file
  system answer is a parameter (`Driver`, and `Platform` for what is asked
  once during initialization), so every theorem about them holds for every
  behaviour of the environment.
* The driver hands out handles from a counter (`Session.fresh`), so a handle
  names one object; `ownedCount` and `destroyCount` count, per handle, the
  calls of a trace that create and destroy it.
* Three forms of statement about a `Step`: `OkAt` (what holds when it
  returns), `Emits` (what holds of every call it adds, on every path) and
  `Keeps` (what it leaves unchanged, on every path).
-/

namespace ForgeVk

/-! ## Machine integers -/

/-- Value of a `uint32_t` expression whose mathematical value is `n`. -/
def u32 (n : Nat) : Nat := n % 2 ^ 32

/-- The conversion `static_cast<uint32_t>(x)` of a C++ `int`. -/
def castU32 (x : Int) : Nat := (x % 2 ^ 32).toNat

/-- The largest `uint32_t`, `std::numeric_limits<uint32_t>::max()`. -/
def UINT32_MAX : Nat := 2 ^ 32 - 1

/-! ## Outcomes -/

deriving instance DecidableEq for Except

/-! ## Memory types (`FindMemoryType`, main.cpp 1567-1581) -/

/-- Vulkan `VkMemoryType`. -/
structure VkMemoryType where
  propertyFlags : Nat
  heapIndex : Nat
deriving DecidableEq, Repr

/-- Number of slots of the `memoryTypes` array, `VK_MAX_MEMORY_TYPES`. -/
def VK_MAX_MEMORY_TYPES : Nat := 32

/-- Vulkan `VkPhysicalDeviceMemoryProperties`, restricted to the memory-type
table: the count and the array `memoryTypes[VK_MAX_MEMORY_TYPES]`. -/
structure VkPhysicalDeviceMemoryProperties where
  memoryTypeCount : Nat
  memoryTypes : List VkMemoryType
deriving DecidableEq, Repr

/-- The array read `memory_properties.memoryTypes[i]`. -/
def VkPhysicalDeviceMemoryProperties.at (mp : VkPhysicalDeviceMemoryProperties)
    (i : Nat) : VkMemoryType :=
  mp.memoryTypes.getD i ⟨0, 0⟩

/-- A table as the driver fills it: all 32 slots exist and the count does not
exceed them. -/
def VkPhysicalDeviceMemoryProperties.WF (mp : VkPhysicalDeviceMemoryProperties) : Prop :=
  mp.memoryTypes.length = VK_MAX_MEMORY_TYPES ∧ mp.memoryTypeCount ≤ VK_MAX_MEMORY_TYPES

instance (mp : VkPhysicalDeviceMemoryProperties) : Decidable mp.WF :=
  inferInstanceAs (Decidable (_ ∧ _))

/-- The loop condition of `FindMemoryType`:
`type_filter & (1 << i) && (memoryTypes[i].propertyFlags & properties) == properties`.
The `int` value `1 << i` is converted to `uint32_t` for the `&`. -/
def memoryTypeMatches (mp : VkPhysicalDeviceMemoryProperties)
    (type_filter properties i : Nat) : Prop :=
  (type_filter &&& u32 (1 <<< i)) ≠ 0 ∧ ((mp.at i).propertyFlags &&& properties) = properties

instance (mp : VkPhysicalDeviceMemoryProperties) (type_filter properties i : Nat) :
    Decidable (memoryTypeMatches mp type_filter properties i) :=
  inferInstanceAs (Decidable (_ ∧ _))

/-- The `for (uint32_t i = 0; i < memoryTypeCount; ++i)` loop of
`FindMemoryType`, with `remaining = memoryTypeCount - i` iterations left;
the `throw` after the loop is the exhausted case. -/
def FindMemoryType.loop (mp : VkPhysicalDeviceMemoryProperties)
    (type_filter properties : Nat) : Nat → Nat → Except String Nat
  | 0, _ => .error "Failed To Find Suitable Memory Type!"
  | remaining + 1, i =>
    if memoryTypeMatches mp type_filter properties i then .ok i
    else FindMemoryType.loop mp type_filter properties remaining (i + 1)

/-- `uint32_t FindMemoryType(uint32_t type_filter, VkMemoryPropertyFlags properties)`;
`mp` is what `vkGetPhysicalDeviceMemoryProperties` reports. -/
def FindMemoryType (mp : VkPhysicalDeviceMemoryProperties)
    (type_filter properties : Nat) : Except String Nat :=
  FindMemoryType.loop mp type_filter properties mp.memoryTypeCount 0

/-- The property of an index that the specification asks of the result:
inside the table, bit `i` of the filter set, property flags a superset. -/
def SuitableMemoryType (mp : VkPhysicalDeviceMemoryProperties)
    (type_filter properties i : Nat) : Prop :=
  i < mp.memoryTypeCount ∧ type_filter.testBit i = true ∧
    ((mp.at i).propertyFlags &&& properties) = properties

instance (mp : VkPhysicalDeviceMemoryProperties) (type_filter properties i : Nat) :
    Decidable (SuitableMemoryType mp type_filter properties i) :=
  inferInstanceAs (Decidable (_ ∧ _ ∧ _))

/-- A table of three memory types (device-local, host-visible and coherent,
host-visible coherent and cached) in the 32 slots of the array. -/
def exampleMemoryProperties : VkPhysicalDeviceMemoryProperties :=
  { memoryTypeCount := 3
    memoryTypes := [⟨1, 0⟩, ⟨6, 1⟩, ⟨14, 1⟩] ++ List.replicate 29 ⟨0, 0⟩ }

/-! ## Vulkan enumerators and flag bits used by the source -/

abbrev VkFormat := Nat
abbrev VkImageLayout := Nat
abbrev VkImageTiling := Nat
abbrev VkPresentModeKHR := Nat
abbrev VkColorSpaceKHR := Nat
abbrev VkSharingMode := Nat

def VK_NULL_HANDLE : Nat := 0
def VK_TRUE : Nat := 1

def VK_FORMAT_UNDEFINED : VkFormat := 0
def VK_FORMAT_B8G8R8A8_UNORM : VkFormat := 44
def VK_FORMAT_D32_SFLOAT : VkFormat := 126
def VK_FORMAT_D24_UNORM_S8_UINT : VkFormat := 129
def VK_FORMAT_D32_SFLOAT_S8_UINT : VkFormat := 130

def VK_COLOR_SPACE_SRGB_NONLINEAR_KHR : VkColorSpaceKHR := 0
/-- The older spelling the loop of `ChooseSwapSurfaceFormat` uses; same value. -/
def VK_COLORSPACE_SRGB_NONLINEAR_KHR : VkColorSpaceKHR := VK_COLOR_SPACE_SRGB_NONLINEAR_KHR

def VK_PRESENT_MODE_IMMEDIATE_KHR : VkPresentModeKHR := 0
def VK_PRESENT_MODE_MAILBOX_KHR : VkPresentModeKHR := 1
def VK_PRESENT_MODE_FIFO_KHR : VkPresentModeKHR := 2

def VK_SHARING_MODE_EXCLUSIVE : VkSharingMode := 0
def VK_SHARING_MODE_CONCURRENT : VkSharingMode := 1

def VK_IMAGE_TILING_OPTIMAL : VkImageTiling := 0
def VK_IMAGE_TILING_LINEAR : VkImageTiling := 1

def VK_FORMAT_FEATURE_DEPTH_STENCIL_ATTACHMENT_BIT : Nat := 0x200

def VK_IMAGE_LAYOUT_UNDEFINED : VkImageLayout := 0
def VK_IMAGE_LAYOUT_DEPTH_STENCIL_ATTACHMENT_OPTIMAL : VkImageLayout := 3
def VK_IMAGE_LAYOUT_SHADER_READ_ONLY_OPTIMAL : VkImageLayout := 5
def VK_IMAGE_LAYOUT_TRANSFER_DST_OPTIMAL : VkImageLayout := 7

def VK_ACCESS_SHADER_READ_BIT : Nat := 0x20
def VK_ACCESS_DEPTH_STENCIL_ATTACHMENT_READ_BIT : Nat := 0x200
def VK_ACCESS_DEPTH_STENCIL_ATTACHMENT_WRITE_BIT : Nat := 0x400
def VK_ACCESS_TRANSFER_WRITE_BIT : Nat := 0x1000

def VK_PIPELINE_STAGE_TOP_OF_PIPE_BIT : Nat := 0x1
def VK_PIPELINE_STAGE_FRAGMENT_SHADER_BIT : Nat := 0x80
def VK_PIPELINE_STAGE_EARLY_FRAGMENT_TESTS_BIT : Nat := 0x100
def VK_PIPELINE_STAGE_TRANSFER_BIT : Nat := 0x1000

def VK_IMAGE_ASPECT_COLOR_BIT : Nat := 0x1
def VK_IMAGE_ASPECT_DEPTH_BIT : Nat := 0x2
def VK_IMAGE_ASPECT_STENCIL_BIT : Nat := 0x4

def VK_QUEUE_FAMILY_IGNORED : Nat := 2 ^ 32 - 1
def VK_COMMAND_BUFFER_LEVEL_PRIMARY : Nat := 0
def VK_COMMAND_BUFFER_USAGE_ONE_TIME_SUBMIT_BIT : Nat := 0x1
def VK_IMAGE_USAGE_COLOR_ATTACHMENT_BIT : Nat := 0x10
def VK_COMPOSITE_ALPHA_OPAQUE_BIT_KHR : Nat := 0x1

/-! ## One-shot command buffers and `TransitionImageLayout` (main.cpp 1333-1398, 1487-1520) -/

/-- Vulkan `VkImageSubresourceRange`. -/
structure VkImageSubresourceRange where
  aspectMask : Nat
  baseMipLevel : Nat
  levelCount : Nat
  baseArrayLayer : Nat
  layerCount : Nat
deriving DecidableEq, Repr

/-- Vulkan `VkImageMemoryBarrier` (without the constant `sType` tag and the
null `pNext`). -/
structure VkImageMemoryBarrier where
  srcAccessMask : Nat
  dstAccessMask : Nat
  oldLayout : VkImageLayout
  newLayout : VkImageLayout
  srcQueueFamilyIndex : Nat
  dstQueueFamilyIndex : Nat
  image : Nat
  subresourceRange : VkImageSubresourceRange
deriving DecidableEq, Repr

/-- Vulkan `VkExtent2D`. -/
structure VkExtent2D where
  width : Nat
  height : Nat
deriving DecidableEq, Repr

/-- A pointer to an array of `uint32_t` as the callee finds it when the call is
made: the null pointer, a pointer to an array that is alive, with its
elements, or a pointer to an array whose lifetime has ended. `held` is what
that array held while it was alive; nothing determinate can be read through
the pointer any more. -/
inductive ArrayPointer where
  | null
  | live (elements : List Nat)
  | dangling (held : List Nat)
deriving DecidableEq, Repr

/-- What the callee reads through the pointer, when that is determined. -/
def ArrayPointer.read : ArrayPointer → Option (List Nat)
  | .null => some []
  | .live elements => some elements
  | .dangling _ => none

/-- Vulkan `VkSwapchainCreateInfoKHR` (without the constant `sType` tag and the
null `pNext`), as `vkCreateSwapchainKHR` receives it. The zero-initialised
struct has the null pointer in `pQueueFamilyIndices`. -/
structure VkSwapchainCreateInfoKHR where
  flags : Nat
  surface : Nat
  minImageCount : Nat
  imageFormat : VkFormat
  imageColorSpace : VkColorSpaceKHR
  imageExtent : VkExtent2D
  imageArrayLayers : Nat
  imageUsage : Nat
  imageSharingMode : VkSharingMode
  queueFamilyIndexCount : Nat
  pQueueFamilyIndices : ArrayPointer
  preTransform : Nat
  compositeAlpha : Nat
  presentMode : VkPresentModeKHR
  clipped : Nat
  oldSwapchain : Nat
deriving DecidableEq, Repr

abbrev VkResult := Int

def VK_SUCCESS : VkResult := 0
def VK_SUBOPTIMAL_KHR : VkResult := 1000001003
def VK_ERROR_OUT_OF_DATE_KHR : VkResult := -1000001004

def VK_PIPELINE_STAGE_COLOR_ATTACHMENT_OUTPUT_BIT : Nat := 0x400
def VK_COMMAND_BUFFER_USAGE_SIMULTANEOUS_USE_BIT : Nat := 0x4
def VK_IMAGE_LAYOUT_COLOR_ATTACHMENT_OPTIMAL : VkImageLayout := 2
def VK_IMAGE_LAYOUT_PRESENT_SRC_KHR : VkImageLayout := 1000001002
def VK_SAMPLE_COUNT_1_BIT : Nat := 0x1
def VK_ATTACHMENT_LOAD_OP_CLEAR : Nat := 1
def VK_ATTACHMENT_LOAD_OP_DONT_CARE : Nat := 2
def VK_ATTACHMENT_STORE_OP_STORE : Nat := 0
def VK_ATTACHMENT_STORE_OP_DONT_CARE : Nat := 1

/-- Vulkan `VkSubmitInfo` as `Draw` fills it; counted pointers are lists. -/
structure VkSubmitInfo where
  pWaitSemaphores : List Nat
  pWaitDstStageMask : List Nat
  pCommandBuffers : List Nat
  pSignalSemaphores : List Nat
deriving DecidableEq, Repr

/-- Vulkan `VkPresentInfoKHR` as `Draw` fills it; counted pointers are lists. -/
structure VkPresentInfoKHR where
  pWaitSemaphores : List Nat
  pSwapchains : List Nat
  pImageIndices : List Nat
deriving DecidableEq, Repr

/-- Vulkan `VkAttachmentDescription`. -/
structure VkAttachmentDescription where
  format : VkFormat
  samples : Nat
  loadOp : Nat
  storeOp : Nat
  stencilLoadOp : Nat
  stencilStoreOp : Nat
  initialLayout : VkImageLayout
  finalLayout : VkImageLayout
deriving DecidableEq, Repr

/-- The driver calls that only initialization, the resource helpers
(`CreateBuffer`, `CreateImage`, the copies) and the teardown make, with the
arguments the source passes; `glfwCreateWindowSurface` is the window-system
call that creates the surface. A call that can fail carries the `VkResult` the
driver returned, a call that creates an object the handle written on success.
They are kept apart from `VkCall` so that both types stay small. -/
inductive SetupCall where
  | vkCreateInstance (enabledExtensionCount enabledLayerCount : Nat) (result : VkResult)
      (instance_handle : Nat)
  | vkDestroyInstance (instance_handle : Nat)
  | vkCreateDebugReportCallbackEXT (instance_handle flags : Nat) (result : VkResult)
      (callback : Nat)
  | vkDestroyDebugReportCallbackEXT (instance_handle callback : Nat)
  | glfwCreateWindowSurface (instance_handle : Nat) (result : VkResult) (surface : Nat)
  | vkDestroySurfaceKHR (instance_handle surface : Nat)
  | vkCreateDevice (physicalDevice : Nat) (queueFamilyIndices queueCounts : List Nat)
      (result : VkResult) (device : Nat)
  | vkGetDeviceQueue (device queueFamilyIndex queueIndex queue : Nat)
  | vkDestroyDevice (device : Nat)
  | vkCreateDescriptorSetLayout (device bindingCount : Nat) (result : VkResult)
      (setLayout : Nat)
  | vkDestroyDescriptorSetLayout (device setLayout : Nat)
  | vkCreateCommandPool (device queueFamilyIndex : Nat) (result : VkResult)
      (commandPool : Nat)
  | vkDestroyCommandPool (device commandPool : Nat)
  | vkCreateImage (device width height : Nat) (format : VkFormat) (tiling : VkImageTiling)
      (usage : Nat) (result : VkResult) (image : Nat)
  | vkCreateBuffer (device size usage : Nat) (result : VkResult) (buffer : Nat)
  | vkDestroyBuffer (device buffer : Nat)
  | vkAllocateMemory (device allocationSize memoryTypeIndex : Nat) (result : VkResult)
      (memory : Nat)
  | vkBindImageMemory (device image memory memoryOffset : Nat)
  | vkBindBufferMemory (device buffer memory memoryOffset : Nat)
  | vkMapMemory (device memory offset size : Nat)
  | vkUnmapMemory (device memory : Nat)
  | vkCmdCopyBuffer (commandBuffer srcBuffer dstBuffer size : Nat)
  | vkCmdCopyBufferToImage (commandBuffer srcBuffer dstImage : Nat)
      (dstImageLayout : VkImageLayout) (width height : Nat)
  | vkCreateSampler (device : Nat) (result : VkResult) (sampler : Nat)
  | vkDestroySampler (device sampler : Nat)
  | vkCreateDescriptorPool (device maxSets : Nat) (result : VkResult) (descriptorPool : Nat)
  | vkDestroyDescriptorPool (device descriptorPool : Nat)
  | vkAllocateDescriptorSets (device descriptorPool : Nat) (setLayouts : List Nat)
      (result : VkResult) (descriptorSet : Nat)
  | vkUpdateDescriptorSets (device descriptorSet buffer range imageView sampler : Nat)
  | vkCreateSemaphore (device : Nat) (result : VkResult) (semaphore : Nat)
  | vkDestroySemaphore (device semaphore : Nat)
deriving DecidableEq, Repr

/-- The driver calls made by the one-shot command helper and by
`TransitionImageLayout`, with the arguments the source passes. Counted
pointer arguments are lists.

The constructors from `vkDeviceWaitIdle` on are the calls of the swapchain
lifecycle and of `Draw`; those that can fail carry the `VkResult` the driver
returned and those that create an object carry the handle written on success.
`vkQueueSubmit` is a submit whose `VkSubmitInfo` names command buffers only (the
one-shot helper), `vkQueueSubmitInfo` is the same driver function with
semaphores in the `VkSubmitInfo`; `vkAllocateCommandBuffers` allocates one
buffer, `vkAllocateCommandBufferList` is the same driver function writing
`commandBufferCount` handles. `setup` holds the calls of `SetupCall`. Pure
queries are not recorded. -/
inductive VkCall where
  | vkAllocateCommandBuffers (device commandPool level commandBufferCount : Nat)
      (commandBuffer : Nat)
  | vkBeginCommandBuffer (commandBuffer flags : Nat)
  | vkCmdPipelineBarrier (commandBuffer srcStageMask dstStageMask dependencyFlags : Nat)
      (memoryBarrierCount bufferMemoryBarrierCount : Nat)
      (imageMemoryBarriers : List VkImageMemoryBarrier)
  | vkEndCommandBuffer (commandBuffer : Nat)
  | vkQueueSubmit (queue : Nat) (commandBuffers : List Nat) (fence : Nat)
  | vkQueueWaitIdle (queue : Nat)
  | vkFreeCommandBuffers (device commandPool : Nat) (commandBuffers : List Nat)
  | vkDeviceWaitIdle (device : Nat)
  | vkAcquireNextImageKHR (device swapchain timeout semaphore fence : Nat)
      (result : VkResult) (imageIndex : Nat)
  | vkQueueSubmitInfo (queue : Nat) (submits : List VkSubmitInfo) (fence : Nat)
      (result : VkResult)
  | vkQueuePresentKHR (queue : Nat) (present_info : VkPresentInfoKHR) (result : VkResult)
  | vkCreateSwapchainKHR (device : Nat) (create_info : VkSwapchainCreateInfoKHR)
      (result : VkResult) (swapchain : Nat)
  | vkGetSwapchainImagesKHR (device swapchain : Nat) (images : List Nat)
  | vkDestroySwapchainKHR (device swapchain : Nat)
  | vkCreateImageView (device image : Nat) (format : VkFormat) (aspectMask : Nat)
      (result : VkResult) (view : Nat)
  | vkDestroyImageView (device view : Nat)
  | vkDestroyImage (device image : Nat)
  | vkFreeMemory (device memory : Nat)
  | vkCreateRenderPass (device : Nat) (attachments : List VkAttachmentDescription)
      (colorAttachment depthStencilAttachment : Nat) (result : VkResult) (renderPass : Nat)
  | vkDestroyRenderPass (device renderPass : Nat)
  | vkCreateShaderModule (device codeSize : Nat) (result : VkResult) (shaderModule : Nat)
  | vkDestroyShaderModule (device shaderModule : Nat)
  | vkCreatePipelineLayout (device : Nat) (setLayouts : List Nat) (result : VkResult)
      (pipelineLayout : Nat)
  | vkDestroyPipelineLayout (device pipelineLayout : Nat)
  | vkCreateGraphicsPipelines (device : Nat) (stageModules : List Nat)
      (layout renderPass : Nat) (scissorExtent : VkExtent2D) (result : VkResult)
      (pipeline : Nat)
  | vkDestroyPipeline (device pipeline : Nat)
  | vkCreateFramebuffer (device renderPass : Nat) (attachments : List Nat)
      (width height layers : Nat) (result : VkResult) (framebuffer : Nat)
  | vkDestroyFramebuffer (device framebuffer : Nat)
  | vkAllocateCommandBufferList (device commandPool level commandBufferCount : Nat)
      (result : VkResult) (commandBuffers : List Nat)
  | vkCmdBeginRenderPass (commandBuffer renderPass framebuffer : Nat)
      (renderAreaExtent : VkExtent2D)
  | vkCmdBindPipeline (commandBuffer pipeline : Nat)
  | vkCmdBindVertexBuffers (commandBuffer : Nat) (buffers : List Nat)
  | vkCmdBindIndexBuffer (commandBuffer buffer : Nat)
  | vkCmdBindDescriptorSets (commandBuffer layout : Nat) (descriptorSets : List Nat)
  | vkCmdDrawIndexed (commandBuffer indexCount : Nat)
  | vkCmdEndRenderPass (commandBuffer : Nat)
  | setup (call : SetupCall)
deriving DecidableEq, Repr

/-- Is the call a `vkCmdPipelineBarrier`? -/
def VkCall.isPipelineBarrier : VkCall → Bool
  | .vkCmdPipelineBarrier .. => true
  | _ => false

/-- Is the call a `vkQueueSubmit` on the given queue? -/
def VkCall.isSubmitTo (queue : Nat) : VkCall → Bool
  | .vkQueueSubmit q _ _ => q == queue
  | _ => false

/-- The members of `HelloTriangleApplication` read by the one-shot helper. -/
structure HelloTriangleApplication where
  _vk_logical_device : Nat
  _vk_command_pool : Nat
  _vk_graphics_queue : Nat
deriving DecidableEq, Repr

/-- `VkCommandBuffer StartSingleTimeCommands()`: allocates one primary command
buffer from the pool and begins it for one-time submission. `fresh` is the
handle the driver hands out; `trace` is the call trace so far. -/
def StartSingleTimeCommands (app : HelloTriangleApplication) (fresh : Nat)
    (trace : List VkCall) : Nat × List VkCall :=
  (fresh, trace ++
    [ .vkAllocateCommandBuffers app._vk_logical_device app._vk_command_pool
        VK_COMMAND_BUFFER_LEVEL_PRIMARY 1 fresh,
      .vkBeginCommandBuffer fresh VK_COMMAND_BUFFER_USAGE_ONE_TIME_SUBMIT_BIT ])

/-- `void EndSingleTimeCommands(VkCommandBuffer command_buffer)`: end, submit
to the graphics queue, wait for the queue, free. -/
def EndSingleTimeCommands (app : HelloTriangleApplication) (command_buffer : Nat)
    (trace : List VkCall) : List VkCall :=
  trace ++
    [ .vkEndCommandBuffer command_buffer,
      .vkQueueSubmit app._vk_graphics_queue [command_buffer] VK_NULL_HANDLE,
      .vkQueueWaitIdle app._vk_graphics_queue,
      .vkFreeCommandBuffers app._vk_logical_device app._vk_command_pool [command_buffer] ]

/-- `bool HasStencilComponent(VkFormat format)`. -/
def HasStencilComponent (format : VkFormat) : Bool :=
  format == VK_FORMAT_D32_SFLOAT_S8_UINT || format == VK_FORMAT_D24_UNORM_S8_UINT

/-- The `if / else if / else if / else` chain of `TransitionImageLayout` that
fills the access masks of `barrier` and chooses `source_stage` and
`dest_stage`, or throws. -/
def TransitionImageLayout.select (barrier : VkImageMemoryBarrier)
    (old_layout new_layout : VkImageLayout) :
    Except String (VkImageMemoryBarrier × Nat × Nat) :=
  if old_layout = VK_IMAGE_LAYOUT_UNDEFINED ∧
      new_layout = VK_IMAGE_LAYOUT_TRANSFER_DST_OPTIMAL then
    .ok ({ barrier with srcAccessMask := 0, dstAccessMask := VK_ACCESS_TRANSFER_WRITE_BIT },
      VK_PIPELINE_STAGE_TOP_OF_PIPE_BIT, VK_PIPELINE_STAGE_TRANSFER_BIT)
  else if old_layout = VK_IMAGE_LAYOUT_TRANSFER_DST_OPTIMAL ∧
      new_layout = VK_IMAGE_LAYOUT_SHADER_READ_ONLY_OPTIMAL then
    .ok ({ barrier with srcAccessMask := VK_ACCESS_TRANSFER_WRITE_BIT,
                        dstAccessMask := VK_ACCESS_SHADER_READ_BIT },
      VK_PIPELINE_STAGE_TRANSFER_BIT, VK_PIPELINE_STAGE_FRAGMENT_SHADER_BIT)
  else if old_layout = VK_IMAGE_LAYOUT_UNDEFINED ∧
      new_layout = VK_IMAGE_LAYOUT_DEPTH_STENCIL_ATTACHMENT_OPTIMAL then
    .ok ({ barrier with srcAccessMask := 0,
                        dstAccessMask := VK_ACCESS_DEPTH_STENCIL_ATTACHMENT_READ_BIT |||
                          VK_ACCESS_DEPTH_STENCIL_ATTACHMENT_WRITE_BIT },
      VK_PIPELINE_STAGE_TOP_OF_PIPE_BIT, VK_PIPELINE_STAGE_EARLY_FRAGMENT_TESTS_BIT)
  else
    .error "Unsupported Layout Transition!"

/-- The aspect mask `TransitionImageLayout` writes into the subresource range. -/
def TransitionImageLayout.aspectMask (format : VkFormat) (new_layout : VkImageLayout) : Nat :=
  if new_layout = VK_IMAGE_LAYOUT_DEPTH_STENCIL_ATTACHMENT_OPTIMAL then
    if HasStencilComponent format then VK_IMAGE_ASPECT_DEPTH_BIT ||| VK_IMAGE_ASPECT_STENCIL_BIT
    else VK_IMAGE_ASPECT_DEPTH_BIT
  else VK_IMAGE_ASPECT_COLOR_BIT

/-- `void TransitionImageLayout(VkImage image, VkFormat format,
VkImageLayout old_layout, VkImageLayout new_layout)`. The result pairs the
outcome (normal return or the thrown message) with the call trace; a throw
leaves the function before `vkCmdPipelineBarrier` and `EndSingleTimeCommands`. -/
def TransitionImageLayout (app : HelloTriangleApplication) (fresh : Nat)
    (image : Nat) (format : VkFormat) (old_layout new_layout : VkImageLayout)
    (trace : List VkCall) : Except String Unit × List VkCall :=
  let started := StartSingleTimeCommands app fresh trace
  let command_buffer := started.1
  let barrier : VkImageMemoryBarrier :=
    { srcAccessMask := 0
      dstAccessMask := 0
      oldLayout := old_layout
      newLayout := new_layout
      srcQueueFamilyIndex := VK_QUEUE_FAMILY_IGNORED
      dstQueueFamilyIndex := VK_QUEUE_FAMILY_IGNORED
      image := image
      subresourceRange :=
        { aspectMask := TransitionImageLayout.aspectMask format new_layout
          baseMipLevel := 0
          levelCount := 1
          baseArrayLayer := 0
          layerCount := 1 } }
  match TransitionImageLayout.select barrier old_layout new_layout with
  | .error msg => (.error msg, started.2)
  | .ok (barrier, source_stage, dest_stage) =>
    (.ok (), EndSingleTimeCommands app command_buffer
      (started.2 ++
        [.vkCmdPipelineBarrier command_buffer source_stage dest_stage 0 0 0 [barrier]]))

/-! ## Swapchain parameter selection (main.cpp 408-464, 1251-1331) -/

/-- Vulkan `VkSurfaceFormatKHR`. -/
structure VkSurfaceFormatKHR where
  format : VkFormat
  colorSpace : VkColorSpaceKHR
deriving DecidableEq, Repr

/-- Vulkan `VkSurfaceCapabilitiesKHR`, the members the source reads. -/
structure VkSurfaceCapabilitiesKHR where
  minImageCount : Nat
  maxImageCount : Nat
  currentExtent : VkExtent2D
  minImageExtent : VkExtent2D
  maxImageExtent : VkExtent2D
  currentTransform : Nat
deriving DecidableEq, Repr

/-- The source struct `SwapChainSupport`. -/
structure SwapChainSupport where
  _capabilities : VkSurfaceCapabilitiesKHR
  _formats : List VkSurfaceFormatKHR
  _present_modes : List VkPresentModeKHR
deriving DecidableEq, Repr

/-- The source struct `QueueFamilies`; the members are C++ `int`. -/
structure QueueFamilies where
  _graphics_family : Int
  _present_family : Int
deriving DecidableEq, Repr

/-- The range-for loop of `ChooseSwapSurfaceFormat`: every entry equal to the
preferred pair overwrites `ret_val`; the loop has no `break`. -/
def ChooseSwapSurfaceFormat.loop (ret_val : VkSurfaceFormatKHR) :
    List VkSurfaceFormatKHR → VkSurfaceFormatKHR
  | [] => ret_val
  | format :: rest =>
    if format.format = VK_FORMAT_B8G8R8A8_UNORM ∧
        format.colorSpace = VK_COLORSPACE_SRGB_NONLINEAR_KHR then
      ChooseSwapSurfaceFormat.loop format rest
    else
      ChooseSwapSurfaceFormat.loop ret_val rest

/-- `VkSurfaceFormatKHR ChooseSwapSurfaceFormat(const std::vector<VkSurfaceFormatKHR>&)`.
On the empty vector the source reads `available_formats[0]` outside the
vector; that undefined read is `none`. -/
def ChooseSwapSurfaceFormat (available_formats : List VkSurfaceFormatKHR) :
    Option VkSurfaceFormatKHR :=
  match available_formats with
  | [] => none
  | first :: _ =>
    if available_formats.length = 1 ∧ first.format = VK_FORMAT_UNDEFINED then
      some { format := VK_FORMAT_B8G8R8A8_UNORM, colorSpace := VK_COLOR_SPACE_SRGB_NONLINEAR_KHR }
    else
      some (ChooseSwapSurfaceFormat.loop first available_formats)

/-- The range-for loop of `ChooseSwapPresentMode`: MAILBOX assigns and breaks,
IMMEDIATE assigns and goes on. -/
def ChooseSwapPresentMode.loop (ret_val : VkPresentModeKHR) :
    List VkPresentModeKHR → VkPresentModeKHR
  | [] => ret_val
  | mode :: rest =>
    if mode = VK_PRESENT_MODE_MAILBOX_KHR then mode
    else if mode = VK_PRESENT_MODE_IMMEDIATE_KHR then ChooseSwapPresentMode.loop mode rest
    else ChooseSwapPresentMode.loop ret_val rest

/-- `VkPresentModeKHR ChooseSwapPresentMode(const std::vector<VkPresentModeKHR>)`. -/
def ChooseSwapPresentMode (available_modes : List VkPresentModeKHR) : VkPresentModeKHR :=
  ChooseSwapPresentMode.loop VK_PRESENT_MODE_FIFO_KHR available_modes

/-- `VkExtent2D ChooseSwapExtent(const VkSurfaceCapabilitiesKHR&)`; `width` and
`height` are the `int` values `glfwGetWindowSize` writes. -/
def ChooseSwapExtent (capabilities : VkSurfaceCapabilitiesKHR) (width height : Int) :
    VkExtent2D :=
  if capabilities.currentExtent.width = UINT32_MAX then
    let ret_val : VkExtent2D := { width := castU32 width, height := castU32 height }
    let ret_val : VkExtent2D :=
      if ret_val.width < capabilities.minImageExtent.width then
        { ret_val with width := capabilities.minImageExtent.width }
      else if ret_val.width > capabilities.maxImageExtent.width then
        { ret_val with width := capabilities.maxImageExtent.width }
      else ret_val
    let ret_val : VkExtent2D :=
      if ret_val.height < capabilities.minImageExtent.height then
        { ret_val with height := capabilities.minImageExtent.height }
      else if ret_val.height > capabilities.maxImageExtent.height then
        { ret_val with height := capabilities.maxImageExtent.height }
      else ret_val
    ret_val
  else
    capabilities.currentExtent

/-- The "check queue length" block of `CreateSwapChain` (main.cpp 420-425):
`uint32_t image_count = minImageCount + 1`, capped by a non-zero
`maxImageCount`. The addition is `uint32_t` arithmetic. -/
def CreateSwapChain.image_count (capabilities : VkSurfaceCapabilitiesKHR) : Nat :=
  let image_count := u32 (capabilities.minImageCount + 1)
  if capabilities.maxImageCount > 0 ∧ image_count > capabilities.maxImageCount then
    capabilities.maxImageCount
  else
    image_count

/-- The `create_info` that `CreateSwapChain(queue_families, old)` hands to
`vkCreateSwapchainKHR` (main.cpp 410-461). `swap_details` is the result of
`CheckSwapChainSupport`, `surface` the member `_vk_surface`, `width`/`height`
the window size. `none` only when the format choice reads outside the
format vector. In the branch for different families `pQueueFamilyIndices` is
set to the array `indices`, which is declared inside the braces of that branch
(main.cpp 444-446): its lifetime ends at the closing brace, before the call of
`vkCreateSwapchainKHR` (main.cpp 461), so the pointer the driver receives is
dangling. -/
def CreateSwapChain.create_info (surface : Nat) (swap_details : SwapChainSupport)
    (width height : Int) (queue_families : QueueFamilies) (old : Nat) :
    Option VkSwapchainCreateInfoKHR :=
  match ChooseSwapSurfaceFormat swap_details._formats with
  | none => none
  | some surface_format =>
    let present_mode := ChooseSwapPresentMode swap_details._present_modes
    let extent := ChooseSwapExtent swap_details._capabilities width height
    let image_count := CreateSwapChain.image_count swap_details._capabilities
    let create_info : VkSwapchainCreateInfoKHR :=
      { flags := 0
        surface := surface
        minImageCount := image_count
        imageFormat := surface_format.format
        imageColorSpace := surface_format.colorSpace
        imageExtent := extent
        imageArrayLayers := 1
        imageUsage := VK_IMAGE_USAGE_COLOR_ATTACHMENT_BIT
        imageSharingMode := 0
        queueFamilyIndexCount := 0
        pQueueFamilyIndices := .null
        preTransform := 0
        compositeAlpha := 0
        presentMode := 0
        clipped := 0
        oldSwapchain := 0 }
    let create_info : VkSwapchainCreateInfoKHR :=
      if queue_families._graphics_family ≠ queue_families._present_family then
        { create_info with
          imageSharingMode := VK_SHARING_MODE_CONCURRENT
          queueFamilyIndexCount := 2
          pQueueFamilyIndices :=
            .dangling [castU32 queue_families._graphics_family,
              castU32 queue_families._present_family] }
      else
        { create_info with imageSharingMode := VK_SHARING_MODE_EXCLUSIVE }
    some { create_info with
      preTransform := swap_details._capabilities.currentTransform
      compositeAlpha := VK_COMPOSITE_ALPHA_OPAQUE_BIT_KHR
      presentMode := present_mode
      clipped := VK_TRUE
      oldSwapchain := old }

/-- Reference, after `std::clamp(v, lo, hi)`: `lo` when `v` is below it, `hi`
when `v` is above it, `v` otherwise. -/
def clamp (v lo hi : Nat) : Nat :=
  if v < lo then lo else if hi < v then hi else v

/-- Reference from the specification: the image count `clamp(min+1, min, max)`
over the natural numbers, `max = 0` meaning that there is no upper bound. -/
def specImageCount (minImageCount maxImageCount : Nat) : Nat :=
  if maxImageCount = 0 then max (minImageCount + 1) minImageCount
  else clamp (minImageCount + 1) minImageCount maxImageCount

/-! ## Depth format (main.cpp 725-728, 1583-1601) -/

/-- Vulkan `VkFormatProperties`. -/
structure VkFormatProperties where
  linearTilingFeatures : Nat
  optimalTilingFeatures : Nat
  bufferFeatures : Nat
deriving DecidableEq, Repr

/-- `VkFormat FindSupportedFormat(const std::vector<VkFormat>& candidates,
VkImageTiling tiling, VkFormatFeatureFlags features)`; `formatProperties` is
what `vkGetPhysicalDeviceFormatProperties` reports for the selected adapter.
Every path through the body of the range-for loop leaves the function (two
`return`s, then the `throw` as the last statement of the body), so no second
iteration is ever entered. On the empty vector control reaches the end of the
function without a `return`; that undefined outcome is `none`. -/
def FindSupportedFormat (formatProperties : VkFormat → VkFormatProperties) :
    List VkFormat → VkImageTiling → Nat → Option (Except String VkFormat)
  | [], _, _ => none
  | format :: _, tiling, features =>
    let props := formatProperties format
    if tiling = VK_IMAGE_TILING_LINEAR ∧
        (props.linearTilingFeatures &&& features) = features then
      some (.ok format)
    else if tiling = VK_IMAGE_TILING_OPTIMAL ∧
        (props.optimalTilingFeatures &&& features) = features then
      some (.ok format)
    else
      some (.error "Failed To Find Supported Format!")

/-- `VkFormat FindDepthFormat()`. -/
def FindDepthFormat (formatProperties : VkFormat → VkFormatProperties) :
    Option (Except String VkFormat) :=
  FindSupportedFormat formatProperties
    [VK_FORMAT_D32_SFLOAT, VK_FORMAT_D32_SFLOAT_S8_UINT, VK_FORMAT_D24_UNORM_S8_UINT]
    VK_IMAGE_TILING_OPTIMAL VK_FORMAT_FEATURE_DEPTH_STENCIL_ATTACHMENT_BIT

/-- Reference from the specification: probe the candidates in order and give
the first whose features under the requested tiling include `features`; fail
when none does. -/
def specFindSupportedFormat (formatProperties : VkFormat → VkFormatProperties)
    (tiling : VkImageTiling) (features : Nat) : List VkFormat → Except String VkFormat
  | [] => .error "Failed To Find Supported Format!"
  | format :: rest =>
    let props := formatProperties format
    if (tiling = VK_IMAGE_TILING_LINEAR ∧
          (props.linearTilingFeatures &&& features) = features) ∨
        (tiling = VK_IMAGE_TILING_OPTIMAL ∧
          (props.optimalTilingFeatures &&& features) = features) then
      .ok format
    else specFindSupportedFormat formatProperties tiling features rest

/-! ## Adapter selection (main.cpp 287-318, 1108-1158, 1191-1224) -/

/-- The value of the Vulkan header constant `VK_KHR_SWAPCHAIN_EXTENSION_NAME`,
as the characters of the C string before its terminator. -/
def VK_KHR_SWAPCHAIN_EXTENSION_NAME : List Char :=
  ['V', 'K', '_', 'K', 'H', 'R', '_', 's', 'w', 'a', 'p', 'c', 'h', 'a', 'i', 'n']

/-- The source constant `DEVICE_EXTENSIONS`. -/
def DEVICE_EXTENSIONS : List (List Char) := [VK_KHR_SWAPCHAIN_EXTENSION_NAME]

/-- The test `strncmp(s1, s2, n) == 0` on C strings given by their characters
before the terminator: at most `n` characters are compared, and the comparison
stops with equality when both strings end together. -/
def strncmp_eq_zero : List Char → List Char → Nat → Bool
  | _, _, 0 => true
  | [], [], _ + 1 => true
  | [], _ :: _, _ + 1 => false
  | _ :: _, [], _ + 1 => false
  | a :: s1, b :: s2, n + 1 => a == b && strncmp_eq_zero s1 s2 n

/-- Vulkan `VkQueueFamilyProperties`, the members the source reads. -/
structure VkQueueFamilyProperties where
  queueFlags : Nat
  queueCount : Nat
deriving DecidableEq, Repr

def VK_QUEUE_GRAPHICS_BIT : Nat := 0x1

/-- What the driver reports about one adapter for the target surface:
`extensions` are the `extensionName`s of `vkEnumerateDeviceExtensionProperties`,
`samplerAnisotropy` the `VkBool32` of `vkGetPhysicalDeviceFeatures`,
`swap_chain_support` the result of `CheckSwapChainSupport`, `queue_families`
the table of `vkGetPhysicalDeviceQueueFamilyProperties` and `present_support`
the `VkBool32` of `vkGetPhysicalDeviceSurfaceSupportKHR` per family index. -/
structure PhysicalDeviceInfo where
  extensions : List (List Char)
  samplerAnisotropy : Nat
  swap_chain_support : SwapChainSupport
  queue_families : List VkQueueFamilyProperties
  present_support : Nat → Nat

/-- `bool CheckExtensions(VkPhysicalDevice device)`: every name of
`DEVICE_EXTENSIONS` must be found by the inner loop, whose test is
`strncmp(properties.extensionName, name, strlen(properties.extensionName)) == 0`. -/
def CheckExtensions (device : PhysicalDeviceInfo) : Bool :=
  DEVICE_EXTENSIONS.all fun name =>
    device.extensions.any fun extensionName =>
      strncmp_eq_zero extensionName name extensionName.length

/-- `int TestPhysicalDevice(VkPhysicalDevice device)`; the `int` it returns is
the converted `bool swap_chain_supported`, tested for non-zero by the caller. -/
def TestPhysicalDevice (device : PhysicalDeviceInfo) : Bool :=
  if CheckExtensions device then
    !device.swap_chain_support._formats.isEmpty &&
      !device.swap_chain_support._present_modes.isEmpty &&
      device.samplerAnisotropy != 0
  else
    false

/-- `void SelectPhysicalDevice()`: `devices` are the handles that
`vkEnumeratePhysicalDevices` writes, `info` what the driver reports for a
handle. The result is the value stored in `_vk_physical_device`. -/
def SelectPhysicalDevice (info : Nat → PhysicalDeviceInfo) (devices : List Nat) :
    Except String Nat :=
  if devices.length = 0 then
    .error "No Vulkan GPUs Available!"
  else
    let sufficient_devices := devices.filter fun device => TestPhysicalDevice (info device)
    match sufficient_devices with
    | first :: _ => .ok first
    | [] => .error "Failed To Find Suitable Device!"

/-- The conversion of a `uint32_t` to `int` in `_graphics_family = i`. -/
def castInt (n : Nat) : Int :=
  if n % 2 ^ 32 < 2 ^ 31 then (n % 2 ^ 32 : Nat) else ((n % 2 ^ 32 : Nat) : Int) - 2 ^ 32

/-- `bool QueueFamilies::QueuesAquired()`. -/
def QueueFamilies.QueuesAquired (data : QueueFamilies) : Bool :=
  decide (data._graphics_family ≥ 0) && decide (data._present_family ≥ 0)

/-- The graphics test of the loop of `CheckQueueFamilies`:
`queueCount > 0 && queueFlags & VK_QUEUE_GRAPHICS_BIT`. -/
def VkQueueFamilyProperties.graphicsCapable (family : VkQueueFamilyProperties) : Prop :=
  family.queueCount > 0 ∧ (family.queueFlags &&& VK_QUEUE_GRAPHICS_BIT) ≠ 0

instance (family : VkQueueFamilyProperties) : Decidable family.graphicsCapable :=
  inferInstanceAs (Decidable (_ ∧ _))

/-- The body of the loop of `CheckQueueFamilies` for family `i`: the graphics
test and the presentation test each overwrite their index when they hold. -/
def CheckQueueFamilies.body (present_support : Nat → Nat) (family : VkQueueFamilyProperties)
    (i : Nat) (queue_family_data : QueueFamilies) : QueueFamilies :=
  let queue_family_data :=
    if family.graphicsCapable then
      { queue_family_data with _graphics_family := castInt i }
    else queue_family_data
  if family.queueCount > 0 ∧ present_support i ≠ 0 then
    { queue_family_data with _present_family := castInt i }
  else queue_family_data

/-- The `for (uint32_t i = 0; i < queue_families.size(); ++i)` loop of
`CheckQueueFamilies`, at index `i` with the families from `i` on: a later
qualifying family overwrites an earlier one. -/
def CheckQueueFamilies.loop (present_support : Nat → Nat) :
    List VkQueueFamilyProperties → Nat → QueueFamilies → QueueFamilies
  | [], _, queue_family_data => queue_family_data
  | family :: rest, i, queue_family_data =>
    CheckQueueFamilies.loop present_support rest (i + 1)
      (CheckQueueFamilies.body present_support family i queue_family_data)

/-- `QueueFamilies CheckQueueFamilies(VkPhysicalDevice device)` on the family
table and presentation support of the selected adapter. -/
def CheckQueueFamilies (queue_families : List VkQueueFamilyProperties)
    (present_support : Nat → Nat) : Except String QueueFamilies :=
  let queue_family_data :=
    CheckQueueFamilies.loop present_support queue_families 0
      { _graphics_family := -1, _present_family := -1 }
  if !queue_family_data.QueuesAquired then
    .error "Required Queues Unavailable!"
  else
    .ok queue_family_data

/-- Vulkan `VkDeviceQueueCreateInfo`, the members the source sets (the priority
is the constant 1.0). -/
structure VkDeviceQueueCreateInfo where
  queueFamilyIndex : Nat
  queueCount : Nat
deriving DecidableEq, Repr

/-- The first part of `CreateLogicalDevice` (main.cpp 320-339): the queue
families are checked first, and only when that returns are the queue create
entries built, one per element of the `std::set<int>` of the two indices, in
ascending order. A throw of `CheckQueueFamilies` leaves the function before
anything is built and before `vkCreateDevice`. -/
def CreateLogicalDevice.queue_create_infos (queue_families : List VkQueueFamilyProperties)
    (present_support : Nat → Nat) :
    Except String (QueueFamilies × List VkDeviceQueueCreateInfo) :=
  match CheckQueueFamilies queue_families present_support with
  | .error what => .error what
  | .ok queue_family_data =>
    let unique_queue_families : List Int :=
      if queue_family_data._graphics_family = queue_family_data._present_family then
        [queue_family_data._graphics_family]
      else if queue_family_data._graphics_family < queue_family_data._present_family then
        [queue_family_data._graphics_family, queue_family_data._present_family]
      else
        [queue_family_data._present_family, queue_family_data._graphics_family]
    .ok (queue_family_data,
      unique_queue_families.map fun queue_index =>
        { queueFamilyIndex := castU32 queue_index, queueCount := 1 })

/-! ## Sessions: the application object, the driver and the call trace -/

/-- How a member function ends: it returns, it throws a `std::runtime_error`
with the given message, or it runs into behaviour the language leaves
undefined (a vector read outside its range). -/
inductive Outcome (α : Type) where
  | ok (value : α)
  | thrown (what : String)
  | undefined
deriving DecidableEq, Repr

/-- The environment of a session: the answers of the Vulkan driver, of the
window system and of the file system. An answer that can change in time is
indexed by the number of recorded calls made before the question is asked.
* `result n`: the `VkResult` of the call recorded as number `n`;
* `imageIndex n`: the index `vkAcquireNextImageKHR` writes as call `n`;
* `swapchainImageCount n`: the count `vkGetSwapchainImagesKHR` reports;
* `swapChainSupport n`: what `CheckSwapChainSupport(_vk_physical_device)` reads;
* `windowSize n`: what `glfwGetWindowSize` writes;
* `formatProperties`: `vkGetPhysicalDeviceFormatProperties` of the adapter;
* `fileSize name`: the size of the file `ReadFile` opens, `none` when it
  cannot be opened. -/
structure Driver where
  result : Nat → VkResult
  imageIndex : Nat → Nat
  swapchainImageCount : Nat → Nat
  swapChainSupport : Nat → SwapChainSupport
  windowSize : Nat → Int × Int
  formatProperties : VkFormat → VkFormatProperties
  fileSize : String → Option Nat

/-- The private members of `HelloTriangleApplication` (main.cpp 1717-1770)
beyond the three read by the one-shot helper, without the vertex array and the
window fields, together with the bookkeeping of the embedding: `trace` is the
list of driver calls made so far and `fresh` the next handle value the driver
hands out (handles are never reused). `_indices` keeps the index values. -/
structure Session extends HelloTriangleApplication where
  _vk_instance : Nat
  _vk_callback : Nat
  _vk_surface : Nat
  _vk_physical_device : Nat
  _vk_swapchain : Nat
  _vk_swapchain_images : List Nat
  _vk_swapchain_image_views : List Nat
  _vk_swapchain_frame_buffers : List Nat
  _vk_swapchain_format : VkFormat
  _vk_swapchain_extent : VkExtent2D
  _available_queue_families : QueueFamilies
  _vk_present_queue : Nat
  _vk_render_pass : Nat
  _vk_descriptor_set_layout : Nat
  _vk_descriptor_pool : Nat
  _vk_descriptor_set : Nat
  _vk_pipeline_layout : Nat
  _vk_pipeline : Nat
  _vk_uniform_buffer : Nat
  _vk_uniform_buffer_memory : Nat
  _vk_texture_image : Nat
  _vk_texture_image_memory : Nat
  _vk_texture_image_view : Nat
  _vk_texture_sampler : Nat
  _indices : List Nat
  _vk_vertex_buffer : Nat
  _vk_vertex_buffer_memory : Nat
  _vk_index_buffer : Nat
  _vk_index_buffer_memory : Nat
  _vk_depth_image : Nat
  _vk_depth_image_memory : Nat
  _vk_depth_image_view : Nat
  _vk_command_buffers : List Nat
  _vk_image_available_semaphore : Nat
  _vk_frame_complete_semaphore : Nat
  trace : List VkCall
  fresh : Nat
deriving DecidableEq, Repr

/-- A member function as a state transformer: from the session before the call
to its outcome and the session after it. A throw keeps the changes made before
it. -/
def Step (α : Type) : Type := Session → Outcome α × Session

/-- Normal return of a value. -/
def Step.pure {α : Type} (value : α) : Step α := fun s => (.ok value, s)

/-- Sequencing of statements: the rest runs only after a normal return. -/
def Step.bind {α β : Type} (m : Step α) (k : α → Step β) : Step β := fun s =>
  match m s with
  | (.ok value, s1) => k value s1
  | (.thrown what, s1) => (.thrown what, s1)
  | (.undefined, s1) => (.undefined, s1)

instance : Monad Step where
  pure := Step.pure
  bind := Step.bind

/-- The statement `throw std::runtime_error(what)`. -/
def Step.raise {α : Type} (what : String) : Step α := fun s => (.thrown what, s)

/-- A read outside the range of a vector. -/
def Step.undefinedBehaviour {α : Type} : Step α := fun s => (.undefined, s)

/-- The session at this point of the function. -/
def Step.read : Step Session := fun s => (.ok s, s)

/-- An assignment to members. -/
def Step.write (f : Session → Session) : Step Unit := fun s => (.ok (), f s)

/-- A driver call, appended to the trace. -/
def Step.call (c : VkCall) : Step Unit := fun s =>
  (.ok (), { s with trace := s.trace ++ [c] })

/-- Several driver calls in a row. -/
def Step.calls (cs : List VkCall) : Step Unit := fun s =>
  (.ok (), { s with trace := s.trace ++ cs })

/-- The `VkResult` the driver gives to the next recorded call. -/
def Step.answer (d : Driver) : Step VkResult := fun s => (.ok (d.result s.trace.length), s)

/-- The driver hands out `count` new handles. -/
def Step.allocate (count : Nat) : Step (List Nat) := fun s =>
  (.ok (List.range' s.fresh count), { s with fresh := s.fresh + count })

/-- A `vkCreate...` call: the driver answers with a `VkResult` and, on
`VK_SUCCESS`, writes a new handle; the call is recorded with both. -/
def Step.create (d : Driver) (mk : VkResult → Nat → VkCall) : Step (VkResult × Nat) := fun s =>
  let result := d.result s.trace.length
  if result = VK_SUCCESS then
    (.ok (result, s.fresh),
      { s with trace := s.trace ++ [mk result s.fresh], fresh := s.fresh + 1 })
  else
    (.ok (result, VK_NULL_HANDLE), { s with trace := s.trace ++ [mk result VK_NULL_HANDLE] })

/-- `std::vector::resize(n)` on a vector of handles: new slots hold the null
handle. -/
def resize (v : List Nat) (n : Nat) : List Nat :=
  v.take n ++ List.replicate (n - v.length) VK_NULL_HANDLE

/-! ## Swapchain lifecycle (main.cpp 370-480, 482-541, 574-723, 743-767, 965-1016) -/

/-- `void CreateSwapChain(const QueueFamilies& queue_families, VkSwapchainKHR old)`.
The request is `CreateSwapChain.create_info`; its format and extent are the
values saved in `_vk_swapchain_format` and `_vk_swapchain_extent`. -/
def CreateSwapChain (d : Driver) (queue_families : QueueFamilies) (old : Nat) : Step Unit := do
  let s ← Step.read
  let swap_details := d.swapChainSupport s.trace.length
  let window := d.windowSize s.trace.length
  match CreateSwapChain.create_info s._vk_surface swap_details window.1 window.2
      queue_families old with
  | none => Step.undefinedBehaviour
  | some create_info =>
    Step.write fun s =>
      { s with _vk_swapchain_format := create_info.imageFormat
               _vk_swapchain_extent := create_info.imageExtent }
    let created ← Step.create d (.vkCreateSwapchainKHR s._vk_logical_device create_info)
    if created.1 ≠ VK_SUCCESS then
      Step.raise "Failed To Create Swapchain!"
    else
      Step.write fun s => { s with _vk_swapchain := created.2 }
      let s1 ← Step.read
      let image_count := d.swapchainImageCount s1.trace.length
      Step.call (.vkGetSwapchainImagesKHR s._vk_logical_device created.2 [])
      let images ← Step.allocate image_count
      Step.write fun s => { s with _vk_swapchain_images := images }
      Step.call (.vkGetSwapchainImagesKHR s._vk_logical_device created.2 images)

/-- The calls of `void ReleaseSwapchain()` in source order: the depth view,
image and memory, every framebuffer, the command buffers, the pipeline and its
layout, the render pass, every swapchain image view. -/
def ReleaseSwapchain.calls (s : Session) : List VkCall :=
  [ .vkDestroyImageView s._vk_logical_device s._vk_depth_image_view,
    .vkDestroyImage s._vk_logical_device s._vk_depth_image,
    .vkFreeMemory s._vk_logical_device s._vk_depth_image_memory ] ++
  s._vk_swapchain_frame_buffers.map (fun frame_buffer =>
    .vkDestroyFramebuffer s._vk_logical_device frame_buffer) ++
  [ .vkFreeCommandBuffers s._vk_logical_device s._vk_command_pool s._vk_command_buffers,
    .vkDestroyPipeline s._vk_logical_device s._vk_pipeline,
    .vkDestroyPipelineLayout s._vk_logical_device s._vk_pipeline_layout,
    .vkDestroyRenderPass s._vk_logical_device s._vk_render_pass ] ++
  s._vk_swapchain_image_views.map (fun view =>
    .vkDestroyImageView s._vk_logical_device view)

/-- `void ReleaseSwapchain()`: it destroys and frees, and assigns no member. -/
def ReleaseSwapchain : Step Unit := do
  let s ← Step.read
  Step.calls (ReleaseSwapchain.calls s)

/-- `VkImageView CreateImageView(VkImage image, VkFormat format,
VkImageAspectFlags aspect_flags)`. -/
def CreateImageView (d : Driver) (image : Nat) (format : VkFormat) (aspect_flags : Nat) :
    Step Nat := do
  let s ← Step.read
  let created ← Step.create d
    (.vkCreateImageView s._vk_logical_device image format aspect_flags)
  if created.1 ≠ VK_SUCCESS then
    Step.raise "Failed To Create Texture Image View!"
  else
    pure created.2

/-- The loop of `CreateImageViews` at index `i` with `remaining` iterations
left; `i` stays below the size of both vectors. -/
def CreateImageViews.loop (d : Driver) : Nat → Nat → Step Unit
  | 0, _ => pure ()
  | remaining + 1, i => do
    let s ← Step.read
    let view ← CreateImageView d (s._vk_swapchain_images.getD i VK_NULL_HANDLE)
      s._vk_swapchain_format VK_IMAGE_ASPECT_COLOR_BIT
    Step.write fun s =>
      { s with _vk_swapchain_image_views := s._vk_swapchain_image_views.set i view }
    CreateImageViews.loop d remaining (i + 1)

/-- `void CreateImageViews()`. -/
def CreateImageViews (d : Driver) : Step Unit := do
  Step.write fun s =>
    { s with _vk_swapchain_image_views :=
        resize s._vk_swapchain_image_views s._vk_swapchain_images.length }
  let s ← Step.read
  CreateImageViews.loop d s._vk_swapchain_image_views.length 0

/-- `void CreateRenderPass()`: the colour attachment is attachment 0, the depth
attachment, whose format is `FindDepthFormat()`, is attachment 1. The recorded
call keeps the attachments and the two attachment references of the subpass. -/
def CreateRenderPass (d : Driver) : Step Unit := do
  match FindDepthFormat d.formatProperties with
  | none => Step.undefinedBehaviour
  | some (.error what) => Step.raise what
  | some (.ok depth_format) =>
    let s ← Step.read
    let depth_attachment : VkAttachmentDescription :=
      { format := depth_format
        samples := VK_SAMPLE_COUNT_1_BIT
        loadOp := VK_ATTACHMENT_LOAD_OP_CLEAR
        storeOp := VK_ATTACHMENT_STORE_OP_DONT_CARE
        stencilLoadOp := VK_ATTACHMENT_LOAD_OP_DONT_CARE
        stencilStoreOp := VK_ATTACHMENT_STORE_OP_DONT_CARE
        initialLayout := VK_IMAGE_LAYOUT_UNDEFINED
        finalLayout := VK_IMAGE_LAYOUT_DEPTH_STENCIL_ATTACHMENT_OPTIMAL }
    let color_attachment : VkAttachmentDescription :=
      { format := s._vk_swapchain_format
        samples := VK_SAMPLE_COUNT_1_BIT
        loadOp := VK_ATTACHMENT_LOAD_OP_CLEAR
        storeOp := VK_ATTACHMENT_STORE_OP_STORE
        stencilLoadOp := VK_ATTACHMENT_LOAD_OP_DONT_CARE
        stencilStoreOp := VK_ATTACHMENT_STORE_OP_DONT_CARE
        initialLayout := VK_IMAGE_LAYOUT_UNDEFINED
        finalLayout := VK_IMAGE_LAYOUT_PRESENT_SRC_KHR }
    let created ← Step.create d
      (.vkCreateRenderPass s._vk_logical_device [color_attachment, depth_attachment] 0 1)
    if created.1 ≠ VK_SUCCESS then
      Step.raise "Failed To Create Render Pass!"
    else
      Step.write fun s => { s with _vk_render_pass := created.2 }

/-- `static std::vector<char> ReadFile(const std::string& filename)`, as the
size of the blob it returns. -/
def ReadFile (d : Driver) (filename : String) : Step Nat :=
  match d.fileSize filename with
  | none => Step.raise "Failed To Open File!"
  | some file_size => pure file_size

/-- `VkShaderModule CreateShaderModule(const std::vector<char>& blob)`. -/
def CreateShaderModule (d : Driver) (blob_size : Nat) : Step Nat := do
  let s ← Step.read
  let created ← Step.create d (.vkCreateShaderModule s._vk_logical_device blob_size)
  if created.1 ≠ VK_SUCCESS then
    Step.raise "Failed To Create Shader Module!"
  else
    pure created.2

/-- `void CreateGraphicsPipeline()`: the driver calls and throws in source
order. Of the fixed-function state the recorded pipeline call keeps the extent
of the scissor rectangle, `_vk_swapchain_extent` (main.cpp 629-631); the
viewport has the same width and height converted to `float` (main.cpp 623-624)
and is not recorded. -/
def CreateGraphicsPipeline (d : Driver) : Step Unit := do
  let vert_blob ← ReadFile d "Shaders/vert.spv"
  let frag_blob ← ReadFile d "Shaders/frag.spv"
  let vertex_shader_module ← CreateShaderModule d vert_blob
  let fragment_shader_module ← CreateShaderModule d frag_blob
  let s ← Step.read
  let layout ← Step.create d
    (.vkCreatePipelineLayout s._vk_logical_device [s._vk_descriptor_set_layout])
  if layout.1 ≠ VK_SUCCESS then
    Step.raise "Failed To Create Pipeline Layout!"
  else
    Step.write fun s => { s with _vk_pipeline_layout := layout.2 }
    let pipeline ← Step.create d
      (.vkCreateGraphicsPipelines s._vk_logical_device
        [vertex_shader_module, fragment_shader_module] layout.2 s._vk_render_pass
        s._vk_swapchain_extent)
    if pipeline.1 ≠ VK_SUCCESS then
      Step.raise "Failed To Create Graphics Pipeline!"
    else
      Step.write fun s => { s with _vk_pipeline := pipeline.2 }
      Step.call (.vkDestroyShaderModule s._vk_logical_device vertex_shader_module)
      Step.call (.vkDestroyShaderModule s._vk_logical_device fragment_shader_module)

/-- The loop of `CreateFrameBuffers` at index `i`; `depth_view` is the second
element of the local array `attachments`, set once before the loop. -/
def CreateFrameBuffers.loop (d : Driver) (depth_view : Nat) : Nat → Nat → Step Unit
  | 0, _ => pure ()
  | remaining + 1, i => do
    let s ← Step.read
    let created ← Step.create d
      (.vkCreateFramebuffer s._vk_logical_device s._vk_render_pass
        [s._vk_swapchain_image_views.getD i VK_NULL_HANDLE, depth_view]
        s._vk_swapchain_extent.width s._vk_swapchain_extent.height 1)
    if created.1 ≠ VK_SUCCESS then
      Step.raise "Failed To Create Framebuffer!"
    else
      Step.write fun s =>
        { s with _vk_swapchain_frame_buffers := s._vk_swapchain_frame_buffers.set i created.2 }
      CreateFrameBuffers.loop d depth_view remaining (i + 1)

/-- `void CreateFrameBuffers()`. The initialiser of `attachments` reads
`_vk_swapchain_image_views[0]`, outside the vector when it is empty, and
`_vk_depth_image_view`. -/
def CreateFrameBuffers (d : Driver) : Step Unit := do
  Step.write fun s =>
    { s with _vk_swapchain_frame_buffers :=
        resize s._vk_swapchain_frame_buffers s._vk_swapchain_image_views.length }
  let s ← Step.read
  match s._vk_swapchain_image_views with
  | [] => Step.undefinedBehaviour
  | _ :: _ =>
    CreateFrameBuffers.loop d s._vk_depth_image_view s._vk_swapchain_image_views.length 0

/-- The commands `CreateCommandBuffers` records into one command buffer before
it ends it. -/
def CreateCommandBuffers.commands (s : Session) (command_buffer framebuffer : Nat) :
    List VkCall :=
  [ .vkBeginCommandBuffer command_buffer VK_COMMAND_BUFFER_USAGE_SIMULTANEOUS_USE_BIT,
    .vkCmdBeginRenderPass command_buffer s._vk_render_pass framebuffer s._vk_swapchain_extent,
    .vkCmdBindPipeline command_buffer s._vk_pipeline,
    .vkCmdBindVertexBuffers command_buffer [s._vk_vertex_buffer],
    .vkCmdBindIndexBuffer command_buffer s._vk_index_buffer,
    .vkCmdBindDescriptorSets command_buffer s._vk_pipeline_layout [s._vk_descriptor_set],
    .vkCmdDrawIndexed command_buffer (u32 s._indices.length),
    .vkCmdEndRenderPass command_buffer ]

/-- The recording loop of `CreateCommandBuffers` at index `i`: command buffer
`i` is recorded against framebuffer `i`. -/
def CreateCommandBuffers.loop (d : Driver) : Nat → Nat → Step Unit
  | 0, _ => pure ()
  | remaining + 1, i => do
    let s ← Step.read
    let command_buffer := s._vk_command_buffers.getD i VK_NULL_HANDLE
    Step.calls (CreateCommandBuffers.commands s command_buffer
      (s._vk_swapchain_frame_buffers.getD i VK_NULL_HANDLE))
    let result ← Step.answer d
    Step.call (.vkEndCommandBuffer command_buffer)
    if result ≠ VK_SUCCESS then
      Step.raise "Failed To Record Command Buffer!"
    else
      CreateCommandBuffers.loop d remaining (i + 1)

/-- `void CreateCommandBuffers()`. -/
def CreateCommandBuffers (d : Driver) : Step Unit := do
  Step.write fun s =>
    { s with _vk_command_buffers :=
        resize s._vk_command_buffers s._vk_swapchain_frame_buffers.length }
  let s ← Step.read
  let count := s._vk_command_buffers.length
  let result ← Step.answer d
  if result ≠ VK_SUCCESS then
    Step.call (.vkAllocateCommandBufferList s._vk_logical_device s._vk_command_pool
      VK_COMMAND_BUFFER_LEVEL_PRIMARY (u32 count) result [])
    Step.raise "Failed To Allocate Command Buffers!"
  else
    let command_buffers ← Step.allocate count
    Step.call (.vkAllocateCommandBufferList s._vk_logical_device s._vk_command_pool
      VK_COMMAND_BUFFER_LEVEL_PRIMARY (u32 count) result command_buffers)
    Step.write fun s => { s with _vk_command_buffers := command_buffers }
    CreateCommandBuffers.loop d count 0

/-- The five rebuild calls that end `RecreateSwapChain`. -/
def RecreateSwapChain.rebuild (d : Driver) : Step Unit := do
  CreateImageViews d
  CreateRenderPass d
  CreateGraphicsPipeline d
  CreateFrameBuffers d
  CreateCommandBuffers d

/-- `void RecreateSwapChain()`. -/
def RecreateSwapChain (d : Driver) : Step Unit := do
  let s ← Step.read
  let old := s._vk_swapchain
  CreateSwapChain d s._available_queue_families old
  Step.call (.vkDeviceWaitIdle s._vk_logical_device)
  ReleaseSwapchain
  Step.call (.vkDestroySwapchainKHR s._vk_logical_device old)
  RecreateSwapChain.rebuild d

/-! ## The frame (main.cpp 1048-1106) -/

/-- The largest `uint64_t`, the timeout `Draw` passes to the acquire. -/
def UINT64_MAX : Nat := 2 ^ 64 - 1

/-- `void Draw()`. The read `_vk_command_buffers[image_index]` is outside the
vector when the driver returns an index that is not below its size. -/
def Draw (d : Driver) : Step Unit := do
  let s ← Step.read
  Step.call (.vkDeviceWaitIdle s._vk_logical_device)
  let result ← Step.answer d
  let s1 ← Step.read
  let image_index := d.imageIndex s1.trace.length
  Step.call (.vkAcquireNextImageKHR s._vk_logical_device s._vk_swapchain UINT64_MAX
    s._vk_image_available_semaphore VK_NULL_HANDLE result image_index)
  if result = VK_ERROR_OUT_OF_DATE_KHR then
    RecreateSwapChain d
  else if result ≠ VK_SUCCESS ∧ result ≠ VK_SUBOPTIMAL_KHR then
    Step.raise "Failed To Acquire Swapchain Image!"
  else
    match s._vk_command_buffers[image_index]? with
    | none => Step.undefinedBehaviour
    | some command_buffer =>
      let submit_info : VkSubmitInfo :=
        { pWaitSemaphores := [s._vk_image_available_semaphore]
          pWaitDstStageMask := [VK_PIPELINE_STAGE_COLOR_ATTACHMENT_OUTPUT_BIT]
          pCommandBuffers := [command_buffer]
          pSignalSemaphores := [s._vk_frame_complete_semaphore] }
      let submitted ← Step.answer d
      Step.call (.vkQueueSubmitInfo s._vk_graphics_queue [submit_info] VK_NULL_HANDLE submitted)
      if submitted ≠ VK_SUCCESS then
        Step.raise "Failed To Submit Draw Command Buffer!"
      else
        let present_info : VkPresentInfoKHR :=
          { pWaitSemaphores := [s._vk_frame_complete_semaphore]
            pSwapchains := [s._vk_swapchain]
            pImageIndices := [image_index] }
        let presented ← Step.answer d
        Step.call (.vkQueuePresentKHR s._vk_present_queue present_info presented)
        if presented = VK_ERROR_OUT_OF_DATE_KHR ∨ presented = VK_SUBOPTIMAL_KHR then
          RecreateSwapChain d
        else if presented ≠ VK_SUCCESS then
          Step.raise "Failed To Present Swapchain Image!"
        else
          pure ()

/-- The request `RecreateSwapChain` passes to `vkCreateSwapchainKHR`: the one
`CreateSwapChain` builds for the saved queue families with the current
swapchain as `old`. -/
def RecreateSwapChain.create_info (d : Driver) (s : Session) :
    Option VkSwapchainCreateInfoKHR :=
  CreateSwapChain.create_info s._vk_surface (d.swapChainSupport s.trace.length)
    (d.windowSize s.trace.length).1 (d.windowSize s.trace.length).2
    s._available_queue_families s._vk_swapchain

/-- The calls of the first part of `RecreateSwapChain`, up to and including the
destruction of the old swapchain, when the creation of the new one succeeds:
the creation (the new handle is `s.fresh`) and the two image queries, the
device-idle wait, the calls of `ReleaseSwapchain`, the destruction of the
handle that was current on entry. -/
def RecreateSwapChain.replaceCalls (d : Driver) (s : Session)
    (create_info : VkSwapchainCreateInfoKHR) : List VkCall :=
  [ .vkCreateSwapchainKHR s._vk_logical_device create_info VK_SUCCESS s.fresh,
    .vkGetSwapchainImagesKHR s._vk_logical_device s.fresh [],
    .vkGetSwapchainImagesKHR s._vk_logical_device s.fresh
      (List.range' (s.fresh + 1) (d.swapchainImageCount (s.trace.length + 1))) ] ++
  [ .vkDeviceWaitIdle s._vk_logical_device ] ++
  ReleaseSwapchain.calls s ++
  [ .vkDestroySwapchainKHR s._vk_logical_device s._vk_swapchain ]

/-- The session after that first part: the new swapchain, its images, format
and extent are stored; every other member is as on entry. -/
def RecreateSwapChain.replaced (d : Driver) (s : Session)
    (create_info : VkSwapchainCreateInfoKHR) : Session :=
  { s with
    _vk_swapchain_format := create_info.imageFormat
    _vk_swapchain_extent := create_info.imageExtent
    _vk_swapchain := s.fresh
    _vk_swapchain_images :=
      List.range' (s.fresh + 1) (d.swapchainImageCount (s.trace.length + 1))
    fresh := s.fresh + 1 + d.swapchainImageCount (s.trace.length + 1)
    trace := s.trace ++ RecreateSwapChain.replaceCalls d s create_info }

/-- The session after the first two calls of `Draw`, the device-idle wait and
the acquire, whose result and image index are the answers of the driver. -/
def Draw.acquired (d : Driver) (s : Session) : Session :=
  { s with trace := s.trace ++
      [ .vkDeviceWaitIdle s._vk_logical_device,
        .vkAcquireNextImageKHR s._vk_logical_device s._vk_swapchain UINT64_MAX
          s._vk_image_available_semaphore VK_NULL_HANDLE
          (d.result (s.trace.length + 1)) (d.imageIndex (s.trace.length + 1)) ] }

/-- The first two calls of `Draw`: the device-idle wait and the acquire. -/
def Draw.acquireCalls (d : Driver) (s : Session) : List VkCall :=
  [ .vkDeviceWaitIdle s._vk_logical_device,
    .vkAcquireNextImageKHR s._vk_logical_device s._vk_swapchain UINT64_MAX
      s._vk_image_available_semaphore VK_NULL_HANDLE
      (d.result (s.trace.length + 1)) (d.imageIndex (s.trace.length + 1)) ]

/-- The submit call of `Draw` for the given command buffer, with the result
the driver gives to it. -/
def Draw.submitCall (d : Driver) (s : Session) (command_buffer : Nat) : VkCall :=
  .vkQueueSubmitInfo s._vk_graphics_queue
    [ { pWaitSemaphores := [s._vk_image_available_semaphore]
        pWaitDstStageMask := [VK_PIPELINE_STAGE_COLOR_ATTACHMENT_OUTPUT_BIT]
        pCommandBuffers := [command_buffer]
        pSignalSemaphores := [s._vk_frame_complete_semaphore] } ]
    VK_NULL_HANDLE (d.result (s.trace.length + 2))

/-- The present call of `Draw`, with the result the driver gives to it. -/
def Draw.presentCall (d : Driver) (s : Session) : VkCall :=
  .vkQueuePresentKHR s._vk_present_queue
    { pWaitSemaphores := [s._vk_frame_complete_semaphore]
      pSwapchains := [s._vk_swapchain]
      pImageIndices := [d.imageIndex (s.trace.length + 1)] }
    (d.result (s.trace.length + 3))

/-- The session after the submit call of `Draw`. -/
def Draw.submitted (d : Driver) (s : Session) (command_buffer : Nat) : Session :=
  { s with trace := (Draw.acquired d s).trace ++ [Draw.submitCall d s command_buffer] }

/-- The session after the present call of `Draw`. -/
def Draw.presented (d : Driver) (s : Session) (command_buffer : Nat) : Session :=
  { s with trace := (Draw.submitted d s command_buffer).trace ++ [Draw.presentCall d s] }

/-! ## The platform and the resource helpers (main.cpp 1400-1436, 1460-1565) -/

def VK_ERROR_EXTENSION_NOT_PRESENT : VkResult := -7

def VK_FORMAT_R8G8B8A8_UNORM : VkFormat := 37

def VK_IMAGE_USAGE_TRANSFER_DST_BIT : Nat := 0x2
def VK_IMAGE_USAGE_SAMPLED_BIT : Nat := 0x4
def VK_IMAGE_USAGE_DEPTH_STENCIL_ATTACHMENT_BIT : Nat := 0x20

def VK_MEMORY_PROPERTY_DEVICE_LOCAL_BIT : Nat := 0x1
def VK_MEMORY_PROPERTY_HOST_VISIBLE_BIT : Nat := 0x2
def VK_MEMORY_PROPERTY_HOST_COHERENT_BIT : Nat := 0x4

def VK_BUFFER_USAGE_TRANSFER_SRC_BIT : Nat := 0x1
def VK_BUFFER_USAGE_TRANSFER_DST_BIT : Nat := 0x2
def VK_BUFFER_USAGE_UNIFORM_BUFFER_BIT : Nat := 0x10
def VK_BUFFER_USAGE_INDEX_BUFFER_BIT : Nat := 0x40
def VK_BUFFER_USAGE_VERTEX_BUFFER_BIT : Nat := 0x80

def VK_DEBUG_REPORT_WARNING_BIT_EXT : Nat := 0x2
def VK_DEBUG_REPORT_ERROR_BIT_EXT : Nat := 0x8

/-- Vulkan `VkMemoryRequirements`. -/
structure VkMemoryRequirements where
  size : Nat
  alignment : Nat
  memoryTypeBits : Nat
deriving DecidableEq, Repr

/-- What the host answers during initialization, beside the `Driver`:
* `NDEBUG`: whether the program was compiled with `NDEBUG` defined (the blocks
  under `#ifndef NDEBUG` are then absent);
* `layers`: the `layerName`s of `vkEnumerateInstanceLayerProperties`;
* `glfwRequiredInstanceExtensions`: the names `glfwGetRequiredInstanceExtensions`
  returns, `none` for a null pointer;
* `instanceExtensions`: the `extensionName`s of
  `vkEnumerateInstanceExtensionProperties`;
* `debugReportLoaded`: whether `vkGetInstanceProcAddr` finds the two functions
  of the debug report extension;
* `devices`, `info`: the adapters of `vkEnumeratePhysicalDevices` and what the
  driver reports about each;
* `memoryProperties`: `vkGetPhysicalDeviceMemoryProperties` of the adapter;
* `memoryRequirements handle`: what `vkGetBufferMemoryRequirements` or
  `vkGetImageMemoryRequirements` writes for the buffer or image;
* `texture`: the width and height `stbi_load("Textures/body.tga", ...)` writes,
  `none` when it returns a null pointer;
* `vertexCount`: `_vertices.size()`. -/
structure Platform where
  NDEBUG : Bool
  layers : List (List Char)
  glfwRequiredInstanceExtensions : Option (List (List Char))
  instanceExtensions : List (List Char)
  debugReportLoaded : Bool
  devices : List Nat
  info : Nat → PhysicalDeviceInfo
  memoryProperties : VkPhysicalDeviceMemoryProperties
  memoryRequirements : Nat → VkMemoryRequirements
  texture : Option (Int × Int)
  vertexCount : Nat

/-- Value of a `VkDeviceSize` or `size_t` expression (64 bits) whose
mathematical value is `n`. -/
def u64 (n : Nat) : Nat := n % 2 ^ 64

/-- `StartSingleTimeCommands` on the session: the command buffer is the next
handle of the driver. -/
def StartSingleTimeCommands.step : Step Nat := fun s =>
  let started := StartSingleTimeCommands s.toHelloTriangleApplication s.fresh s.trace
  (.ok started.1, { s with trace := started.2, fresh := s.fresh + 1 })

/-- `EndSingleTimeCommands` on the session. -/
def EndSingleTimeCommands.step (command_buffer : Nat) : Step Unit := fun s =>
  (.ok (), { s with trace :=
    EndSingleTimeCommands s.toHelloTriangleApplication command_buffer s.trace })

/-- `TransitionImageLayout` on the session: the calls are those of the function
on the call trace, a thrown message ends the step. -/
def TransitionImageLayout.step (image : Nat) (format : VkFormat)
    (old_layout new_layout : VkImageLayout) : Step Unit := fun s =>
  let run := TransitionImageLayout s.toHelloTriangleApplication s.fresh image format
    old_layout new_layout s.trace
  match run.1 with
  | .ok _ => (.ok (), { s with trace := run.2, fresh := s.fresh + 1 })
  | .error what => (.thrown what, { s with trace := run.2, fresh := s.fresh + 1 })

/-- `void CopyBuffer(VkBuffer src, VkBuffer dst, VkDeviceSize size)`. -/
def CopyBuffer (src dst size : Nat) : Step Unit := do
  let command_buffer ← StartSingleTimeCommands.step
  Step.call (.setup (.vkCmdCopyBuffer command_buffer src dst size))
  EndSingleTimeCommands.step command_buffer

/-- `void CopyBufferToImage(VkBuffer buffer, VkImage image, uint32_t width,
uint32_t height)`. -/
def CopyBufferToImage (buffer image width height : Nat) : Step Unit := do
  let command_buffer ← StartSingleTimeCommands.step
  Step.call (.setup (.vkCmdCopyBufferToImage command_buffer buffer image
    VK_IMAGE_LAYOUT_TRANSFER_DST_OPTIMAL width height))
  EndSingleTimeCommands.step command_buffer

/-- `void CreateImage(uint32_t width, uint32_t height, VkFormat format,
VkImageTiling tiling, VkImageUsageFlags usage, VkMemoryPropertyFlags
mem_properties, VkImage& image, VkDeviceMemory& image_memory)`. The two
reference parameters are the assignments `image_ref` and `image_memory_ref`,
made when the driver writes the handle; the handles are also the value of the
step. A throw leaves the function at once: nothing is destroyed or freed. -/
def CreateImage (d : Driver) (p : Platform) (width height : Nat) (format : VkFormat)
    (tiling : VkImageTiling) (usage mem_properties : Nat)
    (image_ref image_memory_ref : Nat → Session → Session) : Step (Nat × Nat) := do
  let s ← Step.read
  let created ← Step.create d (fun result handle =>
    .setup (.vkCreateImage s._vk_logical_device width height format tiling usage result handle))
  if created.1 ≠ VK_SUCCESS then
    Step.raise "Failed To Create Image!"
  else
    Step.write (image_ref created.2)
    let mem_requirements := p.memoryRequirements created.2
    match FindMemoryType p.memoryProperties mem_requirements.memoryTypeBits mem_properties with
    | .error what => Step.raise what
    | .ok memoryTypeIndex =>
      let allocated ← Step.create d (fun result handle =>
        .setup (.vkAllocateMemory s._vk_logical_device mem_requirements.size memoryTypeIndex
          result handle))
      if allocated.1 ≠ VK_SUCCESS then
        Step.raise "Failed To Allocate Image Memory!"
      else
        Step.write (image_memory_ref allocated.2)
        Step.call (.setup (.vkBindImageMemory s._vk_logical_device created.2 allocated.2 0))
        pure (created.2, allocated.2)

/-- `void CreateBuffer(VkDeviceSize size, VkBufferUsageFlags usage,
VkMemoryPropertyFlags properties, VkBuffer& buffer, VkDeviceMemory&
buffer_memory)`, with the reference parameters as in `CreateImage`. -/
def CreateBuffer (d : Driver) (p : Platform) (size usage properties : Nat)
    (buffer_ref buffer_memory_ref : Nat → Session → Session) : Step (Nat × Nat) := do
  let s ← Step.read
  let created ← Step.create d (fun result handle =>
    .setup (.vkCreateBuffer s._vk_logical_device size usage result handle))
  if created.1 ≠ VK_SUCCESS then
    Step.raise "Failed To Create Buffer!"
  else
    Step.write (buffer_ref created.2)
    let memory_requirements := p.memoryRequirements created.2
    match FindMemoryType p.memoryProperties memory_requirements.memoryTypeBits properties with
    | .error what => Step.raise what
    | .ok memoryTypeIndex =>
      let allocated ← Step.create d (fun result handle =>
        .setup (.vkAllocateMemory s._vk_logical_device memory_requirements.size
          memoryTypeIndex result handle))
      if allocated.1 ≠ VK_SUCCESS then
        Step.raise "Failed To Allocate Buffer Memory!"
      else
        Step.write (buffer_memory_ref allocated.2)
        Step.call (.setup (.vkBindBufferMemory s._vk_logical_device created.2 allocated.2 0))
        pure (created.2, allocated.2)

/-- A reference parameter bound to a local variable of the caller. -/
def localVariable : Nat → Session → Session := fun _ s => s

/-! ## Initialization and teardown (main.cpp 145-286, 320-368, 546-572, 735-741, 769-963, 1018-1046) -/

/-- The source constant `VALIDATION_LAYERS`. -/
def VALIDATION_LAYERS : List (List Char) := ["VK_LAYER_LUNARG_standard_validation".toList]

/-- The value of the Vulkan header constant `VK_EXT_DEBUG_REPORT_EXTENSION_NAME`. -/
def VK_EXT_DEBUG_REPORT_EXTENSION_NAME : List Char := "VK_EXT_debug_report".toList

/-- `sizeof(Vertex)`: two `glm::vec3` and one `glm::vec2` of `float`. -/
def sizeof_Vertex : Nat := 32

/-- `sizeof(uint32_t)`, the size of an element of `_indices`. -/
def sizeof_uint32_t : Nat := 4

/-- `sizeof(UniformBufferObject)`: three `glm::mat4` of `float`. -/
def sizeof_UniformBufferObject : Nat := 192

/-- `bool CheckValidationLayers()`: every name of `VALIDATION_LAYERS` must be
found by the inner loop, whose test is
`strncmp(layer_name, layer.layerName, strlen(layer_name)) == 0`. -/
def CheckValidationLayers (p : Platform) : Bool :=
  VALIDATION_LAYERS.all fun layer_name =>
    p.layers.any fun layerName => strncmp_eq_zero layer_name layerName layer_name.length

/-- `std::vector<const char*> RequiredExtensions()`: the names of the window
system, the debug report extension unless `NDEBUG`, each validated against the
instance extensions with
`strncmp(ret_val[i], vk_ext.extensionName, strlen(vk_ext.extensionName)) == 0`. -/
def RequiredExtensions (p : Platform) : Except String (List (List Char)) :=
  match p.glfwRequiredInstanceExtensions with
  | none => .error "Vulkan Graphics Unavailable!"
  | some names =>
    let ret_val := if p.NDEBUG then names else names ++ [VK_EXT_DEBUG_REPORT_EXTENSION_NAME]
    if ret_val.all fun name =>
        p.instanceExtensions.any fun extensionName =>
          strncmp_eq_zero name extensionName extensionName.length then
      .ok ret_val
    else
      .error "Missing Required Extensions!"

/-- `void CreateVkInstance()`. -/
def CreateVkInstance (d : Driver) (p : Platform) : Step Unit :=
  if !p.NDEBUG && !CheckValidationLayers p then
    Step.raise "Validation Layers Unnavailable!"
  else
    match RequiredExtensions p with
    | .error what => Step.raise what
    | .ok required_extensions => do
      let created ← Step.create d (fun result handle =>
        .setup (.vkCreateInstance (u32 required_extensions.length)
          (if p.NDEBUG then 0 else u32 VALIDATION_LAYERS.length) result handle))
      if created.1 ≠ VK_SUCCESS then
        Step.raise "Vk Instance Creation Failed!"
      else
        Step.write fun s => { s with _vk_instance := created.2 }

/-- The free function `CreateDebugReportCallbackEXT`: the driver function is
called when `vkGetInstanceProcAddr` finds it, otherwise the result is
`VK_ERROR_EXTENSION_NOT_PRESENT` and nothing is called. -/
def CreateDebugReportCallbackEXT (d : Driver) (p : Platform) (instance_handle flags : Nat) :
    Step (VkResult × Nat) :=
  if p.debugReportLoaded then
    Step.create d (fun result handle =>
      .setup (.vkCreateDebugReportCallbackEXT instance_handle flags result handle))
  else
    pure (VK_ERROR_EXTENSION_NOT_PRESENT, VK_NULL_HANDLE)

/-- The free function `DestroyDebugReportCallbackEXT`: the driver function is
called only when `vkGetInstanceProcAddr` finds it. -/
def DestroyDebugReportCallbackEXT (p : Platform) (instance_handle callback : Nat) :
    Step Unit :=
  if p.debugReportLoaded then
    Step.call (.setup (.vkDestroyDebugReportCallbackEXT instance_handle callback))
  else
    pure ()

/-- The block "create debug callback" of `InitializeVulkan` (main.cpp 149-160),
absent under `NDEBUG`. -/
def InitializeVulkan.debugCallback (d : Driver) (p : Platform) : Step Unit :=
  if p.NDEBUG then
    pure ()
  else do
    let s ← Step.read
    let created ← CreateDebugReportCallbackEXT d p s._vk_instance
      (VK_DEBUG_REPORT_ERROR_BIT_EXT ||| VK_DEBUG_REPORT_WARNING_BIT_EXT)
    if created.1 ≠ VK_SUCCESS then
      Step.raise "Debug Callback Initialization Failed!"
    else
      Step.write fun s => { s with _vk_callback := created.2 }

/-- `void CreateSurface()`. -/
def CreateSurface (d : Driver) : Step Unit := do
  let s ← Step.read
  let created ← Step.create d (fun result handle =>
    .setup (.glfwCreateWindowSurface s._vk_instance result handle))
  if created.1 ≠ VK_SUCCESS then
    Step.raise "Window Surface Creation Failed!"
  else
    Step.write fun s => { s with _vk_surface := created.2 }

/-- `void SelectPhysicalDevice()` on the session. -/
def SelectPhysicalDevice.step (p : Platform) : Step Unit :=
  match SelectPhysicalDevice p.info p.devices with
  | .error what => Step.raise what
  | .ok device => Step.write fun s => { s with _vk_physical_device := device }

/-- `void CreateLogicalDevice(QueueFamilies& queue_family_data)`, called with
the member `_available_queue_families`: the checked pair is stored in it before
the device is created. `vkGetDeviceQueue` gives one queue handle per family:
the present queue is the graphics queue when the two families are the same. -/
def CreateLogicalDevice (d : Driver) (p : Platform) : Step Unit := do
  let s ← Step.read
  let device := p.info s._vk_physical_device
  match CreateLogicalDevice.queue_create_infos device.queue_families device.present_support with
  | .error what => Step.raise what
  | .ok (queue_family_data, queue_create_infos) =>
    Step.write fun s => { s with _available_queue_families := queue_family_data }
    let created ← Step.create d (fun result handle =>
      .setup (.vkCreateDevice s._vk_physical_device
        (queue_create_infos.map fun info => info.queueFamilyIndex)
        (queue_create_infos.map fun info => info.queueCount) result handle))
    if created.1 ≠ VK_SUCCESS then
      Step.raise "Logical Device Creation Failed!"
    else
      Step.write fun s => { s with _vk_logical_device := created.2 }
      let graphics ← Step.allocate 1
      let graphics_queue := graphics.headD VK_NULL_HANDLE
      Step.call (.setup (.vkGetDeviceQueue created.2
        (castU32 queue_family_data._graphics_family) 0 graphics_queue))
      Step.write fun s => { s with _vk_graphics_queue := graphics_queue }
      if queue_family_data._present_family = queue_family_data._graphics_family then
        Step.call (.setup (.vkGetDeviceQueue created.2
          (castU32 queue_family_data._present_family) 0 graphics_queue))
        Step.write fun s => { s with _vk_present_queue := graphics_queue }
      else
        let present ← Step.allocate 1
        let present_queue := present.headD VK_NULL_HANDLE
        Step.call (.setup (.vkGetDeviceQueue created.2
          (castU32 queue_family_data._present_family) 0 present_queue))
        Step.write fun s => { s with _vk_present_queue := present_queue }

/-- `void CreateDescriptorSetLayout()`: two bindings. -/
def CreateDescriptorSetLayout (d : Driver) : Step Unit := do
  let s ← Step.read
  let created ← Step.create d (fun result handle =>
    .setup (.vkCreateDescriptorSetLayout s._vk_logical_device 2 result handle))
  if created.1 ≠ VK_SUCCESS then
    Step.raise "Failed To Create Descriptor Set Layout!"
  else
    Step.write fun s => { s with _vk_descriptor_set_layout := created.2 }

/-- `void CreateCommandPool(QueueFamilies queue_families)`. -/
def CreateCommandPool (d : Driver) (queue_families : QueueFamilies) : Step Unit := do
  let s ← Step.read
  let created ← Step.create d (fun result handle =>
    .setup (.vkCreateCommandPool s._vk_logical_device
      (castU32 queue_families._graphics_family) result handle))
  if created.1 ≠ VK_SUCCESS then
    Step.raise "Failed To Create Command Pool!"
  else
    Step.write fun s => { s with _vk_command_pool := created.2 }

/-- `void CreateDepthResources()`. -/
def CreateDepthResources (d : Driver) (p : Platform) : Step Unit :=
  match FindDepthFormat d.formatProperties with
  | none => Step.undefinedBehaviour
  | some (.error what) => Step.raise what
  | some (.ok depth_format) => do
    let s ← Step.read
    let depth ← CreateImage d p s._vk_swapchain_extent.width s._vk_swapchain_extent.height
      depth_format VK_IMAGE_TILING_OPTIMAL VK_IMAGE_USAGE_DEPTH_STENCIL_ATTACHMENT_BIT
      VK_MEMORY_PROPERTY_DEVICE_LOCAL_BIT
      (fun image s => { s with _vk_depth_image := image })
      (fun memory s => { s with _vk_depth_image_memory := memory })
    let view ← CreateImageView d depth.1 depth_format VK_IMAGE_ASPECT_DEPTH_BIT
    Step.write fun s => { s with _vk_depth_image_view := view }
    TransitionImageLayout.step depth.1 depth_format VK_IMAGE_LAYOUT_UNDEFINED
      VK_IMAGE_LAYOUT_DEPTH_STENCIL_ATTACHMENT_OPTIMAL

/-- `void CreateTextureImage()`. `image_size` is the `int` product
`texture_width * texture_height * 4` converted to `VkDeviceSize`; a product
outside the range of `int` is undefined. -/
def CreateTextureImage (d : Driver) (p : Platform) : Step Unit :=
  match p.texture with
  | none => Step.raise "Failed To Load Image File!"
  | some (texture_width, texture_height) =>
    if texture_width * texture_height * 4 < -2 ^ 31 ∨
        2 ^ 31 ≤ texture_width * texture_height * 4 then
      Step.undefinedBehaviour
    else do
      let image_size := ((texture_width * texture_height * 4) % 2 ^ 64).toNat
      let staging ← CreateBuffer d p image_size VK_BUFFER_USAGE_TRANSFER_SRC_BIT
        (VK_MEMORY_PROPERTY_HOST_COHERENT_BIT ||| VK_MEMORY_PROPERTY_HOST_VISIBLE_BIT)
        localVariable localVariable
      let s ← Step.read
      Step.call (.setup (.vkMapMemory s._vk_logical_device staging.2 0 image_size))
      Step.call (.setup (.vkUnmapMemory s._vk_logical_device staging.2))
      let texture ← CreateImage d p (castU32 texture_width) (castU32 texture_height)
        VK_FORMAT_R8G8B8A8_UNORM VK_IMAGE_TILING_OPTIMAL
        (VK_IMAGE_USAGE_TRANSFER_DST_BIT ||| VK_IMAGE_USAGE_SAMPLED_BIT)
        VK_MEMORY_PROPERTY_DEVICE_LOCAL_BIT
        (fun image s => { s with _vk_texture_image := image })
        (fun memory s => { s with _vk_texture_image_memory := memory })
      TransitionImageLayout.step texture.1 VK_FORMAT_R8G8B8A8_UNORM VK_IMAGE_LAYOUT_UNDEFINED
        VK_IMAGE_LAYOUT_TRANSFER_DST_OPTIMAL
      CopyBufferToImage staging.1 texture.1 (castU32 texture_width) (castU32 texture_height)
      TransitionImageLayout.step texture.1 VK_FORMAT_R8G8B8A8_UNORM
        VK_IMAGE_LAYOUT_TRANSFER_DST_OPTIMAL VK_IMAGE_LAYOUT_SHADER_READ_ONLY_OPTIMAL
      Step.call (.setup (.vkDestroyBuffer s._vk_logical_device staging.1))
      Step.call (.vkFreeMemory s._vk_logical_device staging.2)

/-- `void CreateTextureImageView()`. -/
def CreateTextureImageView (d : Driver) : Step Unit := do
  let s ← Step.read
  let view ← CreateImageView d s._vk_texture_image VK_FORMAT_R8G8B8A8_UNORM
    VK_IMAGE_ASPECT_COLOR_BIT
  Step.write fun s => { s with _vk_texture_image_view := view }

/-- `void CreateTextureSampler()`. -/
def CreateTextureSampler (d : Driver) : Step Unit := do
  let s ← Step.read
  let created ← Step.create d (fun result handle =>
    .setup (.vkCreateSampler s._vk_logical_device result handle))
  if created.1 ≠ VK_SUCCESS then
    Step.raise "Failed To Create Texture Sampler!"
  else
    Step.write fun s => { s with _vk_texture_sampler := created.2 }

/-- `void LoadModel()`: the body is empty. -/
def LoadModel : Step Unit := pure ()

/-- `void CreateVertexBuffer()`. -/
def CreateVertexBuffer (d : Driver) (p : Platform) : Step Unit := do
  let buffer_size := u64 (sizeof_Vertex * p.vertexCount)
  let staging ← CreateBuffer d p buffer_size VK_BUFFER_USAGE_TRANSFER_SRC_BIT
    (VK_MEMORY_PROPERTY_HOST_VISIBLE_BIT ||| VK_MEMORY_PROPERTY_HOST_COHERENT_BIT)
    localVariable localVariable
  let s ← Step.read
  Step.call (.setup (.vkMapMemory s._vk_logical_device staging.2 0 buffer_size))
  Step.call (.setup (.vkUnmapMemory s._vk_logical_device staging.2))
  let vertex ← CreateBuffer d p buffer_size
    (VK_BUFFER_USAGE_TRANSFER_DST_BIT ||| VK_BUFFER_USAGE_VERTEX_BUFFER_BIT)
    VK_MEMORY_PROPERTY_DEVICE_LOCAL_BIT
    (fun buffer s => { s with _vk_vertex_buffer := buffer })
    (fun memory s => { s with _vk_vertex_buffer_memory := memory })
  CopyBuffer staging.1 vertex.1 buffer_size
  Step.call (.setup (.vkDestroyBuffer s._vk_logical_device staging.1))
  Step.call (.vkFreeMemory s._vk_logical_device staging.2)

/-- `void CreateIndexBuffer()`. -/
def CreateIndexBuffer (d : Driver) (p : Platform) : Step Unit := do
  let s0 ← Step.read
  let buffer_size := u64 (sizeof_uint32_t * s0._indices.length)
  let staging ← CreateBuffer d p buffer_size VK_BUFFER_USAGE_TRANSFER_SRC_BIT
    (VK_MEMORY_PROPERTY_HOST_VISIBLE_BIT ||| VK_MEMORY_PROPERTY_HOST_COHERENT_BIT)
    localVariable localVariable
  let s ← Step.read
  Step.call (.setup (.vkMapMemory s._vk_logical_device staging.2 0 buffer_size))
  Step.call (.setup (.vkUnmapMemory s._vk_logical_device staging.2))
  let index ← CreateBuffer d p buffer_size
    (VK_BUFFER_USAGE_TRANSFER_DST_BIT ||| VK_BUFFER_USAGE_INDEX_BUFFER_BIT)
    VK_MEMORY_PROPERTY_DEVICE_LOCAL_BIT
    (fun buffer s => { s with _vk_index_buffer := buffer })
    (fun memory s => { s with _vk_index_buffer_memory := memory })
  CopyBuffer staging.1 index.1 buffer_size
  Step.call (.setup (.vkDestroyBuffer s._vk_logical_device staging.1))
  Step.call (.vkFreeMemory s._vk_logical_device staging.2)

/-- `void CreateUniformBuffer()`. -/
def CreateUniformBuffer (d : Driver) (p : Platform) : Step Unit := do
  let _ ← CreateBuffer d p sizeof_UniformBufferObject VK_BUFFER_USAGE_UNIFORM_BUFFER_BIT
    (VK_MEMORY_PROPERTY_HOST_VISIBLE_BIT ||| VK_MEMORY_PROPERTY_HOST_COHERENT_BIT)
    (fun buffer s => { s with _vk_uniform_buffer := buffer })
    (fun memory s => { s with _vk_uniform_buffer_memory := memory })
  pure ()

/-- `void CreateDescriptorPool()`: one set at most. -/
def CreateDescriptorPool (d : Driver) : Step Unit := do
  let s ← Step.read
  let created ← Step.create d (fun result handle =>
    .setup (.vkCreateDescriptorPool s._vk_logical_device 1 result handle))
  if created.1 ≠ VK_SUCCESS then
    Step.raise "Failed To Create Descriptor Pool!"
  else
    Step.write fun s => { s with _vk_descriptor_pool := created.2 }

/-- `void CreateDescriptorSet()`. -/
def CreateDescriptorSet (d : Driver) : Step Unit := do
  let s ← Step.read
  let allocated ← Step.create d (fun result handle =>
    .setup (.vkAllocateDescriptorSets s._vk_logical_device s._vk_descriptor_pool
      [s._vk_descriptor_set_layout] result handle))
  if allocated.1 ≠ VK_SUCCESS then
    Step.raise "Failed To Allocate Descriptor Set!"
  else
    Step.write fun s => { s with _vk_descriptor_set := allocated.2 }
    Step.call (.setup (.vkUpdateDescriptorSets s._vk_logical_device allocated.2
      s._vk_uniform_buffer sizeof_UniformBufferObject s._vk_texture_image_view
      s._vk_texture_sampler))

/-- `void CreateSemaphores()`: the second semaphore is created only when the
first creation succeeded (`||`). -/
def CreateSemaphores (d : Driver) : Step Unit := do
  let s ← Step.read
  let image_available ← Step.create d (fun result handle =>
    .setup (.vkCreateSemaphore s._vk_logical_device result handle))
  if image_available.1 ≠ VK_SUCCESS then
    Step.raise "Failed To Create Semaphores!"
  else
    Step.write fun s => { s with _vk_image_available_semaphore := image_available.2 }
    let frame_complete ← Step.create d (fun result handle =>
      .setup (.vkCreateSemaphore s._vk_logical_device result handle))
    if frame_complete.1 ≠ VK_SUCCESS then
      Step.raise "Failed To Create Semaphores!"
    else
      Step.write fun s => { s with _vk_frame_complete_semaphore := frame_complete.2 }

/-- `void InitializeVulkan()`. -/
def InitializeVulkan (d : Driver) (p : Platform) : Step Unit := do
  CreateVkInstance d p
  InitializeVulkan.debugCallback d p
  CreateSurface d
  SelectPhysicalDevice.step p
  CreateLogicalDevice d p
  let s ← Step.read
  CreateSwapChain d s._available_queue_families VK_NULL_HANDLE
  CreateImageViews d
  CreateRenderPass d
  CreateDescriptorSetLayout d
  CreateGraphicsPipeline d
  let s ← Step.read
  CreateCommandPool d s._available_queue_families
  CreateDepthResources d p
  CreateFrameBuffers d
  CreateTextureImage d p
  CreateTextureImageView d
  CreateTextureSampler d
  LoadModel
  CreateVertexBuffer d p
  CreateIndexBuffer d p
  CreateUniformBuffer d p
  CreateDescriptorPool d
  CreateDescriptorSet d
  CreateCommandBuffers d
  CreateSemaphores d

/-- `void UpdateUniformBuffer()`: the matrices are copied through a mapping of
the uniform memory. -/
def UpdateUniformBuffer : Step Unit := do
  let s ← Step.read
  Step.call (.setup (.vkMapMemory s._vk_logical_device s._vk_uniform_buffer_memory 0
    sizeof_UniformBufferObject))
  Step.call (.setup (.vkUnmapMemory s._vk_logical_device s._vk_uniform_buffer_memory))

/-- `static void OnWindowResize(GLFWwindow* window, int width, int height)`
(main.cpp 229-236). The user pointer of the window is the application object
(`InitializeWindow` sets it to `this`), so the call inside the `if` is
`RecreateSwapChain` on the session. -/
def OnWindowResize (d : Driver) (width height : Int) : Step Unit :=
  if width ≠ 0 ∧ height ≠ 0 then
    RecreateSwapChain d
  else
    pure ()

/-- `glfwPollEvents()`: the window system delivers the pending size changes to
the size callback `OnWindowResize`, in order. -/
def glfwPollEvents (d : Driver) : List (Int × Int) → Step Unit
  | [] => pure ()
  | (width, height) :: rest => do
    OnWindowResize d width height
    glfwPollEvents d rest

/-- The loop of `MainLoop`, one element of `frames` per iteration in which
`glfwWindowShouldClose` is false: the size changes delivered by that
iteration's `glfwPollEvents`. -/
def MainLoop.loop (d : Driver) : List (List (Int × Int)) → Step Unit
  | [] => pure ()
  | events :: rest => do
    glfwPollEvents d events
    UpdateUniformBuffer
    Draw d
    MainLoop.loop d rest

/-- `void MainLoop()`. -/
def MainLoop (d : Driver) (frames : List (List (Int × Int))) : Step Unit := do
  MainLoop.loop d frames
  let s ← Step.read
  Step.call (.vkDeviceWaitIdle s._vk_logical_device)

/-- The calls of `EndProgram` after `ReleaseSwapchain`, up to the destruction
of the logical device, in source order. -/
def EndProgram.deviceCalls (s : Session) : List VkCall :=
  [ .setup (.vkDestroySampler s._vk_logical_device s._vk_texture_sampler),
    .vkDestroyImageView s._vk_logical_device s._vk_texture_image_view,
    .vkDestroyImage s._vk_logical_device s._vk_texture_image,
    .vkFreeMemory s._vk_logical_device s._vk_texture_image_memory,
    .setup (.vkDestroyDescriptorPool s._vk_logical_device s._vk_descriptor_pool),
    .setup (.vkDestroyDescriptorSetLayout s._vk_logical_device s._vk_descriptor_set_layout),
    .setup (.vkDestroyBuffer s._vk_logical_device s._vk_uniform_buffer),
    .vkFreeMemory s._vk_logical_device s._vk_uniform_buffer_memory,
    .setup (.vkDestroyBuffer s._vk_logical_device s._vk_index_buffer),
    .vkFreeMemory s._vk_logical_device s._vk_index_buffer_memory,
    .setup (.vkDestroyBuffer s._vk_logical_device s._vk_vertex_buffer),
    .vkFreeMemory s._vk_logical_device s._vk_vertex_buffer_memory,
    .vkDestroySwapchainKHR s._vk_logical_device s._vk_swapchain,
    .setup (.vkDestroySemaphore s._vk_logical_device s._vk_frame_complete_semaphore),
    .setup (.vkDestroySemaphore s._vk_logical_device s._vk_image_available_semaphore),
    .setup (.vkDestroyCommandPool s._vk_logical_device s._vk_command_pool),
    .setup (.vkDestroyDevice s._vk_logical_device) ]

/-- `void EndProgram()`, without the two calls that close the window. -/
def EndProgram (p : Platform) : Step Unit := do
  ReleaseSwapchain
  let s ← Step.read
  Step.calls (EndProgram.deviceCalls s)
  if p.NDEBUG then
    pure ()
  else
    DestroyDebugReportCallbackEXT p s._vk_instance s._vk_callback
  Step.call (.setup (.vkDestroySurfaceKHR s._vk_instance s._vk_surface))
  Step.call (.setup (.vkDestroyInstance s._vk_instance))

/-- `void Run()` after `InitializeWindow`. An exception leaves `Run` at the
function that threw: the functions after it are not called. -/
def Run (d : Driver) (p : Platform) (frames : List (List (Int × Int))) : Step Unit := do
  InitializeVulkan d p
  MainLoop d frames
  EndProgram p

/-! ## Kinds of calls and what a function emits -/

/-- The three calls of the frame: acquire, submit (either form), present. -/
def VkCall.isFrameCall : VkCall → Bool
  | .vkAcquireNextImageKHR .. => true
  | .vkQueueSubmit .. => true
  | .vkQueueSubmitInfo .. => true
  | .vkQueuePresentKHR .. => true
  | _ => false

/-- Is the call a `vkAcquireNextImageKHR`? -/
def VkCall.isAcquire : VkCall → Bool
  | .vkAcquireNextImageKHR .. => true
  | _ => false

/-- Is the call a `vkQueueSubmit`, in either form? -/
def VkCall.isSubmit : VkCall → Bool
  | .vkQueueSubmit .. => true
  | .vkQueueSubmitInfo .. => true
  | _ => false

/-- Is the call a `vkQueuePresentKHR`? -/
def VkCall.isPresent : VkCall → Bool
  | .vkQueuePresentKHR .. => true
  | _ => false

/-- Is the call a `vkCreateSwapchainKHR`? -/
def VkCall.isSwapchainCreate : VkCall → Bool
  | .vkCreateSwapchainKHR .. => true
  | _ => false

/-- Is the call a `vkDestroySwapchainKHR`? -/
def VkCall.isSwapchainDestroy : VkCall → Bool
  | .vkDestroySwapchainKHR .. => true
  | _ => false

/-- Is the call a `vkCreateFramebuffer`? -/
def VkCall.isFramebufferCreate : VkCall → Bool
  | .vkCreateFramebuffer .. => true
  | _ => false

/-- Is the setup call a `vkDestroy...`? -/
def SetupCall.isDestroy : SetupCall → Bool
  | .vkDestroyInstance .. => true
  | .vkDestroyDebugReportCallbackEXT .. => true
  | .vkDestroySurfaceKHR .. => true
  | .vkDestroyDevice .. => true
  | .vkDestroyDescriptorSetLayout .. => true
  | .vkDestroyCommandPool .. => true
  | .vkDestroyBuffer .. => true
  | .vkDestroySampler .. => true
  | .vkDestroyDescriptorPool .. => true
  | .vkDestroySemaphore .. => true
  | _ => false

/-- The handle a setup call destroys. -/
def SetupCall.destroyed : SetupCall → List Nat
  | .vkDestroyInstance instance_handle => [instance_handle]
  | .vkDestroyDebugReportCallbackEXT _ callback => [callback]
  | .vkDestroySurfaceKHR _ surface => [surface]
  | .vkDestroyDevice device => [device]
  | .vkDestroyDescriptorSetLayout _ setLayout => [setLayout]
  | .vkDestroyCommandPool _ commandPool => [commandPool]
  | .vkDestroyBuffer _ buffer => [buffer]
  | .vkDestroySampler _ sampler => [sampler]
  | .vkDestroyDescriptorPool _ descriptorPool => [descriptorPool]
  | .vkDestroySemaphore _ semaphore => [semaphore]
  | _ => []

/-- The handle a setup call brings into existence (none when the call
failed). The queue handles that `vkGetDeviceQueue` retrieves come with the
device and are not counted. -/
def SetupCall.created : SetupCall → List Nat
  | .vkCreateInstance _ _ result instance_handle =>
    if result = VK_SUCCESS then [instance_handle] else []
  | .vkCreateDebugReportCallbackEXT _ _ result callback =>
    if result = VK_SUCCESS then [callback] else []
  | .glfwCreateWindowSurface _ result surface => if result = VK_SUCCESS then [surface] else []
  | .vkCreateDevice _ _ _ result device => if result = VK_SUCCESS then [device] else []
  | .vkCreateDescriptorSetLayout _ _ result setLayout =>
    if result = VK_SUCCESS then [setLayout] else []
  | .vkCreateCommandPool _ _ result commandPool =>
    if result = VK_SUCCESS then [commandPool] else []
  | .vkCreateImage _ _ _ _ _ _ result image => if result = VK_SUCCESS then [image] else []
  | .vkCreateBuffer _ _ _ result buffer => if result = VK_SUCCESS then [buffer] else []
  | .vkAllocateMemory _ _ _ result memory => if result = VK_SUCCESS then [memory] else []
  | .vkCreateSampler _ result sampler => if result = VK_SUCCESS then [sampler] else []
  | .vkCreateDescriptorPool _ _ result descriptorPool =>
    if result = VK_SUCCESS then [descriptorPool] else []
  | .vkAllocateDescriptorSets _ _ _ result descriptorSet =>
    if result = VK_SUCCESS then [descriptorSet] else []
  | .vkCreateSemaphore _ result semaphore => if result = VK_SUCCESS then [semaphore] else []
  | _ => []

/-- Is the call a `vkDestroy...` or `vkFree...`? -/
def VkCall.isDestroy : VkCall → Bool
  | .setup call => call.isDestroy
  | .vkFreeCommandBuffers .. => true
  | .vkDestroySwapchainKHR .. => true
  | .vkDestroyImageView .. => true
  | .vkDestroyImage .. => true
  | .vkFreeMemory .. => true
  | .vkDestroyRenderPass .. => true
  | .vkDestroyShaderModule .. => true
  | .vkDestroyPipelineLayout .. => true
  | .vkDestroyPipeline .. => true
  | .vkDestroyFramebuffer .. => true
  | _ => false

/-- The calls of the rebuild functions `CreateImageViews`, `CreateRenderPass`,
`CreateGraphicsPipeline`, `CreateFrameBuffers` and `CreateCommandBuffers`:
creation of views, render pass, shader modules, pipeline layout, pipeline and
framebuffers, allocation and recording of command buffers, and the release of
the transient shader modules. -/
def VkCall.isRebuild : VkCall → Bool
  | .vkCreateImageView .. => true
  | .vkCreateRenderPass .. => true
  | .vkCreateShaderModule .. => true
  | .vkDestroyShaderModule .. => true
  | .vkCreatePipelineLayout .. => true
  | .vkCreateGraphicsPipelines .. => true
  | .vkCreateFramebuffer .. => true
  | .vkAllocateCommandBufferList .. => true
  | .vkBeginCommandBuffer .. => true
  | .vkCmdBeginRenderPass .. => true
  | .vkCmdBindPipeline .. => true
  | .vkCmdBindVertexBuffers .. => true
  | .vkCmdBindIndexBuffer .. => true
  | .vkCmdBindDescriptorSets .. => true
  | .vkCmdDrawIndexed .. => true
  | .vkCmdEndRenderPass .. => true
  | .vkEndCommandBuffer .. => true
  | _ => false

/-- The handles a call destroys or frees. -/
def VkCall.destroyed : VkCall → List Nat
  | .setup call => call.destroyed
  | .vkFreeCommandBuffers _ _ commandBuffers => commandBuffers
  | .vkDestroySwapchainKHR _ swapchain => [swapchain]
  | .vkDestroyImageView _ view => [view]
  | .vkDestroyImage _ image => [image]
  | .vkFreeMemory _ memory => [memory]
  | .vkDestroyRenderPass _ renderPass => [renderPass]
  | .vkDestroyShaderModule _ shaderModule => [shaderModule]
  | .vkDestroyPipelineLayout _ pipelineLayout => [pipelineLayout]
  | .vkDestroyPipeline _ pipeline => [pipeline]
  | .vkDestroyFramebuffer _ framebuffer => [framebuffer]
  | _ => []

/-- The handles a call brings into existence (none when the call failed). -/
def VkCall.created : VkCall → List Nat
  | .setup call => call.created
  | .vkAllocateCommandBuffers _ _ _ _ commandBuffer => [commandBuffer]
  | .vkCreateSwapchainKHR _ _ result swapchain => if result = VK_SUCCESS then [swapchain] else []
  | .vkGetSwapchainImagesKHR _ _ images => images
  | .vkCreateImageView _ _ _ _ result view => if result = VK_SUCCESS then [view] else []
  | .vkCreateRenderPass _ _ _ _ result renderPass =>
    if result = VK_SUCCESS then [renderPass] else []
  | .vkCreateShaderModule _ _ result shaderModule =>
    if result = VK_SUCCESS then [shaderModule] else []
  | .vkCreatePipelineLayout _ _ result pipelineLayout =>
    if result = VK_SUCCESS then [pipelineLayout] else []
  | .vkCreateGraphicsPipelines _ _ _ _ _ result pipeline =>
    if result = VK_SUCCESS then [pipeline] else []
  | .vkCreateFramebuffer _ _ _ _ _ _ result framebuffer =>
    if result = VK_SUCCESS then [framebuffer] else []
  | .vkAllocateCommandBufferList _ _ _ _ _ commandBuffers => commandBuffers
  | _ => []

/-- How often the calls of a trace destroy the handle. -/
def destroyCount (trace : List VkCall) (handle : Nat) : Nat :=
  (trace.map fun c => c.destroyed.count handle).sum

/-- How often the calls of a trace create the handle. -/
def createCount (trace : List VkCall) (handle : Nat) : Nat :=
  (trace.map fun c => c.created.count handle).sum

/-- Every call a function adds to the trace satisfies `P`, and the function
only adds to the trace. -/
def Emits {α : Type} (P : VkCall → Prop) (m : Step α) : Prop :=
  ∀ s, ∃ new, (m s).2.trace = s.trace ++ new ∧ ∀ c ∈ new, P c

/-! ## Concrete inputs -/

/-- A surface with a 2-image minimum and maximum and a fixed 100x100 extent,
offering two formats and two present modes. -/
def exampleSwapChainSupport : SwapChainSupport :=
  { _capabilities :=
      { minImageCount := 2
        maxImageCount := 2
        currentExtent := ⟨100, 100⟩
        minImageExtent := ⟨100, 100⟩
        maxImageExtent := ⟨100, 100⟩
        currentTransform := 1 }
    _formats := [⟨37, 0⟩, ⟨VK_FORMAT_B8G8R8A8_UNORM, VK_COLOR_SPACE_SRGB_NONLINEAR_KHR⟩]
    _present_modes := [VK_PRESENT_MODE_FIFO_KHR, VK_PRESENT_MODE_MAILBOX_KHR] }

/-- An adapter on which only `VK_FORMAT_D24_UNORM_S8_UINT` can be a
depth-stencil attachment under optimal tiling. -/
def d24OnlyFormatProperties : VkFormat → VkFormatProperties :=
  fun format =>
    if format = VK_FORMAT_D24_UNORM_S8_UINT then
      ⟨0, VK_FORMAT_FEATURE_DEPTH_STENCIL_ATTACHMENT_BIT, 0⟩
    else ⟨0, 0, 0⟩

/-- A driver on which every call succeeds: two swapchain images, the 2-image
100x100 surface, a 100x100 window, every format usable as depth-stencil
attachment under optimal tiling, shader files of 4 bytes. -/
def successDriver : Driver :=
  { result := fun _ => VK_SUCCESS
    imageIndex := fun _ => 0
    swapchainImageCount := fun _ => 2
    swapChainSupport := fun _ => exampleSwapChainSupport
    windowSize := fun _ => (100, 100)
    formatProperties := fun _ => ⟨0, VK_FORMAT_FEATURE_DEPTH_STENCIL_ATTACHMENT_BIT, 0⟩
    fileSize := fun _ => some 4 }

def VK_ERROR_INITIALIZATION_FAILED : VkResult := -3

/-- As `successDriver`, but the second call, the acquire of a tick that starts
with an empty trace, answers OUT_OF_DATE. -/
def outOfDateDriver : Driver :=
  { successDriver with
    result := fun n => if n = 1 then VK_ERROR_OUT_OF_DATE_KHR else VK_SUCCESS }

/-- As `outOfDateDriver`, and the swapchain creation that follows fails. -/
def outOfDateThenFailDriver : Driver :=
  { successDriver with
    result := fun n =>
      if n = 1 then VK_ERROR_OUT_OF_DATE_KHR
      else if n = 2 then VK_ERROR_INITIALIZATION_FAILED
      else VK_SUCCESS }

/-- Acquire and submit succeed, the present (call 3) answers OUT_OF_DATE and the
swapchain creation that follows (call 4) fails. -/
def stalePresentThenFailDriver : Driver :=
  { successDriver with
    result := fun n =>
      if n = 3 then VK_ERROR_OUT_OF_DATE_KHR
      else if n = 4 then VK_ERROR_INITIALIZATION_FAILED
      else VK_SUCCESS }

/-- The acquire (call 1) answers SUBOPTIMAL, every other call succeeds. -/
def suboptimalAcquireDriver : Driver :=
  { successDriver with
    result := fun n => if n = 1 then VK_SUBOPTIMAL_KHR else VK_SUCCESS }

/-- Acquire and submit succeed and the present (call 3) answers SUBOPTIMAL. -/
def suboptimalPresentDriver : Driver :=
  { successDriver with
    result := fun n => if n = 3 then VK_SUBOPTIMAL_KHR else VK_SUCCESS }

/-- A session as initialization leaves it on a device with two swapchain
images: every member holds its own handle, numbered in creation order, the
graphics and present family are both family 0 and share one queue, and the
trace starts empty. The depth image is 19, its memory 20 and its view 21. -/
def exampleSession : Session :=
  { _vk_instance := 1
    _vk_callback := 2
    _vk_surface := 3
    _vk_physical_device := 4
    _vk_logical_device := 5
    _vk_graphics_queue := 6
    _vk_present_queue := 6
    _available_queue_families := ⟨0, 0⟩
    _vk_swapchain := 7
    _vk_swapchain_images := [8, 9]
    _vk_swapchain_image_views := [10, 11]
    _vk_swapchain_format := VK_FORMAT_B8G8R8A8_UNORM
    _vk_swapchain_extent := ⟨100, 100⟩
    _vk_render_pass := 12
    _vk_descriptor_set_layout := 13
    _vk_pipeline_layout := 16
    _vk_pipeline := 17
    _vk_command_pool := 18
    _vk_depth_image := 19
    _vk_depth_image_memory := 20
    _vk_depth_image_view := 21
    _vk_swapchain_frame_buffers := [23, 24]
    _vk_texture_image := 27
    _vk_texture_image_memory := 28
    _vk_texture_image_view := 31
    _vk_texture_sampler := 32
    _indices := [0, 1, 2]
    _vk_vertex_buffer := 35
    _vk_vertex_buffer_memory := 36
    _vk_index_buffer := 39
    _vk_index_buffer_memory := 40
    _vk_uniform_buffer := 41
    _vk_uniform_buffer_memory := 42
    _vk_descriptor_pool := 43
    _vk_descriptor_set := 44
    _vk_command_buffers := [45, 46]
    _vk_image_available_semaphore := 47
    _vk_frame_complete_semaphore := 48
    trace := []
    fresh := 49 }

/-- As `successDriver`, but the call recorded as number `n` fails. -/
def failingDriver (n : Nat) : Driver :=
  { successDriver with
    result := fun k => if k = n then VK_ERROR_INITIALIZATION_FAILED else VK_SUCCESS }

/-- A host built without `NDEBUG` that offers the validation layer, the
instance extensions the window system asks for and the debug report extension,
one adapter (handle 90) with the swapchain extension, anisotropy, the 2-image
100x100 surface and one queue family that does graphics and presents, the
memory types of `exampleMemoryProperties`, 64-byte memory requirements that
allow every type, a 2x2 texture and three vertices. -/
def examplePlatform : Platform :=
  { NDEBUG := false
    layers := ["VK_LAYER_LUNARG_standard_validation".toList]
    glfwRequiredInstanceExtensions := some ["VK_KHR_surface".toList]
    instanceExtensions := ["VK_KHR_surface".toList, "VK_EXT_debug_report".toList]
    debugReportLoaded := true
    devices := [90]
    info := fun _ =>
      { extensions := [VK_KHR_SWAPCHAIN_EXTENSION_NAME]
        samplerAnisotropy := VK_TRUE
        swap_chain_support := exampleSwapChainSupport
        queue_families := [⟨VK_QUEUE_GRAPHICS_BIT, 1⟩]
        present_support := fun _ => VK_TRUE }
    memoryProperties := exampleMemoryProperties
    memoryRequirements := fun _ => ⟨64, 16, 7⟩
    texture := some (2, 2)
    vertexCount := 3 }

/-- The application object before `InitializeVulkan`: no handle is held, the
vectors are empty, nothing has been called, and the first handle the driver
will hand out is 1. -/
def startSession : Session :=
  { _vk_instance := VK_NULL_HANDLE
    _vk_callback := VK_NULL_HANDLE
    _vk_surface := VK_NULL_HANDLE
    _vk_physical_device := VK_NULL_HANDLE
    _vk_logical_device := VK_NULL_HANDLE
    _vk_graphics_queue := VK_NULL_HANDLE
    _vk_present_queue := VK_NULL_HANDLE
    _available_queue_families := ⟨-1, -1⟩
    _vk_swapchain := VK_NULL_HANDLE
    _vk_swapchain_images := []
    _vk_swapchain_image_views := []
    _vk_swapchain_format := VK_FORMAT_UNDEFINED
    _vk_swapchain_extent := ⟨0, 0⟩
    _vk_render_pass := VK_NULL_HANDLE
    _vk_descriptor_set_layout := VK_NULL_HANDLE
    _vk_pipeline_layout := VK_NULL_HANDLE
    _vk_pipeline := VK_NULL_HANDLE
    _vk_command_pool := VK_NULL_HANDLE
    _vk_depth_image := VK_NULL_HANDLE
    _vk_depth_image_memory := VK_NULL_HANDLE
    _vk_depth_image_view := VK_NULL_HANDLE
    _vk_swapchain_frame_buffers := []
    _vk_texture_image := VK_NULL_HANDLE
    _vk_texture_image_memory := VK_NULL_HANDLE
    _vk_texture_image_view := VK_NULL_HANDLE
    _vk_texture_sampler := VK_NULL_HANDLE
    _indices := []
    _vk_vertex_buffer := VK_NULL_HANDLE
    _vk_vertex_buffer_memory := VK_NULL_HANDLE
    _vk_index_buffer := VK_NULL_HANDLE
    _vk_index_buffer_memory := VK_NULL_HANDLE
    _vk_uniform_buffer := VK_NULL_HANDLE
    _vk_uniform_buffer_memory := VK_NULL_HANDLE
    _vk_descriptor_pool := VK_NULL_HANDLE
    _vk_descriptor_set := VK_NULL_HANDLE
    _vk_command_buffers := []
    _vk_image_available_semaphore := VK_NULL_HANDLE
    _vk_frame_complete_semaphore := VK_NULL_HANDLE
    trace := []
    fresh := 1 }

/-- The test of the loop body of `FindSupportedFormat` on the properties of one
format: the requested tiling is linear and the linear features include
`features`, or it is optimal and the optimal features include them. -/
def VkFormatProperties.supports (props : VkFormatProperties) (tiling : VkImageTiling)
    (features : Nat) : Prop :=
  (tiling = VK_IMAGE_TILING_LINEAR ∧ (props.linearTilingFeatures &&& features) = features) ∨
  (tiling = VK_IMAGE_TILING_OPTIMAL ∧ (props.optimalTilingFeatures &&& features) = features)

instance (props : VkFormatProperties) (tiling : VkImageTiling) (features : Nat) :
    Decidable (props.supports tiling features) :=
  inferInstanceAs (Decidable (_ ∨ _))

/-- An `int` member of `QueueFamilies` as the loop leaves it: `-1` or a
converted `uint32_t`, in both cases inside the range of `int`. -/
def QueueFamilies.InRange (data : QueueFamilies) : Prop :=
  (-2 ^ 31 ≤ data._graphics_family ∧ data._graphics_family < 2 ^ 31) ∧
  (-2 ^ 31 ≤ data._present_family ∧ data._present_family < 2 ^ 31)

/-- Is the call a `vkDestroyShaderModule`? -/
def VkCall.isShaderModuleDestroy : VkCall → Bool
  | .vkDestroyShaderModule .. => true
  | _ => false

/-! ## Returning runs -/

/-- Whenever `m`, started in `s`, returns a value, the value and the session
it leaves satisfy `P`. -/
def OkAt {α : Type} (m : Step α) (s : Session) (P : α → Session → Prop) : Prop :=
  ∀ value s1, m s = (.ok value, s1) → P value s1

/-- The session `CreateBuffer` leaves when it returns: the buffer is the next
handle, the memory the handle after the assignment of the buffer, and the
calls are the creation, the allocation and the binding at offset 0. -/
def CreateBuffer.done (p : Platform) (size usage memoryTypeIndex : Nat)
    (buffer_ref buffer_memory_ref : Nat → Session → Session) (s : Session) : Session :=
  let s1 : Session := buffer_ref s.fresh
    { s with
      trace := s.trace ++
        [.setup (.vkCreateBuffer s._vk_logical_device size usage VK_SUCCESS s.fresh)]
      fresh := s.fresh + 1 }
  let s2 : Session := buffer_memory_ref s1.fresh
    { s1 with
      trace := s1.trace ++
        [.setup (.vkAllocateMemory s._vk_logical_device (p.memoryRequirements s.fresh).size
          memoryTypeIndex VK_SUCCESS s1.fresh)]
      fresh := s1.fresh + 1 }
  { s2 with
    trace := s2.trace ++ [.setup (.vkBindBufferMemory s._vk_logical_device s.fresh s1.fresh 0)] }

/-- The session `CreateImage` leaves when it returns. -/
def CreateImage.done (p : Platform) (width height : Nat) (format : VkFormat)
    (tiling : VkImageTiling) (usage memoryTypeIndex : Nat)
    (image_ref image_memory_ref : Nat → Session → Session) (s : Session) : Session :=
  let s1 : Session := image_ref s.fresh
    { s with
      trace := s.trace ++
        [.setup (.vkCreateImage s._vk_logical_device width height format tiling usage
          VK_SUCCESS s.fresh)]
      fresh := s.fresh + 1 }
  let s2 : Session := image_memory_ref s1.fresh
    { s1 with
      trace := s1.trace ++
        [.setup (.vkAllocateMemory s._vk_logical_device (p.memoryRequirements s.fresh).size
          memoryTypeIndex VK_SUCCESS s1.fresh)]
      fresh := s1.fresh + 1 }
  { s2 with
    trace := s2.trace ++ [.setup (.vkBindImageMemory s._vk_logical_device s.fresh s1.fresh 0)] }

/-- Is the call one that only the one-shot command helper makes: the
allocation of a single command buffer, the submit without semaphores, the
queue-idle wait? -/
def VkCall.isOneShot : VkCall → Bool
  | .vkAllocateCommandBuffers .. => true
  | .vkQueueSubmit .. => true
  | .vkQueueWaitIdle .. => true
  | _ => false

/-- The calls of a one-shot command buffer around the recorded command
`command`: allocate, begin, the command, end, submit to the graphics queue,
wait for the queue, free. -/
def oneShotCalls (s : Session) (command : VkCall) : List VkCall :=
  [ .vkAllocateCommandBuffers s._vk_logical_device s._vk_command_pool
      VK_COMMAND_BUFFER_LEVEL_PRIMARY 1 s.fresh,
    .vkBeginCommandBuffer s.fresh VK_COMMAND_BUFFER_USAGE_ONE_TIME_SUBMIT_BIT,
    command,
    .vkEndCommandBuffer s.fresh,
    .vkQueueSubmit s._vk_graphics_queue [s.fresh] VK_NULL_HANDLE,
    .vkQueueWaitIdle s._vk_graphics_queue,
    .vkFreeCommandBuffers s._vk_logical_device s._vk_command_pool [s.fresh] ]

/-- Is the call one of `SetupCall`? -/
def VkCall.isSetup : VkCall → Bool
  | .setup _ => true
  | _ => false

/-- Is the call a `vkBindBufferMemory` or `vkBindImageMemory`? -/
def VkCall.isBindMemory : VkCall → Bool
  | .setup (.vkBindBufferMemory ..) => true
  | .setup (.vkBindImageMemory ..) => true
  | _ => false

/-! ## Accounting of handles -/

/-- The handles a call creates that the application has to release by a call
of its own: the created handles, without the swapchain images (owned by the
swapchain) and the descriptor set (implicitly destroyed by its pool), as the
member comments of the source say. -/
def VkCall.owned : VkCall → List Nat
  | .vkGetSwapchainImagesKHR .. => []
  | .setup (.vkAllocateDescriptorSets ..) => []
  | c => c.created

/-- How often the calls of a trace create the handle as an owned object. -/
def ownedCount (trace : List VkCall) (handle : Nat) : Nat :=
  (trace.map fun c => c.owned.count handle).sum

/-- The balance of a run of calls: every handle is created as an owned object
at most once, and only with a value from `lo` up to `hi`; what is created and
not destroyed again is the list `kept`, what is destroyed without having been
created in the run is the list `released`. -/
def Balance (calls : List VkCall) (released kept : List Nat) (lo hi : Nat) : Prop :=
  (∀ h, ownedCount calls h + released.count h = destroyCount calls h + kept.count h) ∧
  (∀ h, ownedCount calls h ≤ 1) ∧
  (∀ h, 1 ≤ ownedCount calls h → lo ≤ h ∧ h < hi)

/-- A reference parameter that stands for a member (or a local variable):
assigning through it commutes with the bookkeeping of the trace and of the
handle counter. -/
def IsMemberRef (ref : Nat → Session → Session) : Prop :=
  ∀ handle s trace fresh,
    ref handle { s with trace := trace, fresh := fresh } =
      { ref handle s with trace := trace, fresh := fresh }

/-! ## What a session holds, and the states a run reaches -/

/-- The part of `InitializeVulkan` after `CreateLogicalDevice`: the calls that
create the objects of the logical device (main.cpp 154-183). -/
def InitializeVulkan.deviceObjects (d : Driver) (p : Platform) : Step Unit := do
  let s ← Step.read
  CreateSwapChain d s._available_queue_families VK_NULL_HANDLE
  CreateImageViews d
  CreateRenderPass d
  CreateDescriptorSetLayout d
  CreateGraphicsPipeline d
  let s ← Step.read
  CreateCommandPool d s._available_queue_families
  CreateDepthResources d p
  CreateFrameBuffers d
  CreateTextureImage d p
  CreateTextureImageView d
  CreateTextureSampler d
  LoadModel
  CreateVertexBuffer d p
  CreateIndexBuffer d p
  CreateUniformBuffer d p
  CreateDescriptorPool d
  CreateDescriptorSet d
  CreateCommandBuffers d
  CreateSemaphores d

/-- The part of `InitializeVulkan` before its last call, `CreateSemaphores`. -/
def InitializeVulkan.resources (d : Driver) (p : Platform) : Step Unit := do
  CreateVkInstance d p
  InitializeVulkan.debugCallback d p
  CreateSurface d
  SelectPhysicalDevice.step p
  CreateLogicalDevice d p
  let s ← Step.read
  CreateSwapChain d s._available_queue_families VK_NULL_HANDLE
  CreateImageViews d
  CreateRenderPass d
  CreateDescriptorSetLayout d
  CreateGraphicsPipeline d
  let s ← Step.read
  CreateCommandPool d s._available_queue_families
  CreateDepthResources d p
  CreateFrameBuffers d
  CreateTextureImage d p
  CreateTextureImageView d
  CreateTextureSampler d
  LoadModel
  CreateVertexBuffer d p
  CreateIndexBuffer d p
  CreateUniformBuffer d p
  CreateDescriptorPool d
  CreateDescriptorSet d
  CreateCommandBuffers d

/-- The handles of the instance level that the application holds and releases
itself, in the order in which `InitializeVulkan` obtains them: the instance,
the debug callback of a debug build, the surface, the logical device. -/
def Session.heldOfInstance (p : Platform) (s : Session) : List Nat :=
  [s._vk_instance] ++ (if p.NDEBUG then [] else [s._vk_callback]) ++
  [s._vk_surface, s._vk_logical_device]

/-- The handles of objects of the logical device that the application holds
and releases itself, in the order in which `InitializeVulkan` obtains them. The
swapchain images, the queues and the descriptor set belong to the swapchain,
the device and the descriptor pool (comments on the members, main.cpp
1717-1770) and are not listed. -/
def Session.heldOfDevice (s : Session) : List Nat :=
  [s._vk_swapchain] ++ s._vk_swapchain_image_views ++
  [s._vk_render_pass, s._vk_descriptor_set_layout, s._vk_pipeline_layout, s._vk_pipeline,
    s._vk_command_pool, s._vk_depth_image, s._vk_depth_image_memory,
    s._vk_depth_image_view] ++
  s._vk_swapchain_frame_buffers ++
  [s._vk_texture_image, s._vk_texture_image_memory, s._vk_texture_image_view,
    s._vk_texture_sampler, s._vk_vertex_buffer, s._vk_vertex_buffer_memory,
    s._vk_index_buffer, s._vk_index_buffer_memory, s._vk_uniform_buffer,
    s._vk_uniform_buffer_memory, s._vk_descriptor_pool] ++
  s._vk_command_buffers ++
  [s._vk_image_available_semaphore, s._vk_frame_complete_semaphore]

/-- Is the call one on the instance or the adapter rather than on the logical
device: the creation and destruction of the instance, of the debug callback,
of the surface and of the logical device itself? -/
def VkCall.isInstanceLevel : VkCall → Bool
  | .setup (.vkCreateInstance ..) => true
  | .setup (.vkDestroyInstance ..) => true
  | .setup (.vkCreateDebugReportCallbackEXT ..) => true
  | .setup (.vkDestroyDebugReportCallbackEXT ..) => true
  | .setup (.glfwCreateWindowSurface ..) => true
  | .setup (.vkDestroySurfaceKHR ..) => true
  | .setup (.vkCreateDevice ..) => true
  | .setup (.vkDestroyDevice ..) => true
  | _ => false

/-- Is the call a `vkCreateSemaphore`? -/
def VkCall.isSemaphoreCreate : VkCall → Bool
  | .setup (.vkCreateSemaphore ..) => true
  | _ => false

/-- Is the call a `vkDestroySemaphore`? -/
def VkCall.isSemaphoreDestroy : VkCall → Bool
  | .setup (.vkDestroySemaphore ..) => true
  | _ => false

/-- The three vectors that follow the swapchain images have one element per
image. -/
def Session.Sized (s : Session) : Prop :=
  s._vk_swapchain_image_views.length = s._vk_swapchain_images.length ∧
  s._vk_swapchain_frame_buffers.length = s._vk_swapchain_images.length ∧
  s._vk_command_buffers.length = s._vk_swapchain_images.length

/-- The command buffer was recorded: the trace has the begin of
`CreateCommandBuffers` and the end for it. -/
def Recorded (trace : List VkCall) (command_buffer : Nat) : Prop :=
  .vkBeginCommandBuffer command_buffer VK_COMMAND_BUFFER_USAGE_SIMULTANEOUS_USE_BIT ∈ trace ∧
  .vkEndCommandBuffer command_buffer ∈ trace

/-- The sessions a run passes through between two calls of the main loop:
the one `InitializeVulkan` leaves when it returns, and from such a session the
one a returning `Draw`, `OnWindowResize` or `UpdateUniformBuffer` leaves. -/
inductive Reachable (d : Driver) (p : Platform) : Session → Prop
  | initialized (s0 s : Session) (h : InitializeVulkan d p s0 = (.ok (), s)) : Reachable d p s
  | draw (s s1 : Session) (hs : Reachable d p s) (h : Draw d s = (.ok (), s1)) :
    Reachable d p s1
  | resize (s s1 : Session) (width height : Int) (hs : Reachable d p s)
    (h : OnWindowResize d width height s = (.ok (), s1)) : Reachable d p s1
  | update (s s1 : Session) (hs : Reachable d p s)
    (h : UpdateUniformBuffer s = (.ok (), s1)) : Reachable d p s1

/-- The members `RecreateSwapChain` has no business with: the two semaphores,
the command pool, the descriptor pool, set and layout, the vertex, index and
uniform buffers with their memory, the texture image with its memory, view and
sampler. -/
def Session.outsideSwapchain (s : Session) : List Nat :=
  [ s._vk_image_available_semaphore, s._vk_frame_complete_semaphore, s._vk_command_pool,
    s._vk_descriptor_pool, s._vk_descriptor_set, s._vk_descriptor_set_layout,
    s._vk_vertex_buffer, s._vk_vertex_buffer_memory, s._vk_index_buffer,
    s._vk_index_buffer_memory, s._vk_uniform_buffer, s._vk_uniform_buffer_memory,
    s._vk_texture_image, s._vk_texture_image_memory, s._vk_texture_image_view,
    s._vk_texture_sampler ]

/-- The function leaves the value `f` reads from the session as it was,
whatever its outcome. -/
def Keeps {α β : Type} (f : Session → β) (m : Step α) : Prop :=
  ∀ s, f (m s).2 = f s

/-- The texture and the buffers are apart from what `ReleaseSwapchain`
destroys: the texture image is not the depth image, its view is neither the
depth view nor a swapchain image view and is older than every handle the
driver still has to hand out, and the depth memory is not the memory of the
texture or of a buffer. -/
def Session.TextureApart (s : Session) : Prop :=
  s._vk_texture_image ≠ s._vk_depth_image ∧
  s._vk_texture_image_view ≠ s._vk_depth_image_view ∧
  s._vk_texture_image_view ∉ s._vk_swapchain_image_views ∧
  s._vk_texture_image_view < s.fresh ∧
  s._vk_depth_image_memory ∉
    [s._vk_texture_image_memory, s._vk_vertex_buffer_memory, s._vk_index_buffer_memory,
      s._vk_uniform_buffer_memory]

/-- The calls hold the binding, at offset 0, of the memory member to each
image and buffer member that has one. -/
def Session.BoundIn (s : Session) (calls : List VkCall) : Prop :=
  .setup (.vkBindImageMemory s._vk_logical_device s._vk_depth_image
    s._vk_depth_image_memory 0) ∈ calls ∧
  .setup (.vkBindImageMemory s._vk_logical_device s._vk_texture_image
    s._vk_texture_image_memory 0) ∈ calls ∧
  .setup (.vkBindBufferMemory s._vk_logical_device s._vk_vertex_buffer
    s._vk_vertex_buffer_memory 0) ∈ calls ∧
  .setup (.vkBindBufferMemory s._vk_logical_device s._vk_index_buffer
    s._vk_index_buffer_memory 0) ∈ calls ∧
  .setup (.vkBindBufferMemory s._vk_logical_device s._vk_uniform_buffer
    s._vk_uniform_buffer_memory 0) ∈ calls

/-- Is the call one on the logical device that is not about a semaphore:
neither a call of the instance level nor the creation or destruction of a
semaphore? -/
def VkCall.isResourceCall (c : VkCall) : Bool :=
  !c.isInstanceLevel && !c.isSemaphoreCreate && !c.isSemaphoreDestroy

/-- What holds of the session between two calls of the main loop: the vectors
are sized after the swapchain images, every command buffer of the list was
recorded, and the texture is apart from the swapchain objects. -/
def Session.Consistent (s : Session) : Prop :=
  s.Sized ∧
  (∀ command_buffer ∈ s._vk_command_buffers, Recorded s.trace command_buffer) ∧
  s.TextureApart

/-- From `s` to `s1` the trace grew and either a swapchain was created or
nothing else changed and the added calls neither create nor destroy. -/
def Session.Quiet (s s1 : Session) : Prop :=
  ∃ calls, s1.trace = s.trace ++ calls ∧
    ((∃ c ∈ calls, c.isSwapchainCreate = true) ∨
      (s1 = { s with trace := s.trace ++ calls } ∧
        ∀ c ∈ calls, c.owned = [] ∧ c.destroyed = []))

/-- The function never ends in undefined behaviour. -/
def Defined {α : Type} (m : Step α) : Prop :=
  ∀ s, (m s).1 ≠ .undefined

/-- A surface with a 2-image minimum, no maximum (`maxImageCount = 0`) and a
fixed 100x100 extent. -/
def unboundedSwapChainSupport : SwapChainSupport :=
  { exampleSwapChainSupport with
    _capabilities := { exampleSwapChainSupport._capabilities with maxImageCount := 0 } }

/-- As `successDriver` on the surface without a maximum: the swapchain has the
3 images that `CreateSwapChain` requests there. -/
def threeImageDriver : Driver :=
  { successDriver with
    swapchainImageCount := fun _ => 3
    swapChainSupport := fun _ => unboundedSwapChainSupport }

/-- The session `InitializeVulkan` leaves on the example platform when every
call succeeds. -/
def initializedSession : Session :=
  (InitializeVulkan successDriver examplePlatform startSession).2

/-- The session after a change of the window size to 5x5 and one frame. -/
def resizedSession : Session :=
  (Draw successDriver (OnWindowResize successDriver 5 5 initializedSession).2).2

/-- What a call made by `RecreateSwapChain`, started in `s`, may be: not a call
of `SetupCall`; and an image it destroys is the depth image of `s`, an image
view it destroys the depth view or a swapchain image view of `s`, a memory it
frees the depth memory of `s`. -/
def Session.Spares (s : Session) (c : VkCall) : Prop :=
  c.isSetup = false ∧
  (∀ device image, c = .vkDestroyImage device image → image = s._vk_depth_image) ∧
  (∀ device view, c = .vkDestroyImageView device view →
    view = s._vk_depth_image_view ∨ view ∈ s._vk_swapchain_image_views) ∧
  (∀ device memory, c = .vkFreeMemory device memory → memory = s._vk_depth_image_memory)

/-- The calls of `EndProgram` after the destruction of the logical device: the
debug callback of a debug build, the surface, the instance. -/
def EndProgram.instanceCalls (p : Platform) (s : Session) : List VkCall :=
  (if p.NDEBUG then []
    else if p.debugReportLoaded then
      [.setup (.vkDestroyDebugReportCallbackEXT s._vk_instance s._vk_callback)]
    else []) ++
  [ .setup (.vkDestroySurfaceKHR s._vk_instance s._vk_surface),
    .setup (.vkDestroyInstance s._vk_instance) ]

/-- The calls of `EndProgram` before the destruction of the logical device:
those of `ReleaseSwapchain` and the device calls without the last one. -/
def EndProgram.objectCalls (s : Session) : List VkCall :=
  ReleaseSwapchain.calls s ++ (EndProgram.deviceCalls s).dropLast

/-- The session after a main loop of two frames, the second with a change of
the window size to width 0, on the example platform. -/
def loopedSession : Session :=
  (MainLoop successDriver [[], [(0, 5)]] initializedSession).2

/-- The one-shot command buffers allocated and not yet freed after a call,
given those before it: `vkAllocateCommandBuffers` of a single buffer adds it,
`vkFreeCommandBuffers` removes the buffers it frees. -/
def VkCall.oneShotStep (live : List Nat) : VkCall → List Nat
  | .vkAllocateCommandBuffers _ _ _ _ commandBuffer => commandBuffer :: live
  | .vkFreeCommandBuffers _ _ commandBuffers =>
    live.filter (fun commandBuffer => !commandBuffers.contains commandBuffer)
  | _ => live

/-- The one-shot command buffers a list of calls leaves allocated. -/
def oneShotLive (calls : List VkCall) : List Nat :=
  calls.foldl VkCall.oneShotStep []

/-- The calls a function adds to the trace satisfy `Q` as a whole, on every
path, and the function only adds to the trace. -/
def EmitsList {α : Type} (Q : List VkCall → Prop) (m : Step α) : Prop :=
  ∀ s, ∃ new, (m s).2.trace = s.trace ++ new ∧ Q new

/-! ## Helper lemmas -/

theorem and_two_pow_ne_zero_iff (n i : Nat) : (n &&& 2 ^ i) ≠ 0 ↔ n.testBit i = true := by
  constructor
  · intro h
    by_contra hb
    apply h
    apply Nat.eq_of_testBit_eq
    intro j
    simp only [Nat.testBit_and, Nat.testBit_two_pow, Nat.zero_testBit]
    by_cases hij : i = j
    · subst hij; simp [hb]
    · simp [hij]
  · intro hb h
    have : (n &&& 2 ^ i).testBit i = true := by
      simp [Nat.testBit_and, Nat.testBit_two_pow_self, hb]
    rw [h] at this
    simp at this

theorem u32_one_shiftLeft (i : Nat) (hi : i < 32) : u32 (1 <<< i) = 2 ^ i := by
  unfold u32
  rw [Nat.one_shiftLeft]
  exact Nat.mod_eq_of_lt (Nat.pow_lt_pow_right (by decide) hi)

theorem memoryTypeMatches_iff (mp : VkPhysicalDeviceMemoryProperties)
    (type_filter properties i : Nat) (hi : i < 32) :
    memoryTypeMatches mp type_filter properties i ↔
      (type_filter.testBit i = true ∧
        ((mp.at i).propertyFlags &&& properties) = properties) := by
  unfold memoryTypeMatches
  rw [u32_one_shiftLeft i hi, and_two_pow_ne_zero_iff]

/-- What the loop of `FindMemoryType` computes from position `i` on. -/
theorem FindMemoryType_loop_spec (mp : VkPhysicalDeviceMemoryProperties)
    (type_filter properties : Nat) :
    ∀ remaining i,
      (∀ r, FindMemoryType.loop mp type_filter properties remaining i = .ok r →
        i ≤ r ∧ r < i + remaining ∧ memoryTypeMatches mp type_filter properties r ∧
        ∀ j, i ≤ j → j < r → ¬ memoryTypeMatches mp type_filter properties j) ∧
      (∀ e, FindMemoryType.loop mp type_filter properties remaining i = .error e →
        e = "Failed To Find Suitable Memory Type!" ∧
        ∀ j, i ≤ j → j < i + remaining → ¬ memoryTypeMatches mp type_filter properties j) := by
  intro remaining
  induction remaining with
  | zero =>
    intro i
    refine ⟨fun r h => ?_, fun e h => ?_⟩
    · simp [FindMemoryType.loop] at h
    · simp only [FindMemoryType.loop, Except.error.injEq] at h
      exact ⟨h.symm, fun j h1 h2 => by omega⟩
  | succ n ih =>
    intro i
    by_cases hm : memoryTypeMatches mp type_filter properties i
    · refine ⟨fun r h => ?_, fun e h => ?_⟩
      · simp only [FindMemoryType.loop, hm, if_true, Except.ok.injEq] at h
        subst h
        exact ⟨le_refl _, by omega, hm, fun j h1 h2 => by omega⟩
      · simp [FindMemoryType.loop, hm] at h
    · obtain ⟨ihok, iherr⟩ := ih (i + 1)
      refine ⟨fun r h => ?_, fun e h => ?_⟩
      · simp only [FindMemoryType.loop, hm, if_false] at h
        obtain ⟨h1, h2, h3, h4⟩ := ihok r h
        refine ⟨by omega, by omega, h3, fun j hj1 hj2 => ?_⟩
        by_cases hji : j = i
        · subst hji; exact hm
        · exact h4 j (by omega) hj2
      · simp only [FindMemoryType.loop, hm, if_false] at h
        obtain ⟨h1, h2⟩ := iherr e h
        refine ⟨h1, fun j hj1 hj2 => ?_⟩
        by_cases hji : j = i
        · subst hji; exact hm
        · exact h2 j (by omega) (by omega)

/-! ## Claims on `FindMemoryType` -/

/-- C1: for a memory-type table with `memoryTypeCount <= 32`, every filter and
every property mask, `FindMemoryType` returns an index `i` only if
`i < memoryTypeCount`, bit `i` of the filter is set and
`(memoryTypes[i].propertyFlags & properties) == properties`; it throws
"Failed To Find Suitable Memory Type!" exactly when no such index exists, it
throws nothing else, and it throws for every table when the filter is 0. -/
theorem FindMemoryType_contract (mp : VkPhysicalDeviceMemoryProperties)
    (type_filter properties : Nat) (hwf : mp.WF) :
    (∀ i, FindMemoryType mp type_filter properties = .ok i →
      i < mp.memoryTypeCount ∧ type_filter.testBit i = true ∧
        ((mp.at i).propertyFlags &&& properties) = properties) ∧
    (FindMemoryType mp type_filter properties = .error "Failed To Find Suitable Memory Type!" ↔
      ¬ ∃ i, SuitableMemoryType mp type_filter properties i) ∧
    (∀ e, FindMemoryType mp type_filter properties = .error e →
      e = "Failed To Find Suitable Memory Type!") ∧
    FindMemoryType mp 0 properties = .error "Failed To Find Suitable Memory Type!" := by
  have hcount : mp.memoryTypeCount ≤ 32 := hwf.2
  have key := fun tf => FindMemoryType_loop_spec mp tf properties mp.memoryTypeCount 0
  have hok : ∀ tf i, FindMemoryType mp tf properties = .ok i →
      SuitableMemoryType mp tf properties i := by
    intro tf i h
    obtain ⟨_, h2, h3, _⟩ := (key tf).1 i h
    have hi : i < mp.memoryTypeCount := by omega
    exact ⟨hi, (memoryTypeMatches_iff mp tf properties i (by omega)).1 h3⟩
  have herr : ∀ tf, (¬ ∃ i, SuitableMemoryType mp tf properties i) →
      FindMemoryType mp tf properties = .error "Failed To Find Suitable Memory Type!" := by
    intro tf hno
    cases hres : FindMemoryType mp tf properties with
    | ok r => exact absurd ⟨r, hok tf r hres⟩ hno
    | error e => rw [((key tf).2 e hres).1]
  refine ⟨hok type_filter, ⟨fun h => ?_, herr type_filter⟩, fun e h => ((key _).2 e h).1, ?_⟩
  · rintro ⟨i, hi, hbit, hflags⟩
    have hno := ((key type_filter).2 _ h).2 i (Nat.zero_le _) (by omega)
    exact hno ((memoryTypeMatches_iff mp type_filter properties i (by omega)).2 ⟨hbit, hflags⟩)
  · apply herr 0
    rintro ⟨i, _, hbit, _⟩
    simp at hbit

/-- Witness of C1 on a three-entry table: filter `0b110` with properties `2`
selects index 1, which is suitable. -/
theorem FindMemoryType_contract_witness :
    exampleMemoryProperties.WF ∧ FindMemoryType exampleMemoryProperties 6 2 = .ok 1 ∧
      (1 < exampleMemoryProperties.memoryTypeCount ∧ Nat.testBit 6 1 = true ∧
        ((exampleMemoryProperties.at 1).propertyFlags &&& 2) = 2) :=
  ⟨by decide, by decide,
    (FindMemoryType_contract exampleMemoryProperties 6 2 (by decide)).1 1 (by decide)⟩

/-- C2: whenever `FindMemoryType` returns index `i`, that index qualifies and no
smaller index `j` has bit `j` of the filter set together with property flags
that are a superset of the desired properties: `i` is the least qualifying
index of the table. -/
theorem FindMemoryType_returns_first (mp : VkPhysicalDeviceMemoryProperties)
    (type_filter properties i : Nat) (hwf : mp.WF)
    (hret : FindMemoryType mp type_filter properties = .ok i) :
    SuitableMemoryType mp type_filter properties i ∧
    (∀ j, j < i →
      ¬ (type_filter.testBit j = true ∧
          ((mp.at j).propertyFlags &&& properties) = properties)) ∧
    (∀ j, SuitableMemoryType mp type_filter properties j → i ≤ j) := by
  have hcount : mp.memoryTypeCount ≤ 32 := hwf.2
  obtain ⟨_, h2, h3, h4⟩ :=
    (FindMemoryType_loop_spec mp type_filter properties mp.memoryTypeCount 0).1 i hret
  have hfirst : ∀ j, j < i →
      ¬ (type_filter.testBit j = true ∧
          ((mp.at j).propertyFlags &&& properties) = properties) := by
    intro j hj hq
    exact h4 j (Nat.zero_le _) hj
      ((memoryTypeMatches_iff mp type_filter properties j (by omega)).2 hq)
  refine ⟨⟨by omega, (memoryTypeMatches_iff mp type_filter properties i (by omega)).1 h3⟩,
    hfirst, fun j hj => ?_⟩
  by_contra hlt
  exact hfirst j (by omega) hj.2

/-- Witness of C2: on the three-entry table, filter `0b110` with properties
`8` returns index 2, and index 1 (in the filter) lacks the property. -/
theorem FindMemoryType_returns_first_witness :
    FindMemoryType exampleMemoryProperties 6 8 = .ok 2 ∧
      ∀ j, j < 2 →
        ¬ (Nat.testBit 6 j = true ∧
            ((exampleMemoryProperties.at j).propertyFlags &&& 8) = 8) :=
  ⟨by decide,
    (FindMemoryType_returns_first exampleMemoryProperties 6 8 2 (by decide) (by decide)).2.1⟩

/-! ## Claims on `TransitionImageLayout` -/

/-- C3: for each of the three supported layout pairs `TransitionImageLayout`
records exactly one `vkCmdPipelineBarrier`, carrying exactly one image barrier,
between beginning and ending its one-shot command buffer, with the masks of
the table: UNDEFINED to TRANSFER_DST_OPTIMAL uses source access 0, destination
access TRANSFER_WRITE, stages TOP_OF_PIPE to TRANSFER; TRANSFER_DST_OPTIMAL to
SHADER_READ_ONLY_OPTIMAL uses TRANSFER_WRITE, SHADER_READ, stages TRANSFER to
FRAGMENT_SHADER; UNDEFINED to DEPTH_STENCIL_ATTACHMENT_OPTIMAL uses 0,
DEPTH_STENCIL_ATTACHMENT_READ | DEPTH_STENCIL_ATTACHMENT_WRITE, stages
TOP_OF_PIPE to EARLY_FRAGMENT_TESTS. -/
theorem TransitionImageLayout_supported_masks (app : HelloTriangleApplication)
    (fresh image : Nat) (format : VkFormat) (trace : List VkCall) :
    (TransitionImageLayout app fresh image format
        VK_IMAGE_LAYOUT_UNDEFINED VK_IMAGE_LAYOUT_TRANSFER_DST_OPTIMAL trace).2 =
      trace ++
        [ .vkAllocateCommandBuffers app._vk_logical_device app._vk_command_pool
            VK_COMMAND_BUFFER_LEVEL_PRIMARY 1 fresh,
          .vkBeginCommandBuffer fresh VK_COMMAND_BUFFER_USAGE_ONE_TIME_SUBMIT_BIT,
          .vkCmdPipelineBarrier fresh
            VK_PIPELINE_STAGE_TOP_OF_PIPE_BIT VK_PIPELINE_STAGE_TRANSFER_BIT 0 0 0
            [ { srcAccessMask := 0
                dstAccessMask := VK_ACCESS_TRANSFER_WRITE_BIT
                oldLayout := VK_IMAGE_LAYOUT_UNDEFINED
                newLayout := VK_IMAGE_LAYOUT_TRANSFER_DST_OPTIMAL
                srcQueueFamilyIndex := VK_QUEUE_FAMILY_IGNORED
                dstQueueFamilyIndex := VK_QUEUE_FAMILY_IGNORED
                image := image
                subresourceRange := ⟨VK_IMAGE_ASPECT_COLOR_BIT, 0, 1, 0, 1⟩ } ],
          .vkEndCommandBuffer fresh,
          .vkQueueSubmit app._vk_graphics_queue [fresh] VK_NULL_HANDLE,
          .vkQueueWaitIdle app._vk_graphics_queue,
          .vkFreeCommandBuffers app._vk_logical_device app._vk_command_pool [fresh] ] ∧
    (TransitionImageLayout app fresh image format
        VK_IMAGE_LAYOUT_TRANSFER_DST_OPTIMAL VK_IMAGE_LAYOUT_SHADER_READ_ONLY_OPTIMAL trace).2 =
      trace ++
        [ .vkAllocateCommandBuffers app._vk_logical_device app._vk_command_pool
            VK_COMMAND_BUFFER_LEVEL_PRIMARY 1 fresh,
          .vkBeginCommandBuffer fresh VK_COMMAND_BUFFER_USAGE_ONE_TIME_SUBMIT_BIT,
          .vkCmdPipelineBarrier fresh
            VK_PIPELINE_STAGE_TRANSFER_BIT VK_PIPELINE_STAGE_FRAGMENT_SHADER_BIT 0 0 0
            [ { srcAccessMask := VK_ACCESS_TRANSFER_WRITE_BIT
                dstAccessMask := VK_ACCESS_SHADER_READ_BIT
                oldLayout := VK_IMAGE_LAYOUT_TRANSFER_DST_OPTIMAL
                newLayout := VK_IMAGE_LAYOUT_SHADER_READ_ONLY_OPTIMAL
                srcQueueFamilyIndex := VK_QUEUE_FAMILY_IGNORED
                dstQueueFamilyIndex := VK_QUEUE_FAMILY_IGNORED
                image := image
                subresourceRange := ⟨VK_IMAGE_ASPECT_COLOR_BIT, 0, 1, 0, 1⟩ } ],
          .vkEndCommandBuffer fresh,
          .vkQueueSubmit app._vk_graphics_queue [fresh] VK_NULL_HANDLE,
          .vkQueueWaitIdle app._vk_graphics_queue,
          .vkFreeCommandBuffers app._vk_logical_device app._vk_command_pool [fresh] ] ∧
    (TransitionImageLayout app fresh image format
        VK_IMAGE_LAYOUT_UNDEFINED VK_IMAGE_LAYOUT_DEPTH_STENCIL_ATTACHMENT_OPTIMAL trace).2 =
      trace ++
        [ .vkAllocateCommandBuffers app._vk_logical_device app._vk_command_pool
            VK_COMMAND_BUFFER_LEVEL_PRIMARY 1 fresh,
          .vkBeginCommandBuffer fresh VK_COMMAND_BUFFER_USAGE_ONE_TIME_SUBMIT_BIT,
          .vkCmdPipelineBarrier fresh
            VK_PIPELINE_STAGE_TOP_OF_PIPE_BIT VK_PIPELINE_STAGE_EARLY_FRAGMENT_TESTS_BIT 0 0 0
            [ { srcAccessMask := 0
                dstAccessMask := VK_ACCESS_DEPTH_STENCIL_ATTACHMENT_READ_BIT |||
                  VK_ACCESS_DEPTH_STENCIL_ATTACHMENT_WRITE_BIT
                oldLayout := VK_IMAGE_LAYOUT_UNDEFINED
                newLayout := VK_IMAGE_LAYOUT_DEPTH_STENCIL_ATTACHMENT_OPTIMAL
                srcQueueFamilyIndex := VK_QUEUE_FAMILY_IGNORED
                dstQueueFamilyIndex := VK_QUEUE_FAMILY_IGNORED
                image := image
                subresourceRange :=
                  ⟨if HasStencilComponent format then
                      VK_IMAGE_ASPECT_DEPTH_BIT ||| VK_IMAGE_ASPECT_STENCIL_BIT
                    else VK_IMAGE_ASPECT_DEPTH_BIT, 0, 1, 0, 1⟩ } ],
          .vkEndCommandBuffer fresh,
          .vkQueueSubmit app._vk_graphics_queue [fresh] VK_NULL_HANDLE,
          .vkQueueWaitIdle app._vk_graphics_queue,
          .vkFreeCommandBuffers app._vk_logical_device app._vk_command_pool [fresh] ] := by
  refine ⟨?_, ?_, ?_⟩
  · simp [TransitionImageLayout, TransitionImageLayout.select, TransitionImageLayout.aspectMask,
      StartSingleTimeCommands, EndSingleTimeCommands, VK_IMAGE_LAYOUT_UNDEFINED,
      VK_IMAGE_LAYOUT_TRANSFER_DST_OPTIMAL, VK_IMAGE_LAYOUT_DEPTH_STENCIL_ATTACHMENT_OPTIMAL]
  · simp [TransitionImageLayout, TransitionImageLayout.select, TransitionImageLayout.aspectMask,
      StartSingleTimeCommands, EndSingleTimeCommands, VK_IMAGE_LAYOUT_UNDEFINED,
      VK_IMAGE_LAYOUT_TRANSFER_DST_OPTIMAL, VK_IMAGE_LAYOUT_DEPTH_STENCIL_ATTACHMENT_OPTIMAL,
      VK_IMAGE_LAYOUT_SHADER_READ_ONLY_OPTIMAL]
  · simp [TransitionImageLayout, TransitionImageLayout.select, TransitionImageLayout.aspectMask,
      StartSingleTimeCommands, EndSingleTimeCommands, VK_IMAGE_LAYOUT_UNDEFINED,
      VK_IMAGE_LAYOUT_TRANSFER_DST_OPTIMAL, VK_IMAGE_LAYOUT_DEPTH_STENCIL_ATTACHMENT_OPTIMAL,
      VK_IMAGE_LAYOUT_SHADER_READ_ONLY_OPTIMAL]

/-- C4: for every layout pair outside the three-entry table and every format,
`TransitionImageLayout` throws "Unsupported Layout Transition!" having only
allocated and begun its command buffer: the calls it adds to the trace contain
no `vkCmdPipelineBarrier` and no `vkQueueSubmit`. -/
theorem TransitionImageLayout_unsupported (app : HelloTriangleApplication)
    (fresh image : Nat) (format : VkFormat) (old_layout new_layout : VkImageLayout)
    (trace : List VkCall)
    (hunsupported :
      ¬ ((old_layout = VK_IMAGE_LAYOUT_UNDEFINED ∧
            new_layout = VK_IMAGE_LAYOUT_TRANSFER_DST_OPTIMAL) ∨
          (old_layout = VK_IMAGE_LAYOUT_TRANSFER_DST_OPTIMAL ∧
            new_layout = VK_IMAGE_LAYOUT_SHADER_READ_ONLY_OPTIMAL) ∨
          (old_layout = VK_IMAGE_LAYOUT_UNDEFINED ∧
            new_layout = VK_IMAGE_LAYOUT_DEPTH_STENCIL_ATTACHMENT_OPTIMAL))) :
    (TransitionImageLayout app fresh image format old_layout new_layout trace).1 =
      .error "Unsupported Layout Transition!" ∧
    (∃ recorded,
      (TransitionImageLayout app fresh image format old_layout new_layout trace).2 =
        trace ++ recorded ∧
      ∀ c ∈ recorded, c.isPipelineBarrier = false ∧
        c.isSubmitTo app._vk_graphics_queue = false) ∧
    (TransitionImageLayout app fresh image format
        VK_IMAGE_LAYOUT_UNDEFINED VK_IMAGE_LAYOUT_TRANSFER_DST_OPTIMAL trace).1 = .ok () ∧
    (TransitionImageLayout app fresh image format
        VK_IMAGE_LAYOUT_TRANSFER_DST_OPTIMAL VK_IMAGE_LAYOUT_SHADER_READ_ONLY_OPTIMAL trace).1 =
      .ok () ∧
    (TransitionImageLayout app fresh image format
        VK_IMAGE_LAYOUT_UNDEFINED VK_IMAGE_LAYOUT_DEPTH_STENCIL_ATTACHMENT_OPTIMAL trace).1 =
      .ok () := by
  simp only [not_or] at hunsupported
  obtain ⟨h1, h2, h3⟩ := hunsupported
  refine ⟨?_,
    ⟨[ .vkAllocateCommandBuffers app._vk_logical_device app._vk_command_pool
          VK_COMMAND_BUFFER_LEVEL_PRIMARY 1 fresh,
       .vkBeginCommandBuffer fresh VK_COMMAND_BUFFER_USAGE_ONE_TIME_SUBMIT_BIT ], ?_, ?_⟩,
    ?_, ?_, ?_⟩
  · simp [TransitionImageLayout, TransitionImageLayout.select, h1, h2, h3]
  · simp [TransitionImageLayout, TransitionImageLayout.select, h1, h2, h3,
      StartSingleTimeCommands]
  · intro c hc
    simp only [List.mem_cons, List.mem_singleton, List.not_mem_nil, or_false] at hc
    rcases hc with rfl | rfl <;> exact ⟨rfl, rfl⟩
  · simp [TransitionImageLayout, TransitionImageLayout.select]
  · simp [TransitionImageLayout, TransitionImageLayout.select, VK_IMAGE_LAYOUT_UNDEFINED,
      VK_IMAGE_LAYOUT_TRANSFER_DST_OPTIMAL, VK_IMAGE_LAYOUT_SHADER_READ_ONLY_OPTIMAL]
  · simp [TransitionImageLayout, TransitionImageLayout.select, VK_IMAGE_LAYOUT_UNDEFINED,
      VK_IMAGE_LAYOUT_TRANSFER_DST_OPTIMAL, VK_IMAGE_LAYOUT_DEPTH_STENCIL_ATTACHMENT_OPTIMAL]

/-- Witness of C4: TRANSFER_DST_OPTIMAL back to UNDEFINED is outside the table. -/
theorem TransitionImageLayout_unsupported_witness :
    (TransitionImageLayout ⟨1, 2, 3⟩ 9 5 VK_FORMAT_B8G8R8A8_UNORM
        VK_IMAGE_LAYOUT_TRANSFER_DST_OPTIMAL VK_IMAGE_LAYOUT_UNDEFINED []).1 =
      .error "Unsupported Layout Transition!" :=
  (TransitionImageLayout_unsupported ⟨1, 2, 3⟩ 9 5 VK_FORMAT_B8G8R8A8_UNORM
    VK_IMAGE_LAYOUT_TRANSFER_DST_OPTIMAL VK_IMAGE_LAYOUT_UNDEFINED [] (by decide)).1

/-! ## Claims on the swapchain parameters -/

theorem ChooseSwapSurfaceFormat_isSome (available_formats : List VkSurfaceFormatKHR)
    (hne : available_formats ≠ []) :
    ∃ surface_format, ChooseSwapSurfaceFormat available_formats = some surface_format := by
  cases available_formats with
  | nil => exact absurd rfl hne
  | cons first rest =>
    simp only [ChooseSwapSurfaceFormat]
    split_ifs
    · exact ⟨_, rfl⟩
    · exact ⟨_, rfl⟩

theorem clamp_mem_interval (v lo hi : Nat) (hle : lo ≤ hi) :
    lo ≤ clamp v lo hi ∧ clamp v lo hi ≤ hi ∧ (lo ≤ v → v ≤ hi → clamp v lo hi = v) := by
  unfold clamp
  split_ifs <;> omega

theorem CreateSwapChain_image_count_eq_spec (capabilities : VkSurfaceCapabilitiesKHR)
    (hmin : capabilities.minImageCount < UINT32_MAX) :
    CreateSwapChain.image_count capabilities =
      specImageCount capabilities.minImageCount capabilities.maxImageCount := by
  have hlt : capabilities.minImageCount + 1 < 2 ^ 32 := by
    unfold UINT32_MAX at hmin; omega
  unfold CreateSwapChain.image_count specImageCount clamp u32
  rw [Nat.mod_eq_of_lt hlt]
  by_cases hmax : capabilities.maxImageCount = 0
  · simp [hmax]
  · have hpos : capabilities.maxImageCount > 0 := Nat.pos_of_ne_zero hmax
    simp only [hmax, hpos, true_and, if_false]
    have : ¬ capabilities.minImageCount + 1 < capabilities.minImageCount := by omega
    simp only [this, if_false]

/-- The `minImageCount` member of the request is the image count. -/
theorem CreateSwapChain_create_info_fields (surface : Nat) (swap_details : SwapChainSupport)
    (width height : Int) (queue_families : QueueFamilies) (old : Nat)
    (surface_format : VkSurfaceFormatKHR)
    (hsf : ChooseSwapSurfaceFormat swap_details._formats = some surface_format) :
    ∃ create_info,
      CreateSwapChain.create_info surface swap_details width height queue_families old =
        some create_info ∧
      create_info.minImageCount = CreateSwapChain.image_count swap_details._capabilities ∧
      create_info.imageSharingMode =
        (if queue_families._graphics_family ≠ queue_families._present_family then
          VK_SHARING_MODE_CONCURRENT else VK_SHARING_MODE_EXCLUSIVE) ∧
      create_info.queueFamilyIndexCount =
        (if queue_families._graphics_family ≠ queue_families._present_family then 2 else 0) ∧
      create_info.pQueueFamilyIndices =
        (if queue_families._graphics_family ≠ queue_families._present_family then
          .dangling [castU32 queue_families._graphics_family,
            castU32 queue_families._present_family]
        else .null) := by
  simp only [CreateSwapChain.create_info, hsf]
  refine ⟨_, rfl, ?_⟩
  by_cases hq : queue_families._graphics_family = queue_families._present_family
  · simp [hq]
  · simp [hq]

/-- C5 (fails as stated): at `minImageCount = 2^32 - 1` with `maxImageCount = 0`
the `uint32_t` addition wraps, `CreateSwapChain` requests 0 images, which is
neither `clamp(min+1, min, max)` nor at least `minImageCount`. -/
theorem CreateSwapChain_image_count_wraps :
    CreateSwapChain.image_count
        { minImageCount := 2 ^ 32 - 1, maxImageCount := 0, currentExtent := ⟨100, 100⟩,
          minImageExtent := ⟨1, 1⟩, maxImageExtent := ⟨4096, 4096⟩, currentTransform := 1 } = 0 ∧
    specImageCount (2 ^ 32 - 1) 0 = 2 ^ 32 ∧
    ¬ (CreateSwapChain.image_count
        { minImageCount := 2 ^ 32 - 1, maxImageCount := 0, currentExtent := ⟨100, 100⟩,
          minImageExtent := ⟨1, 1⟩, maxImageExtent := ⟨4096, 4096⟩, currentTransform := 1 } =
      specImageCount (2 ^ 32 - 1) 0) ∧
    (CreateSwapChain.create_info 7
        { _capabilities :=
            { minImageCount := 2 ^ 32 - 1, maxImageCount := 0, currentExtent := ⟨100, 100⟩,
              minImageExtent := ⟨1, 1⟩, maxImageExtent := ⟨4096, 4096⟩, currentTransform := 1 }
          _formats := [⟨VK_FORMAT_B8G8R8A8_UNORM, VK_COLOR_SPACE_SRGB_NONLINEAR_KHR⟩]
          _present_modes := [VK_PRESENT_MODE_FIFO_KHR] }
        800 600 ⟨0, 0⟩ VK_NULL_HANDLE).map (fun create_info => create_info.minImageCount) =
      some 0 := by
  refine ⟨by decide, by decide, by decide, by decide⟩

/-- C5 (amended): for every `minImageCount` below `2^32 - 1` and every
`maxImageCount`, with a non-empty format list, the `minImageCount` that
`CreateSwapChain` puts into its request equals `clamp(min+1, min, max)`, where
`max = 0` means that there is no upper bound: it is `min + 1` when `max = 0`,
it lies between `min` and `max` when `0 < max` and `min <= max`, and at
`min = max = 2` it is 2. -/
theorem CreateSwapChain_image_count_clamped (surface : Nat) (swap_details : SwapChainSupport)
    (width height : Int) (queue_families : QueueFamilies) (old : Nat)
    (hformats : swap_details._formats ≠ [])
    (hmin : swap_details._capabilities.minImageCount < UINT32_MAX) :
    ∃ create_info,
      CreateSwapChain.create_info surface swap_details width height queue_families old =
        some create_info ∧
      create_info.minImageCount =
        specImageCount swap_details._capabilities.minImageCount
          swap_details._capabilities.maxImageCount ∧
      (swap_details._capabilities.maxImageCount = 0 →
        create_info.minImageCount = swap_details._capabilities.minImageCount + 1) ∧
      (swap_details._capabilities.maxImageCount ≠ 0 →
        swap_details._capabilities.minImageCount ≤ swap_details._capabilities.maxImageCount →
        swap_details._capabilities.minImageCount ≤ create_info.minImageCount ∧
        create_info.minImageCount ≤ swap_details._capabilities.maxImageCount ∧
        (swap_details._capabilities.minImageCount + 1 ≤
            swap_details._capabilities.maxImageCount →
          create_info.minImageCount = swap_details._capabilities.minImageCount + 1)) ∧
      (swap_details._capabilities.minImageCount = 2 →
        swap_details._capabilities.maxImageCount = 2 → create_info.minImageCount = 2) := by
  obtain ⟨surface_format, hsf⟩ := ChooseSwapSurfaceFormat_isSome _ hformats
  obtain ⟨create_info, hci, hcount, -⟩ :=
    CreateSwapChain_create_info_fields surface swap_details width height queue_families old
      surface_format hsf
  have heq := CreateSwapChain_image_count_eq_spec swap_details._capabilities hmin
  have hspec := hcount.trans heq
  refine ⟨create_info, hci, hspec, fun h0 => ?_, fun hne hle => ?_, fun h2 h2m => ?_⟩
  · rw [hspec, specImageCount, if_pos h0]
    exact Nat.max_eq_left (Nat.le_succ _)
  · rw [hspec, specImageCount, if_neg hne]
    obtain ⟨_, hhi, hmid⟩ := clamp_mem_interval
      (swap_details._capabilities.minImageCount + 1)
      swap_details._capabilities.minImageCount swap_details._capabilities.maxImageCount hle
    refine ⟨?_, hhi, fun h => hmid (Nat.le_succ _) h⟩
    unfold clamp
    split_ifs <;> omega
  · rw [hspec, h2, h2m]
    decide

/-- Witness of C5 (amended) on the 2-image surface: the request asks for 2. -/
theorem CreateSwapChain_image_count_clamped_witness :
    ∃ create_info,
      CreateSwapChain.create_info 7 exampleSwapChainSupport 800 600 ⟨0, 0⟩ VK_NULL_HANDLE =
        some create_info ∧
      create_info.minImageCount = 2 :=
  let ⟨create_info, hci, _, _, _, htwo⟩ :=
    CreateSwapChain_image_count_clamped 7 exampleSwapChainSupport 800 600 ⟨0, 0⟩ VK_NULL_HANDLE
      (by decide) (by decide)
  ⟨create_info, hci, htwo rfl rfl⟩

theorem surfaceFormat_eq_preferred_iff (format : VkSurfaceFormatKHR) :
    (format.format = VK_FORMAT_B8G8R8A8_UNORM ∧
        format.colorSpace = VK_COLORSPACE_SRGB_NONLINEAR_KHR) ↔
      format = ⟨VK_FORMAT_B8G8R8A8_UNORM, VK_COLOR_SPACE_SRGB_NONLINEAR_KHR⟩ := by
  cases format with
  | mk f c =>
    simp only [VkSurfaceFormatKHR.mk.injEq]
    exact Iff.rfl

theorem ChooseSwapSurfaceFormat_loop_eq (available_formats : List VkSurfaceFormatKHR) :
    ∀ ret_val, ChooseSwapSurfaceFormat.loop ret_val available_formats =
      if (⟨VK_FORMAT_B8G8R8A8_UNORM, VK_COLOR_SPACE_SRGB_NONLINEAR_KHR⟩ : VkSurfaceFormatKHR) ∈
          available_formats then
        ⟨VK_FORMAT_B8G8R8A8_UNORM, VK_COLOR_SPACE_SRGB_NONLINEAR_KHR⟩
      else ret_val := by
  induction available_formats with
  | nil => intro ret_val; simp [ChooseSwapSurfaceFormat.loop]
  | cons format rest ih =>
    intro ret_val
    unfold ChooseSwapSurfaceFormat.loop
    by_cases hp : format.format = VK_FORMAT_B8G8R8A8_UNORM ∧
        format.colorSpace = VK_COLORSPACE_SRGB_NONLINEAR_KHR
    · have hf := (surfaceFormat_eq_preferred_iff format).1 hp
      rw [if_pos hp, ih, hf]
      simp
    · have hf : ¬ format = ⟨VK_FORMAT_B8G8R8A8_UNORM, VK_COLOR_SPACE_SRGB_NONLINEAR_KHR⟩ :=
        fun h => hp ((surfaceFormat_eq_preferred_iff format).2 h)
      rw [if_neg hp, ih]
      have hne : ¬ (⟨VK_FORMAT_B8G8R8A8_UNORM, VK_COLOR_SPACE_SRGB_NONLINEAR_KHR⟩ :
          VkSurfaceFormatKHR) = format := fun h => hf h.symm
      simp [List.mem_cons, hne]

/-- C6: for every non-empty list of surface formats `ChooseSwapSurfaceFormat`
returns: the pair (B8G8R8A8_UNORM, SRGB_NONLINEAR) when the list is a single
entry whose format is UNDEFINED, whatever its colour space; otherwise that
pair when the list contains it anywhere; otherwise the first listed format. -/
theorem ChooseSwapSurfaceFormat_reference (available_formats : List VkSurfaceFormatKHR)
    (hne : available_formats ≠ []) :
    ∃ ret_val, ChooseSwapSurfaceFormat available_formats = some ret_val ∧
      ((available_formats.length = 1 ∧
          (available_formats.head hne).format = VK_FORMAT_UNDEFINED) →
        ret_val = ⟨VK_FORMAT_B8G8R8A8_UNORM, VK_COLOR_SPACE_SRGB_NONLINEAR_KHR⟩) ∧
      (¬ (available_formats.length = 1 ∧
          (available_formats.head hne).format = VK_FORMAT_UNDEFINED) →
        (⟨VK_FORMAT_B8G8R8A8_UNORM, VK_COLOR_SPACE_SRGB_NONLINEAR_KHR⟩ : VkSurfaceFormatKHR) ∈
          available_formats →
        ret_val = ⟨VK_FORMAT_B8G8R8A8_UNORM, VK_COLOR_SPACE_SRGB_NONLINEAR_KHR⟩) ∧
      (¬ (available_formats.length = 1 ∧
          (available_formats.head hne).format = VK_FORMAT_UNDEFINED) →
        (⟨VK_FORMAT_B8G8R8A8_UNORM, VK_COLOR_SPACE_SRGB_NONLINEAR_KHR⟩ : VkSurfaceFormatKHR) ∉
          available_formats →
        ret_val = available_formats.head hne) := by
  cases available_formats with
  | nil => exact absurd rfl hne
  | cons first rest =>
    simp only [ChooseSwapSurfaceFormat, List.head_cons]
    by_cases hc : (first :: rest).length = 1 ∧ first.format = VK_FORMAT_UNDEFINED
    · rw [if_pos hc]
      exact ⟨_, rfl, fun _ => rfl, fun h => absurd hc h, fun h => absurd hc h⟩
    · rw [if_neg hc]
      refine ⟨_, rfl, fun h => absurd h hc, fun _ hmem => ?_, fun _ hmem => ?_⟩
      · rw [ChooseSwapSurfaceFormat_loop_eq, if_pos hmem]
      · rw [ChooseSwapSurfaceFormat_loop_eq, if_neg hmem]

/-- Witness of C6: the preferred pair listed second is chosen over the first,
and a lone UNDEFINED entry with another colour space gives the preferred pair. -/
theorem ChooseSwapSurfaceFormat_reference_witness :
    ChooseSwapSurfaceFormat
        [⟨37, 0⟩, ⟨VK_FORMAT_B8G8R8A8_UNORM, VK_COLOR_SPACE_SRGB_NONLINEAR_KHR⟩] =
      some ⟨VK_FORMAT_B8G8R8A8_UNORM, VK_COLOR_SPACE_SRGB_NONLINEAR_KHR⟩ ∧
    ChooseSwapSurfaceFormat [⟨VK_FORMAT_UNDEFINED, 5⟩] =
      some ⟨VK_FORMAT_B8G8R8A8_UNORM, VK_COLOR_SPACE_SRGB_NONLINEAR_KHR⟩ := by
  constructor
  · obtain ⟨_, hret, _, hmem, _⟩ :=
      ChooseSwapSurfaceFormat_reference
        [⟨37, 0⟩, ⟨VK_FORMAT_B8G8R8A8_UNORM, VK_COLOR_SPACE_SRGB_NONLINEAR_KHR⟩] (by decide)
    exact (hmem (by decide) (by decide)) ▸ hret
  · obtain ⟨_, hret, hsingle, _⟩ :=
      ChooseSwapSurfaceFormat_reference [⟨VK_FORMAT_UNDEFINED, 5⟩] (by decide)
    exact (hsingle (by decide)) ▸ hret

theorem ChooseSwapPresentMode_loop_eq (available_modes : List VkPresentModeKHR) :
    ∀ ret_val, ChooseSwapPresentMode.loop ret_val available_modes =
      if VK_PRESENT_MODE_MAILBOX_KHR ∈ available_modes then VK_PRESENT_MODE_MAILBOX_KHR
      else if VK_PRESENT_MODE_IMMEDIATE_KHR ∈ available_modes then VK_PRESENT_MODE_IMMEDIATE_KHR
      else ret_val := by
  induction available_modes with
  | nil => intro ret_val; simp [ChooseSwapPresentMode.loop]
  | cons mode rest ih =>
    intro ret_val
    unfold ChooseSwapPresentMode.loop
    by_cases hm : mode = VK_PRESENT_MODE_MAILBOX_KHR
    · simp [hm]
    · have hm2 : ¬ VK_PRESENT_MODE_MAILBOX_KHR = mode := fun h => hm h.symm
      rw [if_neg hm]
      by_cases hi : mode = VK_PRESENT_MODE_IMMEDIATE_KHR
      · subst hi
        have hne : ¬ VK_PRESENT_MODE_MAILBOX_KHR = VK_PRESENT_MODE_IMMEDIATE_KHR := by decide
        rw [if_pos rfl, ih]
        simp only [List.mem_cons, hne, false_or, true_or, if_true]
        split_ifs <;> rfl
      · have hi2 : ¬ VK_PRESENT_MODE_IMMEDIATE_KHR = mode := fun h => hi h.symm
        rw [if_neg hi, ih]
        simp only [List.mem_cons, hm2, false_or, hi2]

/-- C7: for every list of present modes, in any order and also when empty,
`ChooseSwapPresentMode` returns MAILBOX if MAILBOX occurs in the list,
otherwise IMMEDIATE if IMMEDIATE occurs, otherwise FIFO. So
`[FIFO, MAILBOX]` gives MAILBOX, `[FIFO]` gives FIFO, `[FIFO, IMMEDIATE]`
gives IMMEDIATE, and an IMMEDIATE before a later MAILBOX does not win. -/
theorem ChooseSwapPresentMode_priority (available_modes : List VkPresentModeKHR) :
    ChooseSwapPresentMode available_modes =
      (if VK_PRESENT_MODE_MAILBOX_KHR ∈ available_modes then VK_PRESENT_MODE_MAILBOX_KHR
       else if VK_PRESENT_MODE_IMMEDIATE_KHR ∈ available_modes then
         VK_PRESENT_MODE_IMMEDIATE_KHR
       else VK_PRESENT_MODE_FIFO_KHR) ∧
    ChooseSwapPresentMode [VK_PRESENT_MODE_FIFO_KHR, VK_PRESENT_MODE_MAILBOX_KHR] =
      VK_PRESENT_MODE_MAILBOX_KHR ∧
    ChooseSwapPresentMode [VK_PRESENT_MODE_FIFO_KHR] = VK_PRESENT_MODE_FIFO_KHR ∧
    ChooseSwapPresentMode [] = VK_PRESENT_MODE_FIFO_KHR ∧
    ChooseSwapPresentMode [VK_PRESENT_MODE_FIFO_KHR, VK_PRESENT_MODE_IMMEDIATE_KHR] =
      VK_PRESENT_MODE_IMMEDIATE_KHR ∧
    ChooseSwapPresentMode
        [VK_PRESENT_MODE_IMMEDIATE_KHR, VK_PRESENT_MODE_FIFO_KHR, VK_PRESENT_MODE_MAILBOX_KHR] =
      VK_PRESENT_MODE_MAILBOX_KHR :=
  ⟨ChooseSwapPresentMode_loop_eq available_modes _, by decide, by decide, by decide,
    by decide, by decide⟩

theorem castU32_natCast (n : Nat) (hn : n < 2 ^ 32) : castU32 (n : Int) = n := by
  unfold castU32
  have h : ((n : Int) % 2 ^ 32) = (n : Int) :=
    Int.emod_eq_of_lt (Int.natCast_nonneg n) (by exact_mod_cast hn)
  rw [h, Int.toNat_natCast]

/-- C8: for every surface capability record and window size: when
`currentExtent.width` is the sentinel `2^32 - 1`, `ChooseSwapExtent` returns
the window size (as `uint32_t`) with the width clamped by
`minImageExtent.width` and `maxImageExtent.width` and the height clamped by the
corresponding heights, each lying inside its interval when the interval is not
empty; otherwise it returns `currentExtent` unchanged. A window size in the
non-negative `int` range is its own `uint32_t` value. -/
theorem ChooseSwapExtent_contract (capabilities : VkSurfaceCapabilitiesKHR)
    (width height : Int) :
    (capabilities.currentExtent.width = UINT32_MAX →
      ChooseSwapExtent capabilities width height =
        { width := clamp (castU32 width) capabilities.minImageExtent.width
            capabilities.maxImageExtent.width
          height := clamp (castU32 height) capabilities.minImageExtent.height
            capabilities.maxImageExtent.height } ∧
      (capabilities.minImageExtent.width ≤ capabilities.maxImageExtent.width →
        capabilities.minImageExtent.width ≤ (ChooseSwapExtent capabilities width height).width ∧
        (ChooseSwapExtent capabilities width height).width ≤ capabilities.maxImageExtent.width ∧
        (capabilities.minImageExtent.width ≤ castU32 width →
          castU32 width ≤ capabilities.maxImageExtent.width →
          (ChooseSwapExtent capabilities width height).width = castU32 width)) ∧
      (capabilities.minImageExtent.height ≤ capabilities.maxImageExtent.height →
        capabilities.minImageExtent.height ≤ (ChooseSwapExtent capabilities width height).height ∧
        (ChooseSwapExtent capabilities width height).height ≤
          capabilities.maxImageExtent.height ∧
        (capabilities.minImageExtent.height ≤ castU32 height →
          castU32 height ≤ capabilities.maxImageExtent.height →
          (ChooseSwapExtent capabilities width height).height = castU32 height))) ∧
    (capabilities.currentExtent.width ≠ UINT32_MAX →
      ChooseSwapExtent capabilities width height = capabilities.currentExtent) ∧
    (∀ n : Nat, n < 2 ^ 31 → castU32 (n : Int) = n) := by
  have hsent : capabilities.currentExtent.width = UINT32_MAX →
      ChooseSwapExtent capabilities width height =
        { width := clamp (castU32 width) capabilities.minImageExtent.width
            capabilities.maxImageExtent.width
          height := clamp (castU32 height) capabilities.minImageExtent.height
            capabilities.maxImageExtent.height } := by
    intro h
    simp only [ChooseSwapExtent, h, if_true, clamp, gt_iff_lt]
    split_ifs <;> rfl
  refine ⟨fun h => ⟨hsent h, fun hw => ?_, fun hh => ?_⟩, fun h => ?_, fun n hn => ?_⟩
  · rw [hsent h]
    exact clamp_mem_interval _ _ _ hw
  · rw [hsent h]
    exact clamp_mem_interval _ _ _ hh
  · simp only [ChooseSwapExtent, h, if_false]
  · exact castU32_natCast n (by omega)

/-- Witness of C8: an unconstrained surface with limits 200..1000 by 100..500
and a 1280x50 window gives 1000x100. -/
theorem ChooseSwapExtent_contract_witness :
    ChooseSwapExtent
        { minImageCount := 2, maxImageCount := 3, currentExtent := ⟨UINT32_MAX, UINT32_MAX⟩,
          minImageExtent := ⟨200, 100⟩, maxImageExtent := ⟨1000, 500⟩, currentTransform := 1 }
        1280 50 = ⟨1000, 100⟩ :=
  ((ChooseSwapExtent_contract
      { minImageCount := 2, maxImageCount := 3, currentExtent := ⟨UINT32_MAX, UINT32_MAX⟩,
        minImageExtent := ⟨200, 100⟩, maxImageExtent := ⟨1000, 500⟩, currentTransform := 1 }
      1280 50).1 rfl).1.trans (by decide)

/-- C9 (the code departs from the claim): for every pair of queue family
indices (and a non-empty format list, so that the request is built), the
request of `CreateSwapChain` has sharing mode CONCURRENT if and only if the
graphics family differs from the present family, and EXCLUSIVE otherwise, with
`queueFamilyIndexCount` 2 and 0. But for different families the two indices
are not listed for the driver: `pQueueFamilyIndices` points to the array
`indices`, which held graphics, present and whose lifetime has ended when
`vkCreateSwapchainKHR` is called, so what the driver reads through it is not
determined. -/
theorem CreateSwapChain_sharing_mode (surface : Nat) (swap_details : SwapChainSupport)
    (width height : Int) (queue_families : QueueFamilies) (old : Nat)
    (hformats : swap_details._formats ≠ []) :
    ∃ create_info,
      CreateSwapChain.create_info surface swap_details width height queue_families old =
        some create_info ∧
      (create_info.imageSharingMode = VK_SHARING_MODE_CONCURRENT ↔
        queue_families._graphics_family ≠ queue_families._present_family) ∧
      (create_info.imageSharingMode = VK_SHARING_MODE_EXCLUSIVE ↔
        queue_families._graphics_family = queue_families._present_family) ∧
      (queue_families._graphics_family ≠ queue_families._present_family →
        create_info.queueFamilyIndexCount = 2 ∧
        create_info.pQueueFamilyIndices =
          .dangling [castU32 queue_families._graphics_family,
            castU32 queue_families._present_family] ∧
        create_info.pQueueFamilyIndices.read = none ∧
        create_info.pQueueFamilyIndices.read ≠
          some [castU32 queue_families._graphics_family,
            castU32 queue_families._present_family]) ∧
      (queue_families._graphics_family = queue_families._present_family →
        create_info.queueFamilyIndexCount = 0 ∧ create_info.pQueueFamilyIndices = .null) ∧
      (∀ graphics present : Nat, graphics < 2 ^ 31 → present < 2 ^ 31 →
        queue_families = ⟨graphics, present⟩ → graphics ≠ present →
        create_info.pQueueFamilyIndices = .dangling [graphics, present]) := by
  obtain ⟨surface_format, hsf⟩ := ChooseSwapSurfaceFormat_isSome _ hformats
  obtain ⟨create_info, hci, -, hmode, hcount, hidx⟩ :=
    CreateSwapChain_create_info_fields surface swap_details width height queue_families old
      surface_format hsf
  refine ⟨create_info, hci, ?_, ?_, ?_, ?_, ?_⟩
  · rw [hmode]
    by_cases hq : queue_families._graphics_family = queue_families._present_family
    · simp [hq, VK_SHARING_MODE_CONCURRENT, VK_SHARING_MODE_EXCLUSIVE]
    · simp [hq]
  · rw [hmode]
    by_cases hq : queue_families._graphics_family = queue_families._present_family
    · simp [hq]
    · simp [hq, VK_SHARING_MODE_CONCURRENT, VK_SHARING_MODE_EXCLUSIVE]
  · intro hq
    rw [hcount, hidx, if_pos hq, if_pos hq]
    exact ⟨rfl, rfl, rfl, fun h => by cases h⟩
  · intro hq
    have hq2 : ¬ queue_families._graphics_family ≠ queue_families._present_family :=
      fun h => h hq
    rw [hcount, hidx, if_neg hq2, if_neg hq2]
    exact ⟨rfl, rfl⟩
  · intro graphics present hg hp hqf hne
    subst hqf
    have hq : (graphics : Int) ≠ (present : Int) := by exact_mod_cast hne
    rw [hidx, if_pos hq, castU32_natCast graphics (by omega),
      castU32_natCast present (by omega)]

/-- Witness of C9: graphics family 0 and present family 2 give CONCURRENT with
count 2 and a dangling pointer to the array that held 0 and 2. -/
theorem CreateSwapChain_sharing_mode_witness :
    ∃ create_info,
      CreateSwapChain.create_info 7 exampleSwapChainSupport 800 600 ⟨0, 2⟩ VK_NULL_HANDLE =
        some create_info ∧
      create_info.imageSharingMode = VK_SHARING_MODE_CONCURRENT ∧
      create_info.queueFamilyIndexCount = 2 ∧
      create_info.pQueueFamilyIndices = .dangling [0, 2] ∧
      create_info.pQueueFamilyIndices.read = none := by
  obtain ⟨create_info, hci, hconc, _, hdiffer, _, hidx⟩ :=
    CreateSwapChain_sharing_mode 7 exampleSwapChainSupport 800 600 ⟨0, 2⟩ VK_NULL_HANDLE
      (by decide)
  exact ⟨create_info, hci, hconc.2 (by decide), (hdiffer (by decide)).1,
    hidx 0 2 (by decide) (by decide) rfl (by decide), (hdiffer (by decide)).2.2.1⟩

/-! ## Claims on the depth format -/

/-- C10 (the code departs from the claim): on an adapter where D32_SFLOAT and
D32_SFLOAT_S8_UINT lack the depth-stencil-attachment feature and
D24_UNORM_S8_UINT has it, the first qualifying format of the preference order
is D24_UNORM_S8_UINT, but `FindDepthFormat` throws
"Failed To Find Supported Format!" after probing D32_SFLOAT alone. -/
theorem FindDepthFormat_throws_despite_supported_D24 :
    FindDepthFormat d24OnlyFormatProperties =
      some (.error "Failed To Find Supported Format!") ∧
    specFindSupportedFormat d24OnlyFormatProperties VK_IMAGE_TILING_OPTIMAL
        VK_FORMAT_FEATURE_DEPTH_STENCIL_ATTACHMENT_BIT
        [VK_FORMAT_D32_SFLOAT, VK_FORMAT_D32_SFLOAT_S8_UINT, VK_FORMAT_D24_UNORM_S8_UINT] =
      .ok VK_FORMAT_D24_UNORM_S8_UINT ∧
    ((d24OnlyFormatProperties VK_FORMAT_D24_UNORM_S8_UINT).optimalTilingFeatures &&&
        VK_FORMAT_FEATURE_DEPTH_STENCIL_ATTACHMENT_BIT) =
      VK_FORMAT_FEATURE_DEPTH_STENCIL_ATTACHMENT_BIT := by
  refine ⟨by decide, by decide, by decide⟩

/-! ## Claims on adapter and queue family selection -/

/-- C11: for every enumerated list of adapters `SelectPhysicalDevice` throws
"No Vulkan GPUs Available!" when the list is empty, throws
"Failed To Find Suitable Device!" when the list is not empty and no adapter
passes `TestPhysicalDevice`, and otherwise selects the adapter that passes and
is preceded in enumeration order only by adapters that do not pass. -/
theorem SelectPhysicalDevice_first_qualifying (info : Nat → PhysicalDeviceInfo)
    (devices : List Nat) :
    (devices = [] → SelectPhysicalDevice info devices = .error "No Vulkan GPUs Available!") ∧
    (devices ≠ [] → (∀ device ∈ devices, TestPhysicalDevice (info device) = false) →
      SelectPhysicalDevice info devices = .error "Failed To Find Suitable Device!") ∧
    (∀ earlier device later, devices = earlier ++ device :: later →
      (∀ other ∈ earlier, TestPhysicalDevice (info other) = false) →
      TestPhysicalDevice (info device) = true →
      SelectPhysicalDevice info devices = .ok device) := by
  refine ⟨fun h => ?_, fun hne hall => ?_, fun earlier device later hsplit hearlier hdev => ?_⟩
  · subst h
    rfl
  · have hlen : ¬ devices.length = 0 := fun h => hne (List.length_eq_zero.1 h)
    have hfilter : devices.filter (fun device => TestPhysicalDevice (info device)) = [] := by
      rw [List.filter_eq_nil_iff]
      intro device hmem
      simp [hall device hmem]
    simp only [SelectPhysicalDevice, hlen, if_false, hfilter]
  · have hlen : ¬ devices.length = 0 := by
      rw [hsplit]
      simp
    have hpre : earlier.filter (fun device => TestPhysicalDevice (info device)) = [] := by
      rw [List.filter_eq_nil_iff]
      intro other hmem
      simp [hearlier other hmem]
    have hfilter : devices.filter (fun device => TestPhysicalDevice (info device)) =
        device :: later.filter (fun device => TestPhysicalDevice (info device)) := by
      rw [hsplit, List.filter_append, hpre, List.nil_append, List.filter_cons_of_pos]
      exact hdev
    simp only [SelectPhysicalDevice, hlen, if_false, hfilter]

theorem strncmp_eq_zero_length_iff (s1 : List Char) :
    ∀ s2, strncmp_eq_zero s1 s2 s1.length = true ↔ ∃ rest, s2 = s1 ++ rest := by
  induction s1 with
  | nil => intro s2; simp [strncmp_eq_zero]
  | cons a s1 ih =>
    intro s2
    cases s2 with
    | nil => simp [strncmp_eq_zero]
    | cons b s2 =>
      simp only [List.length_cons, strncmp_eq_zero, Bool.and_eq_true, beq_iff_eq, ih,
        List.cons_append, List.cons.injEq]
      constructor
      · rintro ⟨rfl, rest, rfl⟩
        exact ⟨rest, rfl, rfl⟩
      · rintro ⟨rest, rfl, rfl⟩
        exact ⟨rfl, rest, rfl⟩

/-- What `TestPhysicalDevice` accepts: an adapter one of whose extension names
is an initial segment of "VK_KHR_swapchain" (the whole name included), with at
least one surface format, one present mode and `samplerAnisotropy` set. -/
theorem TestPhysicalDevice_iff (device : PhysicalDeviceInfo) :
    TestPhysicalDevice device = true ↔
      (∃ extensionName ∈ device.extensions,
        ∃ rest, VK_KHR_SWAPCHAIN_EXTENSION_NAME = extensionName ++ rest) ∧
      device.swap_chain_support._formats ≠ [] ∧
      device.swap_chain_support._present_modes ≠ [] ∧
      device.samplerAnisotropy ≠ 0 := by
  have hext : CheckExtensions device = true ↔
      ∃ extensionName ∈ device.extensions,
        ∃ rest, VK_KHR_SWAPCHAIN_EXTENSION_NAME = extensionName ++ rest := by
    simp only [CheckExtensions, DEVICE_EXTENSIONS, List.all_cons, List.all_nil, Bool.and_true,
      List.any_eq_true, strncmp_eq_zero_length_iff]
  unfold TestPhysicalDevice
  by_cases hc : CheckExtensions device = true
  · rw [if_pos hc]
    simp only [Bool.and_eq_true, Bool.not_eq_true', List.isEmpty_eq_false, bne_iff_ne, ne_eq]
    constructor
    · rintro ⟨⟨h1, h2⟩, h3⟩
      exact ⟨hext.1 hc, h1, h2, h3⟩
    · rintro ⟨_, h1, h2, h3⟩
      exact ⟨⟨h1, h2⟩, h3⟩
  · rw [if_neg hc]
    constructor
    · intro h
      exact absurd h (by decide)
    · rintro ⟨h, _⟩
      exact absurd (hext.2 h) hc

/-- C12 (the code departs from the claim): an adapter whose only extension
name is the empty string, and one whose only extension name is "VK_KHR", a
proper initial segment of "VK_KHR_swapchain", both pass `TestPhysicalDevice`
when they report a format, a present mode and anisotropic sampling, although
neither lists the name "VK_KHR_swapchain". -/
theorem TestPhysicalDevice_accepts_name_fragments :
    TestPhysicalDevice
        { extensions := [[]]
          samplerAnisotropy := VK_TRUE
          swap_chain_support := exampleSwapChainSupport
          queue_families := [⟨VK_QUEUE_GRAPHICS_BIT, 1⟩]
          present_support := fun _ => VK_TRUE } = true ∧
    TestPhysicalDevice
        { extensions := [['V', 'K', '_', 'K', 'H', 'R']]
          samplerAnisotropy := VK_TRUE
          swap_chain_support := exampleSwapChainSupport
          queue_families := [⟨VK_QUEUE_GRAPHICS_BIT, 1⟩]
          present_support := fun _ => VK_TRUE } = true ∧
    VK_KHR_SWAPCHAIN_EXTENSION_NAME ∉ [([] : List Char)] ∧
    VK_KHR_SWAPCHAIN_EXTENSION_NAME ∉ [['V', 'K', '_', 'K', 'H', 'R']] := by
  refine ⟨by decide, by decide, by decide, by decide⟩

theorem castInt_of_lt (n : Nat) (hn : n < 2 ^ 31) : castInt n = (n : Int) := by
  unfold castInt
  have h1 : n % 2 ^ 32 = n := Nat.mod_eq_of_lt (by omega)
  rw [h1, if_pos hn]

theorem CheckQueueFamilies_body_graphics (present_support : Nat → Nat)
    (family : VkQueueFamilyProperties) (i : Nat) (data : QueueFamilies) :
    (CheckQueueFamilies.body present_support family i data)._graphics_family =
      if family.graphicsCapable then castInt i else data._graphics_family := by
  unfold CheckQueueFamilies.body
  split_ifs <;> rfl

theorem CheckQueueFamilies_body_present (present_support : Nat → Nat)
    (family : VkQueueFamilyProperties) (i : Nat) (data : QueueFamilies) :
    (CheckQueueFamilies.body present_support family i data)._present_family =
      if family.queueCount > 0 ∧ present_support i ≠ 0 then castInt i
      else data._present_family := by
  unfold CheckQueueFamilies.body
  split_ifs <;> rfl

/-- The graphics index after the loop of `CheckQueueFamilies`: unchanged when
no family from `i` on qualifies, else the index of a qualifying family. -/
theorem CheckQueueFamilies_loop_graphics (present_support : Nat → Nat)
    (families : List VkQueueFamilyProperties) :
    ∀ (i : Nat) (data : QueueFamilies), i + families.length ≤ 2 ^ 31 →
      ((CheckQueueFamilies.loop present_support families i data)._graphics_family =
          data._graphics_family ∧
        ∀ (k : Nat) (family : VkQueueFamilyProperties),
          families[k]? = some family → ¬ family.graphicsCapable) ∨
      (∃ (k : Nat) (family : VkQueueFamilyProperties),
        families[k]? = some family ∧ family.graphicsCapable ∧
        (CheckQueueFamilies.loop present_support families i data)._graphics_family =
          ((i + k : Nat) : Int)) := by
  induction families with
  | nil =>
    intro i data _
    left
    exact ⟨rfl, fun k family h => by simp at h⟩
  | cons family rest ih =>
    intro i data hlen
    simp only [List.length_cons] at hlen
    simp only [CheckQueueFamilies.loop]
    rcases ih (i + 1) (CheckQueueFamilies.body present_support family i data) (by omega) with
      ⟨hsame, hnone⟩ | ⟨k, later, hk, hcap, hres⟩
    · rw [CheckQueueFamilies_body_graphics] at hsame
      by_cases hg : family.graphicsCapable
      · right
        refine ⟨0, family, List.getElem?_cons_zero, hg, ?_⟩
        rw [hsame, if_pos hg]
        exact castInt_of_lt i (by omega)
      · left
        refine ⟨by rw [hsame, if_neg hg], fun k other hk => ?_⟩
        cases k with
        | zero =>
          simp only [List.getElem?_cons_zero, Option.some.injEq] at hk
          exact hk ▸ hg
        | succ k =>
          simp only [List.getElem?_cons_succ] at hk
          exact hnone k other hk
    · right
      refine ⟨k + 1, later, by simpa using hk, hcap, ?_⟩
      rw [hres]
      congr 1
      omega

/-- The present index after the loop of `CheckQueueFamilies`. -/
theorem CheckQueueFamilies_loop_present (present_support : Nat → Nat)
    (families : List VkQueueFamilyProperties) :
    ∀ (i : Nat) (data : QueueFamilies), i + families.length ≤ 2 ^ 31 →
      ((CheckQueueFamilies.loop present_support families i data)._present_family =
          data._present_family ∧
        ∀ (k : Nat) (family : VkQueueFamilyProperties), families[k]? = some family →
          ¬ (family.queueCount > 0 ∧ present_support (i + k) ≠ 0)) ∨
      (∃ (k : Nat) (family : VkQueueFamilyProperties), families[k]? = some family ∧
        (family.queueCount > 0 ∧ present_support (i + k) ≠ 0) ∧
        (CheckQueueFamilies.loop present_support families i data)._present_family =
          ((i + k : Nat) : Int)) := by
  induction families with
  | nil =>
    intro i data _
    left
    exact ⟨rfl, fun k family h => by simp at h⟩
  | cons family rest ih =>
    intro i data hlen
    simp only [List.length_cons] at hlen
    simp only [CheckQueueFamilies.loop]
    rcases ih (i + 1) (CheckQueueFamilies.body present_support family i data) (by omega) with
      ⟨hsame, hnone⟩ | ⟨k, later, hk, hcap, hres⟩
    · rw [CheckQueueFamilies_body_present] at hsame
      by_cases hp : family.queueCount > 0 ∧ present_support i ≠ 0
      · right
        refine ⟨0, family, List.getElem?_cons_zero, hp, ?_⟩
        rw [hsame, if_pos hp]
        exact castInt_of_lt i (by omega)
      · left
        refine ⟨by rw [hsame, if_neg hp], fun k other hk => ?_⟩
        cases k with
        | zero =>
          simp only [List.getElem?_cons_zero, Option.some.injEq] at hk
          subst hk
          exact hp
        | succ k =>
          simp only [List.getElem?_cons_succ] at hk
          have := hnone k other hk
          rwa [show i + 1 + k = i + (k + 1) by omega] at this
    · right
      refine ⟨k + 1, later, by simpa using hk, ?_, ?_⟩
      · rwa [show i + 1 + k = i + (k + 1) by omega] at hcap
      · rw [hres]
        congr 1
        omega

/-- C13: for every queue-family table whose indices fit the `int` members
(at most 2^31 families), `CheckQueueFamilies` throws
"Required Queues Unavailable!" if and only if no family has `queueCount > 0`
with the graphics bit or no family has `queueCount > 0` with presentation
support; whenever it returns, the graphics index names a family with
`queueCount > 0` and the graphics bit and the present index names a family with
`queueCount > 0` and presentation support; and `CreateLogicalDevice` builds its
queue create entries only from such a checked pair, a throw of the check
leaving it before anything is built. -/
theorem CheckQueueFamilies_validated (queue_families : List VkQueueFamilyProperties)
    (present_support : Nat → Nat) (hsize : queue_families.length ≤ 2 ^ 31) :
    (CheckQueueFamilies queue_families present_support =
        .error "Required Queues Unavailable!" ↔
      (¬ ∃ (i : Nat) (family : VkQueueFamilyProperties), queue_families[i]? = some family ∧
          family.queueCount > 0 ∧ (family.queueFlags &&& VK_QUEUE_GRAPHICS_BIT) ≠ 0) ∨
      (¬ ∃ (i : Nat) (family : VkQueueFamilyProperties), queue_families[i]? = some family ∧
          family.queueCount > 0 ∧ present_support i ≠ 0)) ∧
    (∀ what, CheckQueueFamilies queue_families present_support = .error what →
      what = "Required Queues Unavailable!") ∧
    (∀ data, CheckQueueFamilies queue_families present_support = .ok data →
      ∃ (graphics present : Nat) (gfamily pfamily : VkQueueFamilyProperties),
        data._graphics_family = (graphics : Int) ∧ data._present_family = (present : Int) ∧
        queue_families[graphics]? = some gfamily ∧
        gfamily.queueCount > 0 ∧ (gfamily.queueFlags &&& VK_QUEUE_GRAPHICS_BIT) ≠ 0 ∧
        queue_families[present]? = some pfamily ∧
        pfamily.queueCount > 0 ∧ present_support present ≠ 0) ∧
    (∀ data infos,
      CreateLogicalDevice.queue_create_infos queue_families present_support =
        .ok (data, infos) →
      CheckQueueFamilies queue_families present_support = .ok data) ∧
    (∀ what, CheckQueueFamilies queue_families present_support = .error what →
      CreateLogicalDevice.queue_create_infos queue_families present_support =
        .error what) := by
  have hg := CheckQueueFamilies_loop_graphics present_support queue_families 0
    { _graphics_family := -1, _present_family := -1 } (by omega)
  have hp := CheckQueueFamilies_loop_present present_support queue_families 0
    { _graphics_family := -1, _present_family := -1 } (by omega)
  simp only [Nat.zero_add] at hg hp
  -- the outcome in terms of the two indices after the loop
  have hok : ∀ data, CheckQueueFamilies queue_families present_support = .ok data →
      data = CheckQueueFamilies.loop present_support queue_families 0
        { _graphics_family := -1, _present_family := -1 } ∧
      data._graphics_family ≥ 0 ∧ data._present_family ≥ 0 := by
    intro data h
    unfold CheckQueueFamilies at h
    simp only [QueueFamilies.QueuesAquired] at h
    split_ifs at h with hq
    simp only [Except.ok.injEq] at h
    subst h
    simp only [Bool.not_eq_true', Bool.and_eq_false_iff, decide_eq_false_iff_not, not_or,
      not_not] at hq
    exact ⟨rfl, hq.1, hq.2⟩
  have herr : ∀ what, CheckQueueFamilies queue_families present_support = .error what →
      what = "Required Queues Unavailable!" ∧
      ((CheckQueueFamilies.loop present_support queue_families 0
          { _graphics_family := -1, _present_family := -1 })._graphics_family < 0 ∨
       (CheckQueueFamilies.loop present_support queue_families 0
          { _graphics_family := -1, _present_family := -1 })._present_family < 0) := by
    intro what h
    unfold CheckQueueFamilies at h
    simp only [QueueFamilies.QueuesAquired] at h
    split_ifs at h with hq
    simp only [Except.error.injEq] at h
    simp only [Bool.not_eq_true', Bool.and_eq_false_iff, decide_eq_false_iff_not, not_le] at hq
    exact ⟨h.symm, hq⟩
  have hvalid : ∀ data, CheckQueueFamilies queue_families present_support = .ok data →
      ∃ (graphics present : Nat) (gfamily pfamily : VkQueueFamilyProperties),
        data._graphics_family = (graphics : Int) ∧ data._present_family = (present : Int) ∧
        queue_families[graphics]? = some gfamily ∧
        gfamily.queueCount > 0 ∧ (gfamily.queueFlags &&& VK_QUEUE_GRAPHICS_BIT) ≠ 0 ∧
        queue_families[present]? = some pfamily ∧
        pfamily.queueCount > 0 ∧ present_support present ≠ 0 := by
    intro data h
    obtain ⟨hdata, hge, hpe⟩ := hok data h
    rw [hdata] at hge hpe
    rcases hg with ⟨hsame, _⟩ | ⟨kg, fg, hkg, hcg, hresg⟩
    · rw [hsame] at hge
      exact absurd hge (by decide)
    rcases hp with ⟨hsame, _⟩ | ⟨kp, fp, hkp, hcp, hresp⟩
    · rw [hsame] at hpe
      exact absurd hpe (by decide)
    exact ⟨kg, kp, fg, fp, by rw [hdata, hresg], by rw [hdata, hresp], hkg, hcg.1, hcg.2,
      hkp, hcp.1, hcp.2⟩
  refine ⟨⟨fun h => ?_, fun h => ?_⟩, fun what h => (herr what h).1, hvalid, ?_, ?_⟩
  · rcases (herr _ h).2 with hneg | hneg
    · left
      rintro ⟨i, family, hi, hc⟩
      rcases hg with ⟨_, hnone⟩ | ⟨k, _, _, _, hres⟩
      · exact hnone i family hi hc
      · rw [hres] at hneg
        omega
    · right
      rintro ⟨i, family, hi, hc⟩
      rcases hp with ⟨_, hnone⟩ | ⟨k, _, _, _, hres⟩
      · exact hnone i family hi hc
      · rw [hres] at hneg
        omega
  · cases hres : CheckQueueFamilies queue_families present_support with
    | error what => rw [(herr what hres).1]
    | ok data =>
      obtain ⟨graphics, present, gfamily, pfamily, _, _, h3, h4, h5, h6, h7, h8⟩ :=
        hvalid data hres
      rcases h with hno | hno
      · exact absurd ⟨graphics, gfamily, h3, h4, h5⟩ hno
      · exact absurd ⟨present, pfamily, h6, h7, h8⟩ hno
  · intro data infos h
    unfold CreateLogicalDevice.queue_create_infos at h
    cases hres : CheckQueueFamilies queue_families present_support with
    | error what => rw [hres] at h; simp at h
    | ok checked =>
      rw [hres] at h
      simp only [Except.ok.injEq, Prod.mk.injEq] at h
      rw [h.1]
  · intro what h
    unfold CreateLogicalDevice.queue_create_infos
    rw [h]

/-- Witness of C13: family 0 has graphics only, family 1 presents only; the
check returns the pair (0, 1). -/
theorem CheckQueueFamilies_validated_witness :
    CheckQueueFamilies [⟨VK_QUEUE_GRAPHICS_BIT, 1⟩, ⟨0, 2⟩]
        (fun i => if i = 1 then VK_TRUE else 0) = .ok ⟨0, 1⟩ ∧
      ∃ (graphics present : Nat) (gfamily pfamily : VkQueueFamilyProperties),
        (0 : Int) = (graphics : Int) ∧ (1 : Int) = (present : Int) ∧
        [(⟨VK_QUEUE_GRAPHICS_BIT, 1⟩ : VkQueueFamilyProperties), ⟨0, 2⟩][graphics]? =
          some gfamily ∧
        gfamily.queueCount > 0 ∧ (gfamily.queueFlags &&& VK_QUEUE_GRAPHICS_BIT) ≠ 0 ∧
        [(⟨VK_QUEUE_GRAPHICS_BIT, 1⟩ : VkQueueFamilyProperties), ⟨0, 2⟩][present]? =
          some pfamily ∧
        pfamily.queueCount > 0 ∧ (if present = 1 then VK_TRUE else 0) ≠ 0 :=
  ⟨by decide,
    (CheckQueueFamilies_validated [⟨VK_QUEUE_GRAPHICS_BIT, 1⟩, ⟨0, 2⟩]
      (fun i => if i = 1 then VK_TRUE else 0) (by decide)).2.2.1 ⟨0, 1⟩ (by decide)⟩

/-! ## What the lifecycle functions emit -/

theorem Emits_pure {α : Type} (P : VkCall → Prop) (value : α) :
    Emits P (pure value : Step α) :=
  fun _ => ⟨[], by simp [pure, Step.pure], fun _ h => by simp at h⟩

theorem Emits_raise {α : Type} (P : VkCall → Prop) (what : String) :
    Emits P (Step.raise what : Step α) :=
  fun _ => ⟨[], by simp [Step.raise], fun _ h => by simp at h⟩

theorem Emits_undefinedBehaviour {α : Type} (P : VkCall → Prop) :
    Emits P (Step.undefinedBehaviour : Step α) :=
  fun _ => ⟨[], by simp [Step.undefinedBehaviour], fun _ h => by simp at h⟩

theorem Emits_read (P : VkCall → Prop) : Emits P Step.read :=
  fun _ => ⟨[], by simp [Step.read], fun _ h => by simp at h⟩

theorem Emits_answer (P : VkCall → Prop) (d : Driver) : Emits P (Step.answer d) :=
  fun _ => ⟨[], by simp [Step.answer], fun _ h => by simp at h⟩

theorem Emits_allocate (P : VkCall → Prop) (count : Nat) : Emits P (Step.allocate count) :=
  fun _ => ⟨[], by simp [Step.allocate], fun _ h => by simp at h⟩

theorem Emits_write (P : VkCall → Prop) (f : Session → Session)
    (hf : ∀ s, (f s).trace = s.trace) : Emits P (Step.write f) :=
  fun s => ⟨[], by simp [Step.write, hf s], fun _ h => by simp at h⟩

theorem Emits_call (P : VkCall → Prop) (c : VkCall) (hc : P c) : Emits P (Step.call c) :=
  fun _ => ⟨[c], by simp [Step.call], fun x h => by
    simp only [List.mem_singleton] at h
    exact h ▸ hc⟩

theorem Emits_calls (P : VkCall → Prop) (cs : List VkCall) (hcs : ∀ c ∈ cs, P c) :
    Emits P (Step.calls cs) :=
  fun _ => ⟨cs, by simp [Step.calls], hcs⟩

theorem Emits_create (P : VkCall → Prop) (d : Driver) (mk : VkResult → Nat → VkCall)
    (hmk : ∀ result handle, P (mk result handle)) : Emits P (Step.create d mk) := by
  intro s
  unfold Step.create
  by_cases h : d.result s.trace.length = VK_SUCCESS
  · simp only [h, if_true]
    exact ⟨[mk VK_SUCCESS s.fresh], rfl, fun x hx => by
      simp only [List.mem_singleton] at hx
      exact hx ▸ hmk _ _⟩
  · simp only [h, if_false]
    exact ⟨[mk (d.result s.trace.length) VK_NULL_HANDLE], rfl, fun x hx => by
      simp only [List.mem_singleton] at hx
      exact hx ▸ hmk _ _⟩

theorem Emits_bind {α β : Type} (P : VkCall → Prop) (m : Step α) (k : α → Step β)
    (hm : Emits P m) (hk : ∀ value, Emits P (k value)) : Emits P (m >>= k) := by
  intro s
  obtain ⟨new1, h1, hP1⟩ := hm s
  show ∃ new, (Step.bind m k s).2.trace = s.trace ++ new ∧ ∀ c ∈ new, P c
  unfold Step.bind
  rcases hms : m s with ⟨outcome, s1⟩
  rw [hms] at h1
  cases outcome with
  | ok value =>
    obtain ⟨new2, h2, hP2⟩ := hk value s1
    refine ⟨new1 ++ new2, ?_, fun c hc => ?_⟩
    · have h1eq : s1.trace = s.trace ++ new1 := h1
      rw [h2, h1eq, List.append_assoc]
    · rcases List.mem_append.1 hc with h | h
      · exact hP1 c h
      · exact hP2 c h
  | thrown what => exact ⟨new1, h1, hP1⟩
  | undefined => exact ⟨new1, h1, hP1⟩

theorem Emits_mono {α : Type} (P Q : VkCall → Prop) (m : Step α) (hPQ : ∀ c, P c → Q c)
    (hm : Emits P m) : Emits Q m :=
  fun s =>
    let ⟨new, h1, h2⟩ := hm s
    ⟨new, h1, fun c hc => hPQ c (h2 c hc)⟩

theorem CreateImageView_emits (d : Driver) (image : Nat) (format : VkFormat)
    (aspect_flags : Nat) :
    Emits (fun c => c.isRebuild = true) (CreateImageView d image format aspect_flags) := by
  unfold CreateImageView
  refine Emits_bind _ _ _ (Emits_read _) (fun s => ?_)
  refine Emits_bind _ _ _ (Emits_create _ _ _ (fun _ _ => rfl)) (fun created => ?_)
  split_ifs
  · exact Emits_raise _ _
  · exact Emits_pure _ _

theorem CreateImageViews_loop_emits (d : Driver) (remaining : Nat) :
    ∀ i, Emits (fun c => c.isRebuild = true) (CreateImageViews.loop d remaining i) := by
  induction remaining with
  | zero => intro i; exact Emits_pure _ _
  | succ n ih =>
    intro i
    unfold CreateImageViews.loop
    refine Emits_bind _ _ _ (Emits_read _) (fun s => ?_)
    refine Emits_bind _ _ _ (CreateImageView_emits _ _ _ _) (fun view => ?_)
    refine Emits_bind _ _ _ (Emits_write _ _ (fun _ => rfl)) (fun _ => ?_)
    exact ih (i + 1)

theorem CreateImageViews_emits (d : Driver) :
    Emits (fun c => c.isRebuild = true) (CreateImageViews d) := by
  unfold CreateImageViews
  refine Emits_bind _ _ _ (Emits_write _ _ (fun _ => rfl)) (fun _ => ?_)
  refine Emits_bind _ _ _ (Emits_read _) (fun s => ?_)
  exact CreateImageViews_loop_emits d _ 0

theorem CreateRenderPass_emits (d : Driver) :
    Emits (fun c => c.isRebuild = true) (CreateRenderPass d) := by
  unfold CreateRenderPass
  split
  · exact Emits_undefinedBehaviour _
  · exact Emits_raise _ _
  · refine Emits_bind _ _ _ (Emits_read _) (fun s => ?_)
    refine Emits_bind _ _ _ (Emits_create _ _ _ (fun _ _ => rfl)) (fun created => ?_)
    split_ifs
    · exact Emits_raise _ _
    · exact Emits_write _ _ (fun _ => rfl)

theorem ReadFile_emits (P : VkCall → Prop) (d : Driver) (filename : String) :
    Emits P (ReadFile d filename) := by
  unfold ReadFile
  split
  · exact Emits_raise _ _
  · exact Emits_pure _ _

theorem CreateShaderModule_emits (d : Driver) (blob_size : Nat) :
    Emits (fun c => c.isRebuild = true) (CreateShaderModule d blob_size) := by
  unfold CreateShaderModule
  refine Emits_bind _ _ _ (Emits_read _) (fun s => ?_)
  refine Emits_bind _ _ _ (Emits_create _ _ _ (fun _ _ => rfl)) (fun created => ?_)
  split_ifs
  · exact Emits_raise _ _
  · exact Emits_pure _ _

theorem CreateGraphicsPipeline_emits (d : Driver) :
    Emits (fun c => c.isRebuild = true) (CreateGraphicsPipeline d) := by
  unfold CreateGraphicsPipeline
  refine Emits_bind _ _ _ (ReadFile_emits _ _ _) (fun vert_blob => ?_)
  refine Emits_bind _ _ _ (ReadFile_emits _ _ _) (fun frag_blob => ?_)
  refine Emits_bind _ _ _ (CreateShaderModule_emits _ _) (fun vertex_shader_module => ?_)
  refine Emits_bind _ _ _ (CreateShaderModule_emits _ _) (fun fragment_shader_module => ?_)
  refine Emits_bind _ _ _ (Emits_read _) (fun s => ?_)
  refine Emits_bind _ _ _ (Emits_create _ _ _ (fun _ _ => rfl)) (fun layout => ?_)
  split_ifs
  · exact Emits_raise _ _
  · refine Emits_bind _ _ _ (Emits_write _ _ (fun _ => rfl)) (fun _ => ?_)
    refine Emits_bind _ _ _ (Emits_create _ _ _ (fun _ _ => rfl)) (fun pipeline => ?_)
    split_ifs
    · exact Emits_raise _ _
    · refine Emits_bind _ _ _ (Emits_write _ _ (fun _ => rfl)) (fun _ => ?_)
      refine Emits_bind _ _ _ (Emits_call _ _ rfl) (fun _ => ?_)
      exact Emits_call _ _ rfl

theorem CreateFrameBuffers_loop_emits (d : Driver) (depth_view remaining : Nat) :
    ∀ i, Emits (fun c => c.isRebuild = true)
      (CreateFrameBuffers.loop d depth_view remaining i) := by
  induction remaining with
  | zero => intro i; exact Emits_pure _ _
  | succ n ih =>
    intro i
    unfold CreateFrameBuffers.loop
    refine Emits_bind _ _ _ (Emits_read _) (fun s => ?_)
    refine Emits_bind _ _ _ (Emits_create _ _ _ (fun _ _ => rfl)) (fun created => ?_)
    split_ifs
    · exact Emits_raise _ _
    · refine Emits_bind _ _ _ (Emits_write _ _ (fun _ => rfl)) (fun _ => ?_)
      exact ih (i + 1)

theorem CreateFrameBuffers_emits (d : Driver) :
    Emits (fun c => c.isRebuild = true) (CreateFrameBuffers d) := by
  unfold CreateFrameBuffers
  refine Emits_bind _ _ _ (Emits_write _ _ (fun _ => rfl)) (fun _ => ?_)
  refine Emits_bind _ _ _ (Emits_read _) (fun s => ?_)
  split
  · exact Emits_undefinedBehaviour _
  · exact CreateFrameBuffers_loop_emits d _ _ 0

theorem CreateCommandBuffers_commands_isRebuild (s : Session)
    (command_buffer framebuffer : Nat) :
    ∀ c ∈ CreateCommandBuffers.commands s command_buffer framebuffer, c.isRebuild = true := by
  intro c hc
  simp only [CreateCommandBuffers.commands, List.mem_cons, List.mem_singleton,
    List.not_mem_nil, or_false] at hc
  rcases hc with h | h | h | h | h | h | h | h <;> subst h <;> rfl

theorem CreateCommandBuffers_loop_emits (d : Driver) (remaining : Nat) :
    ∀ i, Emits (fun c => c.isRebuild = true) (CreateCommandBuffers.loop d remaining i) := by
  induction remaining with
  | zero => intro i; exact Emits_pure _ _
  | succ n ih =>
    intro i
    unfold CreateCommandBuffers.loop
    refine Emits_bind _ _ _ (Emits_read _) (fun s => ?_)
    refine Emits_bind _ _ _
      (Emits_calls _ _ (CreateCommandBuffers_commands_isRebuild _ _ _)) (fun _ => ?_)
    refine Emits_bind _ _ _ (Emits_answer _ _) (fun result => ?_)
    refine Emits_bind _ _ _ (Emits_call _ _ rfl) (fun _ => ?_)
    split_ifs
    · exact Emits_raise _ _
    · exact ih (i + 1)

theorem CreateCommandBuffers_emits (d : Driver) :
    Emits (fun c => c.isRebuild = true) (CreateCommandBuffers d) := by
  unfold CreateCommandBuffers
  refine Emits_bind _ _ _ (Emits_write _ _ (fun _ => rfl)) (fun _ => ?_)
  refine Emits_bind _ _ _ (Emits_read _) (fun s => ?_)
  refine Emits_bind _ _ _ (Emits_answer _ _) (fun result => ?_)
  split_ifs
  · refine Emits_bind _ _ _ (Emits_call _ _ rfl) (fun _ => ?_)
    exact Emits_raise _ _
  · refine Emits_bind _ _ _ (Emits_allocate _ _) (fun command_buffers => ?_)
    refine Emits_bind _ _ _ (Emits_call _ _ rfl) (fun _ => ?_)
    refine Emits_bind _ _ _ (Emits_write _ _ (fun _ => rfl)) (fun _ => ?_)
    exact CreateCommandBuffers_loop_emits d _ 0

/-- The rebuild part of `RecreateSwapChain` makes rebuild calls only. -/
theorem RecreateSwapChain_rebuild_emits (d : Driver) :
    Emits (fun c => c.isRebuild = true) (RecreateSwapChain.rebuild d) := by
  unfold RecreateSwapChain.rebuild
  refine Emits_bind _ _ _ (CreateImageViews_emits d) (fun _ => ?_)
  refine Emits_bind _ _ _ (CreateRenderPass_emits d) (fun _ => ?_)
  refine Emits_bind _ _ _ (CreateGraphicsPipeline_emits d) (fun _ => ?_)
  refine Emits_bind _ _ _ (CreateFrameBuffers_emits d) (fun _ => ?_)
  exact CreateCommandBuffers_emits d

/-! ## `CreateSwapChain` and `RecreateSwapChain`, step by step -/

theorem CreateSwapChain_undefined (d : Driver) (queue_families : QueueFamilies) (old : Nat)
    (s : Session)
    (hci : CreateSwapChain.create_info s._vk_surface (d.swapChainSupport s.trace.length)
      (d.windowSize s.trace.length).1 (d.windowSize s.trace.length).2 queue_families old =
        none) :
    CreateSwapChain d queue_families old s = (.undefined, s) := by
  simp only [CreateSwapChain, bind, Step.bind, Step.read, hci, Step.undefinedBehaviour]

theorem CreateSwapChain_thrown (d : Driver) (queue_families : QueueFamilies) (old : Nat)
    (s : Session) (create_info : VkSwapchainCreateInfoKHR)
    (hci : CreateSwapChain.create_info s._vk_surface (d.swapChainSupport s.trace.length)
      (d.windowSize s.trace.length).1 (d.windowSize s.trace.length).2 queue_families old =
        some create_info)
    (hres : d.result s.trace.length ≠ VK_SUCCESS) :
    CreateSwapChain d queue_families old s =
      (.thrown "Failed To Create Swapchain!",
        { s with
          _vk_swapchain_format := create_info.imageFormat
          _vk_swapchain_extent := create_info.imageExtent
          trace := s.trace ++
            [.vkCreateSwapchainKHR s._vk_logical_device create_info
              (d.result s.trace.length) VK_NULL_HANDLE] }) := by
  simp only [CreateSwapChain, bind, Step.bind, Step.read, hci, Step.write, Step.create, hres,
    if_false, ne_eq, not_false_eq_true, if_true, Step.raise]

theorem CreateSwapChain_ok (d : Driver) (queue_families : QueueFamilies) (old : Nat)
    (s : Session) (create_info : VkSwapchainCreateInfoKHR)
    (hci : CreateSwapChain.create_info s._vk_surface (d.swapChainSupport s.trace.length)
      (d.windowSize s.trace.length).1 (d.windowSize s.trace.length).2 queue_families old =
        some create_info)
    (hres : d.result s.trace.length = VK_SUCCESS) :
    CreateSwapChain d queue_families old s =
      (.ok (),
        { s with
          _vk_swapchain_format := create_info.imageFormat
          _vk_swapchain_extent := create_info.imageExtent
          _vk_swapchain := s.fresh
          _vk_swapchain_images :=
            List.range' (s.fresh + 1) (d.swapchainImageCount (s.trace.length + 1))
          fresh := s.fresh + 1 + d.swapchainImageCount (s.trace.length + 1)
          trace := s.trace ++
            [.vkCreateSwapchainKHR s._vk_logical_device create_info VK_SUCCESS s.fresh,
             .vkGetSwapchainImagesKHR s._vk_logical_device s.fresh [],
             .vkGetSwapchainImagesKHR s._vk_logical_device s.fresh
               (List.range' (s.fresh + 1) (d.swapchainImageCount (s.trace.length + 1)))] }) := by
  simp only [CreateSwapChain, bind, Step.bind, Step.read, hci, Step.write, Step.create, hres,
    if_true, ne_eq, not_true_eq_false, if_false, Step.call, Step.allocate, List.length_append,
    List.length_singleton, List.append_assoc, List.singleton_append]
  rfl

theorem CreateSwapChain_create_info_oldSwapchain (surface : Nat)
    (swap_details : SwapChainSupport) (width height : Int) (queue_families : QueueFamilies)
    (old : Nat) (create_info : VkSwapchainCreateInfoKHR)
    (hci : CreateSwapChain.create_info surface swap_details width height queue_families old =
      some create_info) :
    create_info.oldSwapchain = old := by
  unfold CreateSwapChain.create_info at hci
  split at hci
  · simp at hci
  · simp only [Option.some.injEq] at hci
    rw [← hci]

/-- When the creation succeeds, `RecreateSwapChain` is its first part followed
by the rebuild. -/
theorem RecreateSwapChain_of_created (d : Driver) (s : Session)
    (create_info : VkSwapchainCreateInfoKHR)
    (hci : RecreateSwapChain.create_info d s = some create_info)
    (hres : d.result s.trace.length = VK_SUCCESS) :
    RecreateSwapChain d s =
      RecreateSwapChain.rebuild d (RecreateSwapChain.replaced d s create_info) := by
  unfold RecreateSwapChain.create_info at hci
  simp only [RecreateSwapChain, bind, Step.bind, Step.read,
    CreateSwapChain_ok d _ _ s create_info hci hres, Step.call, ReleaseSwapchain, Step.calls]
  congr 1
  simp only [RecreateSwapChain.replaced, RecreateSwapChain.replaceCalls, ReleaseSwapchain.calls,
    List.append_assoc]

theorem RecreateSwapChain_of_failed (d : Driver) (s : Session)
    (create_info : VkSwapchainCreateInfoKHR)
    (hci : RecreateSwapChain.create_info d s = some create_info)
    (hres : d.result s.trace.length ≠ VK_SUCCESS) :
    RecreateSwapChain d s =
      (.thrown "Failed To Create Swapchain!",
        { s with
          _vk_swapchain_format := create_info.imageFormat
          _vk_swapchain_extent := create_info.imageExtent
          trace := s.trace ++
            [.vkCreateSwapchainKHR s._vk_logical_device create_info
              (d.result s.trace.length) VK_NULL_HANDLE] }) := by
  unfold RecreateSwapChain.create_info at hci
  simp only [RecreateSwapChain, bind, Step.bind, Step.read,
    CreateSwapChain_thrown d _ _ s create_info hci hres]

theorem RecreateSwapChain_of_undefined (d : Driver) (s : Session)
    (hci : RecreateSwapChain.create_info d s = none) :
    RecreateSwapChain d s = (.undefined, s) := by
  unfold RecreateSwapChain.create_info at hci
  simp only [RecreateSwapChain, bind, Step.bind, Step.read,
    CreateSwapChain_undefined d _ _ s hci]

theorem isRebuild_kinds (c : VkCall) (h : c.isRebuild = true) :
    c.isFrameCall = false ∧ c.isSwapchainCreate = false ∧ c.isSwapchainDestroy = false := by
  cases c <;> first | exact ⟨rfl, rfl, rfl⟩ | exact absurd h (Bool.false_ne_true)

theorem isFrameCall_kinds (c : VkCall) (h : c.isFrameCall = false) :
    c.isAcquire = false ∧ c.isSubmit = false ∧ c.isPresent = false := by
  cases c <;> first | exact ⟨rfl, rfl, rfl⟩ | exact absurd h.symm (Bool.false_ne_true)

/-- The calls of `ReleaseSwapchain` are destroy or free calls of dependent
objects: none is a rebuild call, a frame call, or touches a swapchain. -/
theorem ReleaseSwapchain_calls_kinds (s : Session) :
    ∀ c ∈ ReleaseSwapchain.calls s,
      c.isDestroy = true ∧ c.isRebuild = false ∧ c.isFrameCall = false ∧
        c.isSwapchainCreate = false ∧ c.isSwapchainDestroy = false := by
  intro c hc
  simp only [ReleaseSwapchain.calls, List.mem_append, List.mem_cons, List.mem_singleton,
    List.mem_map, List.not_mem_nil, or_false] at hc
  rcases hc with (((h | h | h) | ⟨_, _, h⟩) | (h | h | h | h)) | ⟨_, _, h⟩ <;>
    subst h <;> exact ⟨rfl, rfl, rfl, rfl, rfl⟩

theorem filter_eq_nil_of_forall_false (p : VkCall → Bool) (l : List VkCall)
    (h : ∀ c ∈ l, p c = false) : l.filter p = [] := by
  rw [List.filter_eq_nil_iff]
  intro c hc
  simp [h c hc]

/-- The first part of `RecreateSwapChain` creates one swapchain and contains no
frame call. -/
theorem RecreateSwapChain_replaceCalls_kinds (d : Driver) (s : Session)
    (create_info : VkSwapchainCreateInfoKHR) :
    (∀ c ∈ RecreateSwapChain.replaceCalls d s create_info, c.isFrameCall = false) ∧
    (RecreateSwapChain.replaceCalls d s create_info).filter VkCall.isSwapchainCreate =
      [.vkCreateSwapchainKHR s._vk_logical_device create_info VK_SUCCESS s.fresh] := by
  constructor
  · intro c hc
    simp only [RecreateSwapChain.replaceCalls, List.mem_append, List.mem_cons,
      List.mem_singleton, List.not_mem_nil, or_false] at hc
    rcases hc with (((h | h | h) | h) | h) | h
    · subst h; rfl
    · subst h; rfl
    · subst h; rfl
    · subst h; rfl
    · exact (ReleaseSwapchain_calls_kinds s c h).2.2.1
    · subst h; rfl
  · simp only [RecreateSwapChain.replaceCalls, List.filter_append]
    rw [filter_eq_nil_of_forall_false _ (ReleaseSwapchain.calls s)
      (fun c hc => (ReleaseSwapchain_calls_kinds s c hc).2.2.2.1)]
    rfl

/-- Whatever the driver answers, `RecreateSwapChain` only adds calls to the
trace, none of them an acquire, submit or present, and at most one of them a
`vkCreateSwapchainKHR`: exactly one whenever the request can be built. -/
theorem RecreateSwapChain_calls (d : Driver) (s : Session) :
    ∃ new, (RecreateSwapChain d s).2.trace = s.trace ++ new ∧
      (∀ c ∈ new, c.isFrameCall = false) ∧
      (new.filter VkCall.isSwapchainCreate).length ≤ 1 ∧
      (RecreateSwapChain.create_info d s ≠ none →
        (new.filter VkCall.isSwapchainCreate).length = 1) := by
  cases hci : RecreateSwapChain.create_info d s with
  | none =>
    rw [RecreateSwapChain_of_undefined d s hci]
    exact ⟨[], by simp, fun _ h => by simp at h, by simp, fun h => absurd rfl h⟩
  | some create_info =>
    by_cases hres : d.result s.trace.length = VK_SUCCESS
    · rw [RecreateSwapChain_of_created d s create_info hci hres]
      obtain ⟨rebuild, htrace, hrebuild⟩ :=
        RecreateSwapChain_rebuild_emits d (RecreateSwapChain.replaced d s create_info)
      obtain ⟨hframe, hcreate⟩ := RecreateSwapChain_replaceCalls_kinds d s create_info
      have hnone : rebuild.filter VkCall.isSwapchainCreate = [] :=
        filter_eq_nil_of_forall_false _ _ (fun c hc => (isRebuild_kinds c (hrebuild c hc)).2.1)
      refine ⟨RecreateSwapChain.replaceCalls d s create_info ++ rebuild, ?_, ?_, ?_, ?_⟩
      · rw [htrace]
        simp only [RecreateSwapChain.replaced, List.append_assoc]
      · intro c hc
        rcases List.mem_append.1 hc with h | h
        · exact hframe c h
        · exact (isRebuild_kinds c (hrebuild c h)).1
      · rw [List.filter_append, hcreate, hnone]
        simp
      · intro _
        rw [List.filter_append, hcreate, hnone]
        simp
    · rw [RecreateSwapChain_of_failed d s create_info hci hres]
      refine ⟨[.vkCreateSwapchainKHR s._vk_logical_device create_info
        (d.result s.trace.length) VK_NULL_HANDLE], rfl, ?_, ?_, ?_⟩
      · intro c hc
        simp only [List.mem_singleton] at hc
        subst hc
        rfl
      · simp [VkCall.isSwapchainCreate]
      · intro _
        simp [VkCall.isSwapchainCreate]

/-! ## `Draw`, path by path -/

theorem Draw_of_out_of_date (d : Driver) (s : Session)
    (hacq : d.result (s.trace.length + 1) = VK_ERROR_OUT_OF_DATE_KHR) :
    Draw d s = RecreateSwapChain d (Draw.acquired d s) := by
  simp only [Draw, bind, Step.bind, Step.read, Step.call, Step.answer, List.length_append,
    List.length_singleton, hacq, if_true]
  simp only [Draw.acquired, Draw.submitted, Draw.presented, Draw.submitCall, Draw.presentCall,
    List.append_assoc, List.singleton_append, List.cons_append, List.nil_append, hacq]


theorem Draw_of_acquire_failed (d : Driver) (s : Session)
    (h1 : d.result (s.trace.length + 1) ≠ VK_ERROR_OUT_OF_DATE_KHR)
    (h2 : d.result (s.trace.length + 1) ≠ VK_SUCCESS)
    (h3 : d.result (s.trace.length + 1) ≠ VK_SUBOPTIMAL_KHR) :
    Draw d s = (.thrown "Failed To Acquire Swapchain Image!", Draw.acquired d s) := by
  simp only [Draw, bind, Step.bind, Step.read, Step.call, Step.answer, List.length_append,
    List.length_singleton, h1, h2, h3, if_false, ne_eq, not_false_eq_true, and_self, if_true,
    Step.raise]
  simp only [Draw.acquired, Draw.submitted, Draw.presented, Draw.submitCall, Draw.presentCall,
    List.append_assoc, List.singleton_append, List.cons_append, List.nil_append]


theorem Draw_of_index_out_of_range (d : Driver) (s : Session)
    (hacq : d.result (s.trace.length + 1) = VK_SUCCESS ∨
      d.result (s.trace.length + 1) = VK_SUBOPTIMAL_KHR)
    (hcb : s._vk_command_buffers[d.imageIndex (s.trace.length + 1)]? = none) :
    Draw d s = (.undefined, Draw.acquired d s) := by
  have h1 : d.result (s.trace.length + 1) ≠ VK_ERROR_OUT_OF_DATE_KHR := by
    rcases hacq with h | h <;> rw [h] <;> decide
  have h2 : ¬ (d.result (s.trace.length + 1) ≠ VK_SUCCESS ∧
      d.result (s.trace.length + 1) ≠ VK_SUBOPTIMAL_KHR) := by
    rintro ⟨ha, hb⟩
    rcases hacq with h | h
    · exact ha h
    · exact hb h
  simp only [Draw, bind, Step.bind, Step.read, Step.call, Step.answer, List.length_append,
    List.length_singleton, h1, h2, if_false, hcb, Step.undefinedBehaviour]
  simp only [Draw.acquired, Draw.submitted, Draw.presented, Draw.submitCall, Draw.presentCall,
    List.append_assoc, List.singleton_append, List.cons_append, List.nil_append]


theorem Draw_of_submit_failed (d : Driver) (s : Session) (command_buffer : Nat)
    (hacq : d.result (s.trace.length + 1) = VK_SUCCESS ∨
      d.result (s.trace.length + 1) = VK_SUBOPTIMAL_KHR)
    (hcb : s._vk_command_buffers[d.imageIndex (s.trace.length + 1)]? = some command_buffer)
    (hsub : d.result (s.trace.length + 2) ≠ VK_SUCCESS) :
    Draw d s =
      (.thrown "Failed To Submit Draw Command Buffer!", Draw.submitted d s command_buffer) := by
  have h1 : d.result (s.trace.length + 1) ≠ VK_ERROR_OUT_OF_DATE_KHR := by
    rcases hacq with h | h <;> rw [h] <;> decide
  have h2 : ¬ (d.result (s.trace.length + 1) ≠ VK_SUCCESS ∧
      d.result (s.trace.length + 1) ≠ VK_SUBOPTIMAL_KHR) := by
    rintro ⟨ha, hb⟩
    rcases hacq with h | h
    · exact ha h
    · exact hb h
  simp only [Draw, bind, Step.bind, Step.read, Step.call, Step.answer, List.length_append,
    List.length_singleton, h1, h2, if_false, hcb, hsub, ne_eq, not_false_eq_true, if_true,
    Step.raise]
  simp only [Draw.acquired, Draw.submitted, Draw.presented, Draw.submitCall, Draw.presentCall,
    List.append_assoc, List.singleton_append, List.cons_append, List.nil_append]


theorem Draw_of_present_stale (d : Driver) (s : Session) (command_buffer : Nat)
    (hacq : d.result (s.trace.length + 1) = VK_SUCCESS ∨
      d.result (s.trace.length + 1) = VK_SUBOPTIMAL_KHR)
    (hcb : s._vk_command_buffers[d.imageIndex (s.trace.length + 1)]? = some command_buffer)
    (hsub : d.result (s.trace.length + 2) = VK_SUCCESS)
    (hpres : d.result (s.trace.length + 3) = VK_ERROR_OUT_OF_DATE_KHR ∨
      d.result (s.trace.length + 3) = VK_SUBOPTIMAL_KHR) :
    Draw d s = RecreateSwapChain d (Draw.presented d s command_buffer) := by
  have h1 : d.result (s.trace.length + 1) ≠ VK_ERROR_OUT_OF_DATE_KHR := by
    rcases hacq with h | h <;> rw [h] <;> decide
  have h2 : ¬ (d.result (s.trace.length + 1) ≠ VK_SUCCESS ∧
      d.result (s.trace.length + 1) ≠ VK_SUBOPTIMAL_KHR) := by
    rintro ⟨ha, hb⟩
    rcases hacq with h | h
    · exact ha h
    · exact hb h
  simp only [Draw, bind, Step.bind, Step.read, Step.call, Step.answer, List.length_append,
    List.length_singleton, h1, h2, if_false, hcb, hsub, ne_eq, not_true_eq_false, hpres,
    if_true]
  simp only [Draw.acquired, Draw.submitted, Draw.presented, Draw.submitCall, Draw.presentCall,
    List.append_assoc, List.singleton_append, List.cons_append, List.nil_append, hsub]


theorem Draw_of_present_ok (d : Driver) (s : Session) (command_buffer : Nat)
    (hacq : d.result (s.trace.length + 1) = VK_SUCCESS ∨
      d.result (s.trace.length + 1) = VK_SUBOPTIMAL_KHR)
    (hcb : s._vk_command_buffers[d.imageIndex (s.trace.length + 1)]? = some command_buffer)
    (hsub : d.result (s.trace.length + 2) = VK_SUCCESS)
    (hpres : d.result (s.trace.length + 3) = VK_SUCCESS) :
    Draw d s = (.ok (), Draw.presented d s command_buffer) := by
  have h1 : d.result (s.trace.length + 1) ≠ VK_ERROR_OUT_OF_DATE_KHR := by
    rcases hacq with h | h <;> rw [h] <;> decide
  have h2 : ¬ (d.result (s.trace.length + 1) ≠ VK_SUCCESS ∧
      d.result (s.trace.length + 1) ≠ VK_SUBOPTIMAL_KHR) := by
    rintro ⟨ha, hb⟩
    rcases hacq with h | h
    · exact ha h
    · exact hb h
  have h3 : ¬ (d.result (s.trace.length + 3) = VK_ERROR_OUT_OF_DATE_KHR ∨
      d.result (s.trace.length + 3) = VK_SUBOPTIMAL_KHR) := by
    rw [hpres]; decide
  simp only [Draw, bind, Step.bind, Step.read, Step.call, Step.answer, List.length_append,
    List.length_singleton, h1, h2, if_false, hcb, hsub, ne_eq, not_true_eq_false, h3]
  simp only [hpres, not_true_eq_false, if_false, pure, Step.pure]
  simp only [Draw.acquired, Draw.submitted, Draw.presented, Draw.submitCall, Draw.presentCall,
    List.append_assoc, List.singleton_append, List.cons_append, List.nil_append, hsub, hpres]


theorem Draw_of_present_failed (d : Driver) (s : Session) (command_buffer : Nat)
    (hacq : d.result (s.trace.length + 1) = VK_SUCCESS ∨
      d.result (s.trace.length + 1) = VK_SUBOPTIMAL_KHR)
    (hcb : s._vk_command_buffers[d.imageIndex (s.trace.length + 1)]? = some command_buffer)
    (hsub : d.result (s.trace.length + 2) = VK_SUCCESS)
    (h1p : d.result (s.trace.length + 3) ≠ VK_ERROR_OUT_OF_DATE_KHR)
    (h2p : d.result (s.trace.length + 3) ≠ VK_SUBOPTIMAL_KHR)
    (h3p : d.result (s.trace.length + 3) ≠ VK_SUCCESS) :
    Draw d s =
      (.thrown "Failed To Present Swapchain Image!", Draw.presented d s command_buffer) := by
  have h1 : d.result (s.trace.length + 1) ≠ VK_ERROR_OUT_OF_DATE_KHR := by
    rcases hacq with h | h <;> rw [h] <;> decide
  have h2 : ¬ (d.result (s.trace.length + 1) ≠ VK_SUCCESS ∧
      d.result (s.trace.length + 1) ≠ VK_SUBOPTIMAL_KHR) := by
    rintro ⟨ha, hb⟩
    rcases hacq with h | h
    · exact ha h
    · exact hb h
  simp only [Draw, bind, Step.bind, Step.read, Step.call, Step.answer, List.length_append,
    List.length_singleton, h1, h2, if_false, hcb, hsub, ne_eq, not_true_eq_false, h1p, h2p,
    h3p, or_self, not_false_eq_true, if_true, Step.raise]
  simp only [Draw.acquired, Draw.submitted, Draw.presented, Draw.submitCall, Draw.presentCall,
    List.append_assoc, List.singleton_append, List.cons_append, List.nil_append, hsub]

theorem quiet_filters (new : List VkCall) (h : ∀ c ∈ new, c.isFrameCall = false) :
    new.filter VkCall.isAcquire = [] ∧ new.filter VkCall.isSubmit = [] ∧
      new.filter VkCall.isPresent = [] :=
  ⟨filter_eq_nil_of_forall_false _ _ (fun c hc => (isFrameCall_kinds c (h c hc)).1),
   filter_eq_nil_of_forall_false _ _ (fun c hc => (isFrameCall_kinds c (h c hc)).2.1),
   filter_eq_nil_of_forall_false _ _ (fun c hc => (isFrameCall_kinds c (h c hc)).2.2)⟩

/-! ## Claims on `Draw` -/

/-- C14 (fails as stated): with an acquire that answers OUT_OF_DATE and a
driver that then refuses the new swapchain, the tick does not end without
raising: `Draw` throws "Failed To Create Swapchain!" out of the recreation. -/
theorem Draw_out_of_date_can_raise :
    outOfDateThenFailDriver.result (exampleSession.trace.length + 1) =
      VK_ERROR_OUT_OF_DATE_KHR ∧
    (Draw outOfDateThenFailDriver exampleSession).1 =
      .thrown "Failed To Create Swapchain!" := by
  constructor
  · decide
  · decide!

/-- C14 (amended): in `Draw`, for every session and driver, if the acquire
result is OUT_OF_DATE the tick is exactly one call of `RecreateSwapChain` on
the session after the wait and the acquire: it ends as that recreation ends,
normally or with the error the recreation raises, and the calls it makes after
the acquire contain no submit, no present, no second acquire, and at most one
`vkCreateSwapchainKHR` (exactly one when the request can be built). -/
theorem Draw_out_of_date_recreates_once (d : Driver) (s : Session)
    (hacq : d.result (s.trace.length + 1) = VK_ERROR_OUT_OF_DATE_KHR) :
    Draw d s = RecreateSwapChain d (Draw.acquired d s) ∧
    ∃ new,
      (Draw d s).2.trace =
        s.trace ++
          [ .vkDeviceWaitIdle s._vk_logical_device,
            .vkAcquireNextImageKHR s._vk_logical_device s._vk_swapchain UINT64_MAX
              s._vk_image_available_semaphore VK_NULL_HANDLE VK_ERROR_OUT_OF_DATE_KHR
              (d.imageIndex (s.trace.length + 1)) ] ++ new ∧
      (∀ c ∈ new, c.isAcquire = false ∧ c.isSubmit = false ∧ c.isPresent = false) ∧
      (new.filter VkCall.isSwapchainCreate).length ≤ 1 ∧
      (RecreateSwapChain.create_info d (Draw.acquired d s) ≠ none →
        (new.filter VkCall.isSwapchainCreate).length = 1) := by
  have heq := Draw_of_out_of_date d s hacq
  refine ⟨heq, ?_⟩
  obtain ⟨new, htrace, hquiet, hle, hone⟩ := RecreateSwapChain_calls d (Draw.acquired d s)
  refine ⟨new, ?_, fun c hc => isFrameCall_kinds c (hquiet c hc), hle, hone⟩
  rw [heq, htrace]
  simp only [Draw.acquired, hacq]

/-- Witness of C14 (amended): acquire answers OUT_OF_DATE and every later call
succeeds; the tick returns normally after the recreation. -/
theorem Draw_out_of_date_recreates_once_witness :
    (Draw outOfDateDriver exampleSession).1 = .ok () ∧
    Draw outOfDateDriver exampleSession =
      RecreateSwapChain outOfDateDriver (Draw.acquired outOfDateDriver exampleSession) :=
  ⟨by decide!, (Draw_out_of_date_recreates_once outOfDateDriver exampleSession (by decide)).1⟩

/-- C15: in `Draw`, for every acquire result other than SUCCESS, SUBOPTIMAL
and OUT_OF_DATE the tick throws "Failed To Acquire Swapchain Image!" having
made only the wait and the acquire (no submit, no present, no swapchain
creation). For the acquire results SUCCESS and SUBOPTIMAL alike, with the
acquired index inside the command buffer list, the call that follows the
acquire is the submit of the command buffer at that index, and the rest of the
tick is decided by the results of the submit and of the present alone: a
failed submit throws after the submit; a present that answers OUT_OF_DATE or
SUBOPTIMAL is followed by `RecreateSwapChain`; any other present ends the tick
after the present. So unless the present is stale the tick makes the wait, the
acquire, the submit and at most the present and creates no swapchain: a
SUBOPTIMAL acquire does not trigger a recreation. -/
theorem Draw_acquire_results (d : Driver) (s : Session) :
    (d.result (s.trace.length + 1) ≠ VK_ERROR_OUT_OF_DATE_KHR →
      d.result (s.trace.length + 1) ≠ VK_SUCCESS →
      d.result (s.trace.length + 1) ≠ VK_SUBOPTIMAL_KHR →
      (Draw d s).1 = .thrown "Failed To Acquire Swapchain Image!" ∧
      (Draw d s).2.trace =
        s.trace ++
          [ .vkDeviceWaitIdle s._vk_logical_device,
            .vkAcquireNextImageKHR s._vk_logical_device s._vk_swapchain UINT64_MAX
              s._vk_image_available_semaphore VK_NULL_HANDLE
              (d.result (s.trace.length + 1)) (d.imageIndex (s.trace.length + 1)) ]) ∧
    (∀ command_buffer,
      (d.result (s.trace.length + 1) = VK_SUCCESS ∨
        d.result (s.trace.length + 1) = VK_SUBOPTIMAL_KHR) →
      s._vk_command_buffers[d.imageIndex (s.trace.length + 1)]? = some command_buffer →
      (∃ later,
        (Draw d s).2.trace =
          s.trace ++
            [ .vkDeviceWaitIdle s._vk_logical_device,
              .vkAcquireNextImageKHR s._vk_logical_device s._vk_swapchain UINT64_MAX
                s._vk_image_available_semaphore VK_NULL_HANDLE
                (d.result (s.trace.length + 1)) (d.imageIndex (s.trace.length + 1)),
              Draw.submitCall d s command_buffer ] ++ later) ∧
      Draw d s =
        (if d.result (s.trace.length + 2) ≠ VK_SUCCESS then
          (.thrown "Failed To Submit Draw Command Buffer!", Draw.submitted d s command_buffer)
        else if d.result (s.trace.length + 3) = VK_ERROR_OUT_OF_DATE_KHR ∨
            d.result (s.trace.length + 3) = VK_SUBOPTIMAL_KHR then
          RecreateSwapChain d (Draw.presented d s command_buffer)
        else if d.result (s.trace.length + 3) = VK_SUCCESS then
          (.ok (), Draw.presented d s command_buffer)
        else
          (.thrown "Failed To Present Swapchain Image!", Draw.presented d s command_buffer)) ∧
      (¬ (d.result (s.trace.length + 2) = VK_SUCCESS ∧
          (d.result (s.trace.length + 3) = VK_ERROR_OUT_OF_DATE_KHR ∨
            d.result (s.trace.length + 3) = VK_SUBOPTIMAL_KHR)) →
        ∃ rest,
          (rest = [] ∨ rest = [Draw.presentCall d s]) ∧
          (Draw d s).2.trace =
            s.trace ++
              [ .vkDeviceWaitIdle s._vk_logical_device,
                .vkAcquireNextImageKHR s._vk_logical_device s._vk_swapchain UINT64_MAX
                  s._vk_image_available_semaphore VK_NULL_HANDLE
                  (d.result (s.trace.length + 1)) (d.imageIndex (s.trace.length + 1)),
                Draw.submitCall d s command_buffer ] ++ rest ∧
          (Draw d s).2 = { s with trace := (Draw d s).2.trace } ∧
          ∀ c ∈ (Draw d s).2.trace.drop s.trace.length, c.isSwapchainCreate = false)) := by
  refine ⟨fun h1 h2 h3 => ?_, fun command_buffer hacq hcb => ⟨?_, ?_, fun hquiet => ?_⟩⟩
  · rw [Draw_of_acquire_failed d s h1 h2 h3]
    exact ⟨rfl, rfl⟩
  · by_cases hsub : d.result (s.trace.length + 2) = VK_SUCCESS
    · by_cases hstale : d.result (s.trace.length + 3) = VK_ERROR_OUT_OF_DATE_KHR ∨
          d.result (s.trace.length + 3) = VK_SUBOPTIMAL_KHR
      · rw [Draw_of_present_stale d s command_buffer hacq hcb hsub hstale]
        obtain ⟨new, htrace, _⟩ :=
          RecreateSwapChain_calls d (Draw.presented d s command_buffer)
        refine ⟨Draw.presentCall d s :: new, ?_⟩
        rw [htrace]
        simp [Draw.presented, Draw.submitted, Draw.acquired]
      · by_cases hok : d.result (s.trace.length + 3) = VK_SUCCESS
        · rw [Draw_of_present_ok d s command_buffer hacq hcb hsub hok]
          refine ⟨[Draw.presentCall d s], ?_⟩
          simp [Draw.presented, Draw.submitted, Draw.acquired]
        · rw [Draw_of_present_failed d s command_buffer hacq hcb hsub
            (fun h => hstale (Or.inl h)) (fun h => hstale (Or.inr h)) hok]
          refine ⟨[Draw.presentCall d s], ?_⟩
          simp [Draw.presented, Draw.submitted, Draw.acquired]
    · rw [Draw_of_submit_failed d s command_buffer hacq hcb hsub]
      refine ⟨[], ?_⟩
      simp [Draw.submitted, Draw.acquired]
  · by_cases hsub : d.result (s.trace.length + 2) = VK_SUCCESS
    · rw [if_neg (not_not.2 hsub)]
      by_cases hstale : d.result (s.trace.length + 3) = VK_ERROR_OUT_OF_DATE_KHR ∨
          d.result (s.trace.length + 3) = VK_SUBOPTIMAL_KHR
      · rw [if_pos hstale]
        exact Draw_of_present_stale d s command_buffer hacq hcb hsub hstale
      · rw [if_neg hstale]
        by_cases hok : d.result (s.trace.length + 3) = VK_SUCCESS
        · rw [if_pos hok]
          exact Draw_of_present_ok d s command_buffer hacq hcb hsub hok
        · rw [if_neg hok]
          exact Draw_of_present_failed d s command_buffer hacq hcb hsub
            (fun h => hstale (Or.inl h)) (fun h => hstale (Or.inr h)) hok
    · rw [if_pos hsub]
      exact Draw_of_submit_failed d s command_buffer hacq hcb hsub
  · have hshape : ∀ rest : List VkCall, (rest = [] ∨ rest = [Draw.presentCall d s]) →
        ∀ c ∈ [ VkCall.vkDeviceWaitIdle s._vk_logical_device,
          .vkAcquireNextImageKHR s._vk_logical_device s._vk_swapchain UINT64_MAX
            s._vk_image_available_semaphore VK_NULL_HANDLE
            (d.result (s.trace.length + 1)) (d.imageIndex (s.trace.length + 1)),
          Draw.submitCall d s command_buffer ] ++ rest, c.isSwapchainCreate = false := by
      intro rest hrest c hc
      rcases hrest with rfl | rfl <;>
        simp only [List.append_nil, List.cons_append, List.nil_append, List.mem_cons,
          List.mem_singleton, List.not_mem_nil, or_false] at hc
      · rcases hc with h | h | h <;> subst h <;> rfl
      · rcases hc with h | h | h | h <;> subst h <;> rfl
    by_cases hsub : d.result (s.trace.length + 2) = VK_SUCCESS
    · have hstale : ¬ (d.result (s.trace.length + 3) = VK_ERROR_OUT_OF_DATE_KHR ∨
          d.result (s.trace.length + 3) = VK_SUBOPTIMAL_KHR) := fun h => hquiet ⟨hsub, h⟩
      have htrace : (Draw.presented d s command_buffer).trace =
          s.trace ++
            ([ VkCall.vkDeviceWaitIdle s._vk_logical_device,
              .vkAcquireNextImageKHR s._vk_logical_device s._vk_swapchain UINT64_MAX
                s._vk_image_available_semaphore VK_NULL_HANDLE
                (d.result (s.trace.length + 1)) (d.imageIndex (s.trace.length + 1)),
              Draw.submitCall d s command_buffer ] ++ [Draw.presentCall d s]) := by
        simp only [Draw.presented, Draw.submitted, Draw.acquired, List.append_assoc,
          List.singleton_append, List.cons_append, List.nil_append]
      have hrun : (Draw d s).2 = Draw.presented d s command_buffer := by
        by_cases hok : d.result (s.trace.length + 3) = VK_SUCCESS
        · rw [Draw_of_present_ok d s command_buffer hacq hcb hsub hok]
        · rw [Draw_of_present_failed d s command_buffer hacq hcb hsub
            (fun h => hstale (Or.inl h)) (fun h => hstale (Or.inr h)) hok]
      refine ⟨[Draw.presentCall d s], Or.inr rfl, ?_, ?_, ?_⟩
      · rw [hrun, htrace, List.append_assoc]
      · rw [hrun]
        rfl
      · rw [hrun, htrace, List.drop_left]
        exact hshape _ (Or.inr rfl)
    · have htrace : (Draw.submitted d s command_buffer).trace =
          s.trace ++
            ([ VkCall.vkDeviceWaitIdle s._vk_logical_device,
              .vkAcquireNextImageKHR s._vk_logical_device s._vk_swapchain UINT64_MAX
                s._vk_image_available_semaphore VK_NULL_HANDLE
                (d.result (s.trace.length + 1)) (d.imageIndex (s.trace.length + 1)),
              Draw.submitCall d s command_buffer ] ++ []) := by
        simp only [Draw.submitted, Draw.acquired, List.append_assoc,
          List.singleton_append, List.cons_append, List.nil_append, List.append_nil]
      have hrun : (Draw d s).2 = Draw.submitted d s command_buffer := by
        rw [Draw_of_submit_failed d s command_buffer hacq hcb hsub]
      refine ⟨[], Or.inl rfl, ?_, ?_, ?_⟩
      · rw [hrun, htrace, List.append_assoc]
      · rw [hrun]
        rfl
      · rw [hrun, htrace, List.drop_left]
        exact hshape _ (Or.inl rfl)

/-- Witness of C15: the acquire answers SUBOPTIMAL, submit and present succeed:
the tick returns after the wait, the acquire, the submit and the present, with
every member as before and no swapchain created. -/
theorem Draw_acquire_results_witness :
    suboptimalAcquireDriver.result (exampleSession.trace.length + 1) = VK_SUBOPTIMAL_KHR ∧
    Draw suboptimalAcquireDriver exampleSession =
      (.ok (), Draw.presented suboptimalAcquireDriver exampleSession 45) ∧
    (Draw suboptimalAcquireDriver exampleSession).2.trace.length = 4 ∧
    ∀ c ∈ (Draw suboptimalAcquireDriver exampleSession).2.trace.drop
        exampleSession.trace.length, c.isSwapchainCreate = false := by
  have h := (Draw_acquire_results suboptimalAcquireDriver exampleSession).2 45
    (Or.inr (by decide)) (by decide)
  obtain ⟨rest, _, _, _, hnone⟩ := h.2.2 (by decide)
  refine ⟨by decide, ?_, by decide!, hnone⟩
  rw [h.2.1]
  decide!


theorem Draw_acquired_trace (d : Driver) (s : Session) :
    (Draw.acquired d s).trace = s.trace ++ Draw.acquireCalls d s := rfl

theorem Draw_submitted_trace (d : Driver) (s : Session) (command_buffer : Nat) :
    (Draw.submitted d s command_buffer).trace =
      s.trace ++ (Draw.acquireCalls d s ++ [Draw.submitCall d s command_buffer]) := by
  simp only [Draw.submitted, Draw.acquired, Draw.acquireCalls, List.append_assoc]

theorem Draw_presented_trace (d : Driver) (s : Session) (command_buffer : Nat) :
    (Draw.presented d s command_buffer).trace =
      s.trace ++ (Draw.acquireCalls d s ++
        [Draw.submitCall d s command_buffer, Draw.presentCall d s]) := by
  simp only [Draw.presented, Draw.submitted, Draw.acquired, Draw.acquireCalls,
    List.append_assoc, List.singleton_append, List.cons_append, List.nil_append]

/-- In one tick `Draw` only adds calls to the trace: exactly one acquire, at
most one submit, at most one present and at most one `vkCreateSwapchainKHR`. -/
theorem Draw_call_counts (d : Driver) (s : Session) :
    ∃ new, (Draw d s).2.trace = s.trace ++ new ∧
      (new.filter VkCall.isAcquire).length = 1 ∧
      (new.filter VkCall.isSubmit).length ≤ 1 ∧
      (new.filter VkCall.isPresent).length ≤ 1 ∧
      (new.filter VkCall.isSwapchainCreate).length ≤ 1 := by
  by_cases hood : d.result (s.trace.length + 1) = VK_ERROR_OUT_OF_DATE_KHR
  · rw [Draw_of_out_of_date d s hood]
    obtain ⟨new, htrace, hquiet, hle, _⟩ := RecreateSwapChain_calls d (Draw.acquired d s)
    obtain ⟨ha, hs, hp⟩ := quiet_filters new hquiet
    refine ⟨Draw.acquireCalls d s ++ new, by
      rw [htrace, Draw_acquired_trace, List.append_assoc], ?_⟩
    simp only [List.filter_append, ha, hs, hp, List.append_nil]
    refine ⟨by simp [Draw.acquireCalls, VkCall.isAcquire],
      by simp [Draw.acquireCalls, VkCall.isSubmit],
      by simp [Draw.acquireCalls, VkCall.isPresent], ?_⟩
    simpa [Draw.acquireCalls, VkCall.isSwapchainCreate] using hle
  by_cases hacq : d.result (s.trace.length + 1) = VK_SUCCESS ∨
      d.result (s.trace.length + 1) = VK_SUBOPTIMAL_KHR
  swap
  · rw [Draw_of_acquire_failed d s hood (fun h => hacq (Or.inl h)) (fun h => hacq (Or.inr h))]
    refine ⟨Draw.acquireCalls d s, Draw_acquired_trace d s, ?_⟩
    simp [Draw.acquireCalls, VkCall.isAcquire, VkCall.isSubmit, VkCall.isPresent,
      VkCall.isSwapchainCreate]
  cases hcb : s._vk_command_buffers[d.imageIndex (s.trace.length + 1)]? with
  | none =>
    rw [Draw_of_index_out_of_range d s hacq hcb]
    refine ⟨Draw.acquireCalls d s, Draw_acquired_trace d s, ?_⟩
    simp [Draw.acquireCalls, VkCall.isAcquire, VkCall.isSubmit, VkCall.isPresent,
      VkCall.isSwapchainCreate]
  | some command_buffer =>
    by_cases hsub : d.result (s.trace.length + 2) = VK_SUCCESS
    swap
    · rw [Draw_of_submit_failed d s command_buffer hacq hcb hsub]
      refine ⟨_, Draw_submitted_trace d s command_buffer, ?_⟩
      simp [Draw.acquireCalls, Draw.submitCall, VkCall.isAcquire, VkCall.isSubmit,
        VkCall.isPresent, VkCall.isSwapchainCreate]
    by_cases hstale : d.result (s.trace.length + 3) = VK_ERROR_OUT_OF_DATE_KHR ∨
        d.result (s.trace.length + 3) = VK_SUBOPTIMAL_KHR
    · rw [Draw_of_present_stale d s command_buffer hacq hcb hsub hstale]
      obtain ⟨new, htrace, hquiet, hle, _⟩ :=
        RecreateSwapChain_calls d (Draw.presented d s command_buffer)
      obtain ⟨ha, hs, hp⟩ := quiet_filters new hquiet
      refine ⟨(Draw.acquireCalls d s ++
          [Draw.submitCall d s command_buffer, Draw.presentCall d s]) ++ new, by
        rw [htrace, Draw_presented_trace, List.append_assoc], ?_⟩
      simp only [List.filter_append, ha, hs, hp, List.append_nil]
      refine ⟨by simp [Draw.acquireCalls, Draw.submitCall, Draw.presentCall, VkCall.isAcquire],
        by simp [Draw.acquireCalls, Draw.submitCall, Draw.presentCall, VkCall.isSubmit],
        by simp [Draw.acquireCalls, Draw.submitCall, Draw.presentCall, VkCall.isPresent], ?_⟩
      simpa [Draw.acquireCalls, Draw.submitCall, Draw.presentCall, VkCall.isSwapchainCreate]
        using hle
    · by_cases hok : d.result (s.trace.length + 3) = VK_SUCCESS
      · rw [Draw_of_present_ok d s command_buffer hacq hcb hsub hok]
        refine ⟨_, Draw_presented_trace d s command_buffer, ?_⟩
        simp [Draw.acquireCalls, Draw.submitCall, Draw.presentCall, VkCall.isAcquire,
          VkCall.isSubmit, VkCall.isPresent, VkCall.isSwapchainCreate]
      · rw [Draw_of_present_failed d s command_buffer hacq hcb hsub
          (fun h => hstale (Or.inl h)) (fun h => hstale (Or.inr h)) hok]
        refine ⟨_, Draw_presented_trace d s command_buffer, ?_⟩
        simp [Draw.acquireCalls, Draw.submitCall, Draw.presentCall, VkCall.isAcquire,
          VkCall.isSubmit, VkCall.isPresent, VkCall.isSwapchainCreate]

/-- C16 (fails as stated): acquire and submit succeed, the present answers
OUT_OF_DATE and the driver then refuses the new swapchain; the present result
does lead to an error, `Draw` throws "Failed To Create Swapchain!". -/
theorem Draw_stale_present_can_raise :
    stalePresentThenFailDriver.result (exampleSession.trace.length + 2) = VK_SUCCESS ∧
    stalePresentThenFailDriver.result (exampleSession.trace.length + 3) =
      VK_ERROR_OUT_OF_DATE_KHR ∧
    (Draw stalePresentThenFailDriver exampleSession).1 =
      .thrown "Failed To Create Swapchain!" := by
  refine ⟨by decide, by decide, by decide!⟩

/-- C16 (amended): in `Draw`, after a successful submit, for every present
result: OUT_OF_DATE or SUBOPTIMAL makes the rest of the tick exactly one call of
`RecreateSwapChain`, so the tick ends as that recreation ends and raises no
error of its own; SUCCESS ends the tick normally with the present as last call;
every other result throws "Failed To Present Swapchain Image!" with the present
as last call. In every tick `Draw` makes exactly one acquire, at most one
submit, at most one present and at most one `vkCreateSwapchainKHR`. -/
theorem Draw_present_results (d : Driver) (s : Session) (command_buffer : Nat)
    (hacq : d.result (s.trace.length + 1) = VK_SUCCESS ∨
      d.result (s.trace.length + 1) = VK_SUBOPTIMAL_KHR)
    (hcb : s._vk_command_buffers[d.imageIndex (s.trace.length + 1)]? = some command_buffer)
    (hsub : d.result (s.trace.length + 2) = VK_SUCCESS) :
    (d.result (s.trace.length + 3) = VK_ERROR_OUT_OF_DATE_KHR ∨
        d.result (s.trace.length + 3) = VK_SUBOPTIMAL_KHR →
      Draw d s = RecreateSwapChain d (Draw.presented d s command_buffer)) ∧
    (d.result (s.trace.length + 3) = VK_SUCCESS →
      Draw d s = (.ok (), Draw.presented d s command_buffer)) ∧
    (d.result (s.trace.length + 3) ≠ VK_ERROR_OUT_OF_DATE_KHR →
      d.result (s.trace.length + 3) ≠ VK_SUBOPTIMAL_KHR →
      d.result (s.trace.length + 3) ≠ VK_SUCCESS →
      Draw d s =
        (.thrown "Failed To Present Swapchain Image!", Draw.presented d s command_buffer)) ∧
    (Draw.presented d s command_buffer).trace =
      s.trace ++
        [ .vkDeviceWaitIdle s._vk_logical_device,
          .vkAcquireNextImageKHR s._vk_logical_device s._vk_swapchain UINT64_MAX
            s._vk_image_available_semaphore VK_NULL_HANDLE
            (d.result (s.trace.length + 1)) (d.imageIndex (s.trace.length + 1)),
          Draw.submitCall d s command_buffer,
          Draw.presentCall d s ] ∧
    (∃ new, (Draw d s).2.trace = s.trace ++ new ∧
      (new.filter VkCall.isAcquire).length = 1 ∧
      (new.filter VkCall.isSubmit).length ≤ 1 ∧
      (new.filter VkCall.isPresent).length ≤ 1 ∧
      (new.filter VkCall.isSwapchainCreate).length ≤ 1) := by
  refine ⟨fun h => Draw_of_present_stale d s command_buffer hacq hcb hsub h,
    fun h => Draw_of_present_ok d s command_buffer hacq hcb hsub h,
    fun h1 h2 h3 => Draw_of_present_failed d s command_buffer hacq hcb hsub h1 h2 h3,
    ?_, Draw_call_counts d s⟩
  simp only [Draw.presented, Draw.submitted, Draw.acquired, List.append_assoc,
    List.singleton_append, List.cons_append, List.nil_append]

/-- Witness of C16 (amended): acquire and submit succeed and the present answers
SUBOPTIMAL; the tick returns normally after the recreation. -/
theorem Draw_present_results_witness :
    (Draw suboptimalPresentDriver exampleSession).1 = .ok () ∧
    Draw suboptimalPresentDriver exampleSession =
      RecreateSwapChain suboptimalPresentDriver
        (Draw.presented suboptimalPresentDriver exampleSession 45) :=
  ⟨by decide!,
    (Draw_present_results suboptimalPresentDriver exampleSession 45 (by decide) (by decide)
      (by decide)).1 (by decide)⟩

/-- One iteration of the recording loop of `CreateCommandBuffers`: the command
buffer at index `i` is recorded against the framebuffer at index `i` and ended. -/
theorem CreateCommandBuffers_loop_records (d : Driver) (remaining i : Nat) (s : Session) :
    ∃ later,
      (CreateCommandBuffers.loop d (remaining + 1) i s).2.trace =
        s.trace ++
          (CreateCommandBuffers.commands s (s._vk_command_buffers.getD i VK_NULL_HANDLE)
              (s._vk_swapchain_frame_buffers.getD i VK_NULL_HANDLE) ++
            [.vkEndCommandBuffer (s._vk_command_buffers.getD i VK_NULL_HANDLE)]) ++ later := by
  simp only [CreateCommandBuffers.loop, bind, Step.bind, Step.read, Step.calls, Step.answer,
    Step.call]
  split_ifs
  · exact ⟨[], by simp [Step.raise]⟩
  · obtain ⟨later, hlater, _⟩ := CreateCommandBuffers_loop_emits d remaining (i + 1)
      { s with trace := (s.trace ++
          CreateCommandBuffers.commands s (s._vk_command_buffers.getD i VK_NULL_HANDLE)
            (s._vk_swapchain_frame_buffers.getD i VK_NULL_HANDLE) ++
          [.vkEndCommandBuffer (s._vk_command_buffers.getD i VK_NULL_HANDLE)]) }
    refine ⟨later, ?_⟩
    rw [hlater]
    simp only [List.append_assoc]

/-- C17: in every tick of `Draw` that reaches submission with acquired image
index `k` (acquire result SUCCESS or SUBOPTIMAL, `k` inside the command buffer
list): the one submit names exactly the command buffer stored at index `k`,
waits on exactly the image-available semaphore at the COLOR_ATTACHMENT_OUTPUT
stage and signals exactly the frame-complete semaphore; when the submit fails
the tick throws "Failed To Submit Draw Command Buffer!" with the submit as last
call, and otherwise the next call is the present, which waits on exactly the
frame-complete semaphore and presents index `k` of the current swapchain.
The command buffer at an index is the one `CreateCommandBuffers` recorded
against the framebuffer at that index. -/
theorem Draw_submit_and_present (d : Driver) (s : Session) (command_buffer : Nat)
    (hacq : d.result (s.trace.length + 1) = VK_SUCCESS ∨
      d.result (s.trace.length + 1) = VK_SUBOPTIMAL_KHR)
    (hcb : s._vk_command_buffers[d.imageIndex (s.trace.length + 1)]? = some command_buffer) :
    (∃ later,
      (Draw d s).2.trace =
        s.trace ++
          [ .vkDeviceWaitIdle s._vk_logical_device,
            .vkAcquireNextImageKHR s._vk_logical_device s._vk_swapchain UINT64_MAX
              s._vk_image_available_semaphore VK_NULL_HANDLE
              (d.result (s.trace.length + 1)) (d.imageIndex (s.trace.length + 1)),
            .vkQueueSubmitInfo s._vk_graphics_queue
              [ { pWaitSemaphores := [s._vk_image_available_semaphore]
                  pWaitDstStageMask := [VK_PIPELINE_STAGE_COLOR_ATTACHMENT_OUTPUT_BIT]
                  pCommandBuffers := [command_buffer]
                  pSignalSemaphores := [s._vk_frame_complete_semaphore] } ]
              VK_NULL_HANDLE (d.result (s.trace.length + 2)) ] ++ later ∧
      (d.result (s.trace.length + 2) ≠ VK_SUCCESS →
        later = [] ∧ (Draw d s).1 = .thrown "Failed To Submit Draw Command Buffer!") ∧
      (d.result (s.trace.length + 2) = VK_SUCCESS →
        ∃ after,
          later =
            .vkQueuePresentKHR s._vk_present_queue
              { pWaitSemaphores := [s._vk_frame_complete_semaphore]
                pSwapchains := [s._vk_swapchain]
                pImageIndices := [d.imageIndex (s.trace.length + 1)] }
              (d.result (s.trace.length + 3)) :: after ∧
          ∀ c ∈ after, c.isSubmit = false ∧ c.isPresent = false)) ∧
    (∀ (remaining i : Nat) (s0 : Session),
      ∃ later,
        (CreateCommandBuffers.loop d (remaining + 1) i s0).2.trace =
          s0.trace ++
            (CreateCommandBuffers.commands s0 (s0._vk_command_buffers.getD i VK_NULL_HANDLE)
                (s0._vk_swapchain_frame_buffers.getD i VK_NULL_HANDLE) ++
              [.vkEndCommandBuffer (s0._vk_command_buffers.getD i VK_NULL_HANDLE)]) ++
            later) := by
  refine ⟨?_, fun remaining i s0 => CreateCommandBuffers_loop_records d remaining i s0⟩
  by_cases hsub : d.result (s.trace.length + 2) = VK_SUCCESS
  swap
  · rw [Draw_of_submit_failed d s command_buffer hacq hcb hsub]
    refine ⟨[], ?_, fun _ => ⟨rfl, rfl⟩, fun h => absurd h hsub⟩
    simp only [Draw.submitted, Draw.acquired, Draw.submitCall, List.append_assoc,
      List.singleton_append, List.cons_append, List.nil_append, List.append_nil]
  by_cases hstale : d.result (s.trace.length + 3) = VK_ERROR_OUT_OF_DATE_KHR ∨
      d.result (s.trace.length + 3) = VK_SUBOPTIMAL_KHR
  · rw [Draw_of_present_stale d s command_buffer hacq hcb hsub hstale]
    obtain ⟨new, htrace, hquiet, _⟩ :=
      RecreateSwapChain_calls d (Draw.presented d s command_buffer)
    refine ⟨Draw.presentCall d s :: new, ?_, fun h => absurd hsub h,
      fun _ => ⟨new, rfl, fun c hc => (isFrameCall_kinds c (hquiet c hc)).2⟩⟩
    rw [htrace]
    simp only [Draw.presented, Draw.submitted, Draw.acquired, Draw.submitCall,
      List.append_assoc, List.singleton_append, List.cons_append, List.nil_append]
  · have hlast : (Draw.presented d s command_buffer).trace =
        s.trace ++
          [ .vkDeviceWaitIdle s._vk_logical_device,
            .vkAcquireNextImageKHR s._vk_logical_device s._vk_swapchain UINT64_MAX
              s._vk_image_available_semaphore VK_NULL_HANDLE
              (d.result (s.trace.length + 1)) (d.imageIndex (s.trace.length + 1)),
            .vkQueueSubmitInfo s._vk_graphics_queue
              [ { pWaitSemaphores := [s._vk_image_available_semaphore]
                  pWaitDstStageMask := [VK_PIPELINE_STAGE_COLOR_ATTACHMENT_OUTPUT_BIT]
                  pCommandBuffers := [command_buffer]
                  pSignalSemaphores := [s._vk_frame_complete_semaphore] } ]
              VK_NULL_HANDLE (d.result (s.trace.length + 2)) ] ++
          [Draw.presentCall d s] := by
      simp only [Draw.presented, Draw.submitted, Draw.acquired, Draw.submitCall,
        List.append_assoc, List.singleton_append, List.cons_append, List.nil_append]
    by_cases hok : d.result (s.trace.length + 3) = VK_SUCCESS
    · rw [Draw_of_present_ok d s command_buffer hacq hcb hsub hok]
      exact ⟨[Draw.presentCall d s], hlast, fun h => absurd hsub h,
        fun _ => ⟨[], rfl, fun c hc => by simp at hc⟩⟩
    · rw [Draw_of_present_failed d s command_buffer hacq hcb hsub
        (fun h => hstale (Or.inl h)) (fun h => hstale (Or.inr h)) hok]
      exact ⟨[Draw.presentCall d s], hlast, fun h => absurd hsub h,
        fun _ => ⟨[], rfl, fun c hc => by simp at hc⟩⟩

/-- Witness of C17: on the example session every call succeeds and image 0 is
acquired; the tick returns normally and submits command buffer 45 only. -/
theorem Draw_submit_and_present_witness :
    (Draw successDriver exampleSession).1 = .ok () ∧
    ∃ later,
      (Draw successDriver exampleSession).2.trace =
        exampleSession.trace ++
          [ .vkDeviceWaitIdle 5,
            .vkAcquireNextImageKHR 5 7 UINT64_MAX 47 VK_NULL_HANDLE VK_SUCCESS 0,
            .vkQueueSubmitInfo 6
              [ { pWaitSemaphores := [47]
                  pWaitDstStageMask := [VK_PIPELINE_STAGE_COLOR_ATTACHMENT_OUTPUT_BIT]
                  pCommandBuffers := [45]
                  pSignalSemaphores := [48] } ]
              VK_NULL_HANDLE VK_SUCCESS ] ++ later := by
  refine ⟨by decide!, ?_⟩
  obtain ⟨⟨later, htrace, _⟩, _⟩ :=
    Draw_submit_and_present successDriver exampleSession 45 (by decide) (by decide)
  exact ⟨later, htrace⟩

/-! ## Claims on `RecreateSwapChain` -/

/-- C18: in the call trace of `RecreateSwapChain`, from a session whose current
swapchain handle was handed out earlier: the request for the new swapchain
names the previously current handle as `oldSwapchain`; when the creation
succeeds the calls are, in this order, the creation and the two image queries
(no destroy or free among them), the device-idle wait, the calls of
`ReleaseSwapchain` (all destroy or free calls of dependent objects, none of
them a rebuild call), the destruction of the previously current swapchain
handle, which differs from the new handle, and then rebuild calls only, none
of which destroys a swapchain. When the creation fails the function throws
after that one call, and when no request can be built it records nothing: no
destroy or free call occurs in either case. -/
theorem RecreateSwapChain_call_order (d : Driver) (s : Session)
    (hold : s._vk_swapchain < s.fresh) :
    (∀ create_info, RecreateSwapChain.create_info d s = some create_info →
      create_info.oldSwapchain = s._vk_swapchain) ∧
    (∀ create_info, RecreateSwapChain.create_info d s = some create_info →
      d.result s.trace.length = VK_SUCCESS →
      ∃ rebuild,
        (RecreateSwapChain d s).2.trace =
          s.trace ++
            ([ .vkCreateSwapchainKHR s._vk_logical_device create_info VK_SUCCESS s.fresh,
               .vkGetSwapchainImagesKHR s._vk_logical_device s.fresh [],
               .vkGetSwapchainImagesKHR s._vk_logical_device s.fresh
                 (List.range' (s.fresh + 1) (d.swapchainImageCount (s.trace.length + 1))) ] ++
             [ .vkDeviceWaitIdle s._vk_logical_device ] ++
             ReleaseSwapchain.calls s ++
             [ .vkDestroySwapchainKHR s._vk_logical_device s._vk_swapchain ]) ++ rebuild ∧
        (∀ c ∈ rebuild, c.isRebuild = true ∧ c.isSwapchainDestroy = false)) ∧
    (∀ (create_info : VkSwapchainCreateInfoKHR) (result : VkResult) (swapchain : Nat)
        (images : List Nat),
      (VkCall.vkCreateSwapchainKHR s._vk_logical_device create_info result swapchain).isDestroy =
        false ∧
      (VkCall.vkGetSwapchainImagesKHR s._vk_logical_device swapchain images).isDestroy =
        false) ∧
    (∀ c ∈ ReleaseSwapchain.calls s,
      c.isDestroy = true ∧ c.isRebuild = false ∧ c.isSwapchainDestroy = false) ∧
    s.fresh ≠ s._vk_swapchain ∧
    (∀ create_info, RecreateSwapChain.create_info d s = some create_info →
      d.result s.trace.length ≠ VK_SUCCESS →
      (RecreateSwapChain d s).1 = .thrown "Failed To Create Swapchain!" ∧
      (RecreateSwapChain d s).2.trace =
        s.trace ++
          [ .vkCreateSwapchainKHR s._vk_logical_device create_info
              (d.result s.trace.length) VK_NULL_HANDLE ]) ∧
    (RecreateSwapChain.create_info d s = none → RecreateSwapChain d s = (.undefined, s)) := by
  refine ⟨fun create_info hci => ?_, fun create_info hci hres => ?_,
    fun _ _ _ _ => ⟨rfl, rfl⟩,
    fun c hc => ⟨(ReleaseSwapchain_calls_kinds s c hc).1, (ReleaseSwapchain_calls_kinds s c hc).2.1,
      (ReleaseSwapchain_calls_kinds s c hc).2.2.2.2⟩,
    by omega, fun create_info hci hres => ?_,
    fun hci => RecreateSwapChain_of_undefined d s hci⟩
  · exact CreateSwapChain_create_info_oldSwapchain _ _ _ _ _ _ _ hci
  · obtain ⟨rebuild, htrace, hrebuild⟩ :=
      RecreateSwapChain_rebuild_emits d (RecreateSwapChain.replaced d s create_info)
    refine ⟨rebuild, ?_, fun c hc =>
      ⟨hrebuild c hc, (isRebuild_kinds c (hrebuild c hc)).2.2⟩⟩
    rw [RecreateSwapChain_of_created d s create_info hci hres, htrace]
    simp only [RecreateSwapChain.replaced, RecreateSwapChain.replaceCalls]
  · rw [RecreateSwapChain_of_failed d s create_info hci hres]
    exact ⟨rfl, rfl⟩

/-- Witness of C18 on the example session with a driver on which every call
succeeds: the first call creates swapchain 49 with predecessor 7, and the
swapchain destroyed is 7. -/
theorem RecreateSwapChain_call_order_witness :
    exampleSession._vk_swapchain = 7 ∧ exampleSession.fresh = 49 ∧
    ∀ create_info, RecreateSwapChain.create_info successDriver exampleSession =
        some create_info →
      create_info.oldSwapchain = 7 :=
  ⟨rfl, rfl, (RecreateSwapChain_call_order successDriver exampleSession (by decide)).1⟩

/-- C19 (the code departs from the claim): on the example session, whose depth
image, memory and view are 19, 20 and 21, with a driver on which every call
succeeds, `RecreateSwapChain` returns normally; it has destroyed the depth
view, the depth image and freed the depth memory, has created none of them
again, still holds the three destroyed handles in its members, and has created
both new framebuffers with the destroyed view 21 as second attachment. -/
theorem RecreateSwapChain_leaves_depth_destroyed :
    (RecreateSwapChain successDriver exampleSession).1 = .ok () ∧
    (RecreateSwapChain successDriver exampleSession).2._vk_depth_image_view = 21 ∧
    (RecreateSwapChain successDriver exampleSession).2._vk_depth_image = 19 ∧
    (RecreateSwapChain successDriver exampleSession).2._vk_depth_image_memory = 20 ∧
    destroyCount (RecreateSwapChain successDriver exampleSession).2.trace 21 = 1 ∧
    createCount (RecreateSwapChain successDriver exampleSession).2.trace 21 = 0 ∧
    destroyCount (RecreateSwapChain successDriver exampleSession).2.trace 19 = 1 ∧
    createCount (RecreateSwapChain successDriver exampleSession).2.trace 19 = 0 ∧
    destroyCount (RecreateSwapChain successDriver exampleSession).2.trace 20 = 1 ∧
    createCount (RecreateSwapChain successDriver exampleSession).2.trace 20 = 0 ∧
    (RecreateSwapChain successDriver exampleSession).2.trace.filter VkCall.isFramebufferCreate =
      [ .vkCreateFramebuffer 5 54 [52, 21] 100 100 1 VK_SUCCESS 59,
        .vkCreateFramebuffer 5 54 [53, 21] 100 100 1 VK_SUCCESS 60 ] ∧
    (RecreateSwapChain successDriver exampleSession).2._vk_swapchain_frame_buffers =
      [59, 60] := by
  refine ⟨by decide!, by decide!, by decide!, by decide!, by decide!, by decide!, by decide!,
    by decide!, by decide!, by decide!, by decide!, by decide!⟩

/-- C20 (the code departs from the claim): two recreations in succession on the
example session, every driver call succeeding, both return normally, and their
trace destroys the depth view 21, the depth image 19 and the depth memory 20
twice each without creating any of them in between; the swapchain handles are
handled as claimed, the initial one (7) and the first replacement (49) are each
destroyed once and the second replacement is the current one. -/
theorem RecreateSwapChain_twice_destroys_depth_twice :
    (RecreateSwapChain successDriver exampleSession).1 = .ok () ∧
    (RecreateSwapChain successDriver
      (RecreateSwapChain successDriver exampleSession).2).1 = .ok () ∧
    destroyCount (RecreateSwapChain successDriver
      (RecreateSwapChain successDriver exampleSession).2).2.trace 21 = 2 ∧
    createCount (RecreateSwapChain successDriver
      (RecreateSwapChain successDriver exampleSession).2).2.trace 21 = 0 ∧
    destroyCount (RecreateSwapChain successDriver
      (RecreateSwapChain successDriver exampleSession).2).2.trace 19 = 2 ∧
    destroyCount (RecreateSwapChain successDriver
      (RecreateSwapChain successDriver exampleSession).2).2.trace 20 = 2 ∧
    destroyCount (RecreateSwapChain successDriver
      (RecreateSwapChain successDriver exampleSession).2).2.trace 7 = 1 ∧
    destroyCount (RecreateSwapChain successDriver
      (RecreateSwapChain successDriver exampleSession).2).2.trace 49 = 1 ∧
    destroyCount (RecreateSwapChain successDriver
      (RecreateSwapChain successDriver exampleSession).2).2.trace
      (RecreateSwapChain successDriver
        (RecreateSwapChain successDriver exampleSession).2).2._vk_swapchain = 0 := by
  refine ⟨by decide!, by decide!, by decide!, by decide!, by decide!, by decide!, by decide!,
    by decide!, by decide!⟩

/-! ## Claims on `FindSupportedFormat`, `CreateLogicalDevice` and `OnWindowResize` -/

/-- C29: on a non-empty candidate list `FindSupportedFormat` is decided by the
first candidate alone. It returns the first candidate when the adapter's
properties of that format support the features under the tiling, and throws
"Failed To Find Supported Format!" otherwise; the later candidates and the
properties of every other format have no influence on the result. -/
theorem FindSupportedFormat_first_candidate_only
    (formatProperties : VkFormat → VkFormatProperties) (format : VkFormat)
    (rest : List VkFormat) (tiling : VkImageTiling) (features : Nat) :
    ((formatProperties format).supports tiling features →
      FindSupportedFormat formatProperties (format :: rest) tiling features =
        some (.ok format)) ∧
    (¬ (formatProperties format).supports tiling features →
      FindSupportedFormat formatProperties (format :: rest) tiling features =
        some (.error "Failed To Find Supported Format!")) ∧
    (∀ (otherProperties : VkFormat → VkFormatProperties) (others : List VkFormat),
      otherProperties format = formatProperties format →
      FindSupportedFormat otherProperties (format :: others) tiling features =
        FindSupportedFormat formatProperties (format :: rest) tiling features) := by
  refine ⟨?_, ?_, ?_⟩
  · intro h
    simp only [FindSupportedFormat]
    rcases h with h | h
    · rw [if_pos h]
    · by_cases h1 : tiling = VK_IMAGE_TILING_LINEAR ∧
          ((formatProperties format).linearTilingFeatures &&& features) = features
      · rw [if_pos h1]
      · rw [if_neg h1, if_pos h]
  · intro h
    simp only [FindSupportedFormat]
    rw [if_neg (fun h1 => h (Or.inl h1)), if_neg (fun h1 => h (Or.inr h1))]
  · intro otherProperties others h
    simp only [FindSupportedFormat, h]

theorem castInt_range (n : Nat) : -2 ^ 31 ≤ castInt n ∧ castInt n < 2 ^ 31 := by
  unfold castInt
  have h : n % 2 ^ 32 < 2 ^ 32 := Nat.mod_lt _ (by norm_num)
  split_ifs with h1
  · constructor <;> omega
  · constructor <;> omega

theorem CheckQueueFamilies_body_inRange (present_support : Nat → Nat)
    (family : VkQueueFamilyProperties) (i : Nat) (data : QueueFamilies)
    (h : data.InRange) : (CheckQueueFamilies.body present_support family i data).InRange := by
  unfold QueueFamilies.InRange at *
  rw [CheckQueueFamilies_body_graphics, CheckQueueFamilies_body_present]
  have := castInt_range i
  split_ifs <;> simp_all

theorem CheckQueueFamilies_loop_inRange (present_support : Nat → Nat)
    (families : List VkQueueFamilyProperties) :
    ∀ (i : Nat) (data : QueueFamilies), data.InRange →
      (CheckQueueFamilies.loop present_support families i data).InRange := by
  induction families with
  | nil => intro i data h; exact h
  | cons family rest ih =>
    intro i data h
    simp only [CheckQueueFamilies.loop]
    exact ih _ _ (CheckQueueFamilies_body_inRange present_support family i data h)

/-- What `CheckQueueFamilies` returns: two non-negative `int` values. -/
theorem CheckQueueFamilies_ok_range (queue_families : List VkQueueFamilyProperties)
    (present_support : Nat → Nat) (data : QueueFamilies)
    (h : CheckQueueFamilies queue_families present_support = .ok data) :
    (0 ≤ data._graphics_family ∧ data._graphics_family < 2 ^ 31) ∧
    (0 ≤ data._present_family ∧ data._present_family < 2 ^ 31) := by
  unfold CheckQueueFamilies at h
  have hr := CheckQueueFamilies_loop_inRange present_support queue_families 0
    { _graphics_family := -1, _present_family := -1 }
    (by unfold QueueFamilies.InRange; norm_num)
  simp only at h
  split_ifs at h with hq
  injection h with h
  subst h
  simp only [QueueFamilies.QueuesAquired, Bool.not_eq_true', Bool.and_eq_false_imp,
    decide_eq_true_eq, decide_eq_false_iff_not, not_le, not_forall, not_lt, exists_prop] at hq
  unfold QueueFamilies.InRange at hr
  exact ⟨⟨hq.1, hr.1.2⟩, ⟨hq.2, hr.2.2⟩⟩

theorem castU32_of_nonneg (x : Int) (h0 : 0 ≤ x) (h1 : x < 2 ^ 31) :
    ((castU32 x : Nat) : Int) = x := by
  unfold castU32
  have : x % 2 ^ 32 = x := Int.emod_eq_of_lt h0 (by omega)
  rw [this]
  exact Int.toNat_of_nonneg h0

/-- C28: for every pair `CheckQueueFamilies` returns, `CreateLogicalDevice`
builds its queue create entries from exactly that pair: every entry asks for one
queue; when the two family indices are equal there is one entry, for that
family; when they differ there are two entries, one per family, with different
family indices; no family index occurs in two entries, and the indices of the
entries are exactly the graphics and the present family index. -/
theorem CreateLogicalDevice_one_entry_per_family
    (queue_families : List VkQueueFamilyProperties) (present_support : Nat → Nat)
    (data : QueueFamilies)
    (h : CheckQueueFamilies queue_families present_support = .ok data) :
    ∃ infos : List VkDeviceQueueCreateInfo,
      CreateLogicalDevice.queue_create_infos queue_families present_support =
        .ok (data, infos) ∧
      (∀ info ∈ infos, info.queueCount = 1) ∧
      (data._graphics_family = data._present_family →
        infos.length = 1 ∧
        (infos.map fun info => (info.queueFamilyIndex : Int)) = [data._graphics_family]) ∧
      (data._graphics_family ≠ data._present_family →
        infos.length = 2 ∧
        ((infos.map fun info => (info.queueFamilyIndex : Int)) =
            [data._graphics_family, data._present_family] ∨
          (infos.map fun info => (info.queueFamilyIndex : Int)) =
            [data._present_family, data._graphics_family])) ∧
      (infos.map fun info => info.queueFamilyIndex).Nodup ∧
      (∀ index : Int, index ∈ (infos.map fun info => (info.queueFamilyIndex : Int)) ↔
        index = data._graphics_family ∨ index = data._present_family) := by
  obtain ⟨⟨hg0, hg1⟩, ⟨hp0, hp1⟩⟩ :=
    CheckQueueFamilies_ok_range queue_families present_support data h
  have hg := castU32_of_nonneg _ hg0 hg1
  have hp := castU32_of_nonneg _ hp0 hp1
  unfold CreateLogicalDevice.queue_create_infos
  rw [h]
  simp only
  by_cases heq : data._graphics_family = data._present_family
  · rw [if_pos heq]
    refine ⟨_, rfl, ?_, ?_, ?_, ?_, ?_⟩
    · intro info hinfo
      simp only [List.map_cons, List.map_nil, List.mem_singleton] at hinfo
      rw [hinfo]
    · intro _
      simp only [List.map_cons, List.map_nil, List.length_singleton, hg, and_self]
    · intro hne
      exact absurd heq hne
    · simp
    · intro index
      simp only [List.map_cons, List.map_nil, List.mem_singleton, hg, ← heq, or_self]
  · rw [if_neg heq]
    have hne : castU32 data._graphics_family ≠ castU32 data._present_family := by
      intro hc
      apply heq
      rw [← hg, ← hp, hc]
    by_cases hlt : data._graphics_family < data._present_family
    · rw [if_pos hlt]
      refine ⟨_, rfl, ?_, ?_, ?_, ?_, ?_⟩
      · intro info hinfo
        simp only [List.map_cons, List.map_nil, List.mem_cons, List.mem_singleton,
          List.not_mem_nil, or_false] at hinfo
        rcases hinfo with hinfo | hinfo <;> rw [hinfo]
      · intro hc
        exact absurd hc heq
      · intro _
        refine ⟨rfl, Or.inl ?_⟩
        simp only [List.map_cons, List.map_nil, hg, hp]
      · simp only [List.map_cons, List.map_nil, List.nodup_cons, List.mem_singleton,
          List.not_mem_nil, not_false_eq_true, List.nodup_nil, and_true]
        exact hne
      · intro index
        simp only [List.map_cons, List.map_nil, List.mem_cons, List.mem_singleton,
          List.not_mem_nil, or_false, hg, hp]
    · rw [if_neg hlt]
      refine ⟨_, rfl, ?_, ?_, ?_, ?_, ?_⟩
      · intro info hinfo
        simp only [List.map_cons, List.map_nil, List.mem_cons, List.mem_singleton,
          List.not_mem_nil, or_false] at hinfo
        rcases hinfo with hinfo | hinfo <;> rw [hinfo]
      · intro hc
        exact absurd hc heq
      · intro _
        refine ⟨rfl, Or.inr ?_⟩
        simp only [List.map_cons, List.map_nil, hg, hp]
      · simp only [List.map_cons, List.map_nil, List.nodup_cons, List.mem_singleton,
          List.not_mem_nil, not_false_eq_true, List.nodup_nil, and_true]
        exact fun hc => hne hc.symm
      · intro index
        simp only [List.map_cons, List.map_nil, List.mem_cons, List.mem_singleton,
          List.not_mem_nil, or_false, hg, hp]
        exact or_comm

/-- C28 at a concrete adapter: family 0 has graphics only, family 1 presents
only, so the pair is (0, 1) and two entries are built. -/
theorem CreateLogicalDevice_one_entry_per_family_witness :
    CheckQueueFamilies [⟨VK_QUEUE_GRAPHICS_BIT, 1⟩, ⟨0, 1⟩]
        (fun i => if i = 1 then VK_TRUE else 0) = .ok ⟨0, 1⟩ ∧
    ∃ infos : List VkDeviceQueueCreateInfo,
      CreateLogicalDevice.queue_create_infos [⟨VK_QUEUE_GRAPHICS_BIT, 1⟩, ⟨0, 1⟩]
          (fun i => if i = 1 then VK_TRUE else 0) = .ok (⟨0, 1⟩, infos) ∧
      (∀ info ∈ infos, info.queueCount = 1) ∧
      ((0 : Int) = 1 →
        infos.length = 1 ∧
        (infos.map fun info => (info.queueFamilyIndex : Int)) = [0]) ∧
      ((0 : Int) ≠ 1 →
        infos.length = 2 ∧
        ((infos.map fun info => (info.queueFamilyIndex : Int)) = [0, 1] ∨
          (infos.map fun info => (info.queueFamilyIndex : Int)) = [1, 0])) ∧
      (infos.map fun info => info.queueFamilyIndex).Nodup ∧
      (∀ index : Int, index ∈ (infos.map fun info => (info.queueFamilyIndex : Int)) ↔
        index = 0 ∨ index = 1) :=
  ⟨by decide, CreateLogicalDevice_one_entry_per_family _ _ ⟨0, 1⟩ (by decide)⟩

/-- C22: for every resize notification and every session, `OnWindowResize` is
`RecreateSwapChain` when both dimensions are non-zero, and returns with the
session exactly as it was (members, trace and handle counter) when one of them
is zero; so whenever the swapchain request can be built, the notification adds
a `vkCreateSwapchainKHR` call to the trace if and only if both dimensions are
non-zero, and a notification with a zero dimension adds no call at all. -/
theorem OnWindowResize_recreates_iff_nonzero (d : Driver) (width height : Int)
    (s : Session) :
    (width ≠ 0 ∧ height ≠ 0 → OnWindowResize d width height s = RecreateSwapChain d s) ∧
    (width = 0 ∨ height = 0 → OnWindowResize d width height s = (.ok (), s)) ∧
    (RecreateSwapChain.create_info d s ≠ none →
      (((OnWindowResize d width height s).2.trace.filter VkCall.isSwapchainCreate).length =
          (s.trace.filter VkCall.isSwapchainCreate).length + 1 ↔
        width ≠ 0 ∧ height ≠ 0)) ∧
    ((OnWindowResize d width height s).2.trace ≠ s.trace → width ≠ 0 ∧ height ≠ 0) := by
  have hzero : ¬ (width ≠ 0 ∧ height ≠ 0) → OnWindowResize d width height s = (.ok (), s) := by
    intro h
    unfold OnWindowResize
    rw [if_neg h]
    rfl
  refine ⟨?_, ?_, ?_, ?_⟩
  · intro h
    unfold OnWindowResize
    rw [if_pos h]
  · intro h
    apply hzero
    rcases h with h | h
    · exact fun hc => hc.1 h
    · exact fun hc => hc.2 h
  · intro hci
    by_cases h : width ≠ 0 ∧ height ≠ 0
    · have hrun : OnWindowResize d width height s = RecreateSwapChain d s := by
        unfold OnWindowResize
        rw [if_pos h]
      obtain ⟨new, htrace, _, _, hone⟩ := RecreateSwapChain_calls d s
      rw [hrun, htrace, List.filter_append, List.length_append, hone hci]
      exact ⟨fun _ => h, fun _ => rfl⟩
    · rw [hzero h]
      constructor
      · intro hc
        simp only at hc
        omega
      · intro hc
        exact absurd hc h
  · intro hne
    by_contra h
    rw [hzero h] at hne
    exact hne rfl

/-! ## Error paths of the resource helpers -/

/-- C23 (fails as stated): on the example session (next handle 49)
`CreateGraphicsPipeline` destroys the two shader modules only on the path that
returns. When the creation of the fragment module fails, the vertex module 49
has been created and is not destroyed; when the pipeline layout or the pipeline
fails, both modules 49 and 50 have been created and neither is destroyed; in
all three cases the function throws and its trace holds no
`vkDestroyShaderModule`. Only when every call succeeds are both destroyed. -/
theorem CreateGraphicsPipeline_leaks_shader_modules :
    (CreateGraphicsPipeline (failingDriver 1) exampleSession).1 =
      .thrown "Failed To Create Shader Module!" ∧
    (CreateGraphicsPipeline (failingDriver 1) exampleSession).2.trace =
      [ .vkCreateShaderModule 5 4 VK_SUCCESS 49,
        .vkCreateShaderModule 5 4 VK_ERROR_INITIALIZATION_FAILED VK_NULL_HANDLE ] ∧
    (CreateGraphicsPipeline (failingDriver 2) exampleSession).1 =
      .thrown "Failed To Create Pipeline Layout!" ∧
    (CreateGraphicsPipeline (failingDriver 2) exampleSession).2.trace =
      [ .vkCreateShaderModule 5 4 VK_SUCCESS 49,
        .vkCreateShaderModule 5 4 VK_SUCCESS 50,
        .vkCreatePipelineLayout 5 [13] VK_ERROR_INITIALIZATION_FAILED VK_NULL_HANDLE ] ∧
    (CreateGraphicsPipeline (failingDriver 3) exampleSession).1 =
      .thrown "Failed To Create Graphics Pipeline!" ∧
    (CreateGraphicsPipeline (failingDriver 3) exampleSession).2.trace =
      [ .vkCreateShaderModule 5 4 VK_SUCCESS 49,
        .vkCreateShaderModule 5 4 VK_SUCCESS 50,
        .vkCreatePipelineLayout 5 [13] VK_SUCCESS 51,
        .vkCreateGraphicsPipelines 5 [49, 50] 51 12 ⟨100, 100⟩
          VK_ERROR_INITIALIZATION_FAILED VK_NULL_HANDLE ] ∧
    createCount (CreateGraphicsPipeline (failingDriver 3) exampleSession).2.trace 49 = 1 ∧
    destroyCount (CreateGraphicsPipeline (failingDriver 3) exampleSession).2.trace 49 = 0 ∧
    createCount (CreateGraphicsPipeline (failingDriver 3) exampleSession).2.trace 50 = 1 ∧
    destroyCount (CreateGraphicsPipeline (failingDriver 3) exampleSession).2.trace 50 = 0 ∧
    (CreateGraphicsPipeline successDriver exampleSession).1 = .ok () ∧
    (CreateGraphicsPipeline successDriver exampleSession).2.trace.filter
        VkCall.isShaderModuleDestroy =
      [ .vkDestroyShaderModule 5 49, .vkDestroyShaderModule 5 50 ] := by
  refine ⟨by decide!, by decide!, by decide!, by decide!, by decide!, by decide!, by decide!,
    by decide!, by decide!, by decide!, by decide!, by decide!⟩

theorem OkAt_bind {α β : Type} (m : Step α) (k : α → Step β) (s : Session)
    (P : β → Session → Prop) (h : OkAt m s (fun value s1 => OkAt (k value) s1 P)) :
    OkAt (m >>= k) s P := by
  intro b s2 hrun
  have hrun' : Step.bind m k s = (.ok b, s2) := hrun
  unfold Step.bind at hrun'
  rcases hm : m s with ⟨outcome, s1⟩
  rw [hm] at hrun'
  cases outcome with
  | ok value => exact h value s1 hm b s2 hrun'
  | thrown what => simp at hrun'
  | undefined => simp at hrun'

theorem OkAt_mono {α : Type} (m : Step α) (s : Session) (P Q : α → Session → Prop)
    (h : OkAt m s P) (hPQ : ∀ value s1, P value s1 → Q value s1) : OkAt m s Q :=
  fun value s1 hrun => hPQ value s1 (h value s1 hrun)

theorem OkAt_pure {α : Type} (value : α) (s : Session) (P : α → Session → Prop)
    (h : P value s) : OkAt (pure value : Step α) s P := by
  intro v s1 hrun
  have hrun' : ((Outcome.ok value, s) : Outcome α × Session) = (.ok v, s1) := hrun
  simp only [Prod.mk.injEq, Outcome.ok.injEq] at hrun'
  obtain ⟨rfl, rfl⟩ := hrun'
  exact h

theorem OkAt_raise {α : Type} (what : String) (s : Session) (P : α → Session → Prop) :
    OkAt (Step.raise what : Step α) s P := by
  intro v s1 hrun
  simp [Step.raise] at hrun

theorem OkAt_undefinedBehaviour {α : Type} (s : Session) (P : α → Session → Prop) :
    OkAt (Step.undefinedBehaviour : Step α) s P := by
  intro v s1 hrun
  simp [Step.undefinedBehaviour] at hrun

theorem OkAt_read (s : Session) (P : Session → Session → Prop) (h : P s s) :
    OkAt Step.read s P := by
  intro v s1 hrun
  simp only [Step.read, Prod.mk.injEq, Outcome.ok.injEq] at hrun
  obtain ⟨rfl, rfl⟩ := hrun
  exact h

theorem OkAt_write (f : Session → Session) (s : Session) (P : Unit → Session → Prop)
    (h : P () (f s)) : OkAt (Step.write f) s P := by
  intro v s1 hrun
  simp only [Step.write, Prod.mk.injEq, Outcome.ok.injEq] at hrun
  obtain ⟨_, rfl⟩ := hrun
  exact h

theorem OkAt_call (c : VkCall) (s : Session) (P : Unit → Session → Prop)
    (h : P () { s with trace := s.trace ++ [c] }) : OkAt (Step.call c) s P := by
  intro v s1 hrun
  simp only [Step.call, Prod.mk.injEq, Outcome.ok.injEq] at hrun
  obtain ⟨_, rfl⟩ := hrun
  exact h

theorem OkAt_calls (cs : List VkCall) (s : Session) (P : Unit → Session → Prop)
    (h : P () { s with trace := s.trace ++ cs }) : OkAt (Step.calls cs) s P := by
  intro v s1 hrun
  simp only [Step.calls, Prod.mk.injEq, Outcome.ok.injEq] at hrun
  obtain ⟨_, rfl⟩ := hrun
  exact h

theorem OkAt_answer (d : Driver) (s : Session) (P : VkResult → Session → Prop)
    (h : P (d.result s.trace.length) s) : OkAt (Step.answer d) s P := by
  intro v s1 hrun
  simp only [Step.answer, Prod.mk.injEq, Outcome.ok.injEq] at hrun
  obtain ⟨rfl, rfl⟩ := hrun
  exact h

theorem OkAt_allocate (count : Nat) (s : Session) (P : List Nat → Session → Prop)
    (h : P (List.range' s.fresh count) { s with fresh := s.fresh + count }) :
    OkAt (Step.allocate count) s P := by
  intro v s1 hrun
  simp only [Step.allocate, Prod.mk.injEq, Outcome.ok.injEq] at hrun
  obtain ⟨rfl, rfl⟩ := hrun
  exact h

/-- The shape `created <- vkCreate...; if (created != VK_SUCCESS) throw; rest`:
the rest runs only after a successful creation, which hands out the next
handle. -/
theorem OkAt_create_check {β : Type} (d : Driver) (mk : VkResult → Nat → VkCall)
    (what : String) (k : VkResult × Nat → Step β) (s : Session) (P : β → Session → Prop)
    (h : d.result s.trace.length = VK_SUCCESS →
      OkAt (k (VK_SUCCESS, s.fresh))
        { s with trace := s.trace ++ [mk VK_SUCCESS s.fresh], fresh := s.fresh + 1 } P) :
    OkAt (Step.create d mk >>= fun created =>
      if created.1 ≠ VK_SUCCESS then Step.raise what else k created) s P := by
  apply OkAt_bind
  intro created s1 hrun
  unfold Step.create at hrun
  by_cases hres : d.result s.trace.length = VK_SUCCESS
  · simp only [hres, if_true, Prod.mk.injEq, Outcome.ok.injEq] at hrun
    obtain ⟨rfl, rfl⟩ := hrun
    simp only [ne_eq, not_true_eq_false, if_false]
    exact h hres
  · simp only [hres, if_false, Prod.mk.injEq, Outcome.ok.injEq] at hrun
    obtain ⟨rfl, rfl⟩ := hrun
    simp only [ne_eq, hres, not_false_eq_true, if_true]
    exact OkAt_raise _ _ _

/-- When `CreateBuffer` returns, the memory-type search has found an index, and
the session and the two handles are those of `CreateBuffer.done`. -/
theorem CreateBuffer_ok (d : Driver) (p : Platform) (size usage properties : Nat)
    (buffer_ref buffer_memory_ref : Nat → Session → Session) (s : Session) :
    OkAt (CreateBuffer d p size usage properties buffer_ref buffer_memory_ref) s
      (fun value s1 => ∃ memoryTypeIndex,
        FindMemoryType p.memoryProperties (p.memoryRequirements s.fresh).memoryTypeBits
          properties = .ok memoryTypeIndex ∧
        s1 = CreateBuffer.done p size usage memoryTypeIndex buffer_ref buffer_memory_ref s ∧
        value = (s.fresh, (buffer_ref s.fresh
          { s with
            trace := s.trace ++
              [.setup (.vkCreateBuffer s._vk_logical_device size usage VK_SUCCESS s.fresh)]
            fresh := s.fresh + 1 }).fresh)) := by
  unfold CreateBuffer
  refine OkAt_bind _ _ _ _ (OkAt_read _ _ ?_)
  refine OkAt_create_check _ _ _ _ _ _ (fun _ => ?_)
  refine OkAt_bind _ _ _ _ (OkAt_write _ _ _ ?_)
  simp only
  cases hfind : FindMemoryType p.memoryProperties (p.memoryRequirements s.fresh).memoryTypeBits
      properties with
  | error what => exact OkAt_raise _ _ _
  | ok memoryTypeIndex =>
    simp only
    refine OkAt_create_check _ _ _ _ _ _ (fun _ => ?_)
    refine OkAt_bind _ _ _ _ (OkAt_write _ _ _ ?_)
    refine OkAt_bind _ _ _ _ (OkAt_call _ _ _ ?_)
    refine OkAt_pure _ _ _ ?_
    exact ⟨memoryTypeIndex, rfl, rfl, rfl⟩

theorem CreateImage_ok (d : Driver) (p : Platform) (width height : Nat) (format : VkFormat)
    (tiling : VkImageTiling) (usage mem_properties : Nat)
    (image_ref image_memory_ref : Nat → Session → Session) (s : Session) :
    OkAt (CreateImage d p width height format tiling usage mem_properties image_ref
        image_memory_ref) s
      (fun value s1 => ∃ memoryTypeIndex,
        FindMemoryType p.memoryProperties (p.memoryRequirements s.fresh).memoryTypeBits
          mem_properties = .ok memoryTypeIndex ∧
        s1 = CreateImage.done p width height format tiling usage memoryTypeIndex image_ref
          image_memory_ref s ∧
        value = (s.fresh, (image_ref s.fresh
          { s with
            trace := s.trace ++
              [.setup (.vkCreateImage s._vk_logical_device width height format tiling usage
                VK_SUCCESS s.fresh)]
            fresh := s.fresh + 1 }).fresh)) := by
  unfold CreateImage
  refine OkAt_bind _ _ _ _ (OkAt_read _ _ ?_)
  refine OkAt_create_check _ _ _ _ _ _ (fun _ => ?_)
  refine OkAt_bind _ _ _ _ (OkAt_write _ _ _ ?_)
  simp only
  cases hfind : FindMemoryType p.memoryProperties (p.memoryRequirements s.fresh).memoryTypeBits
      mem_properties with
  | error what => exact OkAt_raise _ _ _
  | ok memoryTypeIndex =>
    simp only
    refine OkAt_create_check _ _ _ _ _ _ (fun _ => ?_)
    refine OkAt_bind _ _ _ _ (OkAt_write _ _ _ ?_)
    refine OkAt_bind _ _ _ _ (OkAt_call _ _ _ ?_)
    refine OkAt_pure _ _ _ ?_
    exact ⟨memoryTypeIndex, rfl, rfl, rfl⟩

theorem CopyBuffer_run (src dst size : Nat) (s : Session) :
    CopyBuffer src dst size s =
      (.ok (), { s with
        trace := s.trace ++ oneShotCalls s (.setup (.vkCmdCopyBuffer s.fresh src dst size))
        fresh := s.fresh + 1 }) := by
  simp only [CopyBuffer, bind, Step.bind, StartSingleTimeCommands.step, StartSingleTimeCommands,
    Step.call, EndSingleTimeCommands.step, EndSingleTimeCommands, oneShotCalls,
    List.append_assoc, List.cons_append, List.nil_append]

theorem CopyBufferToImage_run (buffer image width height : Nat) (s : Session) :
    CopyBufferToImage buffer image width height s =
      (.ok (), { s with
        trace := s.trace ++ oneShotCalls s (.setup (.vkCmdCopyBufferToImage s.fresh buffer image
          VK_IMAGE_LAYOUT_TRANSFER_DST_OPTIMAL width height))
        fresh := s.fresh + 1 }) := by
  simp only [CopyBufferToImage, bind, Step.bind, StartSingleTimeCommands.step,
    StartSingleTimeCommands, Step.call, EndSingleTimeCommands.step, EndSingleTimeCommands,
    oneShotCalls, List.append_assoc, List.cons_append, List.nil_append]

/-- `TransitionImageLayout` on the session when the pair of layouts is one of
the three the function knows: it returns, and its calls are those of a one-shot
command buffer around one pipeline barrier. -/
theorem TransitionImageLayout_step_supported (image : Nat) (format : VkFormat)
    (old_layout new_layout : VkImageLayout) (s : Session)
    (barrier : VkImageMemoryBarrier × Nat × Nat)
    (h : TransitionImageLayout.select
      { srcAccessMask := 0
        dstAccessMask := 0
        oldLayout := old_layout
        newLayout := new_layout
        srcQueueFamilyIndex := VK_QUEUE_FAMILY_IGNORED
        dstQueueFamilyIndex := VK_QUEUE_FAMILY_IGNORED
        image := image
        subresourceRange :=
          { aspectMask := TransitionImageLayout.aspectMask format new_layout
            baseMipLevel := 0
            levelCount := 1
            baseArrayLayer := 0
            layerCount := 1 } } old_layout new_layout = .ok barrier) :
    TransitionImageLayout.step image format old_layout new_layout s =
      (.ok (), { s with
        trace := s.trace ++ oneShotCalls s
          (.vkCmdPipelineBarrier s.fresh barrier.2.1 barrier.2.2 0 0 0 [barrier.1])
        fresh := s.fresh + 1 }) := by
  simp only [TransitionImageLayout.step, TransitionImageLayout, h, StartSingleTimeCommands,
    EndSingleTimeCommands, oneShotCalls, List.append_assoc, List.cons_append, List.nil_append]

/-- `TransitionImageLayout` on the session for any other pair: it throws, and
the only calls made are the allocation and the begin of the command buffer. -/
theorem TransitionImageLayout_step_unsupported (image : Nat) (format : VkFormat)
    (old_layout new_layout : VkImageLayout) (s : Session) (what : String)
    (h : TransitionImageLayout.select
      { srcAccessMask := 0
        dstAccessMask := 0
        oldLayout := old_layout
        newLayout := new_layout
        srcQueueFamilyIndex := VK_QUEUE_FAMILY_IGNORED
        dstQueueFamilyIndex := VK_QUEUE_FAMILY_IGNORED
        image := image
        subresourceRange :=
          { aspectMask := TransitionImageLayout.aspectMask format new_layout
            baseMipLevel := 0
            levelCount := 1
            baseArrayLayer := 0
            layerCount := 1 } } old_layout new_layout = .error what) :
    TransitionImageLayout.step image format old_layout new_layout s =
      (.thrown what, { s with
        trace := s.trace ++
          [ .vkAllocateCommandBuffers s._vk_logical_device s._vk_command_pool
              VK_COMMAND_BUFFER_LEVEL_PRIMARY 1 s.fresh,
            .vkBeginCommandBuffer s.fresh VK_COMMAND_BUFFER_USAGE_ONE_TIME_SUBMIT_BIT ]
        fresh := s.fresh + 1 }) := by
  simp only [TransitionImageLayout.step, TransitionImageLayout, h, StartSingleTimeCommands]


theorem CreateSwapChain_emits (P : VkCall → Prop) (d : Driver) (queue_families : QueueFamilies)
    (old : Nat)
    (hcreate : ∀ device create_info result swapchain,
      P (.vkCreateSwapchainKHR device create_info result swapchain))
    (hget : ∀ device swapchain images, P (.vkGetSwapchainImagesKHR device swapchain images)) :
    Emits P (CreateSwapChain d queue_families old) := by
  unfold CreateSwapChain
  refine Emits_bind _ _ _ (Emits_read _) (fun s => ?_)
  simp only
  split
  · exact Emits_undefinedBehaviour _
  · refine Emits_bind _ _ _ (Emits_write _ _ (fun _ => rfl)) (fun _ => ?_)
    refine Emits_bind _ _ _ (Emits_create _ _ _ (fun _ _ => hcreate _ _ _ _)) (fun created => ?_)
    split_ifs
    · exact Emits_raise _ _
    · refine Emits_bind _ _ _ (Emits_write _ _ (fun _ => rfl)) (fun _ => ?_)
      refine Emits_bind _ _ _ (Emits_read _) (fun s1 => ?_)
      refine Emits_bind _ _ _ (Emits_call _ _ (hget _ _ _)) (fun _ => ?_)
      refine Emits_bind _ _ _ (Emits_allocate _ _) (fun images => ?_)
      refine Emits_bind _ _ _ (Emits_write _ _ (fun _ => rfl)) (fun _ => ?_)
      exact Emits_call _ _ (hget _ _ _)

theorem isRebuild_not_helper (c : VkCall) (h : c.isRebuild = true) :
    c.isSetup = false ∧ c.isOneShot = false := by
  cases c <;> first | exact ⟨rfl, rfl⟩ | exact absurd h (Bool.false_ne_true)

theorem ReleaseSwapchain_calls_not_helper (s : Session) :
    ∀ c ∈ ReleaseSwapchain.calls s, c.isSetup = false ∧ c.isOneShot = false := by
  intro c hc
  simp only [ReleaseSwapchain.calls, List.mem_append, List.mem_cons, List.mem_singleton,
    List.mem_map, List.not_mem_nil, or_false] at hc
  rcases hc with (((h | h | h) | ⟨_, _, h⟩) | (h | h | h | h)) | ⟨_, _, h⟩ <;>
    subst h <;> exact ⟨rfl, rfl⟩

/-- Whatever the driver answers, `RecreateSwapChain` makes no call of
`SetupCall` and no call of the one-shot command helper. -/
theorem RecreateSwapChain_emits (d : Driver) :
    Emits (fun c => c.isSetup = false ∧ c.isOneShot = false) (RecreateSwapChain d) := by
  unfold RecreateSwapChain
  refine Emits_bind _ _ _ (Emits_read _) (fun s => ?_)
  refine Emits_bind _ _ _
    (CreateSwapChain_emits _ _ _ _ (fun _ _ _ _ => ⟨rfl, rfl⟩) (fun _ _ _ => ⟨rfl, rfl⟩))
    (fun _ => ?_)
  refine Emits_bind _ _ _ (Emits_call _ _ ⟨rfl, rfl⟩) (fun _ => ?_)
  refine Emits_bind _ _ _ ?_ (fun _ => ?_)
  · unfold ReleaseSwapchain
    refine Emits_bind _ _ _ (Emits_read _) (fun s1 => ?_)
    exact Emits_calls _ _ (ReleaseSwapchain_calls_not_helper s1)
  refine Emits_bind _ _ _ (Emits_call _ _ ⟨rfl, rfl⟩) (fun _ => ?_)
  exact Emits_mono _ _ _ isRebuild_not_helper (RecreateSwapChain_rebuild_emits d)

/-- Whatever the driver answers, `Draw` makes no call of `SetupCall` and no
call of the one-shot command helper. -/
theorem Draw_emits (d : Driver) :
    Emits (fun c => c.isSetup = false ∧ c.isOneShot = false) (Draw d) := by
  unfold Draw
  refine Emits_bind _ _ _ (Emits_read _) (fun s => ?_)
  refine Emits_bind _ _ _ (Emits_call _ _ ⟨rfl, rfl⟩) (fun _ => ?_)
  refine Emits_bind _ _ _ (Emits_answer _ _) (fun result => ?_)
  refine Emits_bind _ _ _ (Emits_read _) (fun s1 => ?_)
  refine Emits_bind _ _ _ (Emits_call _ _ ⟨rfl, rfl⟩) (fun _ => ?_)
  split_ifs
  · exact RecreateSwapChain_emits d
  · exact Emits_raise _ _
  · split
    · exact Emits_undefinedBehaviour _
    · refine Emits_bind _ _ _ (Emits_answer _ _) (fun submitted => ?_)
      refine Emits_bind _ _ _ (Emits_call _ _ ⟨rfl, rfl⟩) (fun _ => ?_)
      split_ifs
      · exact Emits_raise _ _
      · refine Emits_bind _ _ _ (Emits_answer _ _) (fun presented => ?_)
        refine Emits_bind _ _ _ (Emits_call _ _ ⟨rfl, rfl⟩) (fun _ => ?_)
        split_ifs
        · exact RecreateSwapChain_emits d
        · exact Emits_raise _ _
        · exact Emits_pure _ _

/-- C25 (fails as stated): `TransitionImageLayout` acquires its one-shot
command buffer before it looks at the pair of layouts. On the example session
(next handle 49) the transition UNDEFINED to UNDEFINED throws "Unsupported
Layout Transition!" after the allocation and the begin of command buffer 49 and
nothing else: the buffer is not ended, not submitted, the queue is not waited
for, and the buffer is not freed, so that the calls leave command buffer 49
allocated. -/
theorem TransitionImageLayout_leaves_one_shot_buffer_allocated :
    (TransitionImageLayout.step 27 VK_FORMAT_R8G8B8A8_UNORM VK_IMAGE_LAYOUT_UNDEFINED
        VK_IMAGE_LAYOUT_UNDEFINED exampleSession).1 = .thrown "Unsupported Layout Transition!" ∧
    (TransitionImageLayout.step 27 VK_FORMAT_R8G8B8A8_UNORM VK_IMAGE_LAYOUT_UNDEFINED
        VK_IMAGE_LAYOUT_UNDEFINED exampleSession).2.trace =
      [ .vkAllocateCommandBuffers 5 18 VK_COMMAND_BUFFER_LEVEL_PRIMARY 1 49,
        .vkBeginCommandBuffer 49 VK_COMMAND_BUFFER_USAGE_ONE_TIME_SUBMIT_BIT ] ∧
    oneShotLive (TransitionImageLayout.step 27 VK_FORMAT_R8G8B8A8_UNORM
      VK_IMAGE_LAYOUT_UNDEFINED VK_IMAGE_LAYOUT_UNDEFINED exampleSession).2.trace = [49] ∧
    createCount (TransitionImageLayout.step 27 VK_FORMAT_R8G8B8A8_UNORM
      VK_IMAGE_LAYOUT_UNDEFINED VK_IMAGE_LAYOUT_UNDEFINED exampleSession).2.trace 49 = 1 ∧
    destroyCount (TransitionImageLayout.step 27 VK_FORMAT_R8G8B8A8_UNORM
      VK_IMAGE_LAYOUT_UNDEFINED VK_IMAGE_LAYOUT_UNDEFINED exampleSession).2.trace 49 = 0 := by
  refine ⟨by decide!, by decide!, by decide!, by decide!, by decide!⟩

/-- C24 (fails as stated): `CreateBuffer` and `CreateImage` throw without
destroying what they created. On the example session (next
handle 49), with the memory types of `exampleMemoryProperties`: asked for
property flags 0x10, which no memory type has, `CreateBuffer` throws
"Failed To Find Suitable Memory Type!" after creating buffer 49, and the trace
holds neither a binding nor a destruction of it; when the allocation fails it
throws "Failed To Allocate Buffer Memory!" with buffer 49 again created, unbound
and not destroyed; `CreateImage` does the same with image 49. On the paths that
return the claim holds: the object is bound at offset 0 to the memory allocated
in the call, of the required size (64) and of the type index `FindMemoryType`
gives (1 for host-visible coherent memory). -/
theorem CreateBuffer_CreateImage_leave_unbound_object :
    (CreateBuffer successDriver examplePlatform 64 VK_BUFFER_USAGE_TRANSFER_SRC_BIT 0x10
      localVariable localVariable exampleSession).1 =
      .thrown "Failed To Find Suitable Memory Type!" ∧
    (CreateBuffer successDriver examplePlatform 64 VK_BUFFER_USAGE_TRANSFER_SRC_BIT 0x10
      localVariable localVariable exampleSession).2.trace =
      [ .setup (.vkCreateBuffer 5 64 VK_BUFFER_USAGE_TRANSFER_SRC_BIT VK_SUCCESS 49) ] ∧
    (CreateBuffer (failingDriver 1) examplePlatform 64 VK_BUFFER_USAGE_TRANSFER_SRC_BIT
      (VK_MEMORY_PROPERTY_HOST_VISIBLE_BIT ||| VK_MEMORY_PROPERTY_HOST_COHERENT_BIT)
      localVariable localVariable exampleSession).1 =
      .thrown "Failed To Allocate Buffer Memory!" ∧
    (CreateBuffer (failingDriver 1) examplePlatform 64 VK_BUFFER_USAGE_TRANSFER_SRC_BIT
      (VK_MEMORY_PROPERTY_HOST_VISIBLE_BIT ||| VK_MEMORY_PROPERTY_HOST_COHERENT_BIT)
      localVariable localVariable exampleSession).2.trace =
      [ .setup (.vkCreateBuffer 5 64 VK_BUFFER_USAGE_TRANSFER_SRC_BIT VK_SUCCESS 49),
        .setup (.vkAllocateMemory 5 64 1 VK_ERROR_INITIALIZATION_FAILED VK_NULL_HANDLE) ] ∧
    (CreateImage successDriver examplePlatform 100 100 VK_FORMAT_D32_SFLOAT
      VK_IMAGE_TILING_OPTIMAL VK_IMAGE_USAGE_DEPTH_STENCIL_ATTACHMENT_BIT 0x10
      localVariable localVariable exampleSession).1 =
      .thrown "Failed To Find Suitable Memory Type!" ∧
    (CreateImage successDriver examplePlatform 100 100 VK_FORMAT_D32_SFLOAT
      VK_IMAGE_TILING_OPTIMAL VK_IMAGE_USAGE_DEPTH_STENCIL_ATTACHMENT_BIT 0x10
      localVariable localVariable exampleSession).2.trace =
      [ .setup (.vkCreateImage 5 100 100 VK_FORMAT_D32_SFLOAT VK_IMAGE_TILING_OPTIMAL
          VK_IMAGE_USAGE_DEPTH_STENCIL_ATTACHMENT_BIT VK_SUCCESS 49) ] ∧
    (CreateImage (failingDriver 1) examplePlatform 100 100 VK_FORMAT_D32_SFLOAT
      VK_IMAGE_TILING_OPTIMAL VK_IMAGE_USAGE_DEPTH_STENCIL_ATTACHMENT_BIT
      VK_MEMORY_PROPERTY_DEVICE_LOCAL_BIT localVariable localVariable exampleSession).1 =
      .thrown "Failed To Allocate Image Memory!" ∧
    (CreateImage (failingDriver 1) examplePlatform 100 100 VK_FORMAT_D32_SFLOAT
      VK_IMAGE_TILING_OPTIMAL VK_IMAGE_USAGE_DEPTH_STENCIL_ATTACHMENT_BIT
      VK_MEMORY_PROPERTY_DEVICE_LOCAL_BIT localVariable localVariable exampleSession).2.trace =
      [ .setup (.vkCreateImage 5 100 100 VK_FORMAT_D32_SFLOAT VK_IMAGE_TILING_OPTIMAL
          VK_IMAGE_USAGE_DEPTH_STENCIL_ATTACHMENT_BIT VK_SUCCESS 49),
        .setup (.vkAllocateMemory 5 64 0 VK_ERROR_INITIALIZATION_FAILED VK_NULL_HANDLE) ] ∧
    createCount (CreateBuffer (failingDriver 1) examplePlatform 64
      VK_BUFFER_USAGE_TRANSFER_SRC_BIT
      (VK_MEMORY_PROPERTY_HOST_VISIBLE_BIT ||| VK_MEMORY_PROPERTY_HOST_COHERENT_BIT)
      localVariable localVariable exampleSession).2.trace 49 = 1 ∧
    destroyCount (CreateBuffer (failingDriver 1) examplePlatform 64
      VK_BUFFER_USAGE_TRANSFER_SRC_BIT
      (VK_MEMORY_PROPERTY_HOST_VISIBLE_BIT ||| VK_MEMORY_PROPERTY_HOST_COHERENT_BIT)
      localVariable localVariable exampleSession).2.trace 49 = 0 ∧
    (CreateBuffer (failingDriver 1) examplePlatform 64 VK_BUFFER_USAGE_TRANSFER_SRC_BIT
      (VK_MEMORY_PROPERTY_HOST_VISIBLE_BIT ||| VK_MEMORY_PROPERTY_HOST_COHERENT_BIT)
      localVariable localVariable exampleSession).2.trace.filter VkCall.isBindMemory = [] ∧
    CreateBuffer successDriver examplePlatform 64 VK_BUFFER_USAGE_TRANSFER_SRC_BIT
      (VK_MEMORY_PROPERTY_HOST_VISIBLE_BIT ||| VK_MEMORY_PROPERTY_HOST_COHERENT_BIT)
      localVariable localVariable exampleSession =
      (.ok (49, 50), { exampleSession with
        trace :=
          [ .setup (.vkCreateBuffer 5 64 VK_BUFFER_USAGE_TRANSFER_SRC_BIT VK_SUCCESS 49),
            .setup (.vkAllocateMemory 5 64 1 VK_SUCCESS 50),
            .setup (.vkBindBufferMemory 5 49 50 0) ]
        fresh := 51 }) ∧
    FindMemoryType exampleMemoryProperties 7
      (VK_MEMORY_PROPERTY_HOST_VISIBLE_BIT ||| VK_MEMORY_PROPERTY_HOST_COHERENT_BIT) = .ok 1 := by
  refine ⟨by decide!, by decide!, by decide!, by decide!, by decide!, by decide!, by decide!,
    by decide!, by decide!, by decide!, by decide!, by decide!, by decide!⟩

theorem ownedCount_append (a b : List VkCall) (h : Nat) :
    ownedCount (a ++ b) h = ownedCount a h + ownedCount b h := by
  simp [ownedCount, List.map_append, List.sum_append]

theorem destroyCount_append (a b : List VkCall) (h : Nat) :
    destroyCount (a ++ b) h = destroyCount a h + destroyCount b h := by
  simp [destroyCount, List.map_append, List.sum_append]

theorem ownedCount_cons (c : VkCall) (a : List VkCall) (h : Nat) :
    ownedCount (c :: a) h = c.owned.count h + ownedCount a h := by
  simp [ownedCount]

theorem destroyCount_cons (c : VkCall) (a : List VkCall) (h : Nat) :
    destroyCount (c :: a) h = c.destroyed.count h + destroyCount a h := by
  simp [destroyCount]

theorem ownedCount_nil (h : Nat) : ownedCount [] h = 0 := rfl

theorem destroyCount_nil (h : Nat) : destroyCount [] h = 0 := rfl

theorem Balance_nil (lo hi : Nat) : Balance [] [] [] lo hi :=
  ⟨fun _ => rfl, fun _ => Nat.zero_le _, fun h hh => by simp [ownedCount] at hh⟩

/-- Two runs in a row: the second creates from where the first stopped. -/
theorem Balance_append (c1 c2 : List VkCall) (r1 k1 r2 k2 : List Nat) (lo mid hi : Nat)
    (h1 : Balance c1 r1 k1 lo mid) (h2 : Balance c2 r2 k2 mid hi) (hlo : lo ≤ mid)
    (hhi : mid ≤ hi) : Balance (c1 ++ c2) (r1 ++ r2) (k1 ++ k2) lo hi := by
  obtain ⟨e1, u1, b1⟩ := h1
  obtain ⟨e2, u2, b2⟩ := h2
  refine ⟨fun h => ?_, fun h => ?_, fun h hh => ?_⟩
  · rw [ownedCount_append, destroyCount_append, List.count_append, List.count_append]
    have := e1 h
    have := e2 h
    omega
  · rw [ownedCount_append]
    have := u1 h
    have := u2 h
    by_cases hc1 : 1 ≤ ownedCount c1 h
    · by_cases hc2 : 1 ≤ ownedCount c2 h
      · have := b1 h hc1
        have := b2 h hc2
        omega
      · omega
    · omega
  · rw [ownedCount_append] at hh
    by_cases hc1 : 1 ≤ ownedCount c1 h
    · have := b1 h hc1
      omega
    · have := b2 h (by omega)
      omega

/-- A wider range of handle values. -/
theorem Balance_widen (c : List VkCall) (r k : List Nat) (lo hi lo1 hi1 : Nat)
    (h : Balance c r k lo hi) (hlo : lo1 ≤ lo) (hhi : hi ≤ hi1) : Balance c r k lo1 hi1 :=
  ⟨h.1, h.2.1, fun x hx => by
    have := h.2.2 x hx
    omega⟩

/-- The same balance with the lists `released` and `kept` replaced by lists
with the same difference. -/
theorem Balance_congr (c : List VkCall) (r k r1 k1 : List Nat) (lo hi : Nat)
    (h : Balance c r k lo hi)
    (hcount : ∀ x, r.count x + k1.count x = r1.count x + k.count x) :
    Balance c r1 k1 lo hi :=
  ⟨fun x => by
    have := h.1 x
    have := hcount x
    omega, h.2.1, h.2.2⟩

/-- One call that creates the owned handle `handle` and destroys nothing. -/
theorem Balance_create (c : VkCall) (handle : Nat) (ho : c.owned = [handle])
    (hd : c.destroyed = []) : Balance [c] [] [handle] handle (handle + 1) := by
  refine ⟨fun h => ?_, fun h => ?_, fun h hh => ?_⟩
  · simp [ownedCount, destroyCount, ho, hd]
  · simp only [ownedCount, List.map_cons, List.map_nil, List.sum_cons, List.sum_nil, ho,
      Nat.add_zero]
    exact (List.count_le_length _ _).trans (by simp)
  · simp only [ownedCount, List.map_cons, List.map_nil, List.sum_cons, List.sum_nil, ho,
      Nat.add_zero, List.count_singleton] at hh
    split_ifs at hh with heq
    · simp only [beq_iff_eq] at heq
      omega
    · omega

/-- Calls that create no owned handle and destroy the handles `released`. -/
theorem Balance_release (c : List VkCall) (released : List Nat) (lo : Nat)
    (ho : ∀ h, ownedCount c h = 0) (hd : ∀ h, destroyCount c h = released.count h) :
    Balance c released [] lo lo :=
  ⟨fun h => by simp [ho h, hd h], fun h => by simp [ho h], fun h hh => by
    rw [ho h] at hh
    omega⟩

theorem oneShotCalls_counts (s : Session) (cmd : VkCall) (ho : cmd.owned = [])
    (hd : cmd.destroyed = []) (h : Nat) :
    ownedCount (oneShotCalls s cmd) h = [s.fresh].count h ∧
    destroyCount (oneShotCalls s cmd) h = [s.fresh].count h := by
  constructor
  · simp only [oneShotCalls, ownedCount_cons, ownedCount_nil, ho]
    simp [VkCall.owned, VkCall.created]
  · simp only [oneShotCalls, destroyCount_cons, destroyCount_nil, hd]
    simp [VkCall.destroyed]

/-- A one-shot command buffer is created and freed within its run. -/
theorem Balance_oneShotCalls (s : Session) (cmd : VkCall) (ho : cmd.owned = [])
    (hd : cmd.destroyed = []) :
    Balance (oneShotCalls s cmd) [] [] s.fresh (s.fresh + 1) := by
  refine ⟨fun h => ?_, fun h => ?_, fun h hh => ?_⟩
  · rw [(oneShotCalls_counts s cmd ho hd h).1, (oneShotCalls_counts s cmd ho hd h).2]
  · rw [(oneShotCalls_counts s cmd ho hd h).1]
    exact (List.count_le_length _ _).trans (by simp)
  · rw [(oneShotCalls_counts s cmd ho hd h).1, List.count_singleton] at hh
    split_ifs at hh with heq
    · simp only [beq_iff_eq] at heq
      omega
    · omega
/-! ## What the initialization functions leave when they return -/

theorem CreateVkInstance_ok (d : Driver) (p : Platform) (s : Session) :
    OkAt (CreateVkInstance d p) s (fun _ s1 => ∃ calls,
      s1 = { s with _vk_instance := s.fresh, trace := s.trace ++ calls, fresh := s.fresh + 1 } ∧
      Balance calls [] [s.fresh] s.fresh (s.fresh + 1)) := by
  unfold CreateVkInstance
  by_cases hcheck : (!p.NDEBUG && !CheckValidationLayers p) = true
  · rw [if_pos hcheck]
    exact OkAt_raise _ _ _
  · rw [if_neg hcheck]
    cases RequiredExtensions p with
    | error what => exact OkAt_raise _ _ _
    | ok required_extensions =>
      refine OkAt_create_check _ _ _ _ _ _ (fun _ => ?_)
      refine OkAt_write _ _ _ ?_
      exact ⟨_, rfl, Balance_create _ _ rfl rfl⟩

theorem InitializeVulkan_debugCallback_ok (d : Driver) (p : Platform) (s : Session) :
    OkAt (InitializeVulkan.debugCallback d p) s (fun _ s1 =>
      (p.NDEBUG = true ∧ s1 = s) ∨
      (p.NDEBUG = false ∧ p.debugReportLoaded = true ∧ ∃ calls,
        s1 = { s with
          _vk_callback := s.fresh, trace := s.trace ++ calls, fresh := s.fresh + 1 } ∧
        Balance calls [] [s.fresh] s.fresh (s.fresh + 1))) := by
  unfold InitializeVulkan.debugCallback
  split_ifs with hdebug
  · exact OkAt_pure _ _ _ (Or.inl ⟨hdebug, rfl⟩)
  · refine OkAt_bind _ _ _ _ (OkAt_read _ _ ?_)
    unfold CreateDebugReportCallbackEXT
    split_ifs with hloaded
    · refine OkAt_create_check _ _ _ _ _ _ (fun _ => ?_)
      refine OkAt_write _ _ _ ?_
      exact Or.inr ⟨by simpa using hdebug, hloaded, _, rfl, Balance_create _ _ rfl rfl⟩
    · refine OkAt_bind _ _ _ _ (OkAt_pure _ _ _ ?_)
      exact OkAt_raise _ _ _

theorem CreateSurface_ok (d : Driver) (s : Session) :
    OkAt (CreateSurface d) s (fun _ s1 => ∃ calls,
      s1 = { s with _vk_surface := s.fresh, trace := s.trace ++ calls, fresh := s.fresh + 1 } ∧
      Balance calls [] [s.fresh] s.fresh (s.fresh + 1)) := by
  unfold CreateSurface
  refine OkAt_bind _ _ _ _ (OkAt_read _ _ ?_)
  refine OkAt_create_check _ _ _ _ _ _ (fun _ => ?_)
  refine OkAt_write _ _ _ ?_
  exact ⟨_, rfl, Balance_create _ _ rfl rfl⟩

theorem SelectPhysicalDevice_step_ok (p : Platform) (s : Session) :
    OkAt (SelectPhysicalDevice.step p) s (fun _ s1 => ∃ device,
      s1 = { s with _vk_physical_device := device }) := by
  unfold SelectPhysicalDevice.step
  split
  · exact OkAt_raise _ _ _
  · exact OkAt_write _ _ _ ⟨_, rfl⟩

theorem CreateDescriptorSetLayout_ok (d : Driver) (s : Session) :
    OkAt (CreateDescriptorSetLayout d) s (fun _ s1 => ∃ calls,
      s1 = { s with
        _vk_descriptor_set_layout := s.fresh, trace := s.trace ++ calls, fresh := s.fresh + 1 } ∧
      Balance calls [] [s.fresh] s.fresh (s.fresh + 1)) := by
  unfold CreateDescriptorSetLayout
  refine OkAt_bind _ _ _ _ (OkAt_read _ _ ?_)
  refine OkAt_create_check _ _ _ _ _ _ (fun _ => ?_)
  refine OkAt_write _ _ _ ?_
  exact ⟨_, rfl, Balance_create _ _ rfl rfl⟩

theorem CreateCommandPool_ok (d : Driver) (queue_families : QueueFamilies) (s : Session) :
    OkAt (CreateCommandPool d queue_families) s (fun _ s1 => ∃ calls,
      s1 = { s with
        _vk_command_pool := s.fresh, trace := s.trace ++ calls, fresh := s.fresh + 1 } ∧
      Balance calls [] [s.fresh] s.fresh (s.fresh + 1)) := by
  unfold CreateCommandPool
  refine OkAt_bind _ _ _ _ (OkAt_read _ _ ?_)
  refine OkAt_create_check _ _ _ _ _ _ (fun _ => ?_)
  refine OkAt_write _ _ _ ?_
  exact ⟨_, rfl, Balance_create _ _ rfl rfl⟩

theorem CreateTextureSampler_ok (d : Driver) (s : Session) :
    OkAt (CreateTextureSampler d) s (fun _ s1 => ∃ calls,
      s1 = { s with
        _vk_texture_sampler := s.fresh, trace := s.trace ++ calls, fresh := s.fresh + 1 } ∧
      Balance calls [] [s.fresh] s.fresh (s.fresh + 1)) := by
  unfold CreateTextureSampler
  refine OkAt_bind _ _ _ _ (OkAt_read _ _ ?_)
  refine OkAt_create_check _ _ _ _ _ _ (fun _ => ?_)
  refine OkAt_write _ _ _ ?_
  exact ⟨_, rfl, Balance_create _ _ rfl rfl⟩

theorem CreateDescriptorPool_ok (d : Driver) (s : Session) :
    OkAt (CreateDescriptorPool d) s (fun _ s1 => ∃ calls,
      s1 = { s with
        _vk_descriptor_pool := s.fresh, trace := s.trace ++ calls, fresh := s.fresh + 1 } ∧
      Balance calls [] [s.fresh] s.fresh (s.fresh + 1)) := by
  unfold CreateDescriptorPool
  refine OkAt_bind _ _ _ _ (OkAt_read _ _ ?_)
  refine OkAt_create_check _ _ _ _ _ _ (fun _ => ?_)
  refine OkAt_write _ _ _ ?_
  exact ⟨_, rfl, Balance_create _ _ rfl rfl⟩

theorem ownedCount_eq_zero (c : List VkCall) (h : ∀ x ∈ c, x.owned = []) (handle : Nat) :
    ownedCount c handle = 0 := by
  induction c with
  | nil => rfl
  | cons x rest ih =>
    rw [ownedCount_cons, h x (List.mem_cons_self _ _),
      ih (fun y hy => h y (List.mem_cons_of_mem _ hy))]
    rfl

theorem destroyCount_eq_zero (c : List VkCall) (h : ∀ x ∈ c, x.destroyed = []) (handle : Nat) :
    destroyCount c handle = 0 := by
  induction c with
  | nil => rfl
  | cons x rest ih =>
    rw [destroyCount_cons, h x (List.mem_cons_self _ _),
      ih (fun y hy => h y (List.mem_cons_of_mem _ hy))]
    rfl

/-- Calls that neither create an owned handle nor destroy one. -/
theorem Balance_neutral (c : List VkCall) (lo : Nat)
    (h : ∀ x ∈ c, x.owned = [] ∧ x.destroyed = []) : Balance c [] [] lo lo :=
  Balance_release c [] lo (ownedCount_eq_zero c (fun x hx => (h x hx).1))
    (fun handle => by rw [destroyCount_eq_zero c (fun x hx => (h x hx).2) handle]; rfl)

theorem CreateDescriptorSet_ok (d : Driver) (s : Session) :
    OkAt (CreateDescriptorSet d) s (fun _ s1 => ∃ calls,
      s1 = { s with
        _vk_descriptor_set := s.fresh, trace := s.trace ++ calls, fresh := s.fresh + 1 } ∧
      Balance calls [] [] s.fresh (s.fresh + 1)) := by
  unfold CreateDescriptorSet
  refine OkAt_bind _ _ _ _ (OkAt_read _ _ ?_)
  refine OkAt_create_check _ _ _ _ _ _ (fun _ => ?_)
  refine OkAt_bind _ _ _ _ (OkAt_write _ _ _ ?_)
  refine OkAt_call _ _ _ ?_
  refine ⟨[_, _], by simp only [List.append_assoc, List.singleton_append]; rfl, ?_⟩
  refine Balance_widen _ _ _ _ _ _ _ (Balance_neutral _ s.fresh ?_) (le_refl _) (by omega)
  intro x hx
  simp only [List.mem_cons, List.mem_singleton, List.not_mem_nil, or_false] at hx
  rcases hx with hx | hx <;> subst hx <;> exact ⟨rfl, rfl⟩

theorem CreateSemaphores_ok (d : Driver) (s : Session) :
    OkAt (CreateSemaphores d) s (fun _ s1 => ∃ calls,
      s1 = { s with
        _vk_image_available_semaphore := s.fresh
        _vk_frame_complete_semaphore := s.fresh + 1
        trace := s.trace ++ calls
        fresh := s.fresh + 2 } ∧
      Balance calls [] [s.fresh, s.fresh + 1] s.fresh (s.fresh + 2)) := by
  unfold CreateSemaphores
  refine OkAt_bind _ _ _ _ (OkAt_read _ _ ?_)
  refine OkAt_create_check _ _ _ _ _ _ (fun _ => ?_)
  refine OkAt_bind _ _ _ _ (OkAt_write _ _ _ ?_)
  refine OkAt_create_check _ _ _ _ _ _ (fun _ => ?_)
  refine OkAt_write _ _ _ ?_
  refine ⟨[_, _], by simp only [List.append_assoc, List.singleton_append]; rfl, ?_⟩
  exact Balance_append [_] [_] [] [_] [] [_] _ _ _ (Balance_create _ _ rfl rfl)
    (Balance_create _ _ rfl rfl) (by omega) (by omega)
theorem set_length_append (pre : List Nat) (x v : Nat) (mid : List Nat) :
    (pre ++ x :: mid).set pre.length v = pre ++ v :: mid := by
  induction pre with
  | nil => rfl
  | cons a pre ih => simp only [List.cons_append, List.length_cons, List.set_cons_succ, ih]

theorem CreateImageView_ok (d : Driver) (image : Nat) (format : VkFormat) (aspect_flags : Nat)
    (s : Session) :
    OkAt (CreateImageView d image format aspect_flags) s (fun view s1 => ∃ c,
      view = s.fresh ∧
      s1 = { s with trace := s.trace ++ [c], fresh := s.fresh + 1 } ∧
      c.owned = [s.fresh] ∧ c.destroyed = []) := by
  unfold CreateImageView
  refine OkAt_bind _ _ _ _ (OkAt_read _ _ ?_)
  refine OkAt_create_check _ _ _ _ _ _ (fun _ => ?_)
  exact OkAt_pure _ _ _ ⟨_, rfl, rfl, rfl, rfl⟩

theorem Balance_range_zero (lo : Nat) : Balance [] [] (List.range' lo 0) lo (lo + 0) :=
  Balance_nil lo (lo + 0)

theorem CreateImageViews_loop_ok (d : Driver) (remaining : Nat) :
    ∀ (i : Nat) (s : Session) (pre mid : List Nat),
      s._vk_swapchain_image_views = pre ++ mid → pre.length = i → mid.length = remaining →
      OkAt (CreateImageViews.loop d remaining i) s (fun _ s1 => ∃ calls,
        s1 = { s with
          _vk_swapchain_image_views := pre ++ List.range' s.fresh remaining
          trace := s.trace ++ calls
          fresh := s.fresh + remaining } ∧
        Balance calls [] (List.range' s.fresh remaining) s.fresh (s.fresh + remaining)) := by
  induction remaining with
  | zero =>
    intro i s pre mid hviews _ hmid
    have hnil : mid = [] := List.length_eq_zero.1 hmid
    subst hnil
    refine OkAt_pure _ _ _ ⟨[], ?_, Balance_range_zero _⟩
    cases s
    simp only [List.append_nil] at hviews
    simp only [List.range'_zero, List.append_nil, Nat.add_zero, ← hviews]
  | succ n ih =>
    intro i s pre mid hviews hpre hmid
    obtain ⟨x, rest, rfl⟩ : ∃ x rest, mid = x :: rest := by
      cases mid with
      | nil => simp at hmid
      | cons x rest => exact ⟨x, rest, rfl⟩
    simp only [List.length_cons, Nat.add_right_cancel_iff] at hmid
    unfold CreateImageViews.loop
    refine OkAt_bind _ _ _ _ (OkAt_read _ _ ?_)
    refine OkAt_bind _ _ _ _ (OkAt_mono _ _ _ _ (CreateImageView_ok _ _ _ _ _) ?_)
    rintro view s1 ⟨c, rfl, rfl, ho, hd⟩
    refine OkAt_bind _ _ _ _ (OkAt_write _ _ _ ?_)
    refine OkAt_mono _ _ _ _
      (ih (i + 1) _ (pre ++ [s.fresh]) rest ?_ (by simp [hpre]) hmid) ?_
    · simp only [hviews, ← hpre, set_length_append, List.append_assoc, List.singleton_append]
    · rintro _ s2 ⟨calls, rfl, hb⟩
      dsimp only at hb
      refine ⟨c :: calls, ?_, ?_⟩
      · simp only [List.append_assoc, List.singleton_append, List.range'_succ, Nat.add_assoc,
          Nat.add_comm 1 n]
      · have hc := Balance_create c s.fresh ho hd
        have := Balance_append [c] calls [] [s.fresh] [] _ _ _ _ hc hb (by omega) (by omega)
        simpa only [List.singleton_append, List.nil_append, List.range'_succ, Nat.add_assoc,
          Nat.add_comm 1 n] using this

theorem resize_length (v : List Nat) (n : Nat) : (resize v n).length = n := by
  simp only [resize, List.length_append, List.length_take, List.length_replicate]
  omega

theorem CreateImageViews_ok (d : Driver) (s : Session) :
    OkAt (CreateImageViews d) s (fun _ s1 => ∃ calls,
      s1 = { s with
        _vk_swapchain_image_views := List.range' s.fresh s._vk_swapchain_images.length
        trace := s.trace ++ calls
        fresh := s.fresh + s._vk_swapchain_images.length } ∧
      Balance calls [] (List.range' s.fresh s._vk_swapchain_images.length) s.fresh
        (s.fresh + s._vk_swapchain_images.length)) := by
  unfold CreateImageViews
  refine OkAt_bind _ _ _ _ (OkAt_write _ _ _ ?_)
  refine OkAt_bind _ _ _ _ (OkAt_read _ _ ?_)
  refine OkAt_mono _ _ _ _
    (CreateImageViews_loop_ok d _ 0 _ [] _ rfl rfl rfl) ?_
  rintro _ s1 ⟨calls, rfl, hb⟩
  simp only [resize_length] at hb ⊢
  exact ⟨calls, by simp only [List.nil_append], hb⟩
/-- The balance of a run read off the lists of handles it creates and
destroys. -/
theorem Balance_of_lists (calls : List VkCall) (created destroyed released kept : List Nat)
    (lo hi : Nat)
    (hc : ∀ h, ownedCount calls h = created.count h)
    (hd : ∀ h, destroyCount calls h = destroyed.count h)
    (hnodup : created.Nodup) (hrange : ∀ h ∈ created, lo ≤ h ∧ h < hi)
    (hcount : ∀ h, created.count h + released.count h = destroyed.count h + kept.count h) :
    Balance calls released kept lo hi := by
  refine ⟨fun h => ?_, fun h => ?_, fun h hh => ?_⟩
  · rw [hc h, hd h]
    exact hcount h
  · rw [hc h]
    exact List.nodup_iff_count_le_one.1 hnodup h
  · rw [hc h] at hh
    exact hrange h (List.count_pos_iff.1 hh)

/-- One call that creates the owned handles `lo, ..., lo + n - 1`. -/
theorem Balance_create_range (c : VkCall) (lo n : Nat) (ho : c.owned = List.range' lo n)
    (hd : c.destroyed = []) : Balance [c] [] (List.range' lo n) lo (lo + n) := by
  refine Balance_of_lists [c] (List.range' lo n) [] [] _ lo (lo + n) (fun h => ?_) (fun h => ?_)
    (List.nodup_range' _ _) (fun h hh => ?_) (fun h => by simp)
  · simp [ownedCount, ho]
  · simp [destroyCount, hd]
  · simp only [List.mem_range', Nat.one_mul] at hh
    obtain ⟨i, hi, rfl⟩ := hh
    omega

theorem CreateFrameBuffers_loop_ok (d : Driver) (depth_view remaining : Nat) :
    ∀ (i : Nat) (s : Session) (pre mid : List Nat),
      s._vk_swapchain_frame_buffers = pre ++ mid → pre.length = i → mid.length = remaining →
      OkAt (CreateFrameBuffers.loop d depth_view remaining i) s (fun _ s1 => ∃ calls,
        s1 = { s with
          _vk_swapchain_frame_buffers := pre ++ List.range' s.fresh remaining
          trace := s.trace ++ calls
          fresh := s.fresh + remaining } ∧
        Balance calls [] (List.range' s.fresh remaining) s.fresh (s.fresh + remaining)) := by
  induction remaining with
  | zero =>
    intro i s pre mid hbuffers _ hmid
    have hnil : mid = [] := List.length_eq_zero.1 hmid
    subst hnil
    refine OkAt_pure _ _ _ ⟨[], ?_, Balance_range_zero _⟩
    cases s
    simp only [List.append_nil] at hbuffers
    simp only [List.range'_zero, List.append_nil, Nat.add_zero, ← hbuffers]
  | succ n ih =>
    intro i s pre mid hbuffers hpre hmid
    obtain ⟨x, rest, rfl⟩ : ∃ x rest, mid = x :: rest := by
      cases mid with
      | nil => simp at hmid
      | cons x rest => exact ⟨x, rest, rfl⟩
    simp only [List.length_cons, Nat.add_right_cancel_iff] at hmid
    unfold CreateFrameBuffers.loop
    refine OkAt_bind _ _ _ _ (OkAt_read _ _ ?_)
    refine OkAt_create_check _ _ _ _ _ _ (fun _ => ?_)
    refine OkAt_bind _ _ _ _ (OkAt_write _ _ _ ?_)
    refine OkAt_mono _ _ _ _
      (ih (i + 1) _ (pre ++ [s.fresh]) rest ?_ (by simp [hpre]) hmid) ?_
    · simp only [hbuffers, ← hpre, set_length_append, List.append_assoc, List.singleton_append]
    · rintro _ s2 ⟨calls, rfl, hb⟩
      dsimp only at hb
      refine ⟨(.vkCreateFramebuffer s._vk_logical_device s._vk_render_pass
        [s._vk_swapchain_image_views.getD i VK_NULL_HANDLE, depth_view]
        s._vk_swapchain_extent.width s._vk_swapchain_extent.height 1 VK_SUCCESS s.fresh) ::
        calls, ?_, ?_⟩
      · simp only [List.append_assoc, List.singleton_append, List.range'_succ, Nat.add_assoc,
          Nat.add_comm 1 n]
      · have hc := Balance_create
          (.vkCreateFramebuffer s._vk_logical_device s._vk_render_pass
            [s._vk_swapchain_image_views.getD i VK_NULL_HANDLE, depth_view]
            s._vk_swapchain_extent.width s._vk_swapchain_extent.height 1 VK_SUCCESS s.fresh)
          s.fresh rfl rfl
        have := Balance_append _ calls [] [s.fresh] [] _ _ _ _ hc hb (by omega) (by omega)
        simpa only [List.singleton_append, List.nil_append, List.range'_succ, Nat.add_assoc,
          Nat.add_comm 1 n] using this

theorem CreateFrameBuffers_ok (d : Driver) (s : Session) :
    OkAt (CreateFrameBuffers d) s (fun _ s1 => ∃ calls,
      s1 = { s with
        _vk_swapchain_frame_buffers := List.range' s.fresh s._vk_swapchain_image_views.length
        trace := s.trace ++ calls
        fresh := s.fresh + s._vk_swapchain_image_views.length } ∧
      Balance calls [] (List.range' s.fresh s._vk_swapchain_image_views.length) s.fresh
        (s.fresh + s._vk_swapchain_image_views.length) ∧
      s._vk_swapchain_image_views ≠ []) := by
  unfold CreateFrameBuffers
  refine OkAt_bind _ _ _ _ (OkAt_write _ _ _ ?_)
  refine OkAt_bind _ _ _ _ (OkAt_read _ _ ?_)
  dsimp only
  cases hviews : s._vk_swapchain_image_views with
  | nil => exact OkAt_undefinedBehaviour _ _
  | cons view views =>
    dsimp only
    refine OkAt_mono _ _ _ _
      (CreateFrameBuffers_loop_ok d _ _ 0 _ [] _ rfl rfl ?_) ?_
    · exact resize_length _ _
    · rintro _ s1 ⟨calls, rfl, hb⟩
      dsimp only at hb
      exact ⟨calls, by simp only [List.nil_append, hviews], hb, by simp⟩

theorem CreateCommandBuffers_commands_neutral (s : Session) (command_buffer framebuffer : Nat) :
    ∀ c ∈ CreateCommandBuffers.commands s command_buffer framebuffer,
      c.owned = [] ∧ c.destroyed = [] := by
  intro c hc
  simp only [CreateCommandBuffers.commands, List.mem_cons, List.mem_singleton,
    List.not_mem_nil, or_false] at hc
  rcases hc with h | h | h | h | h | h | h | h <;> subst h <;> exact ⟨rfl, rfl⟩

theorem CreateCommandBuffers_loop_ok (d : Driver) (remaining : Nat) :
    ∀ (i : Nat) (s : Session),
      OkAt (CreateCommandBuffers.loop d remaining i) s (fun _ s1 => ∃ calls,
        s1 = { s with trace := s.trace ++ calls } ∧
        (∀ c ∈ calls, c.owned = [] ∧ c.destroyed = []) ∧
        ∀ j, i ≤ j → j < i + remaining →
          .vkBeginCommandBuffer (s._vk_command_buffers.getD j VK_NULL_HANDLE)
            VK_COMMAND_BUFFER_USAGE_SIMULTANEOUS_USE_BIT ∈ calls ∧
          .vkEndCommandBuffer (s._vk_command_buffers.getD j VK_NULL_HANDLE) ∈ calls) := by
  induction remaining with
  | zero =>
    intro i s
    exact OkAt_pure _ _ _ ⟨[], by simp, fun c hc => by simp at hc, fun j h1 h2 => by omega⟩
  | succ n ih =>
    intro i s
    unfold CreateCommandBuffers.loop
    refine OkAt_bind _ _ _ _ (OkAt_read _ _ ?_)
    refine OkAt_bind _ _ _ _ (OkAt_calls _ _ _ ?_)
    refine OkAt_bind _ _ _ _ (OkAt_answer _ _ _ ?_)
    refine OkAt_bind _ _ _ _ (OkAt_call _ _ _ ?_)
    split_ifs
    · exact OkAt_raise _ _ _
    · refine OkAt_mono _ _ _ _ (ih (i + 1) _) ?_
      rintro _ s2 ⟨calls, rfl, hcalls, hrecorded⟩
      refine ⟨CreateCommandBuffers.commands s (s._vk_command_buffers.getD i VK_NULL_HANDLE)
        (s._vk_swapchain_frame_buffers.getD i VK_NULL_HANDLE) ++
        (.vkEndCommandBuffer (s._vk_command_buffers.getD i VK_NULL_HANDLE) :: calls),
        ?_, ?_, ?_⟩
      · simp only [List.append_assoc, List.singleton_append]
      · intro c hc
        rcases List.mem_append.1 hc with h | h
        · exact CreateCommandBuffers_commands_neutral _ _ _ c h
        · rcases List.mem_cons.1 h with h | h
          · subst h
            exact ⟨rfl, rfl⟩
          · exact hcalls c h
      · intro j h1 h2
        by_cases hj : j = i
        · subst hj
          exact ⟨List.mem_append_left _ (by simp [CreateCommandBuffers.commands]),
            List.mem_append_right _ (List.mem_cons_self _ _)⟩
        · have := hrecorded j (by omega) (by omega)
          exact ⟨List.mem_append_right _ (List.mem_cons_of_mem _ this.1),
            List.mem_append_right _ (List.mem_cons_of_mem _ this.2)⟩

theorem CreateCommandBuffers_ok (d : Driver) (s : Session) :
    OkAt (CreateCommandBuffers d) s (fun _ s1 => ∃ calls,
      s1 = { s with
        _vk_command_buffers := List.range' s.fresh s._vk_swapchain_frame_buffers.length
        trace := s.trace ++ calls
        fresh := s.fresh + s._vk_swapchain_frame_buffers.length } ∧
      Balance calls [] (List.range' s.fresh s._vk_swapchain_frame_buffers.length) s.fresh
        (s.fresh + s._vk_swapchain_frame_buffers.length) ∧
      ∀ command_buffer ∈ List.range' s.fresh s._vk_swapchain_frame_buffers.length,
        .vkBeginCommandBuffer command_buffer VK_COMMAND_BUFFER_USAGE_SIMULTANEOUS_USE_BIT ∈
          calls ∧
        .vkEndCommandBuffer command_buffer ∈ calls) := by
  unfold CreateCommandBuffers
  refine OkAt_bind _ _ _ _ (OkAt_write _ _ _ ?_)
  refine OkAt_bind _ _ _ _ (OkAt_read _ _ ?_)
  refine OkAt_bind _ _ _ _ (OkAt_answer _ _ _ ?_)
  dsimp only
  split_ifs
  · refine OkAt_bind _ _ _ _ (OkAt_call _ _ _ ?_)
    exact OkAt_raise _ _ _
  · refine OkAt_bind _ _ _ _ (OkAt_allocate _ _ _ ?_)
    refine OkAt_bind _ _ _ _ (OkAt_call _ _ _ ?_)
    refine OkAt_bind _ _ _ _ (OkAt_write _ _ _ ?_)
    refine OkAt_mono _ _ _ _ (CreateCommandBuffers_loop_ok d _ 0 _) ?_
    rintro _ s1 ⟨calls, rfl, hcalls, hrecorded⟩
    refine ⟨(.vkAllocateCommandBufferList s._vk_logical_device s._vk_command_pool
      VK_COMMAND_BUFFER_LEVEL_PRIMARY
      (u32 (resize s._vk_command_buffers s._vk_swapchain_frame_buffers.length).length)
      (d.result s.trace.length)
      (List.range' s.fresh
        (resize s._vk_command_buffers s._vk_swapchain_frame_buffers.length).length)) ::
      calls, ?_, ?_, ?_⟩
    · simp only [resize_length, List.append_assoc, List.singleton_append]
    rotate_left
    · intro command_buffer hmem
      dsimp only at hrecorded
      rw [resize_length] at hrecorded
      obtain ⟨j, hj, rfl⟩ := List.mem_range'_1.1 hmem |> fun h =>
        (⟨command_buffer - s.fresh, by omega, by omega⟩ :
          ∃ j, j < s._vk_swapchain_frame_buffers.length ∧ command_buffer = s.fresh + j)
      have := hrecorded j (Nat.zero_le _) (by omega)
      rw [List.getD_eq_getElem _ _ (by simpa using hj), List.getElem_range'] at this
      simp only [Nat.one_mul] at this
      exact ⟨List.mem_cons_of_mem _ this.1, List.mem_cons_of_mem _ this.2⟩
    · have hc := Balance_create_range
        (.vkAllocateCommandBufferList s._vk_logical_device s._vk_command_pool
          VK_COMMAND_BUFFER_LEVEL_PRIMARY
          (u32 (resize s._vk_command_buffers s._vk_swapchain_frame_buffers.length).length)
          (d.result s.trace.length)
          (List.range' s.fresh
            (resize s._vk_command_buffers s._vk_swapchain_frame_buffers.length).length))
        s.fresh _ rfl rfl
      have hn := Balance_neutral calls
        (s.fresh + (resize s._vk_command_buffers s._vk_swapchain_frame_buffers.length).length)
        hcalls
      have := Balance_append _ calls [] _ [] [] _ _ _ hc hn (by omega) (le_refl _)
      simpa only [resize_length, List.singleton_append, List.nil_append, List.append_nil]
        using this
theorem IsMemberRef_trace (ref : Nat → Session → Session) (h : IsMemberRef ref) (handle : Nat)
    (s : Session) : (ref handle s).trace = s.trace ∧ (ref handle s).fresh = s.fresh := by
  have := h handle s s.trace s.fresh
  have h1 := congrArg Session.trace this
  have h2 := congrArg Session.fresh this
  exact ⟨h1, h2⟩

theorem CreateBuffer_done_ref (p : Platform) (size usage memoryTypeIndex : Nat)
    (buffer_ref buffer_memory_ref : Nat → Session → Session) (hb : IsMemberRef buffer_ref)
    (hm : IsMemberRef buffer_memory_ref) (s : Session) :
    CreateBuffer.done p size usage memoryTypeIndex buffer_ref buffer_memory_ref s =
      { buffer_memory_ref (s.fresh + 1) (buffer_ref s.fresh s) with
        trace := s.trace ++
          [ .setup (.vkCreateBuffer s._vk_logical_device size usage VK_SUCCESS s.fresh),
            .setup (.vkAllocateMemory s._vk_logical_device (p.memoryRequirements s.fresh).size
              memoryTypeIndex VK_SUCCESS (s.fresh + 1)),
            .setup (.vkBindBufferMemory s._vk_logical_device s.fresh (s.fresh + 1) 0) ]
        fresh := s.fresh + 2 } := by
  unfold CreateBuffer.done
  dsimp only
  rw [hb]
  dsimp only
  rw [hm, hm]
  simp only [List.append_assoc, List.singleton_append, List.cons_append, List.nil_append,
    Nat.add_assoc, Nat.reduceAdd]

theorem Balance_create_two (c1 c2 c3 : VkCall) (lo : Nat) (h1 : c1.owned = [lo])
    (h2 : c2.owned = [lo + 1]) (h3 : c3.owned = []) (d1 : c1.destroyed = [])
    (d2 : c2.destroyed = []) (d3 : c3.destroyed = []) :
    Balance [c1, c2, c3] [] [lo, lo + 1] lo (lo + 2) := by
  have b1 := Balance_create c1 lo h1 d1
  have b2 := Balance_create c2 (lo + 1) h2 d2
  have b3 := Balance_neutral [c3] (lo + 1 + 1) (fun x hx => by
    simp only [List.mem_singleton] at hx
    subst hx
    exact ⟨h3, d3⟩)
  have b12 := Balance_append _ _ _ _ _ _ _ _ _ b1 b2 (by omega) (by omega)
  exact Balance_append _ _ _ _ _ _ _ _ _ b12 b3 (by omega) (by omega)

theorem CreateBuffer_ok_ref (d : Driver) (p : Platform) (size usage properties : Nat)
    (buffer_ref buffer_memory_ref : Nat → Session → Session) (hb : IsMemberRef buffer_ref)
    (hm : IsMemberRef buffer_memory_ref) (s : Session) :
    OkAt (CreateBuffer d p size usage properties buffer_ref buffer_memory_ref) s
      (fun value s1 => ∃ calls,
        value = (s.fresh, s.fresh + 1) ∧
        s1 = { buffer_memory_ref (s.fresh + 1) (buffer_ref s.fresh s) with
          trace := s.trace ++ calls, fresh := s.fresh + 2 } ∧
        Balance calls [] [s.fresh, s.fresh + 1] s.fresh (s.fresh + 2) ∧
        .setup (.vkBindBufferMemory s._vk_logical_device s.fresh (s.fresh + 1) 0) ∈ calls) := by
  refine OkAt_mono _ _ _ _ (CreateBuffer_ok d p size usage properties buffer_ref
    buffer_memory_ref s) ?_
  rintro value s1 ⟨memoryTypeIndex, _, rfl, hvalue⟩
  refine ⟨_, ?_, CreateBuffer_done_ref p size usage memoryTypeIndex _ _ hb hm s,
    Balance_create_two _ _ _ _ rfl rfl rfl rfl rfl rfl, by simp⟩
  rw [hvalue, (IsMemberRef_trace buffer_ref hb _ _).2]

theorem CreateImage_done_ref (p : Platform) (width height : Nat) (format : VkFormat)
    (tiling : VkImageTiling) (usage memoryTypeIndex : Nat)
    (image_ref image_memory_ref : Nat → Session → Session) (hi : IsMemberRef image_ref)
    (hm : IsMemberRef image_memory_ref) (s : Session) :
    CreateImage.done p width height format tiling usage memoryTypeIndex image_ref
        image_memory_ref s =
      { image_memory_ref (s.fresh + 1) (image_ref s.fresh s) with
        trace := s.trace ++
          [ .setup (.vkCreateImage s._vk_logical_device width height format tiling usage
              VK_SUCCESS s.fresh),
            .setup (.vkAllocateMemory s._vk_logical_device (p.memoryRequirements s.fresh).size
              memoryTypeIndex VK_SUCCESS (s.fresh + 1)),
            .setup (.vkBindImageMemory s._vk_logical_device s.fresh (s.fresh + 1) 0) ]
        fresh := s.fresh + 2 } := by
  unfold CreateImage.done
  dsimp only
  rw [hi]
  dsimp only
  rw [hm, hm]
  simp only [List.append_assoc, List.singleton_append, List.cons_append, List.nil_append,
    Nat.add_assoc, Nat.reduceAdd]

theorem CreateImage_ok_ref (d : Driver) (p : Platform) (width height : Nat) (format : VkFormat)
    (tiling : VkImageTiling) (usage mem_properties : Nat)
    (image_ref image_memory_ref : Nat → Session → Session) (hi : IsMemberRef image_ref)
    (hm : IsMemberRef image_memory_ref) (s : Session) :
    OkAt (CreateImage d p width height format tiling usage mem_properties image_ref
        image_memory_ref) s
      (fun value s1 => ∃ calls,
        value = (s.fresh, s.fresh + 1) ∧
        s1 = { image_memory_ref (s.fresh + 1) (image_ref s.fresh s) with
          trace := s.trace ++ calls, fresh := s.fresh + 2 } ∧
        Balance calls [] [s.fresh, s.fresh + 1] s.fresh (s.fresh + 2) ∧
        .setup (.vkBindImageMemory s._vk_logical_device s.fresh (s.fresh + 1) 0) ∈ calls) := by
  refine OkAt_mono _ _ _ _ (CreateImage_ok d p width height format tiling usage mem_properties
    image_ref image_memory_ref s) ?_
  rintro value s1 ⟨memoryTypeIndex, _, rfl, hvalue⟩
  refine ⟨_, ?_, CreateImage_done_ref p width height format tiling usage memoryTypeIndex _ _
    hi hm s, Balance_create_two _ _ _ _ rfl rfl rfl rfl rfl rfl, by simp⟩
  rw [hvalue, (IsMemberRef_trace image_ref hi _ _).2]

theorem localVariable_isMemberRef : IsMemberRef localVariable := fun _ _ _ _ => rfl
theorem OkAt_of_eq {α : Type} (m : Step α) (s s1 : Session) (outcome : Outcome α)
    (P : α → Session → Prop) (hrun : m s = (outcome, s1))
    (h : ∀ value, outcome = .ok value → P value s1) : OkAt m s P := by
  intro value s2 hok
  rw [hrun] at hok
  simp only [Prod.mk.injEq] at hok
  obtain ⟨ho, rfl⟩ := hok
  exact h value ho

theorem TransitionImageLayout_step_ok (image : Nat) (format : VkFormat)
    (old_layout new_layout : VkImageLayout) (s : Session) :
    OkAt (TransitionImageLayout.step image format old_layout new_layout) s (fun _ s1 =>
      ∃ calls,
        s1 = { s with trace := s.trace ++ calls, fresh := s.fresh + 1 } ∧
        Balance calls [] [] s.fresh (s.fresh + 1)) := by
  cases hselect : TransitionImageLayout.select
      { srcAccessMask := 0
        dstAccessMask := 0
        oldLayout := old_layout
        newLayout := new_layout
        srcQueueFamilyIndex := VK_QUEUE_FAMILY_IGNORED
        dstQueueFamilyIndex := VK_QUEUE_FAMILY_IGNORED
        image := image
        subresourceRange :=
          { aspectMask := TransitionImageLayout.aspectMask format new_layout
            baseMipLevel := 0
            levelCount := 1
            baseArrayLayer := 0
            layerCount := 1 } } old_layout new_layout with
  | error what =>
    refine OkAt_of_eq _ _ _ _ _
      (TransitionImageLayout_step_unsupported image format old_layout new_layout s what hselect)
      (fun value h => ?_)
    cases h
  | ok barrier =>
    refine OkAt_of_eq _ _ _ _ _
      (TransitionImageLayout_step_supported image format old_layout new_layout s barrier hselect)
      (fun value _ => ?_)
    exact ⟨_, rfl, Balance_oneShotCalls s _ rfl rfl⟩

theorem CopyBuffer_ok (src dst size : Nat) (s : Session) :
    OkAt (CopyBuffer src dst size) s (fun _ s1 => ∃ calls,
      s1 = { s with trace := s.trace ++ calls, fresh := s.fresh + 1 } ∧
      Balance calls [] [] s.fresh (s.fresh + 1)) :=
  OkAt_of_eq _ _ _ _ _ (CopyBuffer_run src dst size s)
    (fun _ _ => ⟨_, rfl, Balance_oneShotCalls s _ rfl rfl⟩)

theorem CopyBufferToImage_ok (buffer image width height : Nat) (s : Session) :
    OkAt (CopyBufferToImage buffer image width height) s (fun _ s1 => ∃ calls,
      s1 = { s with trace := s.trace ++ calls, fresh := s.fresh + 1 } ∧
      Balance calls [] [] s.fresh (s.fresh + 1)) :=
  OkAt_of_eq _ _ _ _ _ (CopyBufferToImage_run buffer image width height s)
    (fun _ _ => ⟨_, rfl, Balance_oneShotCalls s _ rfl rfl⟩)

theorem CreateRenderPass_ok (d : Driver) (s : Session) :
    OkAt (CreateRenderPass d) s (fun _ s1 => ∃ calls,
      s1 = { s with
        _vk_render_pass := s.fresh, trace := s.trace ++ calls, fresh := s.fresh + 1 } ∧
      Balance calls [] [s.fresh] s.fresh (s.fresh + 1) ∧
      ∃ color depth : VkAttachmentDescription,
        calls = [.vkCreateRenderPass s._vk_logical_device [color, depth] 0 1 VK_SUCCESS
          s.fresh] ∧
        color.format = s._vk_swapchain_format ∧
        color.finalLayout = VK_IMAGE_LAYOUT_PRESENT_SRC_KHR ∧
        FindDepthFormat d.formatProperties = some (.ok depth.format) ∧
        depth.finalLayout = VK_IMAGE_LAYOUT_DEPTH_STENCIL_ATTACHMENT_OPTIMAL) := by
  unfold CreateRenderPass
  cases hformat : FindDepthFormat d.formatProperties with
  | none => exact OkAt_undefinedBehaviour _ _
  | some found =>
    cases found with
    | error what => exact OkAt_raise _ _ _
    | ok depth_format =>
      dsimp only
      refine OkAt_bind _ _ _ _ (OkAt_read _ _ ?_)
      refine OkAt_create_check _ _ _ _ _ _ (fun _ => ?_)
      refine OkAt_write _ _ _ ?_
      exact ⟨_, rfl, Balance_create _ _ rfl rfl, _, _, rfl, rfl, rfl, rfl, rfl⟩

theorem ReadFile_ok (d : Driver) (filename : String) (s : Session) (P : Nat → Session → Prop)
    (h : ∀ size, P size s) : OkAt (ReadFile d filename) s P := by
  unfold ReadFile
  split
  · exact OkAt_raise _ _ _
  · exact OkAt_pure _ _ _ (h _)

theorem CreateShaderModule_ok (d : Driver) (blob_size : Nat) (s : Session) :
    OkAt (CreateShaderModule d blob_size) s (fun shader_module s1 =>
      shader_module = s.fresh ∧
      s1 = { s with
        trace := s.trace ++
          [.vkCreateShaderModule s._vk_logical_device blob_size VK_SUCCESS s.fresh]
        fresh := s.fresh + 1 }) := by
  unfold CreateShaderModule
  refine OkAt_bind _ _ _ _ (OkAt_read _ _ ?_)
  refine OkAt_create_check _ _ _ _ _ _ (fun _ => ?_)
  exact OkAt_pure _ _ _ ⟨rfl, rfl⟩

theorem CreateGraphicsPipeline_ok (d : Driver) (s : Session) :
    OkAt (CreateGraphicsPipeline d) s (fun _ s1 => ∃ calls,
      s1 = { s with
        _vk_pipeline_layout := s.fresh + 2
        _vk_pipeline := s.fresh + 3
        trace := s.trace ++ calls
        fresh := s.fresh + 4 } ∧
      Balance calls [] [s.fresh + 2, s.fresh + 3] s.fresh (s.fresh + 4)) := by
  unfold CreateGraphicsPipeline
  refine OkAt_bind _ _ _ _ (ReadFile_ok _ _ _ _ (fun vert_blob => ?_))
  refine OkAt_bind _ _ _ _ (ReadFile_ok _ _ _ _ (fun frag_blob => ?_))
  refine OkAt_bind _ _ _ _ (OkAt_mono _ _ _ _ (CreateShaderModule_ok _ _ _) ?_)
  rintro _ s1 ⟨rfl, rfl⟩
  refine OkAt_bind _ _ _ _ (OkAt_mono _ _ _ _ (CreateShaderModule_ok _ _ _) ?_)
  rintro _ s2 ⟨rfl, rfl⟩
  dsimp only
  refine OkAt_bind _ _ _ _ (OkAt_read _ _ ?_)
  refine OkAt_create_check _ _ _ _ _ _ (fun _ => ?_)
  refine OkAt_bind _ _ _ _ (OkAt_write _ _ _ ?_)
  refine OkAt_create_check _ _ _ _ _ _ (fun _ => ?_)
  refine OkAt_bind _ _ _ _ (OkAt_write _ _ _ ?_)
  refine OkAt_bind _ _ _ _ (OkAt_call _ _ _ ?_)
  refine OkAt_call _ _ _ ?_
  dsimp only
  refine ⟨[ .vkCreateShaderModule s._vk_logical_device vert_blob VK_SUCCESS s.fresh,
    .vkCreateShaderModule s._vk_logical_device frag_blob VK_SUCCESS (s.fresh + 1),
    .vkCreatePipelineLayout s._vk_logical_device [s._vk_descriptor_set_layout] VK_SUCCESS
      (s.fresh + 1 + 1),
    .vkCreateGraphicsPipelines s._vk_logical_device [s.fresh, s.fresh + 1] (s.fresh + 1 + 1)
      s._vk_render_pass s._vk_swapchain_extent VK_SUCCESS (s.fresh + 1 + 1 + 1),
    .vkDestroyShaderModule s._vk_logical_device s.fresh,
    .vkDestroyShaderModule s._vk_logical_device (s.fresh + 1) ], ?_, ?_⟩
  · simp only [List.append_assoc, List.singleton_append, List.cons_append, List.nil_append,
      Nat.add_assoc, Nat.reduceAdd]
  · refine Balance_of_lists _ [s.fresh, s.fresh + 1, s.fresh + 2, s.fresh + 3]
      [s.fresh, s.fresh + 1] [] _ _ _ (fun h => ?_) (fun h => ?_) ?_ (fun h hh => ?_)
      (fun h => ?_)
    · simp only [ownedCount_cons, ownedCount_nil]
      simp [VkCall.owned, VkCall.created, List.count_cons, Nat.add_assoc]
      omega
    · simp only [destroyCount_cons, destroyCount_nil]
      simp [VkCall.destroyed, List.count_cons]
      omega
    · simp
    · simp only [List.mem_cons, List.mem_singleton, List.not_mem_nil, or_false] at hh
      omega
    · simp [List.count_cons]
      omega
theorem CreateLogicalDevice_ok (d : Driver) (p : Platform) (s : Session) :
    OkAt (CreateLogicalDevice d p) s (fun _ s1 => ∃ calls families present_queue count,
      s1 = { s with
        _available_queue_families := families
        _vk_logical_device := s.fresh
        _vk_graphics_queue := s.fresh + 1
        _vk_present_queue := present_queue
        trace := s.trace ++ calls
        fresh := s.fresh + 1 + count } ∧
      Balance calls [] [s.fresh] s.fresh (s.fresh + 1 + count)) := by
  unfold CreateLogicalDevice
  refine OkAt_bind _ _ _ _ (OkAt_read _ _ ?_)
  dsimp only
  cases CreateLogicalDevice.queue_create_infos (p.info s._vk_physical_device).queue_families
      (p.info s._vk_physical_device).present_support with
  | error what => exact OkAt_raise _ _ _
  | ok found =>
    obtain ⟨queue_family_data, queue_create_infos⟩ := found
    dsimp only
    refine OkAt_bind _ _ _ _ (OkAt_write _ _ _ ?_)
    refine OkAt_create_check _ _ _ _ _ _ (fun _ => ?_)
    refine OkAt_bind _ _ _ _ (OkAt_write _ _ _ ?_)
    refine OkAt_bind _ _ _ _ (OkAt_allocate _ _ _ ?_)
    refine OkAt_bind _ _ _ _ (OkAt_call _ _ _ ?_)
    refine OkAt_bind _ _ _ _ (OkAt_write _ _ _ ?_)
    have hcreate := Balance_create
      (.setup (.vkCreateDevice s._vk_physical_device
        (queue_create_infos.map fun info => info.queueFamilyIndex)
        (queue_create_infos.map fun info => info.queueCount) VK_SUCCESS s.fresh))
      s.fresh rfl rfl
    split_ifs
    · refine OkAt_bind _ _ _ _ (OkAt_call _ _ _ ?_)
      refine OkAt_write _ _ _ ?_
      dsimp only [List.range', List.headD]
      refine ⟨[ .setup (.vkCreateDevice s._vk_physical_device
          (queue_create_infos.map fun info => info.queueFamilyIndex)
          (queue_create_infos.map fun info => info.queueCount) VK_SUCCESS s.fresh),
        .setup (.vkGetDeviceQueue s.fresh (castU32 queue_family_data._graphics_family) 0
          (s.fresh + 1)),
        .setup (.vkGetDeviceQueue s.fresh (castU32 queue_family_data._present_family) 0
          (s.fresh + 1)) ], queue_family_data, s.fresh + 1, 1, ?_, ?_⟩
      · simp only [List.append_assoc, List.singleton_append, List.cons_append, List.nil_append,
          Nat.add_assoc, Nat.reduceAdd]
      · have hqueues := Balance_neutral
          [ .setup (.vkGetDeviceQueue s.fresh (castU32 queue_family_data._graphics_family) 0
              (s.fresh + 1)),
            .setup (.vkGetDeviceQueue s.fresh (castU32 queue_family_data._present_family) 0
              (s.fresh + 1)) ] (s.fresh + 1) (fun x hx => by
            simp only [List.mem_cons, List.mem_singleton, List.not_mem_nil, or_false] at hx
            rcases hx with hx | hx <;> subst hx <;> exact ⟨rfl, rfl⟩)
        exact Balance_widen _ _ _ _ _ _ _
          (Balance_append _ _ _ _ _ _ _ _ _ hcreate hqueues (by omega) (le_refl _))
          (le_refl _) (by omega)
    · refine OkAt_bind _ _ _ _ (OkAt_allocate _ _ _ ?_)
      refine OkAt_bind _ _ _ _ (OkAt_call _ _ _ ?_)
      refine OkAt_write _ _ _ ?_
      dsimp only [List.range', List.headD]
      refine ⟨[ .setup (.vkCreateDevice s._vk_physical_device
          (queue_create_infos.map fun info => info.queueFamilyIndex)
          (queue_create_infos.map fun info => info.queueCount) VK_SUCCESS s.fresh),
        .setup (.vkGetDeviceQueue s.fresh (castU32 queue_family_data._graphics_family) 0
          (s.fresh + 1)),
        .setup (.vkGetDeviceQueue s.fresh (castU32 queue_family_data._present_family) 0
          (s.fresh + 1 + 1)) ], queue_family_data, s.fresh + 1 + 1, 2, ?_, ?_⟩
      · simp only [List.append_assoc, List.singleton_append, List.cons_append, List.nil_append,
          Nat.add_assoc, Nat.reduceAdd]
      · have hqueues := Balance_neutral
          [ .setup (.vkGetDeviceQueue s.fresh (castU32 queue_family_data._graphics_family) 0
              (s.fresh + 1)),
            .setup (.vkGetDeviceQueue s.fresh (castU32 queue_family_data._present_family) 0
              (s.fresh + 1 + 1)) ] (s.fresh + 1) (fun x hx => by
            simp only [List.mem_cons, List.mem_singleton, List.not_mem_nil, or_false] at hx
            rcases hx with hx | hx <;> subst hx <;> exact ⟨rfl, rfl⟩)
        exact Balance_widen _ _ _ _ _ _ _
          (Balance_append _ _ _ _ _ _ _ _ _ hcreate hqueues (by omega) (le_refl _))
          (le_refl _) (by omega)

theorem CreateSwapChain_create_info_minImageCount (surface : Nat)
    (swap_details : SwapChainSupport) (width height : Int) (queue_families : QueueFamilies)
    (old : Nat) (create_info : VkSwapchainCreateInfoKHR)
    (hci : CreateSwapChain.create_info surface swap_details width height queue_families old =
      some create_info) :
    create_info.minImageCount = CreateSwapChain.image_count swap_details._capabilities := by
  unfold CreateSwapChain.create_info at hci
  split at hci
  · simp at hci
  · simp only [Option.some.injEq] at hci
    rw [← hci]
    split <;> rfl

theorem CreateSwapChain_ok_shape (d : Driver) (queue_families : QueueFamilies) (old : Nat)
    (s : Session) :
    OkAt (CreateSwapChain d queue_families old) s (fun _ s1 =>
      ∃ calls format extent count,
        s1 = { s with
          _vk_swapchain_format := format
          _vk_swapchain_extent := extent
          _vk_swapchain := s.fresh
          _vk_swapchain_images := List.range' (s.fresh + 1) count
          trace := s.trace ++ calls
          fresh := s.fresh + 1 + count } ∧
        Balance calls [] [s.fresh] s.fresh (s.fresh + 1 + count) ∧
        count = d.swapchainImageCount (s.trace.length + 1) ∧
        .vkGetSwapchainImagesKHR s._vk_logical_device s.fresh
          (List.range' (s.fresh + 1) count) ∈ calls ∧
        ∃ create_info,
          .vkCreateSwapchainKHR s._vk_logical_device create_info VK_SUCCESS s.fresh ∈ calls ∧
          create_info.minImageCount =
            CreateSwapChain.image_count (d.swapChainSupport s.trace.length)._capabilities) := by
  cases hci : CreateSwapChain.create_info s._vk_surface (d.swapChainSupport s.trace.length)
      (d.windowSize s.trace.length).1 (d.windowSize s.trace.length).2 queue_families old with
  | none =>
    exact OkAt_of_eq _ _ _ _ _ (CreateSwapChain_undefined d queue_families old s hci)
      (fun _ h => by cases h)
  | some create_info =>
    by_cases hres : d.result s.trace.length = VK_SUCCESS
    · refine OkAt_of_eq _ _ _ _ _ (CreateSwapChain_ok d queue_families old s create_info hci hres)
        (fun _ _ => ?_)
      refine ⟨_, _, _, _, rfl, ?_, rfl, by simp, create_info, by simp,
        CreateSwapChain_create_info_minImageCount _ _ _ _ _ _ _ hci⟩
      have hcreate := Balance_create
        (.vkCreateSwapchainKHR s._vk_logical_device create_info VK_SUCCESS s.fresh) s.fresh
        rfl rfl
      have himages := Balance_neutral
        [ .vkGetSwapchainImagesKHR s._vk_logical_device s.fresh [],
          .vkGetSwapchainImagesKHR s._vk_logical_device s.fresh
            (List.range' (s.fresh + 1) (d.swapchainImageCount (s.trace.length + 1))) ]
        (s.fresh + 1) (fun x hx => by
          simp only [List.mem_cons, List.mem_singleton, List.not_mem_nil, or_false] at hx
          rcases hx with hx | hx <;> subst hx <;> exact ⟨rfl, rfl⟩)
      exact Balance_widen _ _ _ _ _ _ _
        (Balance_append _ _ _ _ _ _ _ _ _ hcreate himages (by omega) (le_refl _))
        (le_refl _) (by omega)
    · exact OkAt_of_eq _ _ _ _ _
        (CreateSwapChain_thrown d queue_families old s create_info hci hres)
        (fun _ h => by cases h)
theorem CreateDepthResources_ok (d : Driver) (p : Platform) (s : Session) :
    OkAt (CreateDepthResources d p) s (fun _ s1 => ∃ calls,
      s1 = { s with
        _vk_depth_image := s.fresh
        _vk_depth_image_memory := s.fresh + 1
        _vk_depth_image_view := s.fresh + 2
        trace := s.trace ++ calls
        fresh := s.fresh + 4 } ∧
      Balance calls [] [s.fresh, s.fresh + 1, s.fresh + 2] s.fresh (s.fresh + 4) ∧
      .setup (.vkBindImageMemory s._vk_logical_device s.fresh (s.fresh + 1) 0) ∈ calls) := by
  unfold CreateDepthResources
  cases FindDepthFormat d.formatProperties with
  | none => exact OkAt_undefinedBehaviour _ _
  | some found =>
    cases found with
    | error what => exact OkAt_raise _ _ _
    | ok depth_format =>
      dsimp only
      refine OkAt_bind _ _ _ _ (OkAt_read _ _ ?_)
      refine OkAt_bind _ _ _ _ (OkAt_mono _ _ _ _
        (CreateImage_ok_ref d p _ _ _ _ _ _ _ _ (fun _ _ _ _ => rfl) (fun _ _ _ _ => rfl) s) ?_)
      rintro _ s1 ⟨calls1, rfl, rfl, hb1, hbind⟩
      dsimp only
      refine OkAt_bind _ _ _ _ (OkAt_mono _ _ _ _ (CreateImageView_ok _ _ _ _ _) ?_)
      rintro _ s2 ⟨c, rfl, rfl, ho, hd⟩
      dsimp only at ho ⊢
      refine OkAt_bind _ _ _ _ (OkAt_write _ _ _ ?_)
      refine OkAt_mono _ _ _ _ (TransitionImageLayout_step_ok _ _ _ _ _) ?_
      rintro _ s3 ⟨calls3, rfl, hb3⟩
      dsimp only at hb3 ⊢
      refine ⟨calls1 ++ (c :: calls3), ?_, ?_, List.mem_append_left _ hbind⟩
      · simp only [List.append_assoc, List.singleton_append, Nat.add_assoc, Nat.reduceAdd]
      · have hview := Balance_create c (s.fresh + 2) ho hd
        have h12 := Balance_append _ _ _ _ _ _ _ _ _ hb1 hview (by omega) (by omega)
        have h123 := Balance_append _ _ _ _ _ _ _ _ _ h12 hb3 (by omega) (by omega)
        simpa only [List.append_assoc, List.singleton_append, List.cons_append,
          List.nil_append, List.append_nil, Nat.add_assoc, Nat.reduceAdd] using h123

theorem CreateTextureImageView_ok (d : Driver) (s : Session) :
    OkAt (CreateTextureImageView d) s (fun _ s1 => ∃ calls,
      s1 = { s with
        _vk_texture_image_view := s.fresh, trace := s.trace ++ calls, fresh := s.fresh + 1 } ∧
      Balance calls [] [s.fresh] s.fresh (s.fresh + 1)) := by
  unfold CreateTextureImageView
  refine OkAt_bind _ _ _ _ (OkAt_read _ _ ?_)
  refine OkAt_bind _ _ _ _ (OkAt_mono _ _ _ _ (CreateImageView_ok _ _ _ _ _) ?_)
  rintro _ s1 ⟨c, rfl, rfl, ho, hd⟩
  refine OkAt_write _ _ _ ?_
  exact ⟨[c], rfl, Balance_create c s.fresh ho hd⟩

theorem CreateUniformBuffer_ok (d : Driver) (p : Platform) (s : Session) :
    OkAt (CreateUniformBuffer d p) s (fun _ s1 => ∃ calls,
      s1 = { s with
        _vk_uniform_buffer := s.fresh
        _vk_uniform_buffer_memory := s.fresh + 1
        trace := s.trace ++ calls
        fresh := s.fresh + 2 } ∧
      Balance calls [] [s.fresh, s.fresh + 1] s.fresh (s.fresh + 2) ∧
      .setup (.vkBindBufferMemory s._vk_logical_device s.fresh (s.fresh + 1) 0) ∈ calls) := by
  unfold CreateUniformBuffer
  refine OkAt_bind _ _ _ _ (OkAt_mono _ _ _ _
    (CreateBuffer_ok_ref d p _ _ _ _ _ (fun _ _ _ _ => rfl) (fun _ _ _ _ => rfl) s) ?_)
  rintro _ s1 ⟨calls, rfl, rfl, hb, hbind⟩
  exact OkAt_pure _ _ _ ⟨calls, rfl, hb, hbind⟩

/-- The two calls that release a staging buffer and its memory. -/
theorem Balance_release_staging (device buffer memory lo : Nat) :
    Balance [.setup (.vkDestroyBuffer device buffer), .vkFreeMemory device memory]
      [buffer, memory] [] lo lo :=
  Balance_release _ _ _ (fun h => by simp [ownedCount, VkCall.owned, VkCall.created,
    SetupCall.created]) (fun h => by
      simp only [destroyCount_cons, destroyCount_nil]
      simp [VkCall.destroyed, SetupCall.destroyed, List.count_cons]
      omega)

/-- The two calls that copy into mapped memory. -/
theorem Balance_map_unmap (device memory offset size lo : Nat) :
    Balance [.setup (.vkMapMemory device memory offset size),
      .setup (.vkUnmapMemory device memory)] [] [] lo lo :=
  Balance_neutral _ _ (fun x hx => by
    simp only [List.mem_cons, List.mem_singleton, List.not_mem_nil, or_false] at hx
    rcases hx with hx | hx <;> subst hx <;> exact ⟨rfl, rfl⟩)
theorem CreateVertexBuffer_ok (d : Driver) (p : Platform) (s : Session) :
    OkAt (CreateVertexBuffer d p) s (fun _ s1 => ∃ calls,
      s1 = { s with
        _vk_vertex_buffer := s.fresh + 2
        _vk_vertex_buffer_memory := s.fresh + 3
        trace := s.trace ++ calls
        fresh := s.fresh + 5 } ∧
      Balance calls [] [s.fresh + 2, s.fresh + 3] s.fresh (s.fresh + 5) ∧
      .setup (.vkBindBufferMemory s._vk_logical_device (s.fresh + 2) (s.fresh + 3) 0) ∈
        calls) := by
  unfold CreateVertexBuffer
  dsimp only
  refine OkAt_bind _ _ _ _ (OkAt_mono _ _ _ _
    (CreateBuffer_ok_ref d p _ _ _ _ _ localVariable_isMemberRef localVariable_isMemberRef s) ?_)
  rintro _ s1 ⟨calls1, rfl, rfl, hb1, _⟩
  dsimp only [localVariable]
  refine OkAt_bind _ _ _ _ (OkAt_read _ _ ?_)
  refine OkAt_bind _ _ _ _ (OkAt_call _ _ _ ?_)
  refine OkAt_bind _ _ _ _ (OkAt_call _ _ _ ?_)
  refine OkAt_bind _ _ _ _ (OkAt_mono _ _ _ _
    (CreateBuffer_ok_ref d p _ _ _ _ _ (fun _ _ _ _ => rfl) (fun _ _ _ _ => rfl) _) ?_)
  rintro _ s2 ⟨calls2, rfl, rfl, hb2, hbind⟩
  dsimp only at hb2 hbind ⊢
  refine OkAt_bind _ _ _ _ (OkAt_mono _ _ _ _ (CopyBuffer_ok _ _ _ _) ?_)
  rintro _ s3 ⟨calls3, rfl, hb3⟩
  dsimp only at hb3 ⊢
  refine OkAt_bind _ _ _ _ (OkAt_call _ _ _ ?_)
  refine OkAt_call _ _ _ ?_
  dsimp only
  refine ⟨calls1 ++
    ([ .setup (.vkMapMemory s._vk_logical_device (s.fresh + 1) 0
        (u64 (sizeof_Vertex * p.vertexCount))),
      .setup (.vkUnmapMemory s._vk_logical_device (s.fresh + 1)) ] ++
    (calls2 ++ (calls3 ++
      [ .setup (.vkDestroyBuffer s._vk_logical_device s.fresh),
        .vkFreeMemory s._vk_logical_device (s.fresh + 1) ]))), ?_, ?_, ?_⟩
  · simp only [List.append_assoc, List.singleton_append, List.cons_append, List.nil_append,
      Nat.add_assoc, Nat.reduceAdd]
  · have hmap := Balance_map_unmap s._vk_logical_device (s.fresh + 1) 0
      (u64 (sizeof_Vertex * p.vertexCount)) (s.fresh + 2)
    have hrel := Balance_release_staging s._vk_logical_device s.fresh (s.fresh + 1)
      (s.fresh + 2 + 2 + 1)
    have h34 := Balance_append _ _ _ _ _ _ _ _ _ hb3 hrel (by omega) (le_refl _)
    have h234 := Balance_append _ _ _ _ _ _ _ _ _ hb2 h34 (by omega) (by omega)
    have hm234 := Balance_append _ _ _ _ _ _ _ _ _ hmap h234 (le_refl _) (by omega)
    have hall := Balance_append _ _ _ _ _ _ _ _ _ hb1 hm234 (by omega) (by omega)
    refine Balance_congr _ _ _ _ _ _ _
      (Balance_widen _ _ _ _ _ _ _ hall (le_refl _) (by omega)) (fun x => ?_)
    simp only [List.count_append, List.count_cons, List.count_nil, Nat.add_assoc,
      Nat.reduceAdd]
    omega
  · refine List.mem_append_right _ (List.mem_append_right _ (List.mem_append_left _ ?_))
    simpa only [Nat.add_assoc, Nat.reduceAdd] using hbind

theorem CreateIndexBuffer_ok (d : Driver) (p : Platform) (s : Session) :
    OkAt (CreateIndexBuffer d p) s (fun _ s1 => ∃ calls,
      s1 = { s with
        _vk_index_buffer := s.fresh + 2
        _vk_index_buffer_memory := s.fresh + 3
        trace := s.trace ++ calls
        fresh := s.fresh + 5 } ∧
      Balance calls [] [s.fresh + 2, s.fresh + 3] s.fresh (s.fresh + 5) ∧
      .setup (.vkBindBufferMemory s._vk_logical_device (s.fresh + 2) (s.fresh + 3) 0) ∈
        calls) := by
  unfold CreateIndexBuffer
  refine OkAt_bind _ _ _ _ (OkAt_read _ _ ?_)
  dsimp only
  refine OkAt_bind _ _ _ _ (OkAt_mono _ _ _ _
    (CreateBuffer_ok_ref d p _ _ _ _ _ localVariable_isMemberRef localVariable_isMemberRef s) ?_)
  rintro _ s1 ⟨calls1, rfl, rfl, hb1, _⟩
  dsimp only [localVariable]
  refine OkAt_bind _ _ _ _ (OkAt_read _ _ ?_)
  refine OkAt_bind _ _ _ _ (OkAt_call _ _ _ ?_)
  refine OkAt_bind _ _ _ _ (OkAt_call _ _ _ ?_)
  refine OkAt_bind _ _ _ _ (OkAt_mono _ _ _ _
    (CreateBuffer_ok_ref d p _ _ _ _ _ (fun _ _ _ _ => rfl) (fun _ _ _ _ => rfl) _) ?_)
  rintro _ s2 ⟨calls2, rfl, rfl, hb2, hbind⟩
  dsimp only at hb2 hbind ⊢
  refine OkAt_bind _ _ _ _ (OkAt_mono _ _ _ _ (CopyBuffer_ok _ _ _ _) ?_)
  rintro _ s3 ⟨calls3, rfl, hb3⟩
  dsimp only at hb3 ⊢
  refine OkAt_bind _ _ _ _ (OkAt_call _ _ _ ?_)
  refine OkAt_call _ _ _ ?_
  dsimp only
  refine ⟨calls1 ++
    ([ .setup (.vkMapMemory s._vk_logical_device (s.fresh + 1) 0
        (u64 (sizeof_uint32_t * s._indices.length))),
      .setup (.vkUnmapMemory s._vk_logical_device (s.fresh + 1)) ] ++
    (calls2 ++ (calls3 ++
      [ .setup (.vkDestroyBuffer s._vk_logical_device s.fresh),
        .vkFreeMemory s._vk_logical_device (s.fresh + 1) ]))), ?_, ?_, ?_⟩
  · simp only [List.append_assoc, List.singleton_append, List.cons_append, List.nil_append,
      Nat.add_assoc, Nat.reduceAdd]
  · have hmap := Balance_map_unmap s._vk_logical_device (s.fresh + 1) 0
      (u64 (sizeof_uint32_t * s._indices.length)) (s.fresh + 2)
    have hrel := Balance_release_staging s._vk_logical_device s.fresh (s.fresh + 1)
      (s.fresh + 2 + 2 + 1)
    have h34 := Balance_append _ _ _ _ _ _ _ _ _ hb3 hrel (by omega) (le_refl _)
    have h234 := Balance_append _ _ _ _ _ _ _ _ _ hb2 h34 (by omega) (by omega)
    have hm234 := Balance_append _ _ _ _ _ _ _ _ _ hmap h234 (le_refl _) (by omega)
    have hall := Balance_append _ _ _ _ _ _ _ _ _ hb1 hm234 (by omega) (by omega)
    refine Balance_congr _ _ _ _ _ _ _
      (Balance_widen _ _ _ _ _ _ _ hall (le_refl _) (by omega)) (fun x => ?_)
    simp only [List.count_append, List.count_cons, List.count_nil, Nat.add_assoc,
      Nat.reduceAdd]
    omega
  · refine List.mem_append_right _ (List.mem_append_right _ (List.mem_append_left _ ?_))
    simpa only [Nat.add_assoc, Nat.reduceAdd] using hbind
theorem CreateTextureImage_ok (d : Driver) (p : Platform) (s : Session) :
    OkAt (CreateTextureImage d p) s (fun _ s1 => ∃ calls,
      s1 = { s with
        _vk_texture_image := s.fresh + 2
        _vk_texture_image_memory := s.fresh + 3
        trace := s.trace ++ calls
        fresh := s.fresh + 7 } ∧
      Balance calls [] [s.fresh + 2, s.fresh + 3] s.fresh (s.fresh + 7) ∧
      .setup (.vkBindImageMemory s._vk_logical_device (s.fresh + 2) (s.fresh + 3) 0) ∈
        calls) := by
  unfold CreateTextureImage
  cases htexture : p.texture with
  | none => exact OkAt_raise _ _ _
  | some size =>
    obtain ⟨texture_width, texture_height⟩ := size
    dsimp only
    split_ifs with hrange
    · exact OkAt_undefinedBehaviour _ _
    · refine OkAt_bind _ _ _ _ (OkAt_mono _ _ _ _
        (CreateBuffer_ok_ref d p _ _ _ _ _ localVariable_isMemberRef localVariable_isMemberRef
          s) ?_)
      rintro _ s1 ⟨calls1, rfl, rfl, hb1, _⟩
      dsimp only [localVariable]
      refine OkAt_bind _ _ _ _ (OkAt_read _ _ ?_)
      refine OkAt_bind _ _ _ _ (OkAt_call _ _ _ ?_)
      refine OkAt_bind _ _ _ _ (OkAt_call _ _ _ ?_)
      refine OkAt_bind _ _ _ _ (OkAt_mono _ _ _ _
        (CreateImage_ok_ref d p _ _ _ _ _ _ _ _ (fun _ _ _ _ => rfl) (fun _ _ _ _ => rfl) _)
        ?_)
      rintro _ s2 ⟨calls2, rfl, rfl, hb2, hbind⟩
      dsimp only at hb2 hbind ⊢
      refine OkAt_bind _ _ _ _ (OkAt_mono _ _ _ _ (TransitionImageLayout_step_ok _ _ _ _ _) ?_)
      rintro _ s3 ⟨calls3, rfl, hb3⟩
      dsimp only at hb3 ⊢
      refine OkAt_bind _ _ _ _ (OkAt_mono _ _ _ _ (CopyBufferToImage_ok _ _ _ _ _) ?_)
      rintro _ s4 ⟨calls4, rfl, hb4⟩
      dsimp only at hb4 ⊢
      refine OkAt_bind _ _ _ _ (OkAt_mono _ _ _ _ (TransitionImageLayout_step_ok _ _ _ _ _) ?_)
      rintro _ s5 ⟨calls5, rfl, hb5⟩
      dsimp only at hb5 ⊢
      refine OkAt_bind _ _ _ _ (OkAt_call _ _ _ ?_)
      refine OkAt_call _ _ _ ?_
      dsimp only
      refine ⟨calls1 ++
        ([ .setup (.vkMapMemory s._vk_logical_device (s.fresh + 1) 0
            ((texture_width * texture_height * 4) % 2 ^ 64).toNat),
          .setup (.vkUnmapMemory s._vk_logical_device (s.fresh + 1)) ] ++
        (calls2 ++ (calls3 ++ (calls4 ++ (calls5 ++
          [ .setup (.vkDestroyBuffer s._vk_logical_device s.fresh),
            .vkFreeMemory s._vk_logical_device (s.fresh + 1) ]))))), ?_, ?_, ?_⟩
      · simp only [List.append_assoc, List.singleton_append, List.cons_append,
          List.nil_append, Nat.add_assoc, Nat.reduceAdd]
      · have hmap := Balance_map_unmap s._vk_logical_device (s.fresh + 1) 0
          ((texture_width * texture_height * 4) % 2 ^ 64).toNat (s.fresh + 2)
        have hrel := Balance_release_staging s._vk_logical_device s.fresh (s.fresh + 1)
          (s.fresh + 2 + 2 + 1 + 1 + 1)
        have h56 := Balance_append _ _ _ _ _ _ _ _ _ hb5 hrel (by omega) (le_refl _)
        have h456 := Balance_append _ _ _ _ _ _ _ _ _ hb4 h56 (by omega) (by omega)
        have h3456 := Balance_append _ _ _ _ _ _ _ _ _ hb3 h456 (by omega) (by omega)
        have h23456 := Balance_append _ _ _ _ _ _ _ _ _ hb2 h3456 (by omega) (by omega)
        have hm := Balance_append _ _ _ _ _ _ _ _ _ hmap h23456 (le_refl _) (by omega)
        have hall := Balance_append _ _ _ _ _ _ _ _ _ hb1 hm (by omega) (by omega)
        refine Balance_congr _ _ _ _ _ _ _
          (Balance_widen _ _ _ _ _ _ _ hall (le_refl _) (by omega)) (fun x => ?_)
        simp only [List.count_append, List.count_cons, List.count_nil, Nat.add_assoc,
          Nat.reduceAdd]
        omega
      · refine List.mem_append_right _ (List.mem_append_right _ (List.mem_append_left _ ?_))
        simpa only [Nat.add_assoc, Nat.reduceAdd] using hbind

theorem Step_bind_assoc {α β γ : Type} (m : Step α) (f : α → Step β) (g : β → Step γ) :
    (m >>= f) >>= g = m >>= fun x => f x >>= g := by
  funext s
  show Step.bind (Step.bind m f) g s = Step.bind m (fun x => Step.bind (f x) g) s
  unfold Step.bind
  rcases h : m s with ⟨out, s1⟩
  cases out <;> rfl

theorem InitializeVulkan_eq_deviceObjects (d : Driver) (p : Platform) :
    InitializeVulkan d p = (do
      CreateVkInstance d p
      InitializeVulkan.debugCallback d p
      CreateSurface d
      SelectPhysicalDevice.step p
      CreateLogicalDevice d p
      InitializeVulkan.deviceObjects d p) := rfl

theorem InitializeVulkan_eq_resources (d : Driver) (p : Platform) :
    InitializeVulkan d p = (do
      InitializeVulkan.resources d p
      CreateSemaphores d) := by
  unfold InitializeVulkan InitializeVulkan.resources
  simp only [Step_bind_assoc]
theorem LoadModel_ok (s : Session) : OkAt LoadModel s (fun _ s1 => s1 = s) := by
  unfold LoadModel
  exact OkAt_pure _ _ _ rfl

theorem InitializeVulkan_deviceObjects_ok (d : Driver) (p : Platform) (s : Session) :
    OkAt (InitializeVulkan.deviceObjects d p) s (fun _ s1 => ∃ calls,
      s1.trace = s.trace ++ calls ∧
      Balance calls [] s1.heldOfDevice s.fresh s1.fresh ∧
      s.fresh ≤ s1.fresh ∧
      s1._vk_instance = s._vk_instance ∧
      s1._vk_callback = s._vk_callback ∧
      s1._vk_surface = s._vk_surface ∧
      s1._vk_logical_device = s._vk_logical_device ∧
      s1.Sized ∧
      s1._vk_swapchain_images ≠ [] ∧
      (∃ n create_info,
        s1._vk_swapchain_images.length = d.swapchainImageCount (n + 1) ∧
        .vkCreateSwapchainKHR s1._vk_logical_device create_info VK_SUCCESS
          s1._vk_swapchain ∈ calls ∧
        create_info.minImageCount =
          CreateSwapChain.image_count (d.swapChainSupport n)._capabilities) ∧
      .vkGetSwapchainImagesKHR s1._vk_logical_device s1._vk_swapchain
        s1._vk_swapchain_images ∈ calls ∧
      (∃ color depth : VkAttachmentDescription,
        .vkCreateRenderPass s1._vk_logical_device [color, depth] 0 1 VK_SUCCESS
          s1._vk_render_pass ∈ calls ∧
        color.format = s1._vk_swapchain_format ∧
        FindDepthFormat d.formatProperties = some (.ok depth.format)) ∧
      (∀ command_buffer ∈ s1._vk_command_buffers, Recorded calls command_buffer) ∧
      s1.BoundIn calls ∧
      s1.TextureApart) := by
  unfold InitializeVulkan.deviceObjects
  refine OkAt_bind _ _ _ _ (OkAt_read _ _ ?_)
  refine OkAt_bind _ _ _ _ (OkAt_mono _ _ _ _ (CreateSwapChain_ok_shape _ _ _ _) ?_)
  rintro _ s1 ⟨c1, format, extent, n, rfl, hb1, hn, hget, create_info, hcreate, hmin⟩
  refine OkAt_bind _ _ _ _ (OkAt_mono _ _ _ _ (CreateImageViews_ok _ _) ?_)
  rintro _ s2 ⟨c2, rfl, hb2⟩
  simp only [List.length_range'] at hb2 ⊢
  refine OkAt_bind _ _ _ _ (OkAt_mono _ _ _ _ (CreateRenderPass_ok _ _) ?_)
  rintro _ s3 ⟨c3, rfl, hb3, color, depth, hc3, hcolor, _, hdepth, _⟩
  dsimp only at hb3 hc3 hcolor ⊢
  refine OkAt_bind _ _ _ _ (OkAt_mono _ _ _ _ (CreateDescriptorSetLayout_ok _ _) ?_)
  rintro _ s4 ⟨c4, rfl, hb4⟩
  dsimp only at hb4 ⊢
  refine OkAt_bind _ _ _ _ (OkAt_mono _ _ _ _ (CreateGraphicsPipeline_ok _ _) ?_)
  rintro _ s5 ⟨c5, rfl, hb5⟩
  dsimp only at hb5 ⊢
  refine OkAt_bind _ _ _ _ (OkAt_read _ _ ?_)
  refine OkAt_bind _ _ _ _ (OkAt_mono _ _ _ _ (CreateCommandPool_ok _ _ _) ?_)
  rintro _ s6 ⟨c6, rfl, hb6⟩
  dsimp only at hb6 ⊢
  refine OkAt_bind _ _ _ _ (OkAt_mono _ _ _ _ (CreateDepthResources_ok _ _ _) ?_)
  rintro _ s7 ⟨c7, rfl, hb7, hbind7⟩
  dsimp only at hb7 hbind7 ⊢
  refine OkAt_bind _ _ _ _ (OkAt_mono _ _ _ _ (CreateFrameBuffers_ok _ _) ?_)
  rintro _ s8 ⟨c8, rfl, hb8, hviews⟩
  simp only [List.length_range'] at hb8 hviews ⊢
  refine OkAt_bind _ _ _ _ (OkAt_mono _ _ _ _ (CreateTextureImage_ok _ _ _) ?_)
  rintro _ s9 ⟨c9, rfl, hb9, hbind9⟩
  dsimp only at hb9 hbind9 ⊢
  refine OkAt_bind _ _ _ _ (OkAt_mono _ _ _ _ (CreateTextureImageView_ok _ _) ?_)
  rintro _ s10 ⟨c10, rfl, hb10⟩
  dsimp only at hb10 ⊢
  refine OkAt_bind _ _ _ _ (OkAt_mono _ _ _ _ (CreateTextureSampler_ok _ _) ?_)
  rintro _ s11 ⟨c11, rfl, hb11⟩
  dsimp only at hb11 ⊢
  refine OkAt_bind _ _ _ _ (OkAt_mono _ _ _ _ (LoadModel_ok _) ?_)
  rintro _ s12 rfl
  refine OkAt_bind _ _ _ _ (OkAt_mono _ _ _ _ (CreateVertexBuffer_ok _ _ _) ?_)
  rintro _ s13 ⟨c13, rfl, hb13, hbind13⟩
  dsimp only at hb13 hbind13 ⊢
  refine OkAt_bind _ _ _ _ (OkAt_mono _ _ _ _ (CreateIndexBuffer_ok _ _ _) ?_)
  rintro _ s14 ⟨c14, rfl, hb14, hbind14⟩
  dsimp only at hb14 hbind14 ⊢
  refine OkAt_bind _ _ _ _ (OkAt_mono _ _ _ _ (CreateUniformBuffer_ok _ _ _) ?_)
  rintro _ s15 ⟨c15, rfl, hb15, hbind15⟩
  dsimp only at hb15 hbind15 ⊢
  refine OkAt_bind _ _ _ _ (OkAt_mono _ _ _ _ (CreateDescriptorPool_ok _ _) ?_)
  rintro _ s16 ⟨c16, rfl, hb16⟩
  dsimp only at hb16 ⊢
  refine OkAt_bind _ _ _ _ (OkAt_mono _ _ _ _ (CreateDescriptorSet_ok _ _) ?_)
  rintro _ s17 ⟨c17, rfl, hb17⟩
  dsimp only at hb17 ⊢
  refine OkAt_bind _ _ _ _ (OkAt_mono _ _ _ _ (CreateCommandBuffers_ok _ _) ?_)
  rintro _ s18 ⟨c18, rfl, hb18, hrecorded⟩
  simp only [List.length_range'] at hb18 hrecorded ⊢
  refine OkAt_mono _ _ _ _ (CreateSemaphores_ok _ _) ?_
  rintro _ s19 ⟨c19, rfl, hb19⟩
  dsimp only at hb19 ⊢
  have h18 := Balance_append _ _ _ _ _ _ _ _ _ hb18 hb19 (by omega) (by omega)
  have h17 := Balance_append _ _ _ _ _ _ _ _ _ hb17 h18 (by omega) (by omega)
  have h16 := Balance_append _ _ _ _ _ _ _ _ _ hb16 h17 (by omega) (by omega)
  have h15 := Balance_append _ _ _ _ _ _ _ _ _ hb15 h16 (by omega) (by omega)
  have h14 := Balance_append _ _ _ _ _ _ _ _ _ hb14 h15 (by omega) (by omega)
  have h13 := Balance_append _ _ _ _ _ _ _ _ _ hb13 h14 (by omega) (by omega)
  have h11 := Balance_append _ _ _ _ _ _ _ _ _ hb11 h13 (by omega) (by omega)
  have h10 := Balance_append _ _ _ _ _ _ _ _ _ hb10 h11 (by omega) (by omega)
  have h9 := Balance_append _ _ _ _ _ _ _ _ _ hb9 h10 (by omega) (by omega)
  have h8 := Balance_append _ _ _ _ _ _ _ _ _ hb8 h9 (by omega) (by omega)
  have h7 := Balance_append _ _ _ _ _ _ _ _ _ hb7 h8 (by omega) (by omega)
  have h6 := Balance_append _ _ _ _ _ _ _ _ _ hb6 h7 (by omega) (by omega)
  have h5 := Balance_append _ _ _ _ _ _ _ _ _ hb5 h6 (by omega) (by omega)
  have h4 := Balance_append _ _ _ _ _ _ _ _ _ hb4 h5 (by omega) (by omega)
  have h3 := Balance_append _ _ _ _ _ _ _ _ _ hb3 h4 (by omega) (by omega)
  have h2 := Balance_append _ _ _ _ _ _ _ _ _ hb2 h3 (by omega) (by omega)
  have h1 := Balance_append _ _ _ _ _ _ _ _ _ hb1 h2 (by omega) (by omega)
  clear hb1 hb2 hb3 hb4 hb5 hb6 hb7 hb8 hb9 hb10 hb11 hb13 hb14 hb15 hb16 hb17 hb18 hb19
  clear h2 h3 h4 h5 h6 h7 h8 h9 h10 h11 h13 h14 h15 h16 h17 h18
  refine ⟨c1 ++ (c2 ++ (c3 ++ (c4 ++ (c5 ++ (c6 ++ (c7 ++ (c8 ++ (c9 ++ (c10 ++ (c11 ++
    (c13 ++ (c14 ++ (c15 ++ (c16 ++ (c17 ++ (c18 ++ c19)))))))))))))))), ?_, ?_, ?_, rfl, rfl,
    rfl, rfl, ?_, ?_, ?_, ?_, ?_, ?_, ?_, ?_⟩
  · simp only [List.append_assoc]
  · dsimp only [Session.heldOfDevice]
    simp only [List.append_assoc, List.cons_append, List.nil_append, List.singleton_append]
      at h1 ⊢
    exact h1
  · omega
  · simp only [Session.Sized, List.length_range', and_self]
  · simp only [ne_eq, List.range'_eq_nil] at hviews ⊢
    exact hviews
  · exact ⟨s.trace.length, create_info, by rw [List.length_range']; exact hn,
      List.mem_append_left _ hcreate, hmin⟩
  · exact List.mem_append_left _ hget
  · refine ⟨color, depth, ?_, hcolor, hdepth⟩
    simp only [hc3, List.mem_append, List.mem_singleton, true_or, or_true]
  · intro command_buffer hmem
    have := hrecorded command_buffer hmem
    simp only [Recorded, List.mem_append, this.1, this.2, true_or, or_true, and_self]
  · simp only [Session.BoundIn, List.mem_append, hbind7, hbind9, hbind13, hbind14, hbind15,
      true_or, or_true, and_self]
  · simp only [Session.TextureApart, List.mem_range'_1, List.mem_cons, List.mem_singleton,
      List.not_mem_nil, or_false]
    omega
/-! ## The calls of each function, on every path -/

theorem isRebuild_isResourceCall (c : VkCall) (h : c.isRebuild = true) :
    c.isResourceCall = true := by
  cases c <;> first | rfl | exact absurd h (Bool.false_ne_true)

theorem oneShotCalls_isResourceCall (s : Session) (command : VkCall)
    (h : command.isResourceCall = true) :
    ∀ c ∈ oneShotCalls s command, c.isResourceCall = true := by
  intro c hc
  simp only [oneShotCalls, List.mem_cons, List.mem_singleton, List.not_mem_nil, or_false] at hc
  rcases hc with h1 | h1 | h1 | h1 | h1 | h1 | h1 <;> subst h1 <;> first | rfl | exact h

theorem TransitionImageLayout_step_emits (image : Nat) (format : VkFormat)
    (old_layout new_layout : VkImageLayout) :
    Emits (fun c => c.isResourceCall = true)
      (TransitionImageLayout.step image format old_layout new_layout) := by
  intro s
  cases hselect : TransitionImageLayout.select
      { srcAccessMask := 0
        dstAccessMask := 0
        oldLayout := old_layout
        newLayout := new_layout
        srcQueueFamilyIndex := VK_QUEUE_FAMILY_IGNORED
        dstQueueFamilyIndex := VK_QUEUE_FAMILY_IGNORED
        image := image
        subresourceRange :=
          { aspectMask := TransitionImageLayout.aspectMask format new_layout
            baseMipLevel := 0
            levelCount := 1
            baseArrayLayer := 0
            layerCount := 1 } } old_layout new_layout with
  | error what =>
    rw [TransitionImageLayout_step_unsupported image format old_layout new_layout s what hselect]
    refine ⟨_, rfl, fun c hc => ?_⟩
    simp only [List.mem_cons, List.mem_singleton, List.not_mem_nil, or_false] at hc
    rcases hc with h1 | h1 <;> subst h1 <;> rfl
  | ok barrier =>
    rw [TransitionImageLayout_step_supported image format old_layout new_layout s barrier
      hselect]
    exact ⟨_, rfl, oneShotCalls_isResourceCall s _ rfl⟩

theorem CopyBuffer_emits (src dst size : Nat) :
    Emits (fun c => c.isResourceCall = true) (CopyBuffer src dst size) := by
  intro s
  rw [CopyBuffer_run]
  exact ⟨_, rfl, oneShotCalls_isResourceCall s _ rfl⟩

theorem CopyBufferToImage_emits (buffer image width height : Nat) :
    Emits (fun c => c.isResourceCall = true) (CopyBufferToImage buffer image width height) := by
  intro s
  rw [CopyBufferToImage_run]
  exact ⟨_, rfl, oneShotCalls_isResourceCall s _ rfl⟩

theorem CreateImage_emits (d : Driver) (p : Platform) (width height : Nat) (format : VkFormat)
    (tiling : VkImageTiling) (usage mem_properties : Nat)
    (image_ref image_memory_ref : Nat → Session → Session) (hi : IsMemberRef image_ref)
    (hm : IsMemberRef image_memory_ref) :
    Emits (fun c => c.isResourceCall = true)
      (CreateImage d p width height format tiling usage mem_properties image_ref
        image_memory_ref) := by
  unfold CreateImage
  refine Emits_bind _ _ _ (Emits_read _) (fun s => ?_)
  refine Emits_bind _ _ _ (Emits_create _ _ _ (fun _ _ => rfl)) (fun created => ?_)
  split_ifs
  · exact Emits_raise _ _
  · refine Emits_bind _ _ _
      (Emits_write _ _ (fun s1 => (IsMemberRef_trace _ hi _ s1).1)) (fun _ => ?_)
    dsimp only
    split
    · exact Emits_raise _ _
    · refine Emits_bind _ _ _ (Emits_create _ _ _ (fun _ _ => rfl)) (fun allocated => ?_)
      split_ifs
      · exact Emits_raise _ _
      · refine Emits_bind _ _ _
          (Emits_write _ _ (fun s1 => (IsMemberRef_trace _ hm _ s1).1)) (fun _ => ?_)
        refine Emits_bind _ _ _ (Emits_call _ _ rfl) (fun _ => ?_)
        exact Emits_pure _ _

theorem CreateBuffer_emits (d : Driver) (p : Platform) (size usage properties : Nat)
    (buffer_ref buffer_memory_ref : Nat → Session → Session) (hb : IsMemberRef buffer_ref)
    (hm : IsMemberRef buffer_memory_ref) :
    Emits (fun c => c.isResourceCall = true)
      (CreateBuffer d p size usage properties buffer_ref buffer_memory_ref) := by
  unfold CreateBuffer
  refine Emits_bind _ _ _ (Emits_read _) (fun s => ?_)
  refine Emits_bind _ _ _ (Emits_create _ _ _ (fun _ _ => rfl)) (fun created => ?_)
  split_ifs
  · exact Emits_raise _ _
  · refine Emits_bind _ _ _
      (Emits_write _ _ (fun s1 => (IsMemberRef_trace _ hb _ s1).1)) (fun _ => ?_)
    dsimp only
    split
    · exact Emits_raise _ _
    · refine Emits_bind _ _ _ (Emits_create _ _ _ (fun _ _ => rfl)) (fun allocated => ?_)
      split_ifs
      · exact Emits_raise _ _
      · refine Emits_bind _ _ _
          (Emits_write _ _ (fun s1 => (IsMemberRef_trace _ hm _ s1).1)) (fun _ => ?_)
        refine Emits_bind _ _ _ (Emits_call _ _ rfl) (fun _ => ?_)
        exact Emits_pure _ _

theorem CreateImageView_emits_resource (d : Driver) (image : Nat) (format : VkFormat)
    (aspect_flags : Nat) :
    Emits (fun c => c.isResourceCall = true) (CreateImageView d image format aspect_flags) :=
  Emits_mono _ _ _ isRebuild_isResourceCall (CreateImageView_emits d image format aspect_flags)

theorem CreateDescriptorSetLayout_emits (d : Driver) :
    Emits (fun c => c.isResourceCall = true) (CreateDescriptorSetLayout d) := by
  unfold CreateDescriptorSetLayout
  refine Emits_bind _ _ _ (Emits_read _) (fun s => ?_)
  refine Emits_bind _ _ _ (Emits_create _ _ _ (fun _ _ => rfl)) (fun created => ?_)
  split_ifs
  · exact Emits_raise _ _
  · exact Emits_write _ _ (fun _ => rfl)

theorem CreateCommandPool_emits (d : Driver) (queue_families : QueueFamilies) :
    Emits (fun c => c.isResourceCall = true) (CreateCommandPool d queue_families) := by
  unfold CreateCommandPool
  refine Emits_bind _ _ _ (Emits_read _) (fun s => ?_)
  refine Emits_bind _ _ _ (Emits_create _ _ _ (fun _ _ => rfl)) (fun created => ?_)
  split_ifs
  · exact Emits_raise _ _
  · exact Emits_write _ _ (fun _ => rfl)

theorem CreateDepthResources_emits (d : Driver) (p : Platform) :
    Emits (fun c => c.isResourceCall = true) (CreateDepthResources d p) := by
  unfold CreateDepthResources
  split
  · exact Emits_undefinedBehaviour _
  · exact Emits_raise _ _
  · refine Emits_bind _ _ _ (Emits_read _) (fun s => ?_)
    refine Emits_bind _ _ _
      (CreateImage_emits _ _ _ _ _ _ _ _ _ _ (fun _ _ _ _ => rfl) (fun _ _ _ _ => rfl))
      (fun depth => ?_)
    refine Emits_bind _ _ _ (CreateImageView_emits_resource _ _ _ _) (fun view => ?_)
    refine Emits_bind _ _ _ (Emits_write _ _ (fun _ => rfl)) (fun _ => ?_)
    exact TransitionImageLayout_step_emits _ _ _ _

theorem CreateTextureImage_emits (d : Driver) (p : Platform) :
    Emits (fun c => c.isResourceCall = true) (CreateTextureImage d p) := by
  unfold CreateTextureImage
  split
  · exact Emits_raise _ _
  · split_ifs
    · exact Emits_undefinedBehaviour _
    · refine Emits_bind _ _ _
        (CreateBuffer_emits _ _ _ _ _ _ _ localVariable_isMemberRef localVariable_isMemberRef)
        (fun staging => ?_)
      refine Emits_bind _ _ _ (Emits_read _) (fun s => ?_)
      refine Emits_bind _ _ _ (Emits_call _ _ rfl) (fun _ => ?_)
      refine Emits_bind _ _ _ (Emits_call _ _ rfl) (fun _ => ?_)
      refine Emits_bind _ _ _
        (CreateImage_emits _ _ _ _ _ _ _ _ _ _ (fun _ _ _ _ => rfl) (fun _ _ _ _ => rfl))
        (fun texture => ?_)
      refine Emits_bind _ _ _ (TransitionImageLayout_step_emits _ _ _ _) (fun _ => ?_)
      refine Emits_bind _ _ _ (CopyBufferToImage_emits _ _ _ _) (fun _ => ?_)
      refine Emits_bind _ _ _ (TransitionImageLayout_step_emits _ _ _ _) (fun _ => ?_)
      refine Emits_bind _ _ _ (Emits_call _ _ rfl) (fun _ => ?_)
      exact Emits_call _ _ rfl

theorem CreateTextureImageView_emits (d : Driver) :
    Emits (fun c => c.isResourceCall = true) (CreateTextureImageView d) := by
  unfold CreateTextureImageView
  refine Emits_bind _ _ _ (Emits_read _) (fun s => ?_)
  refine Emits_bind _ _ _ (CreateImageView_emits_resource _ _ _ _) (fun view => ?_)
  exact Emits_write _ _ (fun _ => rfl)

theorem CreateTextureSampler_emits (d : Driver) :
    Emits (fun c => c.isResourceCall = true) (CreateTextureSampler d) := by
  unfold CreateTextureSampler
  refine Emits_bind _ _ _ (Emits_read _) (fun s => ?_)
  refine Emits_bind _ _ _ (Emits_create _ _ _ (fun _ _ => rfl)) (fun created => ?_)
  split_ifs
  · exact Emits_raise _ _
  · exact Emits_write _ _ (fun _ => rfl)

theorem CreateVertexBuffer_emits (d : Driver) (p : Platform) :
    Emits (fun c => c.isResourceCall = true) (CreateVertexBuffer d p) := by
  unfold CreateVertexBuffer
  refine Emits_bind _ _ _
    (CreateBuffer_emits _ _ _ _ _ _ _ localVariable_isMemberRef localVariable_isMemberRef)
    (fun staging => ?_)
  refine Emits_bind _ _ _ (Emits_read _) (fun s => ?_)
  refine Emits_bind _ _ _ (Emits_call _ _ rfl) (fun _ => ?_)
  refine Emits_bind _ _ _ (Emits_call _ _ rfl) (fun _ => ?_)
  refine Emits_bind _ _ _
    (CreateBuffer_emits _ _ _ _ _ _ _ (fun _ _ _ _ => rfl) (fun _ _ _ _ => rfl))
    (fun vertex => ?_)
  refine Emits_bind _ _ _ (CopyBuffer_emits _ _ _) (fun _ => ?_)
  refine Emits_bind _ _ _ (Emits_call _ _ rfl) (fun _ => ?_)
  exact Emits_call _ _ rfl

theorem CreateIndexBuffer_emits (d : Driver) (p : Platform) :
    Emits (fun c => c.isResourceCall = true) (CreateIndexBuffer d p) := by
  unfold CreateIndexBuffer
  refine Emits_bind _ _ _ (Emits_read _) (fun s0 => ?_)
  refine Emits_bind _ _ _
    (CreateBuffer_emits _ _ _ _ _ _ _ localVariable_isMemberRef localVariable_isMemberRef)
    (fun staging => ?_)
  refine Emits_bind _ _ _ (Emits_read _) (fun s => ?_)
  refine Emits_bind _ _ _ (Emits_call _ _ rfl) (fun _ => ?_)
  refine Emits_bind _ _ _ (Emits_call _ _ rfl) (fun _ => ?_)
  refine Emits_bind _ _ _
    (CreateBuffer_emits _ _ _ _ _ _ _ (fun _ _ _ _ => rfl) (fun _ _ _ _ => rfl))
    (fun index => ?_)
  refine Emits_bind _ _ _ (CopyBuffer_emits _ _ _) (fun _ => ?_)
  refine Emits_bind _ _ _ (Emits_call _ _ rfl) (fun _ => ?_)
  exact Emits_call _ _ rfl

theorem CreateUniformBuffer_emits (d : Driver) (p : Platform) :
    Emits (fun c => c.isResourceCall = true) (CreateUniformBuffer d p) := by
  unfold CreateUniformBuffer
  refine Emits_bind _ _ _
    (CreateBuffer_emits _ _ _ _ _ _ _ (fun _ _ _ _ => rfl) (fun _ _ _ _ => rfl))
    (fun _ => ?_)
  exact Emits_pure _ _

theorem CreateDescriptorPool_emits (d : Driver) :
    Emits (fun c => c.isResourceCall = true) (CreateDescriptorPool d) := by
  unfold CreateDescriptorPool
  refine Emits_bind _ _ _ (Emits_read _) (fun s => ?_)
  refine Emits_bind _ _ _ (Emits_create _ _ _ (fun _ _ => rfl)) (fun created => ?_)
  split_ifs
  · exact Emits_raise _ _
  · exact Emits_write _ _ (fun _ => rfl)

theorem CreateDescriptorSet_emits (d : Driver) :
    Emits (fun c => c.isResourceCall = true) (CreateDescriptorSet d) := by
  unfold CreateDescriptorSet
  refine Emits_bind _ _ _ (Emits_read _) (fun s => ?_)
  refine Emits_bind _ _ _ (Emits_create _ _ _ (fun _ _ => rfl)) (fun allocated => ?_)
  split_ifs
  · exact Emits_raise _ _
  · refine Emits_bind _ _ _ (Emits_write _ _ (fun _ => rfl)) (fun _ => ?_)
    exact Emits_call _ _ rfl

theorem CreateSemaphores_emits (d : Driver) :
    Emits (fun c => c.isInstanceLevel = false ∧ c.isSemaphoreDestroy = false)
      (CreateSemaphores d) := by
  unfold CreateSemaphores
  refine Emits_bind _ _ _ (Emits_read _) (fun s => ?_)
  refine Emits_bind _ _ _ (Emits_create _ _ _ (fun _ _ => ⟨rfl, rfl⟩)) (fun created => ?_)
  split_ifs
  · exact Emits_raise _ _
  · refine Emits_bind _ _ _ (Emits_write _ _ (fun _ => rfl)) (fun _ => ?_)
    refine Emits_bind _ _ _ (Emits_create _ _ _ (fun _ _ => ⟨rfl, rfl⟩)) (fun created => ?_)
    split_ifs
    · exact Emits_raise _ _
    · exact Emits_write _ _ (fun _ => rfl)

theorem CreateVkInstance_emits (d : Driver) (p : Platform) :
    Emits (fun c => c.isSemaphoreCreate = false ∧ c.isSemaphoreDestroy = false ∧
        (c.isInstanceLevel = true ∨ c.owned = []))
      (CreateVkInstance d p) := by
  unfold CreateVkInstance
  by_cases hcheck : (!p.NDEBUG && !CheckValidationLayers p) = true
  · rw [if_pos hcheck]
    exact Emits_raise _ _
  · rw [if_neg hcheck]
    cases RequiredExtensions p with
    | error what => exact Emits_raise _ _
    | ok required_extensions =>
      refine Emits_bind _ _ _ (Emits_create _ _ _ (fun _ _ => ⟨rfl, rfl, Or.inl rfl⟩)) (fun created => ?_)
      split_ifs
      · exact Emits_raise _ _
      · exact Emits_write _ _ (fun _ => rfl)

theorem InitializeVulkan_debugCallback_emits (d : Driver) (p : Platform) :
    Emits (fun c => c.isSemaphoreCreate = false ∧ c.isSemaphoreDestroy = false ∧
        (c.isInstanceLevel = true ∨ c.owned = []))
      (InitializeVulkan.debugCallback d p) := by
  unfold InitializeVulkan.debugCallback
  split_ifs
  · exact Emits_pure _ _
  · refine Emits_bind _ _ _ (Emits_read _) (fun s => ?_)
    refine Emits_bind _ _ _ ?_ (fun created => ?_)
    · unfold CreateDebugReportCallbackEXT
      split_ifs
      · exact Emits_create _ _ _ (fun _ _ => ⟨rfl, rfl, Or.inl rfl⟩)
      · exact Emits_pure _ _
    · split_ifs
      · exact Emits_raise _ _
      · exact Emits_write _ _ (fun _ => rfl)

theorem CreateSurface_emits (d : Driver) :
    Emits (fun c => c.isSemaphoreCreate = false ∧ c.isSemaphoreDestroy = false ∧
        (c.isInstanceLevel = true ∨ c.owned = []))
      (CreateSurface d) := by
  unfold CreateSurface
  refine Emits_bind _ _ _ (Emits_read _) (fun s => ?_)
  refine Emits_bind _ _ _ (Emits_create _ _ _ (fun _ _ => ⟨rfl, rfl, Or.inl rfl⟩)) (fun created => ?_)
  split_ifs
  · exact Emits_raise _ _
  · exact Emits_write _ _ (fun _ => rfl)

theorem SelectPhysicalDevice_step_emits (P : VkCall → Prop) (p : Platform) :
    Emits P (SelectPhysicalDevice.step p) := by
  unfold SelectPhysicalDevice.step
  split
  · exact Emits_raise _ _
  · exact Emits_write _ _ (fun _ => rfl)

theorem CreateLogicalDevice_emits (d : Driver) (p : Platform) :
    Emits (fun c => c.isSemaphoreCreate = false ∧ c.isSemaphoreDestroy = false ∧
        (c.isInstanceLevel = true ∨ c.owned = []))
      (CreateLogicalDevice d p) := by
  unfold CreateLogicalDevice
  refine Emits_bind _ _ _ (Emits_read _) (fun s => ?_)
  dsimp only
  split
  · exact Emits_raise _ _
  · refine Emits_bind _ _ _ (Emits_write _ _ (fun _ => rfl)) (fun _ => ?_)
    refine Emits_bind _ _ _ (Emits_create _ _ _ (fun _ _ => ⟨rfl, rfl, Or.inl rfl⟩)) (fun created => ?_)
    split_ifs
    · exact Emits_raise _ _
    · refine Emits_bind _ _ _ (Emits_write _ _ (fun _ => rfl)) (fun _ => ?_)
      refine Emits_bind _ _ _ (Emits_allocate _ _) (fun graphics => ?_)
      refine Emits_bind _ _ _ (Emits_call _ _ ⟨rfl, rfl, Or.inr rfl⟩) (fun _ => ?_)
      refine Emits_bind _ _ _ (Emits_write _ _ (fun _ => rfl)) (fun _ => ?_)
      refine Emits_bind _ _ _ (Emits_call _ _ ⟨rfl, rfl, Or.inr rfl⟩) (fun _ => ?_)
      exact Emits_write _ _ (fun _ => rfl)
    · refine Emits_bind _ _ _ (Emits_write _ _ (fun _ => rfl)) (fun _ => ?_)
      refine Emits_bind _ _ _ (Emits_allocate _ _) (fun graphics => ?_)
      refine Emits_bind _ _ _ (Emits_call _ _ ⟨rfl, rfl, Or.inr rfl⟩) (fun _ => ?_)
      refine Emits_bind _ _ _ (Emits_write _ _ (fun _ => rfl)) (fun _ => ?_)
      refine Emits_bind _ _ _ (Emits_allocate _ _) (fun present => ?_)
      refine Emits_bind _ _ _ (Emits_call _ _ ⟨rfl, rfl, Or.inr rfl⟩) (fun _ => ?_)
      exact Emits_write _ _ (fun _ => rfl)
theorem isResourceCall_parts (c : VkCall) (h : c.isResourceCall = true) :
    c.isInstanceLevel = false ∧ c.isSemaphoreCreate = false ∧ c.isSemaphoreDestroy = false := by
  simpa only [VkCall.isResourceCall, Bool.and_eq_true, Bool.not_eq_true', and_assoc] using h

theorem not_isSetup_isResourceCall (c : VkCall) (h : c.isSetup = false) :
    c.isResourceCall = true := by
  cases c <;> first | rfl | (simp [VkCall.isSetup] at h)

theorem Step_bind_pure_unit (m : Step Unit) : (m >>= fun _ => pure ()) = m := by
  funext s
  show Step.bind m (fun _ => Step.pure ()) s = m s
  unfold Step.bind Step.pure
  rcases h : m s with ⟨out, s1⟩
  cases out <;> rfl

theorem CreateSwapChain_emits_resource (d : Driver) (queue_families : QueueFamilies)
    (old : Nat) :
    Emits (fun c => c.isResourceCall = true) (CreateSwapChain d queue_families old) :=
  CreateSwapChain_emits _ _ _ _ (fun _ _ _ _ => rfl) (fun _ _ _ => rfl)

theorem InitializeVulkan_deviceResources_emits (d : Driver) (p : Platform)
    (last : Step Unit) (P : VkCall → Prop) (hP : ∀ c, c.isResourceCall = true → P c)
    (hlast : Emits P last) :
    Emits P (do
      let s ← Step.read
      CreateSwapChain d s._available_queue_families VK_NULL_HANDLE
      CreateImageViews d
      CreateRenderPass d
      CreateDescriptorSetLayout d
      CreateGraphicsPipeline d
      let s ← Step.read
      CreateCommandPool d s._available_queue_families
      CreateDepthResources d p
      CreateFrameBuffers d
      CreateTextureImage d p
      CreateTextureImageView d
      CreateTextureSampler d
      LoadModel
      CreateVertexBuffer d p
      CreateIndexBuffer d p
      CreateUniformBuffer d p
      CreateDescriptorPool d
      CreateDescriptorSet d
      CreateCommandBuffers d
      last) := by
  have hrebuild : ∀ c : VkCall, c.isRebuild = true → P c :=
    fun c h => hP c (isRebuild_isResourceCall c h)
  refine Emits_bind _ _ _ (Emits_read _) (fun s => ?_)
  refine Emits_bind _ _ _ (Emits_mono _ _ _ hP (CreateSwapChain_emits_resource _ _ _))
    (fun _ => ?_)
  refine Emits_bind _ _ _ (Emits_mono _ _ _ hrebuild (CreateImageViews_emits d)) (fun _ => ?_)
  refine Emits_bind _ _ _ (Emits_mono _ _ _ hrebuild (CreateRenderPass_emits d)) (fun _ => ?_)
  refine Emits_bind _ _ _ (Emits_mono _ _ _ hP (CreateDescriptorSetLayout_emits d))
    (fun _ => ?_)
  refine Emits_bind _ _ _ (Emits_mono _ _ _ hrebuild (CreateGraphicsPipeline_emits d))
    (fun _ => ?_)
  refine Emits_bind _ _ _ (Emits_read _) (fun s1 => ?_)
  refine Emits_bind _ _ _ (Emits_mono _ _ _ hP (CreateCommandPool_emits d _)) (fun _ => ?_)
  refine Emits_bind _ _ _ (Emits_mono _ _ _ hP (CreateDepthResources_emits d p)) (fun _ => ?_)
  refine Emits_bind _ _ _ (Emits_mono _ _ _ hrebuild (CreateFrameBuffers_emits d)) (fun _ => ?_)
  refine Emits_bind _ _ _ (Emits_mono _ _ _ hP (CreateTextureImage_emits d p)) (fun _ => ?_)
  refine Emits_bind _ _ _ (Emits_mono _ _ _ hP (CreateTextureImageView_emits d)) (fun _ => ?_)
  refine Emits_bind _ _ _ (Emits_mono _ _ _ hP (CreateTextureSampler_emits d)) (fun _ => ?_)
  refine Emits_bind _ _ _ (Emits_pure _ _) (fun _ => ?_)
  refine Emits_bind _ _ _ (Emits_mono _ _ _ hP (CreateVertexBuffer_emits d p)) (fun _ => ?_)
  refine Emits_bind _ _ _ (Emits_mono _ _ _ hP (CreateIndexBuffer_emits d p)) (fun _ => ?_)
  refine Emits_bind _ _ _ (Emits_mono _ _ _ hP (CreateUniformBuffer_emits d p)) (fun _ => ?_)
  refine Emits_bind _ _ _ (Emits_mono _ _ _ hP (CreateDescriptorPool_emits d)) (fun _ => ?_)
  refine Emits_bind _ _ _ (Emits_mono _ _ _ hP (CreateDescriptorSet_emits d)) (fun _ => ?_)
  refine Emits_bind _ _ _ (Emits_mono _ _ _ hrebuild (CreateCommandBuffers_emits d))
    (fun _ => ?_)
  exact hlast

/-- The part of `InitializeVulkan` after the creation of the logical device
makes no call of the instance level and destroys no semaphore. -/
theorem InitializeVulkan_deviceObjects_emits (d : Driver) (p : Platform) :
    Emits (fun c => c.isInstanceLevel = false ∧ c.isSemaphoreDestroy = false)
      (InitializeVulkan.deviceObjects d p) :=
  InitializeVulkan_deviceResources_emits d p (CreateSemaphores d) _
    (fun c h => ⟨(isResourceCall_parts c h).1, (isResourceCall_parts c h).2.2⟩)
    (CreateSemaphores_emits d)

/-- The part of `InitializeVulkan` before `CreateSemaphores` neither creates
nor destroys a semaphore. -/
theorem InitializeVulkan_resources_emits (d : Driver) (p : Platform) :
    Emits (fun c => c.isSemaphoreCreate = false ∧ c.isSemaphoreDestroy = false)
      (InitializeVulkan.resources d p) := by
  unfold InitializeVulkan.resources
  have hweaken : ∀ c : VkCall, (c.isSemaphoreCreate = false ∧ c.isSemaphoreDestroy = false ∧
      (c.isInstanceLevel = true ∨ c.owned = [])) →
      c.isSemaphoreCreate = false ∧ c.isSemaphoreDestroy = false := fun c h => ⟨h.1, h.2.1⟩
  refine Emits_bind _ _ _ (Emits_mono _ _ _ hweaken (CreateVkInstance_emits d p)) (fun _ => ?_)
  refine Emits_bind _ _ _ (Emits_mono _ _ _ hweaken (InitializeVulkan_debugCallback_emits d p))
    (fun _ => ?_)
  refine Emits_bind _ _ _ (Emits_mono _ _ _ hweaken (CreateSurface_emits d)) (fun _ => ?_)
  refine Emits_bind _ _ _ (SelectPhysicalDevice_step_emits _ p) (fun _ => ?_)
  refine Emits_bind _ _ _ (Emits_mono _ _ _ hweaken (CreateLogicalDevice_emits d p))
    (fun _ => ?_)
  have := InitializeVulkan_deviceResources_emits d p (pure ())
    (fun c => c.isSemaphoreCreate = false ∧ c.isSemaphoreDestroy = false)
    (fun c h => (isResourceCall_parts c h).2) (Emits_pure _ _)
  simp only [Step_bind_pure_unit] at this
  exact this
/-! ## `InitializeVulkan` when it returns -/

theorem OkAt_emits {α : Type} (P : VkCall → Prop) (m : Step α) (hm : Emits P m) (s : Session)
    (Q : α → Session → Prop) (h : OkAt m s Q) :
    OkAt m s (fun value s1 =>
      Q value s1 ∧ ∀ calls, s1.trace = s.trace ++ calls → ∀ c ∈ calls, P c) := by
  intro value s1 hrun
  refine ⟨h value s1 hrun, fun calls hcalls => ?_⟩
  obtain ⟨new, hnew, hP⟩ := hm s
  rw [hrun] at hnew
  have : calls = new := List.append_cancel_left (hcalls.symm.trans hnew)
  rw [this]
  exact hP

theorem InitializeVulkan_debugCallback_ok_uniform (d : Driver) (p : Platform) (s : Session) :
    OkAt (InitializeVulkan.debugCallback d p) s (fun _ s1 => ∃ calls callback count,
      s1 = { s with
        _vk_callback := callback, trace := s.trace ++ calls, fresh := s.fresh + count } ∧
      Balance calls [] (if p.NDEBUG then [] else [callback]) s.fresh (s.fresh + count) ∧
      (p.NDEBUG = false → p.debugReportLoaded = true)) := by
  refine OkAt_mono _ _ _ _ (InitializeVulkan_debugCallback_ok d p s) ?_
  rintro _ s1 (⟨hN, rfl⟩ | ⟨hN, hloaded, calls, rfl, hb⟩)
  · refine ⟨[], s1._vk_callback, 0, ?_, ?_, fun h => ?_⟩
    · simp only [List.append_nil, Nat.add_zero]
    · rw [if_pos hN]
      exact Balance_nil _ _
    · rw [hN] at h
      cases h
  · refine ⟨calls, s.fresh, 1, rfl, ?_, fun _ => hloaded⟩
    rw [if_neg (by simp [hN])]
    exact hb

theorem InitializeVulkan_ok (d : Driver) (p : Platform) (s : Session) :
    OkAt (InitializeVulkan d p) s (fun _ s1 => ∃ pre post mid,
      s1.trace = s.trace ++ (pre ++ post) ∧
      Balance pre [] (s1.heldOfInstance p) s.fresh mid ∧
      Balance post [] s1.heldOfDevice mid s1.fresh ∧
      s.fresh ≤ mid ∧ mid ≤ s1.fresh ∧
      (∀ c ∈ post, c.isInstanceLevel = false ∧ c.isSemaphoreDestroy = false) ∧
      (p.NDEBUG = false → p.debugReportLoaded = true) ∧
      s1.Sized ∧
      s1._vk_swapchain_images ≠ [] ∧
      (∃ n create_info,
        s1._vk_swapchain_images.length = d.swapchainImageCount (n + 1) ∧
        .vkCreateSwapchainKHR s1._vk_logical_device create_info VK_SUCCESS
          s1._vk_swapchain ∈ post ∧
        create_info.minImageCount =
          CreateSwapChain.image_count (d.swapChainSupport n)._capabilities) ∧
      .vkGetSwapchainImagesKHR s1._vk_logical_device s1._vk_swapchain
        s1._vk_swapchain_images ∈ post ∧
      (∃ color depth : VkAttachmentDescription,
        .vkCreateRenderPass s1._vk_logical_device [color, depth] 0 1 VK_SUCCESS
          s1._vk_render_pass ∈ post ∧
        color.format = s1._vk_swapchain_format ∧
        FindDepthFormat d.formatProperties = some (.ok depth.format)) ∧
      (∀ command_buffer ∈ s1._vk_command_buffers, Recorded post command_buffer) ∧
      s1.BoundIn post ∧
      s1.TextureApart ∧
      ∀ c ∈ pre, c.isInstanceLevel = true ∨ c.owned = []) := by
  rw [InitializeVulkan_eq_deviceObjects]
  refine OkAt_bind _ _ _ _ (OkAt_mono _ _ _ _
    (OkAt_emits _ _ (CreateVkInstance_emits d p) _ _ (CreateVkInstance_ok _ _ _)) ?_)
  rintro _ s1 ⟨⟨c1, rfl, hb1⟩, he1⟩
  have he1 := he1 c1 rfl
  refine OkAt_bind _ _ _ _ (OkAt_mono _ _ _ _
    (OkAt_emits _ _ (InitializeVulkan_debugCallback_emits d p) _ _
      (InitializeVulkan_debugCallback_ok_uniform _ _ _)) ?_)
  rintro _ s2 ⟨⟨c2, callback, count, rfl, hb2, hloaded⟩, he2⟩
  have he2 := he2 c2 rfl
  dsimp only at hb2 ⊢
  refine OkAt_bind _ _ _ _ (OkAt_mono _ _ _ _
    (OkAt_emits _ _ (CreateSurface_emits d) _ _ (CreateSurface_ok _ _)) ?_)
  rintro _ s3 ⟨⟨c3, rfl, hb3⟩, he3⟩
  have he3 := he3 c3 rfl
  dsimp only at hb3 ⊢
  refine OkAt_bind _ _ _ _ (OkAt_mono _ _ _ _ (SelectPhysicalDevice_step_ok _ _) ?_)
  rintro _ s4 ⟨device, rfl⟩
  refine OkAt_bind _ _ _ _ (OkAt_mono _ _ _ _
    (OkAt_emits _ _ (CreateLogicalDevice_emits d p) _ _ (CreateLogicalDevice_ok _ _ _)) ?_)
  rintro _ s5 ⟨⟨c5, families, present_queue, queues, rfl, hb5⟩, he5⟩
  have he5 := he5 c5 rfl
  dsimp only at hb5 ⊢
  refine OkAt_mono _ _ _ _ (OkAt_emits _ _ (InitializeVulkan_deviceObjects_emits d p) _ _
    (InitializeVulkan_deviceObjects_ok d p _)) ?_
  rintro _ s6 ⟨⟨post, htrace, hbpost, hfresh, hinstance, hcallback, hsurface, hdevice, hsized,
    himages, hcount, hget, hpass, hrecorded, hbound, happart⟩, hemits⟩
  dsimp only at htrace hbpost hfresh hinstance hcallback hsurface hdevice hemits
  have h3 := Balance_append _ _ _ _ _ _ _ _ _ hb3 hb5 (by omega) (by omega)
  have h2 := Balance_append _ _ _ _ _ _ _ _ _ hb2 h3 (by omega) (by omega)
  have h1 := Balance_append _ _ _ _ _ _ _ _ _ hb1 h2 (by omega) (by omega)
  refine ⟨c1 ++ (c2 ++ (c3 ++ c5)), post, _, ?_, ?_, hbpost, by omega, hfresh,
    hemits post htrace, hloaded, hsized, himages, hcount, hget, hpass, hrecorded, hbound,
    happart, fun c hc => ?_⟩
  rotate_left 2
  · simp only [List.mem_append] at hc
    rcases hc with h | h | h | h
    · exact (he1 c h).2.2
    · exact (he2 c h).2.2
    · exact (he3 c h).2.2
    · exact (he5 c h).2.2
  · rw [htrace]
    simp only [List.append_assoc]
  · simp only [Session.heldOfInstance, hinstance, hcallback, hsurface, hdevice]
    simp only [List.append_assoc, List.cons_append, List.nil_append, List.singleton_append]
      at h1 ⊢
    exact h1
/-! ## `RecreateSwapChain`, `Draw` and the size callback when they return -/

theorem RecreateSwapChain_ok (d : Driver) (s : Session) :
    OkAt (RecreateSwapChain d) s (fun _ s1 => ∃ calls,
      s1.trace = s.trace ++ calls ∧
      s.fresh ≤ s1.fresh ∧
      s1.Sized ∧
      s1._vk_swapchain_images ≠ [] ∧
      (∃ n create_info,
        s1._vk_swapchain_images.length = d.swapchainImageCount (n + 1) ∧
        .vkCreateSwapchainKHR s1._vk_logical_device create_info VK_SUCCESS
          s1._vk_swapchain ∈ calls ∧
        create_info.minImageCount =
          CreateSwapChain.image_count (d.swapChainSupport n)._capabilities) ∧
      .vkGetSwapchainImagesKHR s1._vk_logical_device s1._vk_swapchain
        s1._vk_swapchain_images ∈ calls ∧
      (∃ color depth : VkAttachmentDescription,
        .vkCreateRenderPass s1._vk_logical_device [color, depth] 0 1 VK_SUCCESS
          s1._vk_render_pass ∈ calls ∧
        color.format = s1._vk_swapchain_format ∧
        FindDepthFormat d.formatProperties = some (.ok depth.format)) ∧
      (∀ command_buffer ∈ s1._vk_command_buffers, Recorded calls command_buffer) ∧
      (∃ c ∈ calls, c.isSwapchainCreate = true) ∧
      s1._vk_texture_image = s._vk_texture_image ∧
      s1._vk_texture_image_view = s._vk_texture_image_view ∧
      s1._vk_depth_image = s._vk_depth_image ∧
      s1._vk_depth_image_view = s._vk_depth_image_view ∧
      s1._vk_depth_image_memory = s._vk_depth_image_memory ∧
      s1.outsideSwapchain = s.outsideSwapchain ∧
      ∀ view ∈ s1._vk_swapchain_image_views, s.fresh ≤ view) := by
  unfold RecreateSwapChain
  refine OkAt_bind _ _ _ _ (OkAt_read _ _ ?_)
  refine OkAt_bind _ _ _ _ (OkAt_mono _ _ _ _ (CreateSwapChain_ok_shape _ _ _ _) ?_)
  rintro _ s1 ⟨c1, format, extent, n, rfl, _, hn, hget, create_info, hcreate, hmin⟩
  refine OkAt_bind _ _ _ _ (OkAt_call _ _ _ ?_)
  unfold ReleaseSwapchain
  refine OkAt_bind _ _ _ _ (OkAt_bind _ _ _ _ (OkAt_read _ _ (OkAt_calls _ _ _ ?_)))
  generalize ReleaseSwapchain.calls _ = released
  refine OkAt_bind _ _ _ _ (OkAt_call _ _ _ ?_)
  unfold RecreateSwapChain.rebuild
  refine OkAt_bind _ _ _ _ (OkAt_mono _ _ _ _ (CreateImageViews_ok _ _) ?_)
  rintro _ s2 ⟨c2, rfl, _⟩
  simp only [List.length_range']
  refine OkAt_bind _ _ _ _ (OkAt_mono _ _ _ _ (CreateRenderPass_ok _ _) ?_)
  rintro _ s3 ⟨c3, rfl, _, color, depth, hc3, hcolor, _, hdepth, _⟩
  dsimp only at hc3 hcolor ⊢
  refine OkAt_bind _ _ _ _ (OkAt_mono _ _ _ _ (CreateGraphicsPipeline_ok _ _) ?_)
  rintro _ s5 ⟨c5, rfl, _⟩
  dsimp only
  refine OkAt_bind _ _ _ _ (OkAt_mono _ _ _ _ (CreateFrameBuffers_ok _ _) ?_)
  rintro _ s8 ⟨c8, rfl, _, hviews⟩
  simp only [List.length_range'] at hviews ⊢
  refine OkAt_mono _ _ _ _ (CreateCommandBuffers_ok _ _) ?_
  rintro _ s18 ⟨c18, rfl, _, hrecorded⟩
  simp only [List.length_range'] at hrecorded ⊢
  refine ⟨c1 ++ ([.vkDeviceWaitIdle s._vk_logical_device] ++ (released ++
    ([.vkDestroySwapchainKHR s._vk_logical_device s._vk_swapchain] ++
      (c2 ++ (c3 ++ (c5 ++ (c8 ++ c18))))))), ?_, ?_, ?_, ?_, ?_, ?_, ?_, ?_, ?_, trivial,
    trivial, trivial, trivial, trivial, rfl, ?_⟩
  · simp only [List.append_assoc]
  · omega
  · simp only [Session.Sized, List.length_range', and_self]
  · simp only [ne_eq, List.range'_eq_nil] at hviews ⊢
    exact hviews
  · exact ⟨s.trace.length, create_info, hn, List.mem_append_left _ hcreate, hmin⟩
  · exact List.mem_append_left _ hget
  · refine ⟨color, depth, ?_, hcolor, hdepth⟩
    simp only [hc3, List.mem_append, List.mem_singleton, true_or, or_true]
  · intro command_buffer hmem
    have := hrecorded command_buffer hmem
    simp only [Recorded, List.mem_append, this.1, this.2, true_or, or_true, and_self]
  · exact ⟨_, List.mem_append_left _ hcreate, rfl⟩
  · intro view hview
    simp only [List.mem_range'_1] at hview
    omega
theorem Recorded_append (trace calls : List VkCall) (command_buffer : Nat)
    (h : Recorded trace command_buffer) : Recorded (trace ++ calls) command_buffer :=
  ⟨List.mem_append_left _ h.1, List.mem_append_left _ h.2⟩

theorem Recorded_append_right (trace calls : List VkCall) (command_buffer : Nat)
    (h : Recorded calls command_buffer) : Recorded (trace ++ calls) command_buffer :=
  ⟨List.mem_append_right _ h.1, List.mem_append_right _ h.2⟩

theorem append_three {α : Type} (t a b c : List α) : t ++ a ++ b ++ c = t ++ (a ++ b ++ c) := by
  simp only [List.append_assoc]

theorem append_four {α : Type} (t a b c e : List α) :
    t ++ a ++ b ++ c ++ e = t ++ (a ++ b ++ c ++ e) := by
  simp only [List.append_assoc]

theorem Consistent_of_trace (s : Session) (trace1 calls : List VkCall)
    (htrace : trace1 = s.trace ++ calls) (h : s.Consistent) :
    ({ s with trace := trace1 } : Session).Consistent := by
  subst htrace
  exact ⟨h.1, fun command_buffer hmem => Recorded_append _ _ _ (h.2.1 command_buffer hmem),
    h.2.2⟩

theorem Quiet_of_trace (s : Session) (trace1 calls : List VkCall)
    (htrace : trace1 = s.trace ++ calls)
    (hcalls : ∀ c ∈ calls, c.owned = [] ∧ c.destroyed = []) :
    s.Quiet { s with trace := trace1 } := by
  subst htrace
  exact ⟨calls, rfl, Or.inr ⟨rfl, hcalls⟩⟩

theorem Quiet_refl (s : Session) : s.Quiet s :=
  ⟨[], by simp, Or.inr ⟨by simp, fun c hc => by simp at hc⟩⟩

theorem Quiet_trans (s s1 s2 : Session) (h1 : s.Quiet s1) (h2 : s1.Quiet s2) : s.Quiet s2 := by
  obtain ⟨calls1, htrace1, h1⟩ := h1
  obtain ⟨calls2, htrace2, h2⟩ := h2
  refine ⟨calls1 ++ calls2, by rw [htrace2, htrace1, List.append_assoc], ?_⟩
  rcases h1 with ⟨c, hc, hcreate⟩ | ⟨hs1, hneutral1⟩
  · exact Or.inl ⟨c, List.mem_append_left _ hc, hcreate⟩
  · rcases h2 with ⟨c, hc, hcreate⟩ | ⟨hs2, hneutral2⟩
    · exact Or.inl ⟨c, List.mem_append_right _ hc, hcreate⟩
    · refine Or.inr ⟨?_, fun c hc => ?_⟩
      · rw [hs2, hs1]
        simp only [List.append_assoc]
      · rcases List.mem_append.1 hc with h | h
        · exact hneutral1 c h
        · exact hneutral2 c h

/-- A returning `RecreateSwapChain` leaves a consistent session when the
texture was apart before, and it has created a swapchain. -/
theorem RecreateSwapChain_consistent (d : Driver) (s : Session) (trace0 : List VkCall)
    (htrace : ∃ calls, s.trace = trace0 ++ calls)
    (happart : s.TextureApart) :
    OkAt (RecreateSwapChain d) s (fun _ s1 =>
      s1.Consistent ∧ ∃ calls, s1.trace = trace0 ++ calls ∧
        ∃ c ∈ calls, c.isSwapchainCreate = true) := by
  refine OkAt_mono _ _ _ _ (RecreateSwapChain_ok d s) ?_
  rintro _ s1 ⟨calls, htrace1, hfresh, hsized, _, _, _, _, hrecorded, ⟨c, hc, hcreate⟩, himage,
    hview, hdepth, hdepthview, hmemory, houtside, hviews⟩
  obtain ⟨calls0, htrace0⟩ := htrace
  refine ⟨⟨hsized, fun command_buffer hmem => ?_, ?_⟩, calls0 ++ calls, ?_, c,
    List.mem_append_right _ hc, hcreate⟩
  · rw [htrace1]
    exact Recorded_append_right _ _ _ (hrecorded command_buffer hmem)
  · obtain ⟨h1, h2, h3, h4, h5⟩ := happart
    refine ⟨by rw [himage, hdepth]; exact h1, by rw [hview, hdepthview]; exact h2, ?_, ?_, ?_⟩
    · intro hmem
      have := hviews _ hmem
      rw [hview] at this
      omega
    · rw [hview]
      omega
    · simp only [Session.outsideSwapchain, List.cons.injEq, and_true] at houtside
      obtain ⟨_, _, _, _, _, _, _, hvm, _, him, _, hum, _, htm, _, _⟩ := houtside
      rw [hmemory, htm, hvm, him, hum]
      exact h5
  · rw [htrace1, htrace0, List.append_assoc]

theorem Draw_ok (d : Driver) (s : Session) (hs : s.Consistent) :
    OkAt (Draw d) s (fun _ s1 => s1.Consistent ∧ s.Quiet s1) := by
  unfold Draw
  refine OkAt_bind _ _ _ _ (OkAt_read _ _ ?_)
  refine OkAt_bind _ _ _ _ (OkAt_call _ _ _ ?_)
  refine OkAt_bind _ _ _ _ (OkAt_answer _ _ _ ?_)
  refine OkAt_bind _ _ _ _ (OkAt_read _ _ ?_)
  refine OkAt_bind _ _ _ _ (OkAt_call _ _ _ ?_)
  dsimp only
  split_ifs with h1 h2
  · refine OkAt_mono _ _ _ _
      (RecreateSwapChain_consistent d _ s.trace ⟨_, List.append_assoc _ _ _⟩ hs.2.2) ?_
    rintro _ s1 ⟨hconsistent, calls, htrace, hcreate⟩
    exact ⟨hconsistent, calls, htrace, Or.inl hcreate⟩
  · exact OkAt_raise _ _ _
  · split
    · exact OkAt_undefinedBehaviour _ _
    · refine OkAt_bind _ _ _ _ (OkAt_answer _ _ _ ?_)
      refine OkAt_bind _ _ _ _ (OkAt_call _ _ _ ?_)
      dsimp only
      split_ifs with h3
      · exact OkAt_raise _ _ _
      · refine OkAt_bind _ _ _ _ (OkAt_answer _ _ _ ?_)
        refine OkAt_bind _ _ _ _ (OkAt_call _ _ _ ?_)
        dsimp only
        split_ifs with h4 h5
        · refine OkAt_mono _ _ _ _
            (RecreateSwapChain_consistent d _ s.trace ⟨_, append_four _ _ _ _ _⟩ hs.2.2) ?_
          rintro _ s1 ⟨hconsistent, calls, htrace, hcreate⟩
          exact ⟨hconsistent, calls, htrace, Or.inl hcreate⟩
        · exact OkAt_raise _ _ _
        · refine OkAt_pure _ _ _ ⟨Consistent_of_trace s _ _ (append_four _ _ _ _ _) hs,
            Quiet_of_trace s _ _ (append_four _ _ _ _ _) ?_⟩
          intro c hc
          simp only [List.mem_append, List.mem_singleton] at hc
          rcases hc with ((h | h) | h) | h <;> subst h <;> exact ⟨rfl, rfl⟩

theorem OnWindowResize_ok (d : Driver) (width height : Int) (s : Session)
    (hs : s.Consistent) :
    OkAt (OnWindowResize d width height) s (fun _ s1 => s1.Consistent ∧ s.Quiet s1) := by
  unfold OnWindowResize
  split_ifs
  · refine OkAt_mono _ _ _ _
      (RecreateSwapChain_consistent d _ s.trace ⟨[], by simp⟩ hs.2.2) ?_
    rintro _ s1 ⟨hconsistent, calls, htrace, hcreate⟩
    exact ⟨hconsistent, calls, htrace, Or.inl hcreate⟩
  · exact OkAt_pure _ _ _ ⟨hs, Quiet_refl s⟩

theorem UpdateUniformBuffer_ok (s : Session) (hs : s.Consistent) :
    OkAt UpdateUniformBuffer s (fun _ s1 => s1.Consistent ∧ s.Quiet s1) := by
  unfold UpdateUniformBuffer
  refine OkAt_bind _ _ _ _ (OkAt_read _ _ ?_)
  refine OkAt_bind _ _ _ _ (OkAt_call _ _ _ ?_)
  refine OkAt_call _ _ _ ?_
  refine ⟨Consistent_of_trace s _ _ (List.append_assoc _ _ _) hs,
    Quiet_of_trace s _ _ (List.append_assoc _ _ _) ?_⟩
  intro c hc
  simp only [List.mem_append, List.mem_singleton] at hc
  rcases hc with h | h <;> subst h <;> exact ⟨rfl, rfl⟩
/-! ## The sessions a run reaches -/

theorem Reachable_consistent (d : Driver) (p : Platform) (s : Session)
    (h : Reachable d p s) : s.Consistent := by
  induction h with
  | initialized s0 s hrun =>
    obtain ⟨pre, post, mid, htrace, _, _, _, _, _, _, hsized, _, _, _, _, hrecorded, _,
      happart, _⟩ := InitializeVulkan_ok d p s0 () s hrun
    refine ⟨hsized, fun command_buffer hmem => ?_, happart⟩
    rw [htrace, ← List.append_assoc]
    exact Recorded_append_right _ _ _ (hrecorded command_buffer hmem)
  | draw s s1 _ hrun ih => exact (Draw_ok d s ih () s1 hrun).1
  | resize s s1 width height _ hrun ih => exact (OnWindowResize_ok d width height s ih () s1 hrun).1
  | update s s1 _ hrun ih => exact (UpdateUniformBuffer_ok s ih () s1 hrun).1

theorem Defined_bind {α β : Type} (m : Step α) (k : α → Step β) (hm : Defined m)
    (hk : ∀ value, Defined (k value)) : Defined (m >>= k) := by
  intro s
  show (Step.bind m k s).1 ≠ .undefined
  unfold Step.bind
  have := hm s
  rcases h : m s with ⟨out, s1⟩
  rw [h] at this
  cases out with
  | ok value => exact hk value s1
  | thrown what => simp
  | undefined => exact absurd rfl this

theorem Defined_pure {α : Type} (value : α) : Defined (pure value : Step α) :=
  fun _ => by simp [pure, Step.pure]

theorem Defined_raise {α : Type} (what : String) : Defined (Step.raise what : Step α) :=
  fun _ => by simp [Step.raise]

theorem Defined_read : Defined Step.read := fun _ => by simp [Step.read]

theorem Defined_write (f : Session → Session) : Defined (Step.write f) :=
  fun _ => by simp [Step.write]

theorem Defined_create (d : Driver) (mk : VkResult → Nat → VkCall) :
    Defined (Step.create d mk) := by
  intro s
  unfold Step.create
  dsimp only
  split_ifs <;> simp

theorem CreateFrameBuffers_loop_defined (d : Driver) (depth_view remaining : Nat) :
    ∀ i, Defined (CreateFrameBuffers.loop d depth_view remaining i) := by
  induction remaining with
  | zero => intro i; exact Defined_pure _
  | succ n ih =>
    intro i
    unfold CreateFrameBuffers.loop
    refine Defined_bind _ _ Defined_read (fun s => ?_)
    refine Defined_bind _ _ (Defined_create _ _) (fun created => ?_)
    split_ifs
    · exact Defined_raise _
    · exact Defined_bind _ _ (Defined_write _) (fun _ => ih (i + 1))

/-- The only undefined behaviour of `CreateFrameBuffers` is the read of view 0
of an empty vector. -/
theorem CreateFrameBuffers_defined (d : Driver) (s : Session)
    (h : s._vk_swapchain_image_views ≠ []) : (CreateFrameBuffers d s).1 ≠ .undefined := by
  have hrun : CreateFrameBuffers d s =
      CreateFrameBuffers.loop d s._vk_depth_image_view s._vk_swapchain_image_views.length 0
        { s with _vk_swapchain_frame_buffers :=
            resize s._vk_swapchain_frame_buffers s._vk_swapchain_image_views.length } := by
    cases hviews : s._vk_swapchain_image_views with
    | nil => exact absurd hviews h
    | cons view views =>
      simp only [CreateFrameBuffers, bind, Step.bind, Step.write, Step.read, hviews]
  rw [hrun]
  exact CreateFrameBuffers_loop_defined d _ _ 0 _

/-- C30: in every session reachable by `InitializeVulkan` followed by any
sequence of returning `Draw`, `OnWindowResize` and `UpdateUniformBuffer`
calls, the read `_vk_command_buffers[k]` of `Draw` is in bounds for every
index `k` below the number of images of the current swapchain, and the
command buffer found there was recorded; and at both places where
`CreateFrameBuffers` is called, in `RecreateSwapChain` and in
`InitializeVulkan`, its read of image view 0 is in bounds, so that it does not
end in undefined behaviour, whenever the swapchain has at least one image. -/
theorem command_buffer_lookup_in_bounds (d : Driver) (p : Platform) (s : Session)
    (h : Reachable d p s) :
    (∀ k, k < s._vk_swapchain_images.length →
      ∃ command_buffer, s._vk_command_buffers[k]? = some command_buffer ∧
        Recorded s.trace command_buffer) ∧
    (∀ s0 : Session, s0._vk_swapchain_images ≠ [] →
      OkAt (do
        CreateImageViews d
        CreateRenderPass d
        CreateGraphicsPipeline d) s0
        (fun _ s1 => s1._vk_swapchain_image_views ≠ [] ∧
          (CreateFrameBuffers d s1).1 ≠ .undefined)) ∧
    (∀ s0 : Session, s0._vk_swapchain_images ≠ [] →
      OkAt (do
        CreateImageViews d
        CreateRenderPass d
        CreateDescriptorSetLayout d
        CreateGraphicsPipeline d
        let s ← Step.read
        CreateCommandPool d s._available_queue_families
        CreateDepthResources d p) s0
        (fun _ s1 => s1._vk_swapchain_image_views ≠ [] ∧
          (CreateFrameBuffers d s1).1 ≠ .undefined)) := by
  refine ⟨fun k hk => ?_, fun s0 himages => ?_, fun s0 himages => ?_⟩
  · obtain ⟨hsized, hrecorded, _⟩ := Reachable_consistent d p s h
    have hlt : k < s._vk_command_buffers.length := by rw [hsized.2.2]; exact hk
    exact ⟨s._vk_command_buffers[k], List.getElem?_eq_getElem hlt,
      hrecorded _ (List.getElem_mem hlt)⟩
  · have key : OkAt (do
        CreateImageViews d
        CreateRenderPass d
        CreateGraphicsPipeline d) s0 (fun _ s1 => s1._vk_swapchain_image_views ≠ []) := by
      refine OkAt_bind _ _ _ _ (OkAt_mono _ _ _ _ (CreateImageViews_ok _ _) ?_)
      rintro _ s2 ⟨c2, rfl, _⟩
      refine OkAt_bind _ _ _ _ (OkAt_mono _ _ _ _ (CreateRenderPass_ok _ _) ?_)
      rintro _ s3 ⟨c3, rfl, _⟩
      refine OkAt_mono _ _ _ _ (CreateGraphicsPipeline_ok _ _) ?_
      rintro _ s5 ⟨c5, rfl, _⟩
      simp only [ne_eq, List.range'_eq_nil, List.length_eq_zero]
      exact himages
    exact OkAt_mono _ _ _ _ key (fun _ s1 h1 => ⟨h1, CreateFrameBuffers_defined d s1 h1⟩)
  · have key : OkAt (do
        CreateImageViews d
        CreateRenderPass d
        CreateDescriptorSetLayout d
        CreateGraphicsPipeline d
        let s ← Step.read
        CreateCommandPool d s._available_queue_families
        CreateDepthResources d p) s0 (fun _ s1 => s1._vk_swapchain_image_views ≠ []) := by
      refine OkAt_bind _ _ _ _ (OkAt_mono _ _ _ _ (CreateImageViews_ok _ _) ?_)
      rintro _ s2 ⟨c2, rfl, _⟩
      refine OkAt_bind _ _ _ _ (OkAt_mono _ _ _ _ (CreateRenderPass_ok _ _) ?_)
      rintro _ s3 ⟨c3, rfl, _⟩
      refine OkAt_bind _ _ _ _ (OkAt_mono _ _ _ _ (CreateDescriptorSetLayout_ok _ _) ?_)
      rintro _ s4 ⟨c4, rfl, _⟩
      refine OkAt_bind _ _ _ _ (OkAt_mono _ _ _ _ (CreateGraphicsPipeline_ok _ _) ?_)
      rintro _ s5 ⟨c5, rfl, _⟩
      refine OkAt_bind _ _ _ _ (OkAt_read _ _ ?_)
      refine OkAt_bind _ _ _ _ (OkAt_mono _ _ _ _ (CreateCommandPool_ok _ _ _) ?_)
      rintro _ s6 ⟨c6, rfl, _⟩
      refine OkAt_mono _ _ _ _ (CreateDepthResources_ok _ _ _) ?_
      rintro _ s7 ⟨c7, rfl, _⟩
      simp only [ne_eq, List.range'_eq_nil, List.length_eq_zero]
      exact himages
    exact OkAt_mono _ _ _ _ key (fun _ s1 h1 => ⟨h1, CreateFrameBuffers_defined d s1 h1⟩)

theorem initializedSession_run :
    InitializeVulkan successDriver examplePlatform startSession = (.ok (), initializedSession) := by
  decide!

theorem resizedSession_run :
    OnWindowResize successDriver 5 5 initializedSession =
        (.ok (), (OnWindowResize successDriver 5 5 initializedSession).2) ∧
      Draw successDriver (OnWindowResize successDriver 5 5 initializedSession).2 =
        (.ok (), resizedSession) := by
  decide!

theorem resizedSession_reachable : Reachable successDriver examplePlatform resizedSession :=
  .draw _ _ (.resize _ _ 5 5 (.initialized _ _ initializedSession_run) resizedSession_run.1)
    resizedSession_run.2

theorem command_buffer_lookup_in_bounds_witness :
    Reachable successDriver examplePlatform resizedSession ∧
    resizedSession._vk_swapchain_images.length = 2 ∧
    resizedSession._vk_command_buffers ≠ initializedSession._vk_command_buffers ∧
    ∀ k, k < resizedSession._vk_swapchain_images.length →
      ∃ command_buffer, resizedSession._vk_command_buffers[k]? = some command_buffer ∧
        Recorded resizedSession.trace command_buffer :=
  ⟨resizedSession_reachable, by decide!, by decide!,
    (command_buffer_lookup_in_bounds successDriver examplePlatform resizedSession
      resizedSession_reachable).1⟩

/-- C21 (fails as stated): a device with a 2-image minimum and no maximum
(`maxImageCount = 0`) and a 100x100 surface extent, which creates as many
images as are requested: `CreateSwapChain` requests minimum plus one, 3 images,
and initialization leaves a swapchain of 3 images and a command buffer list of
length 3, not 2. -/
theorem InitializeVulkan_three_images_for_minimum_two :
    unboundedSwapChainSupport._capabilities.minImageCount = 2 ∧
    unboundedSwapChainSupport._capabilities.currentExtent = ⟨100, 100⟩ ∧
    CreateSwapChain.image_count unboundedSwapChainSupport._capabilities = 3 ∧
    (∀ n, threeImageDriver.swapchainImageCount (n + 1) =
      CreateSwapChain.image_count (threeImageDriver.swapChainSupport n)._capabilities) ∧
    (InitializeVulkan threeImageDriver examplePlatform startSession).1 = .ok () ∧
    (InitializeVulkan threeImageDriver examplePlatform startSession).2._vk_swapchain_extent =
      ⟨100, 100⟩ ∧
    (InitializeVulkan threeImageDriver examplePlatform
      startSession).2._vk_swapchain_images.length = 3 ∧
    (InitializeVulkan threeImageDriver examplePlatform
      startSession).2._vk_command_buffers.length = 3 := by
  refine ⟨rfl, rfl, by decide, fun n => ?_, by decide!, by decide!, by decide!, by decide!⟩
  show 3 = CreateSwapChain.image_count unboundedSwapChainSupport._capabilities
  decide

/-- C21 (amended): when `InitializeVulkan` returns, and when any
`RecreateSwapChain` returns, the vectors of swapchain image views, of
framebuffers and of command buffers have as many elements as the vector of
swapchain images, which is the vector the device returned from
`vkGetSwapchainImagesKHR`; every command buffer of the list was recorded; the
render pass in use was created with exactly 2 attachments, the colour
attachment (in the swapchain format) referenced as attachment 0 and the depth
attachment (in the depth format) as attachment 1. The swapchain in use was
created by a request for `CreateSwapChain.image_count` images, minimum plus one
capped by the maximum. On a device that creates as many images as are
requested, a 2-image minimum with a 2-image maximum gives a swapchain of 2
images and a command buffer list of length 2, and a 2-image minimum with no
maximum gives 3 and 3. -/
theorem vectors_sized_after_swapchain_images (d : Driver) (p : Platform) (s0 s : Session)
    (h : InitializeVulkan d p s0 = (.ok (), s) ∨ RecreateSwapChain d s0 = (.ok (), s)) :
    s._vk_swapchain_image_views.length = s._vk_swapchain_images.length ∧
    s._vk_swapchain_frame_buffers.length = s._vk_swapchain_images.length ∧
    s._vk_command_buffers.length = s._vk_swapchain_images.length ∧
    (∀ command_buffer ∈ s._vk_command_buffers, Recorded s.trace command_buffer) ∧
    .vkGetSwapchainImagesKHR s._vk_logical_device s._vk_swapchain
      s._vk_swapchain_images ∈ s.trace ∧
    (∃ n create_info,
      s._vk_swapchain_images.length = d.swapchainImageCount (n + 1) ∧
      .vkCreateSwapchainKHR s._vk_logical_device create_info VK_SUCCESS
        s._vk_swapchain ∈ s.trace ∧
      create_info.minImageCount =
        CreateSwapChain.image_count (d.swapChainSupport n)._capabilities) ∧
    (∃ color depth : VkAttachmentDescription,
      .vkCreateRenderPass s._vk_logical_device [color, depth] 0 1 VK_SUCCESS
        s._vk_render_pass ∈ s.trace ∧
      [color, depth].length = 2 ∧
      color.format = s._vk_swapchain_format ∧
      FindDepthFormat d.formatProperties = some (.ok depth.format)) ∧
    ((∀ n, d.swapchainImageCount (n + 1) =
        CreateSwapChain.image_count (d.swapChainSupport n)._capabilities) →
      (∀ n, (d.swapChainSupport n)._capabilities.minImageCount = 2) →
      ((∀ n, (d.swapChainSupport n)._capabilities.maxImageCount = 2) →
        s._vk_swapchain_images.length = 2 ∧ s._vk_command_buffers.length = 2) ∧
      ((∀ n, (d.swapChainSupport n)._capabilities.maxImageCount = 0) →
        s._vk_swapchain_images.length = 3 ∧ s._vk_command_buffers.length = 3)) := by
  have key : ∃ calls trace0, s.trace = trace0 ++ calls ∧ s.Sized ∧
      (∀ command_buffer ∈ s._vk_command_buffers, Recorded calls command_buffer) ∧
      .vkGetSwapchainImagesKHR s._vk_logical_device s._vk_swapchain
        s._vk_swapchain_images ∈ calls ∧
      (∃ n create_info,
        s._vk_swapchain_images.length = d.swapchainImageCount (n + 1) ∧
        .vkCreateSwapchainKHR s._vk_logical_device create_info VK_SUCCESS
          s._vk_swapchain ∈ calls ∧
        create_info.minImageCount =
          CreateSwapChain.image_count (d.swapChainSupport n)._capabilities) ∧
      (∃ color depth : VkAttachmentDescription,
        .vkCreateRenderPass s._vk_logical_device [color, depth] 0 1 VK_SUCCESS
          s._vk_render_pass ∈ calls ∧
        color.format = s._vk_swapchain_format ∧
        FindDepthFormat d.formatProperties = some (.ok depth.format)) := by
    rcases h with h | h
    · obtain ⟨pre, post, mid, htrace, _, _, _, _, _, _, hsized, _, hcount, hget, hpass,
        hrecorded, _, _⟩ := InitializeVulkan_ok d p s0 () s h
      exact ⟨post, s0.trace ++ pre, by rw [htrace, List.append_assoc], hsized, hrecorded, hget,
        hcount, hpass⟩
    · obtain ⟨calls, htrace, _, hsized, _, hcount, hget, hpass, hrecorded, _⟩ :=
        RecreateSwapChain_ok d s0 () s h
      exact ⟨calls, s0.trace, htrace, hsized, hrecorded, hget, hcount, hpass⟩
  obtain ⟨calls, trace0, htrace, hsized, hrecorded, hget, ⟨n, create_info, hn, hcreate, hmin⟩,
    color, depth, hpass, hcolor, hdepth⟩ := key
  refine ⟨hsized.1, hsized.2.1, hsized.2.2, fun command_buffer hmem => ?_, ?_,
    ⟨n, create_info, hn, ?_, hmin⟩, ⟨color, depth, ?_, rfl, hcolor, hdepth⟩,
    fun hfaithful htwo => ⟨fun hmax => ?_, fun hmax => ?_⟩⟩
  · rw [htrace]
    exact Recorded_append_right _ _ _ (hrecorded command_buffer hmem)
  · rw [htrace]
    exact List.mem_append_right _ hget
  · rw [htrace]
    exact List.mem_append_right _ hcreate
  · rw [htrace]
    exact List.mem_append_right _ hpass
  · have hcount : s._vk_swapchain_images.length = 2 := by
      rw [hn, hfaithful n]
      unfold CreateSwapChain.image_count
      rw [htwo n, hmax n]
      decide
    exact ⟨hcount, hsized.2.2.trans hcount⟩
  · have hcount : s._vk_swapchain_images.length = 3 := by
      rw [hn, hfaithful n]
      unfold CreateSwapChain.image_count
      rw [htwo n, hmax n]
      decide
    exact ⟨hcount, hsized.2.2.trans hcount⟩

/-- Witness of C21 (amended): the example device has a 2-image minimum and
maximum and a 100x100 extent and returns the 2 images requested; the
initialization leaves 2 images, views, framebuffers and command buffers and a
render pass with 2 attachments. -/
theorem vectors_sized_after_swapchain_images_witness :
    exampleSwapChainSupport._capabilities.minImageCount = 2 ∧
    exampleSwapChainSupport._capabilities.maxImageCount = 2 ∧
    exampleSwapChainSupport._capabilities.currentExtent = ⟨100, 100⟩ ∧
    initializedSession._vk_swapchain_extent = ⟨100, 100⟩ ∧
    initializedSession._vk_swapchain_image_views.length = 2 ∧
    initializedSession._vk_swapchain_frame_buffers.length = 2 ∧
    (initializedSession._vk_swapchain_images.length = 2 ∧
      initializedSession._vk_command_buffers.length = 2) ∧
    (∃ color depth : VkAttachmentDescription,
      .vkCreateRenderPass initializedSession._vk_logical_device [color, depth] 0 1 VK_SUCCESS
        initializedSession._vk_render_pass ∈ initializedSession.trace ∧
      [color, depth].length = 2 ∧
      color.format = initializedSession._vk_swapchain_format ∧
      FindDepthFormat successDriver.formatProperties = some (.ok depth.format)) :=
  ⟨rfl, rfl, rfl, by decide!, by decide!, by decide!,
    ((vectors_sized_after_swapchain_images successDriver examplePlatform startSession
      initializedSession (Or.inl initializedSession_run)).2.2.2.2.2.2.2
        (fun _ => show 2 = CreateSwapChain.image_count exampleSwapChainSupport._capabilities
          by decide) (fun _ => rfl)).1 (fun _ => rfl),
    (vectors_sized_after_swapchain_images successDriver examplePlatform startSession
      initializedSession (Or.inl initializedSession_run)).2.2.2.2.2.2.1⟩

/-! ## What `RecreateSwapChain` leaves alone -/

theorem Keeps_bind {α β γ : Type} (f : Session → γ) (m : Step α) (k : α → Step β)
    (hm : Keeps f m) (hk : ∀ value, Keeps f (k value)) : Keeps f (m >>= k) := by
  intro s
  show f (Step.bind m k s).2 = f s
  unfold Step.bind
  have := hm s
  rcases h : m s with ⟨out, s1⟩
  rw [h] at this
  cases out with
  | ok value => exact (hk value s1).trans this
  | thrown what => exact this
  | undefined => exact this

theorem Keeps_pure {α : Type} (value : α) :
    Keeps Session.outsideSwapchain (pure value : Step α) := fun _ => rfl

theorem Keeps_raise {α : Type} (what : String) :
    Keeps Session.outsideSwapchain (Step.raise what : Step α) := fun _ => rfl

theorem Keeps_undefinedBehaviour {α : Type} :
    Keeps Session.outsideSwapchain (Step.undefinedBehaviour : Step α) := fun _ => rfl

theorem Keeps_read : Keeps Session.outsideSwapchain Step.read := fun _ => rfl

theorem Keeps_answer (d : Driver) : Keeps Session.outsideSwapchain (Step.answer d) :=
  fun _ => rfl

theorem Keeps_allocate (count : Nat) : Keeps Session.outsideSwapchain (Step.allocate count) :=
  fun _ => rfl

theorem Keeps_write (f : Session → Session)
    (hf : ∀ s, (f s).outsideSwapchain = s.outsideSwapchain) :
    Keeps Session.outsideSwapchain (Step.write f) := fun s => hf s

theorem Keeps_call (c : VkCall) : Keeps Session.outsideSwapchain (Step.call c) := fun _ => rfl

theorem Keeps_calls (cs : List VkCall) : Keeps Session.outsideSwapchain (Step.calls cs) :=
  fun _ => rfl

theorem Keeps_create (d : Driver) (mk : VkResult → Nat → VkCall) :
    Keeps Session.outsideSwapchain (Step.create d mk) := by
  intro s
  unfold Step.create
  dsimp only
  split_ifs <;> rfl

theorem CreateSwapChain_keeps (d : Driver) (queue_families : QueueFamilies) (old : Nat) :
    Keeps Session.outsideSwapchain (CreateSwapChain d queue_families old) := by
  unfold CreateSwapChain
  refine Keeps_bind _ _ _ Keeps_read (fun s => ?_)
  simp only
  split
  · exact Keeps_undefinedBehaviour
  · refine Keeps_bind _ _ _ (Keeps_write _ (fun _ => rfl)) (fun _ => ?_)
    refine Keeps_bind _ _ _ (Keeps_create _ _) (fun created => ?_)
    split_ifs
    · exact Keeps_raise _
    · refine Keeps_bind _ _ _ (Keeps_write _ (fun _ => rfl)) (fun _ => ?_)
      refine Keeps_bind _ _ _ Keeps_read (fun s1 => ?_)
      refine Keeps_bind _ _ _ (Keeps_call _) (fun _ => ?_)
      refine Keeps_bind _ _ _ (Keeps_allocate _) (fun images => ?_)
      refine Keeps_bind _ _ _ (Keeps_write _ (fun _ => rfl)) (fun _ => ?_)
      exact Keeps_call _

theorem CreateImageView_keeps (d : Driver) (image : Nat) (format : VkFormat)
    (aspect_flags : Nat) :
    Keeps Session.outsideSwapchain (CreateImageView d image format aspect_flags) := by
  unfold CreateImageView
  refine Keeps_bind _ _ _ Keeps_read (fun s => ?_)
  refine Keeps_bind _ _ _ (Keeps_create _ _) (fun created => ?_)
  split_ifs
  · exact Keeps_raise _
  · exact Keeps_pure _

theorem CreateImageViews_loop_keeps (d : Driver) (remaining : Nat) :
    ∀ i, Keeps Session.outsideSwapchain (CreateImageViews.loop d remaining i) := by
  induction remaining with
  | zero => intro i; exact Keeps_pure _
  | succ n ih =>
    intro i
    unfold CreateImageViews.loop
    refine Keeps_bind _ _ _ Keeps_read (fun s => ?_)
    refine Keeps_bind _ _ _ (CreateImageView_keeps _ _ _ _) (fun view => ?_)
    refine Keeps_bind _ _ _ (Keeps_write _ (fun _ => rfl)) (fun _ => ?_)
    exact ih (i + 1)

theorem CreateImageViews_keeps (d : Driver) :
    Keeps Session.outsideSwapchain (CreateImageViews d) := by
  unfold CreateImageViews
  refine Keeps_bind _ _ _ (Keeps_write _ (fun _ => rfl)) (fun _ => ?_)
  refine Keeps_bind _ _ _ Keeps_read (fun s => ?_)
  exact CreateImageViews_loop_keeps d _ 0

theorem CreateRenderPass_keeps (d : Driver) :
    Keeps Session.outsideSwapchain (CreateRenderPass d) := by
  unfold CreateRenderPass
  split
  · exact Keeps_undefinedBehaviour
  · exact Keeps_raise _
  · refine Keeps_bind _ _ _ Keeps_read (fun s => ?_)
    refine Keeps_bind _ _ _ (Keeps_create _ _) (fun created => ?_)
    split_ifs
    · exact Keeps_raise _
    · exact Keeps_write _ (fun _ => rfl)

theorem ReadFile_keeps (d : Driver) (filename : String) :
    Keeps Session.outsideSwapchain (ReadFile d filename) := by
  unfold ReadFile
  split
  · exact Keeps_raise _
  · exact Keeps_pure _

theorem CreateShaderModule_keeps (d : Driver) (blob_size : Nat) :
    Keeps Session.outsideSwapchain (CreateShaderModule d blob_size) := by
  unfold CreateShaderModule
  refine Keeps_bind _ _ _ Keeps_read (fun s => ?_)
  refine Keeps_bind _ _ _ (Keeps_create _ _) (fun created => ?_)
  split_ifs
  · exact Keeps_raise _
  · exact Keeps_pure _

theorem CreateGraphicsPipeline_keeps (d : Driver) :
    Keeps Session.outsideSwapchain (CreateGraphicsPipeline d) := by
  unfold CreateGraphicsPipeline
  refine Keeps_bind _ _ _ (ReadFile_keeps _ _) (fun vert_blob => ?_)
  refine Keeps_bind _ _ _ (ReadFile_keeps _ _) (fun frag_blob => ?_)
  refine Keeps_bind _ _ _ (CreateShaderModule_keeps _ _) (fun vertex_shader_module => ?_)
  refine Keeps_bind _ _ _ (CreateShaderModule_keeps _ _) (fun fragment_shader_module => ?_)
  refine Keeps_bind _ _ _ Keeps_read (fun s => ?_)
  refine Keeps_bind _ _ _ (Keeps_create _ _) (fun layout => ?_)
  split_ifs
  · exact Keeps_raise _
  · refine Keeps_bind _ _ _ (Keeps_write _ (fun _ => rfl)) (fun _ => ?_)
    refine Keeps_bind _ _ _ (Keeps_create _ _) (fun pipeline => ?_)
    split_ifs
    · exact Keeps_raise _
    · refine Keeps_bind _ _ _ (Keeps_write _ (fun _ => rfl)) (fun _ => ?_)
      refine Keeps_bind _ _ _ (Keeps_call _) (fun _ => ?_)
      exact Keeps_call _

theorem CreateFrameBuffers_loop_keeps (d : Driver) (depth_view remaining : Nat) :
    ∀ i, Keeps Session.outsideSwapchain
      (CreateFrameBuffers.loop d depth_view remaining i) := by
  induction remaining with
  | zero => intro i; exact Keeps_pure _
  | succ n ih =>
    intro i
    unfold CreateFrameBuffers.loop
    refine Keeps_bind _ _ _ Keeps_read (fun s => ?_)
    refine Keeps_bind _ _ _ (Keeps_create _ _) (fun created => ?_)
    split_ifs
    · exact Keeps_raise _
    · refine Keeps_bind _ _ _ (Keeps_write _ (fun _ => rfl)) (fun _ => ?_)
      exact ih (i + 1)

theorem CreateFrameBuffers_keeps (d : Driver) :
    Keeps Session.outsideSwapchain (CreateFrameBuffers d) := by
  unfold CreateFrameBuffers
  refine Keeps_bind _ _ _ (Keeps_write _ (fun _ => rfl)) (fun _ => ?_)
  refine Keeps_bind _ _ _ Keeps_read (fun s => ?_)
  split
  · exact Keeps_undefinedBehaviour
  · exact CreateFrameBuffers_loop_keeps d _ _ 0

theorem CreateCommandBuffers_loop_keeps (d : Driver) (remaining : Nat) :
    ∀ i, Keeps Session.outsideSwapchain (CreateCommandBuffers.loop d remaining i) := by
  induction remaining with
  | zero => intro i; exact Keeps_pure _
  | succ n ih =>
    intro i
    unfold CreateCommandBuffers.loop
    refine Keeps_bind _ _ _ Keeps_read (fun s => ?_)
    refine Keeps_bind _ _ _ (Keeps_calls _) (fun _ => ?_)
    refine Keeps_bind _ _ _ (Keeps_answer _) (fun result => ?_)
    refine Keeps_bind _ _ _ (Keeps_call _) (fun _ => ?_)
    split_ifs
    · exact Keeps_raise _
    · exact ih (i + 1)

theorem CreateCommandBuffers_keeps (d : Driver) :
    Keeps Session.outsideSwapchain (CreateCommandBuffers d) := by
  unfold CreateCommandBuffers
  refine Keeps_bind _ _ _ (Keeps_write _ (fun _ => rfl)) (fun _ => ?_)
  refine Keeps_bind _ _ _ Keeps_read (fun s => ?_)
  refine Keeps_bind _ _ _ (Keeps_answer _) (fun result => ?_)
  split_ifs
  · refine Keeps_bind _ _ _ (Keeps_call _) (fun _ => ?_)
    exact Keeps_raise _
  · refine Keeps_bind _ _ _ (Keeps_allocate _) (fun command_buffers => ?_)
    refine Keeps_bind _ _ _ (Keeps_call _) (fun _ => ?_)
    refine Keeps_bind _ _ _ (Keeps_write _ (fun _ => rfl)) (fun _ => ?_)
    exact CreateCommandBuffers_loop_keeps d _ 0

/-- Whatever its outcome, `RecreateSwapChain` assigns none of the members of
`Session.outsideSwapchain`. -/
theorem RecreateSwapChain_keeps (d : Driver) :
    Keeps Session.outsideSwapchain (RecreateSwapChain d) := by
  unfold RecreateSwapChain
  refine Keeps_bind _ _ _ Keeps_read (fun s => ?_)
  refine Keeps_bind _ _ _ (CreateSwapChain_keeps _ _ _) (fun _ => ?_)
  refine Keeps_bind _ _ _ (Keeps_call _) (fun _ => ?_)
  refine Keeps_bind _ _ _ ?_ (fun _ => ?_)
  · unfold ReleaseSwapchain
    exact Keeps_bind _ _ _ Keeps_read (fun s1 => Keeps_calls _)
  refine Keeps_bind _ _ _ (Keeps_call _) (fun _ => ?_)
  unfold RecreateSwapChain.rebuild
  refine Keeps_bind _ _ _ (CreateImageViews_keeps d) (fun _ => ?_)
  refine Keeps_bind _ _ _ (CreateRenderPass_keeps d) (fun _ => ?_)
  refine Keeps_bind _ _ _ (CreateGraphicsPipeline_keeps d) (fun _ => ?_)
  refine Keeps_bind _ _ _ (CreateFrameBuffers_keeps d) (fun _ => ?_)
  exact CreateCommandBuffers_keeps d

theorem Spares_of_other (s : Session) (c : VkCall) (hsetup : c.isSetup = false)
    (himage : ∀ device image, c ≠ .vkDestroyImage device image)
    (hview : ∀ device view, c ≠ .vkDestroyImageView device view)
    (hmemory : ∀ device memory, c ≠ .vkFreeMemory device memory) : s.Spares c :=
  ⟨hsetup, fun device image h => absurd h (himage device image),
    fun device view h => absurd h (hview device view),
    fun device memory h => absurd h (hmemory device memory)⟩

theorem isRebuild_spares (s : Session) (c : VkCall) (h : c.isRebuild = true) : s.Spares c := by
  cases c <;> first
    | exact absurd h (Bool.false_ne_true)
    | exact Spares_of_other s _ rfl (fun _ _ h => by cases h) (fun _ _ h => by cases h)
        (fun _ _ h => by cases h)

theorem ReleaseSwapchain_calls_spares (s : Session) :
    ∀ c ∈ ReleaseSwapchain.calls s, s.Spares c := by
  intro c hc
  simp only [ReleaseSwapchain.calls, List.mem_append, List.mem_cons, List.mem_singleton,
    List.mem_map, List.not_mem_nil, or_false] at hc
  rcases hc with (((h | h | h) | ⟨_, _, h⟩) | (h | h | h | h)) | ⟨view, hview, h⟩ <;>
    subst h <;>
    refine And.intro rfl (And.intro (fun _ _ h => ?_)
      (And.intro (fun _ _ h => ?_) (fun _ _ h => ?_))) <;>
    cases h <;> first | rfl | exact Or.inl rfl | exact Or.inr hview

/-- The calls of `RecreateSwapChain`, whatever its outcome. -/
theorem RecreateSwapChain_spares (d : Driver) (s : Session) :
    ∃ calls, (RecreateSwapChain d s).2.trace = s.trace ++ calls ∧
      ∀ c ∈ calls, s.Spares c := by
  cases hci : RecreateSwapChain.create_info d s with
  | none =>
    rw [RecreateSwapChain_of_undefined d s hci]
    exact ⟨[], by simp, fun c hc => by simp at hc⟩
  | some create_info =>
    by_cases hres : d.result s.trace.length = VK_SUCCESS
    · rw [RecreateSwapChain_of_created d s create_info hci hres]
      obtain ⟨new, hnew, hP⟩ :=
        RecreateSwapChain_rebuild_emits d (RecreateSwapChain.replaced d s create_info)
      refine ⟨RecreateSwapChain.replaceCalls d s create_info ++ new, ?_, fun c hc => ?_⟩
      · rw [hnew, ← List.append_assoc]
        rfl
      · rcases List.mem_append.1 hc with h | h
        · simp only [RecreateSwapChain.replaceCalls, List.mem_append, List.mem_cons,
            List.mem_singleton, List.not_mem_nil, or_false] at h
          rcases h with (((h | h | h) | h) | h) | h
          · subst h
            exact Spares_of_other s _ rfl (fun _ _ h => by cases h) (fun _ _ h => by cases h)
              (fun _ _ h => by cases h)
          · subst h
            exact Spares_of_other s _ rfl (fun _ _ h => by cases h) (fun _ _ h => by cases h)
              (fun _ _ h => by cases h)
          · subst h
            exact Spares_of_other s _ rfl (fun _ _ h => by cases h) (fun _ _ h => by cases h)
              (fun _ _ h => by cases h)
          · subst h
            exact Spares_of_other s _ rfl (fun _ _ h => by cases h) (fun _ _ h => by cases h)
              (fun _ _ h => by cases h)
          · exact ReleaseSwapchain_calls_spares s c h
          · subst h
            exact Spares_of_other s _ rfl (fun _ _ h => by cases h) (fun _ _ h => by cases h)
              (fun _ _ h => by cases h)
        · exact isRebuild_spares s c (hP c h)
    · rw [RecreateSwapChain_of_failed d s create_info hci hres]
      refine ⟨_, rfl, fun c hc => ?_⟩
      simp only [List.mem_singleton] at hc
      subst hc
      exact Spares_of_other s _ rfl (fun _ _ h => by cases h) (fun _ _ h => by cases h)
        (fun _ _ h => by cases h)
/-! ## The main loop and the teardown -/

theorem RecreateSwapChain_emits_resource (d : Driver) :
    Emits (fun c => c.isResourceCall = true) (RecreateSwapChain d) :=
  Emits_mono _ _ _ (fun c h => not_isSetup_isResourceCall c h.1) (RecreateSwapChain_emits d)

theorem OnWindowResize_emits (d : Driver) (width height : Int) :
    Emits (fun c => c.isResourceCall = true) (OnWindowResize d width height) := by
  unfold OnWindowResize
  split_ifs
  · exact RecreateSwapChain_emits_resource d
  · exact Emits_pure _ _

theorem glfwPollEvents_emits (d : Driver) (events : List (Int × Int)) :
    Emits (fun c => c.isResourceCall = true) (glfwPollEvents d events) := by
  induction events with
  | nil => exact Emits_pure _ _
  | cons event rest ih =>
    obtain ⟨width, height⟩ := event
    unfold glfwPollEvents
    exact Emits_bind _ _ _ (OnWindowResize_emits d width height) (fun _ => ih)

theorem UpdateUniformBuffer_emits :
    Emits (fun c => c.isResourceCall = true) UpdateUniformBuffer := by
  unfold UpdateUniformBuffer
  refine Emits_bind _ _ _ (Emits_read _) (fun s => ?_)
  refine Emits_bind _ _ _ (Emits_call _ _ rfl) (fun _ => ?_)
  exact Emits_call _ _ rfl

theorem MainLoop_loop_emits (d : Driver) (frames : List (List (Int × Int))) :
    Emits (fun c => c.isResourceCall = true) (MainLoop.loop d frames) := by
  induction frames with
  | nil => exact Emits_pure _ _
  | cons events rest ih =>
    unfold MainLoop.loop
    refine Emits_bind _ _ _ (glfwPollEvents_emits d events) (fun _ => ?_)
    refine Emits_bind _ _ _ UpdateUniformBuffer_emits (fun _ => ?_)
    refine Emits_bind _ _ _
      (Emits_mono _ _ _ (fun c h => not_isSetup_isResourceCall c h.1) (Draw_emits d))
      (fun _ => ?_)
    exact ih

/-- Whatever the driver answers, the main loop makes no call of the instance
level and neither creates nor destroys a semaphore. -/
theorem MainLoop_emits (d : Driver) (frames : List (List (Int × Int))) :
    Emits (fun c => c.isResourceCall = true) (MainLoop d frames) := by
  unfold MainLoop
  refine Emits_bind _ _ _ (MainLoop_loop_emits d frames) (fun _ => ?_)
  refine Emits_bind _ _ _ (Emits_read _) (fun s => ?_)
  exact Emits_call _ _ rfl

/-- `EndProgram` always returns; its calls are those of `ReleaseSwapchain`,
the device calls and the instance calls, and it assigns no member. -/
theorem EndProgram_run (p : Platform) (s : Session) :
    EndProgram p s =
      (.ok (), { s with
        trace := s.trace ++ (ReleaseSwapchain.calls s ++ (EndProgram.deviceCalls s ++
          EndProgram.instanceCalls p s)) }) := by
  unfold EndProgram EndProgram.instanceCalls DestroyDebugReportCallbackEXT
  cases hN : p.NDEBUG <;> cases hloaded : p.debugReportLoaded <;>
    simp only [bind, Step.bind, ReleaseSwapchain, Step.read, Step.calls, Step.call, pure,
      Step.pure, List.append_assoc, Bool.false_eq_true, if_false, if_true, List.nil_append,
      List.singleton_append, List.cons_append] <;>
    rfl

theorem EndProgram_deviceCalls_kinds (s : Session) :
    ∀ c ∈ EndProgram.deviceCalls s, c.isSemaphoreCreate = false := by
  intro c hc
  simp only [EndProgram.deviceCalls, List.mem_cons, List.mem_singleton, List.not_mem_nil,
    or_false] at hc
  rcases hc with h | h | h | h | h | h | h | h | h | h | h | h | h | h | h | h | h <;>
    subst h <;> rfl

theorem EndProgram_instanceCalls_kinds (p : Platform) (s : Session) :
    ∀ c ∈ EndProgram.instanceCalls p s,
      c.isSemaphoreCreate = false ∧ c.isInstanceLevel = true := by
  intro c hc
  unfold EndProgram.instanceCalls at hc
  rcases List.mem_append.1 hc with h | h
  · split_ifs at h
    · simp at h
    · simp only [List.mem_singleton] at h
      subst h
      exact ⟨rfl, rfl⟩
    · simp at h
  · simp only [List.mem_cons, List.mem_singleton, List.not_mem_nil, or_false] at h
    rcases h with h | h <;> subst h <;> exact ⟨rfl, rfl⟩

/-- `EndProgram` creates no semaphore. -/
theorem EndProgram_emits (p : Platform) :
    Emits (fun c => c.isSemaphoreCreate = false) (EndProgram p) := by
  intro s
  rw [EndProgram_run]
  refine ⟨_, rfl, fun c hc => ?_⟩
  rcases List.mem_append.1 hc with h | h
  · exact (isResourceCall_parts c (not_isSetup_isResourceCall c
      (ReleaseSwapchain_calls_not_helper s c h).1)).2.1
  · rcases List.mem_append.1 h with h | h
    · exact EndProgram_deviceCalls_kinds s c h
    · exact (EndProgram_instanceCalls_kinds p s c h).1

/-- C26: whatever its outcome, `RecreateSwapChain` assigns none of the members
that hold the two frame semaphores, the command pool, the descriptor pool, set
and layout, the vertex, index and uniform buffers and their memory, the
texture image, its memory, view and sampler; it makes no call of `SetupCall`,
so it neither creates nor destroys a semaphore, a command pool, a descriptor
pool, set or layout, a buffer, a sampler or an image of its own; the image it
destroys is the depth image, the views it destroys are the depth view and the
swapchain image views, the memory it frees is the depth memory, and in every
reachable session the texture image, its view and the memory of the texture
and of the buffers are none of these. `InitializeVulkan` is its other calls
followed by `CreateSemaphores`: those other calls, the main loop and
`CreateSemaphores` itself destroy no semaphore, those other calls, the main
loop and `EndProgram` create none, and `EndProgram` destroys the two. -/
theorem RecreateSwapChain_spares_permanent_objects (d : Driver) (p : Platform)
    (frames : List (List (Int × Int))) (s : Session) :
    (RecreateSwapChain d s).2.outsideSwapchain = s.outsideSwapchain ∧
    (∃ calls, (RecreateSwapChain d s).2.trace = s.trace ++ calls ∧
      ∀ c ∈ calls, s.Spares c ∧ c.isSemaphoreCreate = false ∧ c.isSemaphoreDestroy = false) ∧
    (Reachable d p s → s.TextureApart) ∧
    InitializeVulkan d p = (do
      InitializeVulkan.resources d p
      CreateSemaphores d) ∧
    Emits (fun c => c.isSemaphoreCreate = false ∧ c.isSemaphoreDestroy = false)
      (InitializeVulkan.resources d p) ∧
    Emits (fun c => c.isSemaphoreDestroy = false) (CreateSemaphores d) ∧
    Emits (fun c => c.isSemaphoreCreate = false ∧ c.isSemaphoreDestroy = false)
      (MainLoop d frames) ∧
    Emits (fun c => c.isSemaphoreCreate = false) (EndProgram p) ∧
    .setup (.vkDestroySemaphore s._vk_logical_device s._vk_image_available_semaphore) ∈
      EndProgram.deviceCalls s ∧
    .setup (.vkDestroySemaphore s._vk_logical_device s._vk_frame_complete_semaphore) ∈
      EndProgram.deviceCalls s := by
  refine ⟨RecreateSwapChain_keeps d s, ?_, fun h => (Reachable_consistent d p s h).2.2,
    InitializeVulkan_eq_resources d p, InitializeVulkan_resources_emits d p,
    Emits_mono _ _ _ (fun c h => h.2) (CreateSemaphores_emits d),
    Emits_mono _ _ _ (fun c h => (isResourceCall_parts c h).2) (MainLoop_emits d frames),
    EndProgram_emits p, by simp [EndProgram.deviceCalls], by simp [EndProgram.deviceCalls]⟩
  obtain ⟨calls, htrace, hspares⟩ := RecreateSwapChain_spares d s
  refine ⟨calls, htrace, fun c hc => ⟨hspares c hc, ?_⟩⟩
  exact (isResourceCall_parts c (not_isSetup_isResourceCall c (hspares c hc).1)).2

theorem glfwPollEvents_ok (d : Driver) (events : List (Int × Int)) :
    ∀ s : Session, s.Consistent →
      OkAt (glfwPollEvents d events) s (fun _ s1 => s1.Consistent ∧ s.Quiet s1) := by
  induction events with
  | nil => exact fun s hs => OkAt_pure _ _ _ ⟨hs, Quiet_refl s⟩
  | cons event rest ih =>
    intro s hs
    obtain ⟨width, height⟩ := event
    unfold glfwPollEvents
    refine OkAt_bind _ _ _ _ (OkAt_mono _ _ _ _ (OnWindowResize_ok d width height s hs) ?_)
    rintro _ s1 ⟨hs1, hq1⟩
    refine OkAt_mono _ _ _ _ (ih s1 hs1) ?_
    rintro _ s2 ⟨hs2, hq2⟩
    exact ⟨hs2, Quiet_trans s s1 s2 hq1 hq2⟩

theorem MainLoop_loop_ok (d : Driver) (frames : List (List (Int × Int))) :
    ∀ s : Session, s.Consistent →
      OkAt (MainLoop.loop d frames) s (fun _ s1 => s1.Consistent ∧ s.Quiet s1) := by
  induction frames with
  | nil => exact fun s hs => OkAt_pure _ _ _ ⟨hs, Quiet_refl s⟩
  | cons events rest ih =>
    intro s hs
    unfold MainLoop.loop
    refine OkAt_bind _ _ _ _ (OkAt_mono _ _ _ _ (glfwPollEvents_ok d events s hs) ?_)
    rintro _ s1 ⟨hs1, hq1⟩
    refine OkAt_bind _ _ _ _ (OkAt_mono _ _ _ _ (UpdateUniformBuffer_ok s1 hs1) ?_)
    rintro _ s2 ⟨hs2, hq2⟩
    refine OkAt_bind _ _ _ _ (OkAt_mono _ _ _ _ (Draw_ok d s2 hs2) ?_)
    rintro _ s3 ⟨hs3, hq3⟩
    refine OkAt_mono _ _ _ _ (ih s3 hs3) ?_
    rintro _ s4 ⟨hs4, hq4⟩
    exact ⟨hs4, Quiet_trans s s1 s4 hq1 (Quiet_trans s1 s2 s4 hq2 (Quiet_trans s2 s3 s4 hq3 hq4))⟩

/-- A returning `MainLoop` ends with the device-idle wait; before it either a
swapchain was created or no member changed and nothing was created or
destroyed. -/
theorem MainLoop_ok (d : Driver) (frames : List (List (Int × Int))) (s : Session)
    (hs : s.Consistent) :
    OkAt (MainLoop d frames) s (fun _ s2 => ∃ loop,
      s2.trace = s.trace ++ loop ++ [.vkDeviceWaitIdle s2._vk_logical_device] ∧
      ((∃ c ∈ loop, c.isSwapchainCreate = true) ∨
        (s2 = { s with trace := s2.trace } ∧ ∀ c ∈ loop, c.owned = [] ∧ c.destroyed = []))) := by
  unfold MainLoop
  refine OkAt_bind _ _ _ _ (OkAt_mono _ _ _ _ (MainLoop_loop_ok d frames s hs) ?_)
  rintro _ s1 ⟨_, loop, htrace, hq⟩
  refine OkAt_bind _ _ _ _ (OkAt_read _ _ ?_)
  refine OkAt_call _ _ _ ?_
  refine ⟨loop, by rw [htrace], ?_⟩
  rcases hq with hcreate | ⟨hs1, hneutral⟩
  · exact Or.inl hcreate
  · refine Or.inr ⟨?_, hneutral⟩
    rw [hs1]

theorem ownedCount_pos_of_mem (calls : List VkCall) (c : VkCall) (h : Nat) (hc : c ∈ calls)
    (hh : h ∈ c.owned) : 1 ≤ ownedCount calls h := by
  induction calls with
  | nil => simp at hc
  | cons c1 rest ih =>
    rw [ownedCount_cons]
    rcases List.mem_cons.1 hc with heq | hmem
    · subst heq
      have := List.count_pos_iff.2 hh
      omega
    · have := ih hmem
      omega

theorem destroyCount_map (f : Nat → VkCall) (hf : ∀ handle, (f handle).destroyed = [handle])
    (handles : List Nat) (h : Nat) : destroyCount (handles.map f) h = handles.count h := by
  induction handles with
  | nil => rfl
  | cons handle rest ih =>
    rw [List.map_cons, destroyCount_cons, ih, hf, List.count_cons, List.count_cons,
      List.count_nil]
    omega

/-- The calls of `EndProgram` before the destruction of the device destroy
each handle as often as the session holds it as an object of the device. -/
theorem EndProgram_objectCalls_count (s : Session) (h : Nat) :
    destroyCount (EndProgram.objectCalls s) h = s.heldOfDevice.count h := by
  have hframes := destroyCount_map
    (fun frame_buffer => .vkDestroyFramebuffer s._vk_logical_device frame_buffer)
    (fun _ => rfl) s._vk_swapchain_frame_buffers h
  have hviews := destroyCount_map (fun view => .vkDestroyImageView s._vk_logical_device view)
    (fun _ => rfl) s._vk_swapchain_image_views h
  simp only [EndProgram.objectCalls, ReleaseSwapchain.calls, EndProgram.deviceCalls,
    List.dropLast, destroyCount_append, destroyCount_cons, destroyCount_nil,
    hframes, hviews, VkCall.destroyed, SetupCall.destroyed,
    Session.heldOfDevice, List.count_append, List.count_cons, List.count_nil]
  omega

/-- The destruction of the device and the calls of `EndProgram` after it
destroy each handle as often as the session holds it at the instance level. -/
theorem EndProgram_instanceCalls_count (p : Platform) (s : Session) (h : Nat)
    (hloaded : p.NDEBUG = false → p.debugReportLoaded = true) :
    destroyCount (.setup (.vkDestroyDevice s._vk_logical_device) ::
      EndProgram.instanceCalls p s) h = (s.heldOfInstance p).count h := by
  cases hN : p.NDEBUG with
  | true =>
    simp only [EndProgram.instanceCalls, hN, if_true, List.nil_append, destroyCount_cons,
      destroyCount_nil, VkCall.destroyed, SetupCall.destroyed, Session.heldOfInstance,
      List.count_append, List.count_cons, List.count_nil, List.append_nil]
    omega
  | false =>
    simp only [EndProgram.instanceCalls, hN, hloaded hN, if_true, Bool.false_eq_true, if_false,
      List.singleton_append, destroyCount_cons,
      destroyCount_nil, VkCall.destroyed, SetupCall.destroyed, Session.heldOfInstance,
      List.count_append, List.count_cons, List.count_nil, List.append_nil]
    omega
theorem EndProgram_objectCalls_kinds (s : Session) :
    ∀ c ∈ EndProgram.objectCalls s, c.isInstanceLevel = false := by
  intro c hc
  unfold EndProgram.objectCalls at hc
  rcases List.mem_append.1 hc with h | h
  · exact (isResourceCall_parts c (not_isSetup_isResourceCall c
      (ReleaseSwapchain_calls_not_helper s c h).1)).1
  · simp only [EndProgram.deviceCalls, List.dropLast, List.mem_cons, List.mem_singleton,
      List.not_mem_nil, or_false] at h
    rcases h with h | h | h | h | h | h | h | h | h | h | h | h | h | h | h | h <;>
      subst h <;> rfl

/-- Every buffer and every image that `EndProgram` destroys has the memory
that was bound to it freed by `EndProgram` as well. -/
theorem EndProgram_objectCalls_memory (s : Session) (calls : List VkCall)
    (hbound : s.BoundIn calls) :
    (∀ device buffer, .setup (.vkDestroyBuffer device buffer) ∈ EndProgram.objectCalls s →
      ∃ memory, .setup (.vkBindBufferMemory device buffer memory 0) ∈ calls ∧
        .vkFreeMemory device memory ∈ EndProgram.objectCalls s) ∧
    (∀ device image, .vkDestroyImage device image ∈ EndProgram.objectCalls s →
      ∃ memory, .setup (.vkBindImageMemory device image memory 0) ∈ calls ∧
        .vkFreeMemory device memory ∈ EndProgram.objectCalls s) := by
  obtain ⟨hdepth, htexture, hvertex, hindex, huniform⟩ := hbound
  constructor
  · intro device buffer hmem
    simp [EndProgram.objectCalls, ReleaseSwapchain.calls, EndProgram.deviceCalls,
      List.dropLast] at hmem
    rcases hmem with ⟨rfl, rfl⟩ | ⟨rfl, rfl⟩ | ⟨rfl, rfl⟩
    · exact ⟨_, huniform, by simp [EndProgram.objectCalls, EndProgram.deviceCalls,
        List.dropLast]⟩
    · exact ⟨_, hindex, by simp [EndProgram.objectCalls, EndProgram.deviceCalls,
        List.dropLast]⟩
    · exact ⟨_, hvertex, by simp [EndProgram.objectCalls, EndProgram.deviceCalls,
        List.dropLast]⟩
  · intro device image hmem
    simp [EndProgram.objectCalls, ReleaseSwapchain.calls, EndProgram.deviceCalls,
      List.dropLast] at hmem
    rcases hmem with ⟨rfl, rfl⟩ | ⟨rfl, rfl⟩
    · exact ⟨_, hdepth, by simp [EndProgram.objectCalls, ReleaseSwapchain.calls]⟩
    · exact ⟨_, htexture, by simp [EndProgram.objectCalls, EndProgram.deviceCalls,
        List.dropLast]⟩

theorem EndProgram_deviceCalls_last (s : Session) :
    EndProgram.deviceCalls s =
      (EndProgram.deviceCalls s).dropLast ++ [.setup (.vkDestroyDevice s._vk_logical_device)] :=
  rfl
/-- C27: take a run in which `InitializeVulkan` returned, the main loop
returned without ever creating a swapchain again, and `EndProgram` follows.
The main loop creates and destroys nothing and ends with the device-idle wait,
so that the wait precedes every destroy of the teardown. `EndProgram` returns;
its calls are the destroy calls of the objects of the device, then the
destruction of the logical device, then the debug callback of a debug build,
the surface and last the instance. Every handle created during initialization
is destroyed exactly once in the whole run; every handle the teardown destroys
was created once during initialization and not destroyed before; every buffer
and image the teardown destroys has the memory bound to it during
initialization freed in the same teardown; and every object created by a call
on the logical device is destroyed before the device is. -/
theorem teardown_destroys_every_object_once (d : Driver) (p : Platform)
    (frames : List (List (Int × Int))) (s0 s1 s2 : Session)
    (hinit : InitializeVulkan d p s0 = (.ok (), s1))
    (hloop : MainLoop d frames s1 = (.ok (), s2))
    (hnever : ∀ c ∈ s2.trace.drop s1.trace.length, c.isSwapchainCreate = false) :
    ∃ init loop,
      s1.trace = s0.trace ++ init ∧
      s2.trace = s1.trace ++ loop ++ [.vkDeviceWaitIdle s1._vk_logical_device] ∧
      (∀ c ∈ loop, c.owned = [] ∧ c.destroyed = []) ∧
      EndProgram p s2 = (.ok (), { s2 with trace := s2.trace ++
        (EndProgram.objectCalls s1 ++ [.setup (.vkDestroyDevice s1._vk_logical_device)] ++
          EndProgram.instanceCalls p s1) }) ∧
      (∀ h, 1 ≤ ownedCount init h →
        destroyCount (init ++ loop ++ [.vkDeviceWaitIdle s1._vk_logical_device] ++
          EndProgram.objectCalls s1 ++ [.setup (.vkDestroyDevice s1._vk_logical_device)] ++
          EndProgram.instanceCalls p s1) h = 1) ∧
      (∀ h, 1 ≤ destroyCount (EndProgram.objectCalls s1 ++
          [.setup (.vkDestroyDevice s1._vk_logical_device)] ++
          EndProgram.instanceCalls p s1) h →
        ownedCount init h = 1 ∧ destroyCount init h = 0 ∧
        destroyCount (EndProgram.objectCalls s1 ++
          [.setup (.vkDestroyDevice s1._vk_logical_device)] ++
          EndProgram.instanceCalls p s1) h = 1) ∧
      (∀ device buffer, .setup (.vkDestroyBuffer device buffer) ∈ EndProgram.objectCalls s1 →
        ∃ memory, .setup (.vkBindBufferMemory device buffer memory 0) ∈ init ∧
          .vkFreeMemory device memory ∈ EndProgram.objectCalls s1) ∧
      (∀ device image, .vkDestroyImage device image ∈ EndProgram.objectCalls s1 →
        ∃ memory, .setup (.vkBindImageMemory device image memory 0) ∈ init ∧
          .vkFreeMemory device memory ∈ EndProgram.objectCalls s1) ∧
      (∀ c ∈ EndProgram.objectCalls s1, c.isInstanceLevel = false) ∧
      (∀ c ∈ init, c.isInstanceLevel = false → ∀ h ∈ c.owned,
        destroyCount (init ++ loop ++ [.vkDeviceWaitIdle s1._vk_logical_device] ++
          EndProgram.objectCalls s1) h = 1) ∧
      EndProgram.instanceCalls p s1 =
        (if p.NDEBUG then []
          else [.setup (.vkDestroyDebugReportCallbackEXT s1._vk_instance s1._vk_callback)]) ++
        [ .setup (.vkDestroySurfaceKHR s1._vk_instance s1._vk_surface),
          .setup (.vkDestroyInstance s1._vk_instance) ] := by
  obtain ⟨pre, post, mid, htrace1, hbpre, hbpost, hlo, hhi, hpost, hloaded, _, _, _, _, _, _,
    hbound, _, hpre⟩ := InitializeVulkan_ok d p s0 () s1 hinit
  have hconsistent := Reachable_consistent d p s1 (.initialized s0 s1 hinit)
  obtain ⟨loop, htrace2, hquiet⟩ := MainLoop_ok d frames s1 hconsistent () s2 hloop
  rw [htrace2, List.append_assoc, List.drop_left] at hnever
  have hs2 : s2 = { s1 with trace := s2.trace } ∧
      ∀ c ∈ loop, c.owned = [] ∧ c.destroyed = [] := by
    rcases hquiet with ⟨c, hc, hcreate⟩ | h
    · have := hnever c (List.mem_append_left _ hc)
      rw [hcreate] at this
      cases this
    · exact h
  obtain ⟨hs2, hneutral⟩ := hs2
  obtain ⟨trace2, hs2⟩ : ∃ trace2, s2 = { s1 with trace := trace2 } := ⟨_, hs2⟩
  subst hs2
  dsimp only at htrace2
  have hball := Balance_append _ _ _ _ _ _ _ _ _ hbpre hbpost hlo hhi
  have hmemory := EndProgram_objectCalls_memory s1 post hbound
  have hobjects := EndProgram_objectCalls_count s1
  have hinstance := fun h => EndProgram_instanceCalls_count p s1 h hloaded
  have hloopd := destroyCount_eq_zero loop (fun c hc => (hneutral c hc).2)
  refine ⟨pre ++ post, loop, htrace1, htrace2, hneutral, ?_, fun h hh => ?_, fun h hh => ?_,
    fun device buffer hmem => ?_, fun device image hmem => ?_,
    EndProgram_objectCalls_kinds s1, fun c hc hlevel h hh => ?_, ?_⟩
  · rw [EndProgram_run]
    simp only [EndProgram.objectCalls, List.append_assoc]
    rfl
  · have h1 := hball.1 h
    have h2 := hball.2.1 h
    have h3 := hobjects h
    have h4 := hinstance h
    have h5 := hloopd h
    simp only [destroyCount_append, destroyCount_cons, destroyCount_nil, VkCall.destroyed,
      SetupCall.destroyed, List.count_append, List.count_nil, List.count_cons] at h1 h4 ⊢
    omega
  · have h1 := hball.1 h
    have h2 := hball.2.1 h
    have h3 := hobjects h
    have h4 := hinstance h
    simp only [destroyCount_append, destroyCount_cons, destroyCount_nil, VkCall.destroyed,
      SetupCall.destroyed, List.count_append, List.count_nil, List.count_cons] at h1 h4 hh ⊢
    omega
  · obtain ⟨memory, hbind, hfree⟩ := hmemory.1 device buffer hmem
    exact ⟨memory, List.mem_append_right _ hbind, hfree⟩
  · obtain ⟨memory, hbind, hfree⟩ := hmemory.2 device image hmem
    exact ⟨memory, List.mem_append_right _ hbind, hfree⟩
  · rcases List.mem_append.1 hc with hmem | hmem
    · rcases hpre c hmem with hl | ho
      · rw [hl] at hlevel
        cases hlevel
      · rw [ho] at hh
        cases hh
    · have hown := ownedCount_pos_of_mem post c h hmem hh
      have hrange := hbpost.2.2 h hown
      have hpre1 := hbpre.1 h
      have hpre3 := hbpre.2.2 h
      have hpost1 := hbpost.1 h
      have hpost2 := hbpost.2.1 h
      have h3 := hobjects h
      have h5 := hloopd h
      simp only [destroyCount_append, destroyCount_cons, destroyCount_nil, VkCall.destroyed,
        List.count_nil] at hpre1 hpost1 ⊢
      omega
  · have hN : p.NDEBUG = true ∨ (p.NDEBUG = false ∧ p.debugReportLoaded = true) := by
      cases hN : p.NDEBUG
      · exact Or.inr ⟨rfl, hloaded hN⟩
      · exact Or.inl rfl
    rcases hN with hN | ⟨hN, hl⟩
    · simp [EndProgram.instanceCalls, hN]
    · simp [EndProgram.instanceCalls, hN, hl]
theorem loopedSession_run :
    MainLoop successDriver [[], [(0, 5)]] initializedSession = (.ok (), loopedSession) ∧
    ∀ c ∈ loopedSession.trace.drop initializedSession.trace.length,
      c.isSwapchainCreate = false := by
  decide!

theorem teardown_destroys_every_object_once_witness :
    Run successDriver examplePlatform [[], [(0, 5)]] startSession =
      (.ok (), (EndProgram examplePlatform loopedSession).2) ∧
    (∀ h ∈ initializedSession.heldOfInstance examplePlatform ++ initializedSession.heldOfDevice,
      destroyCount (EndProgram examplePlatform loopedSession).2.trace h = 1) ∧
    ∃ init loop,
      initializedSession.trace = startSession.trace ++ init ∧
      loopedSession.trace = initializedSession.trace ++ loop ++
        [.vkDeviceWaitIdle initializedSession._vk_logical_device] ∧
      (∀ c ∈ loop, c.owned = [] ∧ c.destroyed = []) ∧
      ∀ h, 1 ≤ ownedCount init h →
        destroyCount (init ++ loop ++
          [.vkDeviceWaitIdle initializedSession._vk_logical_device] ++
          EndProgram.objectCalls initializedSession ++
          [.setup (.vkDestroyDevice initializedSession._vk_logical_device)] ++
          EndProgram.instanceCalls examplePlatform initializedSession) h = 1 := by
  refine ⟨by decide!, by decide!, ?_⟩
  obtain ⟨init, loop, h1, h2, h3, _, h5, _⟩ :=
    teardown_destroys_every_object_once successDriver examplePlatform [[], [(0, 5)]]
      startSession initializedSession loopedSession initializedSession_run loopedSession_run.1
      loopedSession_run.2
  exact ⟨init, loop, h1, h2, h3, h5⟩

/-! ## The resource helpers, outcome by outcome -/

/-- C23 (amended): with both shader files readable, `CreateGraphicsPipeline`
has five outcomes, decided by the results the driver gives to its four
creation calls. It destroys the two shader modules it created only when it
returns, after the pipeline has been created, the vertex module first. When the
creation of the vertex module fails nothing has been created; when the creation
of the fragment module fails the vertex module has been created; when the
pipeline layout or the pipeline fails both modules have been created; on each
of these paths it raises and no `vkDestroyShaderModule` is made. On every
outcome other than the return the calls added to the trace destroy no handle at
all. -/
theorem CreateGraphicsPipeline_destroys_shader_modules_on_return (d : Driver) (s : Session)
    (vert_blob frag_blob : Nat)
    (hvert : d.fileSize "Shaders/vert.spv" = some vert_blob)
    (hfrag : d.fileSize "Shaders/frag.spv" = some frag_blob) :
    CreateGraphicsPipeline d s =
      (if d.result s.trace.length ≠ VK_SUCCESS then
        (.thrown "Failed To Create Shader Module!",
          { s with
            trace := s.trace ++
              [ .vkCreateShaderModule s._vk_logical_device vert_blob (d.result s.trace.length)
                  VK_NULL_HANDLE ] })
      else if d.result (s.trace.length + 1) ≠ VK_SUCCESS then
        (.thrown "Failed To Create Shader Module!",
          { s with
            trace := s.trace ++
              [ .vkCreateShaderModule s._vk_logical_device vert_blob VK_SUCCESS s.fresh,
                .vkCreateShaderModule s._vk_logical_device frag_blob
                  (d.result (s.trace.length + 1)) VK_NULL_HANDLE ]
            fresh := s.fresh + 1 })
      else if d.result (s.trace.length + 2) ≠ VK_SUCCESS then
        (.thrown "Failed To Create Pipeline Layout!",
          { s with
            trace := s.trace ++
              [ .vkCreateShaderModule s._vk_logical_device vert_blob VK_SUCCESS s.fresh,
                .vkCreateShaderModule s._vk_logical_device frag_blob VK_SUCCESS (s.fresh + 1),
                .vkCreatePipelineLayout s._vk_logical_device [s._vk_descriptor_set_layout]
                  (d.result (s.trace.length + 2)) VK_NULL_HANDLE ]
            fresh := s.fresh + 2 })
      else if d.result (s.trace.length + 3) ≠ VK_SUCCESS then
        (.thrown "Failed To Create Graphics Pipeline!",
          { s with
            _vk_pipeline_layout := s.fresh + 2
            trace := s.trace ++
              [ .vkCreateShaderModule s._vk_logical_device vert_blob VK_SUCCESS s.fresh,
                .vkCreateShaderModule s._vk_logical_device frag_blob VK_SUCCESS (s.fresh + 1),
                .vkCreatePipelineLayout s._vk_logical_device [s._vk_descriptor_set_layout]
                  VK_SUCCESS (s.fresh + 2),
                .vkCreateGraphicsPipelines s._vk_logical_device [s.fresh, s.fresh + 1]
                  (s.fresh + 2) s._vk_render_pass s._vk_swapchain_extent
                  (d.result (s.trace.length + 3)) VK_NULL_HANDLE ]
            fresh := s.fresh + 3 })
      else
        (.ok (),
          { s with
            _vk_pipeline_layout := s.fresh + 2
            _vk_pipeline := s.fresh + 3
            trace := s.trace ++
              [ .vkCreateShaderModule s._vk_logical_device vert_blob VK_SUCCESS s.fresh,
                .vkCreateShaderModule s._vk_logical_device frag_blob VK_SUCCESS (s.fresh + 1),
                .vkCreatePipelineLayout s._vk_logical_device [s._vk_descriptor_set_layout]
                  VK_SUCCESS (s.fresh + 2),
                .vkCreateGraphicsPipelines s._vk_logical_device [s.fresh, s.fresh + 1]
                  (s.fresh + 2) s._vk_render_pass s._vk_swapchain_extent VK_SUCCESS
                  (s.fresh + 3),
                .vkDestroyShaderModule s._vk_logical_device s.fresh,
                .vkDestroyShaderModule s._vk_logical_device (s.fresh + 1) ]
            fresh := s.fresh + 4 })) ∧
    ((CreateGraphicsPipeline d s).1 ≠ .ok () →
      ∃ new, (CreateGraphicsPipeline d s).2.trace = s.trace ++ new ∧
        ∀ c ∈ new, c.destroyed = []) := by
  refine (and_iff_left_of_imp ?_).2 ?_
  · intro hrun hne
    rw [hrun] at hne ⊢
    split_ifs at hne ⊢
    · exact ⟨_, rfl, fun c hc => by
        simp only [List.mem_singleton] at hc
        subst hc
        rfl⟩
    · exact ⟨_, rfl, fun c hc => by
        simp only [List.mem_cons, List.mem_singleton, List.not_mem_nil, or_false] at hc
        rcases hc with h | h <;> subst h <;> rfl⟩
    · exact ⟨_, rfl, fun c hc => by
        simp only [List.mem_cons, List.mem_singleton, List.not_mem_nil, or_false] at hc
        rcases hc with h | h | h <;> subst h <;> rfl⟩
    · exact ⟨_, rfl, fun c hc => by
        simp only [List.mem_cons, List.mem_singleton, List.not_mem_nil, or_false] at hc
        rcases hc with h | h | h | h <;> subst h <;> rfl⟩
    · exact absurd rfl hne
  by_cases h0 : d.result s.trace.length = VK_SUCCESS
  swap
  · simp [CreateGraphicsPipeline, ReadFile, hvert, hfrag, CreateShaderModule, bind,
      Step.bind, Step.read, Step.create, Step.raise, Step.write, Step.call, pure,
      Step.pure, h0, Nat.add_assoc]
  by_cases h1 : d.result (s.trace.length + 1) = VK_SUCCESS
  swap
  · simp [CreateGraphicsPipeline, ReadFile, hvert, hfrag, CreateShaderModule, bind,
      Step.bind, Step.read, Step.create, Step.raise, Step.write, Step.call, pure,
      Step.pure, h0, h1, Nat.add_assoc]
  by_cases h2 : d.result (s.trace.length + 2) = VK_SUCCESS
  swap
  · simp [CreateGraphicsPipeline, ReadFile, hvert, hfrag, CreateShaderModule, bind,
      Step.bind, Step.read, Step.create, Step.raise, Step.write, Step.call, pure,
      Step.pure, h0, h1, h2, Nat.add_assoc]
  by_cases h3 : d.result (s.trace.length + 3) = VK_SUCCESS
  · simp [CreateGraphicsPipeline, ReadFile, hvert, hfrag, CreateShaderModule, bind,
      Step.bind, Step.read, Step.create, Step.raise, Step.write, Step.call, pure,
      Step.pure, h0, h1, h2, h3, Nat.add_assoc]
  · simp [CreateGraphicsPipeline, ReadFile, hvert, hfrag, CreateShaderModule, bind,
      Step.bind, Step.read, Step.create, Step.raise, Step.write, Step.call, pure,
      Step.pure, h0, h1, h2, h3, Nat.add_assoc]

/-- Witness of C23 (amended), on the example session (next handle 49) with the
driver whose third call fails: both shader modules are created, the pipeline
layout fails, and the function raises without a `vkDestroyShaderModule`. -/
theorem CreateGraphicsPipeline_destroys_shader_modules_on_return_witness :
    CreateGraphicsPipeline (failingDriver 2) exampleSession =
      (.thrown "Failed To Create Pipeline Layout!",
        { exampleSession with
          trace :=
            [ .vkCreateShaderModule 5 4 VK_SUCCESS 49,
              .vkCreateShaderModule 5 4 VK_SUCCESS 50,
              .vkCreatePipelineLayout 5 [13] VK_ERROR_INITIALIZATION_FAILED VK_NULL_HANDLE ]
          fresh := 51 }) ∧
    CreateGraphicsPipeline successDriver exampleSession =
      (.ok (),
        { exampleSession with
          _vk_pipeline_layout := 51
          _vk_pipeline := 52
          trace :=
            [ .vkCreateShaderModule 5 4 VK_SUCCESS 49,
              .vkCreateShaderModule 5 4 VK_SUCCESS 50,
              .vkCreatePipelineLayout 5 [13] VK_SUCCESS 51,
              .vkCreateGraphicsPipelines 5 [49, 50] 51 12 ⟨100, 100⟩ VK_SUCCESS 52,
              .vkDestroyShaderModule 5 49,
              .vkDestroyShaderModule 5 50 ]
          fresh := 53 }) :=
  ⟨(CreateGraphicsPipeline_destroys_shader_modules_on_return (failingDriver 2) exampleSession
      4 4 rfl rfl).1.trans (by decide!),
    (CreateGraphicsPipeline_destroys_shader_modules_on_return successDriver exampleSession
      4 4 rfl rfl).1.trans (by decide!)⟩

theorem CreateBuffer_run (d : Driver) (p : Platform) (size usage properties : Nat)
    (buffer_ref buffer_memory_ref : Nat → Session → Session) (hb : IsMemberRef buffer_ref)
    (hm : IsMemberRef buffer_memory_ref) (s : Session) :
    CreateBuffer d p size usage properties buffer_ref buffer_memory_ref s =
      (if d.result s.trace.length ≠ VK_SUCCESS then
        (.thrown "Failed To Create Buffer!",
          { s with
            trace := s.trace ++
              [ .setup (.vkCreateBuffer s._vk_logical_device size usage
                  (d.result s.trace.length) VK_NULL_HANDLE) ] })
      else
        match FindMemoryType p.memoryProperties (p.memoryRequirements s.fresh).memoryTypeBits
            properties with
        | .error what =>
          (.thrown what,
            { buffer_ref s.fresh s with
              trace := s.trace ++
                [ .setup (.vkCreateBuffer s._vk_logical_device size usage VK_SUCCESS s.fresh) ]
              fresh := s.fresh + 1 })
        | .ok memoryTypeIndex =>
          if d.result (s.trace.length + 1) ≠ VK_SUCCESS then
            (.thrown "Failed To Allocate Buffer Memory!",
              { buffer_ref s.fresh s with
                trace := s.trace ++
                  [ .setup (.vkCreateBuffer s._vk_logical_device size usage VK_SUCCESS s.fresh),
                    .setup (.vkAllocateMemory s._vk_logical_device
                      (p.memoryRequirements s.fresh).size memoryTypeIndex
                      (d.result (s.trace.length + 1)) VK_NULL_HANDLE) ]
                fresh := s.fresh + 1 })
          else
            (.ok (s.fresh, s.fresh + 1),
              { buffer_memory_ref (s.fresh + 1) (buffer_ref s.fresh s) with
                trace := s.trace ++
                  [ .setup (.vkCreateBuffer s._vk_logical_device size usage VK_SUCCESS s.fresh),
                    .setup (.vkAllocateMemory s._vk_logical_device
                      (p.memoryRequirements s.fresh).size memoryTypeIndex VK_SUCCESS
                      (s.fresh + 1)),
                    .setup (.vkBindBufferMemory s._vk_logical_device s.fresh (s.fresh + 1) 0) ]
                fresh := s.fresh + 2 })) := by
  by_cases h0 : d.result s.trace.length = VK_SUCCESS
  swap
  · simp [CreateBuffer, bind, Step.bind, Step.read, Step.create, Step.raise, h0]
  cases hfind : FindMemoryType p.memoryProperties (p.memoryRequirements s.fresh).memoryTypeBits
      properties with
  | error what =>
    simp only [CreateBuffer, bind, Step.bind, Step.read, Step.create, Step.raise, Step.write, h0,
      hfind, ne_eq, not_true_eq_false, if_false, if_true]
    rw [hb]
  | ok memoryTypeIndex =>
    simp only [CreateBuffer, bind, Step.bind, Step.read, Step.create, Step.raise, Step.write, h0,
      hfind, ne_eq, not_true_eq_false, if_false, if_true]
    rw [hb]
    simp only [List.length_append, List.length_singleton]
    by_cases h1 : d.result (s.trace.length + 1) = VK_SUCCESS
    · simp only [h1, if_true, not_true_eq_false, if_false, Step.call, pure, Step.pure,
        Step.bind, Step.write]
      rw [hm]
      simp [Nat.add_assoc]
    · simp only [h1, if_true, not_true_eq_false, if_false, Step.call, pure, Step.pure,
        not_false_eq_true, Step.raise]
      simp

theorem CreateImage_run (d : Driver) (p : Platform) (width height : Nat) (format : VkFormat)
    (tiling : VkImageTiling) (usage mem_properties : Nat)
    (image_ref image_memory_ref : Nat → Session → Session) (hb : IsMemberRef image_ref)
    (hm : IsMemberRef image_memory_ref) (s : Session) :
    CreateImage d p width height format tiling usage mem_properties image_ref image_memory_ref
        s =
      (if d.result s.trace.length ≠ VK_SUCCESS then
        (.thrown "Failed To Create Image!",
          { s with
            trace := s.trace ++
              [ .setup (.vkCreateImage s._vk_logical_device width height format tiling
                  usage
                  (d.result s.trace.length) VK_NULL_HANDLE) ] })
      else
        match FindMemoryType p.memoryProperties (p.memoryRequirements s.fresh).memoryTypeBits
            mem_properties with
        | .error what =>
          (.thrown what,
            { image_ref s.fresh s with
              trace := s.trace ++
                [ .setup (.vkCreateImage s._vk_logical_device width height format tiling
                  usage VK_SUCCESS s.fresh) ]
              fresh := s.fresh + 1 })
        | .ok memoryTypeIndex =>
          if d.result (s.trace.length + 1) ≠ VK_SUCCESS then
            (.thrown "Failed To Allocate Image Memory!",
              { image_ref s.fresh s with
                trace := s.trace ++
                  [ .setup (.vkCreateImage s._vk_logical_device width height format tiling
                  usage VK_SUCCESS s.fresh),
                    .setup (.vkAllocateMemory s._vk_logical_device
                      (p.memoryRequirements s.fresh).size memoryTypeIndex
                      (d.result (s.trace.length + 1)) VK_NULL_HANDLE) ]
                fresh := s.fresh + 1 })
          else
            (.ok (s.fresh, s.fresh + 1),
              { image_memory_ref (s.fresh + 1) (image_ref s.fresh s) with
                trace := s.trace ++
                  [ .setup (.vkCreateImage s._vk_logical_device width height format tiling
                  usage VK_SUCCESS s.fresh),
                    .setup (.vkAllocateMemory s._vk_logical_device
                      (p.memoryRequirements s.fresh).size memoryTypeIndex VK_SUCCESS
                      (s.fresh + 1)),
                    .setup (.vkBindImageMemory s._vk_logical_device s.fresh (s.fresh + 1) 0) ]
                fresh := s.fresh + 2 })) := by
  by_cases h0 : d.result s.trace.length = VK_SUCCESS
  swap
  · simp [CreateImage, bind, Step.bind, Step.read, Step.create, Step.raise, h0]
  cases hfind : FindMemoryType p.memoryProperties (p.memoryRequirements s.fresh).memoryTypeBits
      mem_properties with
  | error what =>
    simp only [CreateImage, bind, Step.bind, Step.read, Step.create, Step.raise, Step.write, h0,
      hfind, ne_eq, not_true_eq_false, if_false, if_true]
    rw [hb]
  | ok memoryTypeIndex =>
    simp only [CreateImage, bind, Step.bind, Step.read, Step.create, Step.raise, Step.write, h0,
      hfind, ne_eq, not_true_eq_false, if_false, if_true]
    rw [hb]
    simp only [List.length_append, List.length_singleton]
    by_cases h1 : d.result (s.trace.length + 1) = VK_SUCCESS
    · simp only [h1, if_true, not_true_eq_false, if_false, Step.call, pure, Step.pure,
        Step.bind, Step.write]
      rw [hm]
      simp [Nat.add_assoc]
    · simp only [h1, if_true, not_true_eq_false, if_false, Step.call, pure, Step.pure,
        not_false_eq_true, Step.raise]
      simp

/-- C24 (amended): `CreateBuffer` and `CreateImage`, with reference parameters
that are members or local variables, have four outcomes each. When the creation
of the object fails they raise with nothing created. When the memory-type
search fails, or the allocation fails, they raise with the object created,
assigned to the reference parameter, not bound and not destroyed: the calls
added on a raising path destroy nothing and bind nothing. When they return, the
object is the next handle, the memory the handle after it, the allocation has
the required size and the type index `FindMemoryType(memoryTypeBits,
properties)` gives, and the object is bound to it at offset 0. -/
theorem CreateBuffer_CreateImage_bound_on_return (d : Driver) (p : Platform) (s : Session)
    (buffer_ref buffer_memory_ref image_ref image_memory_ref : Nat → Session → Session)
    (hb : IsMemberRef buffer_ref) (hbm : IsMemberRef buffer_memory_ref)
    (hi : IsMemberRef image_ref) (him : IsMemberRef image_memory_ref) :
    (∀ size usage properties : Nat,
      CreateBuffer d p size usage properties buffer_ref buffer_memory_ref s =
        (if d.result s.trace.length ≠ VK_SUCCESS then
          (.thrown "Failed To Create Buffer!",
            { s with
              trace := s.trace ++
                [ .setup (.vkCreateBuffer s._vk_logical_device size usage
                    (d.result s.trace.length) VK_NULL_HANDLE) ] })
        else
          match FindMemoryType p.memoryProperties (p.memoryRequirements s.fresh).memoryTypeBits
              properties with
          | .error what =>
            (.thrown what,
              { buffer_ref s.fresh s with
                trace := s.trace ++
                  [ .setup (.vkCreateBuffer s._vk_logical_device size usage VK_SUCCESS s.fresh) ]
                fresh := s.fresh + 1 })
          | .ok memoryTypeIndex =>
            if d.result (s.trace.length + 1) ≠ VK_SUCCESS then
              (.thrown "Failed To Allocate Buffer Memory!",
                { buffer_ref s.fresh s with
                  trace := s.trace ++
                    [ .setup (.vkCreateBuffer s._vk_logical_device size usage VK_SUCCESS s.fresh),
                      .setup (.vkAllocateMemory s._vk_logical_device
                        (p.memoryRequirements s.fresh).size memoryTypeIndex
                        (d.result (s.trace.length + 1)) VK_NULL_HANDLE) ]
                  fresh := s.fresh + 1 })
            else
              (.ok (s.fresh, s.fresh + 1),
                { buffer_memory_ref (s.fresh + 1) (buffer_ref s.fresh s) with
                  trace := s.trace ++
                    [ .setup (.vkCreateBuffer s._vk_logical_device size usage VK_SUCCESS s.fresh),
                      .setup (.vkAllocateMemory s._vk_logical_device
                        (p.memoryRequirements s.fresh).size memoryTypeIndex VK_SUCCESS
                        (s.fresh + 1)),
                      .setup (.vkBindBufferMemory s._vk_logical_device s.fresh (s.fresh + 1) 0) ]
                  fresh := s.fresh + 2 }))) ∧
    (∀ (width height : Nat) (format : VkFormat) (tiling : VkImageTiling)
        (usage mem_properties : Nat),
      CreateImage d p width height format tiling usage mem_properties image_ref image_memory_ref
            s =
        (if d.result s.trace.length ≠ VK_SUCCESS then
          (.thrown "Failed To Create Image!",
            { s with
              trace := s.trace ++
                [ .setup (.vkCreateImage s._vk_logical_device width height format tiling
                      usage
                    (d.result s.trace.length) VK_NULL_HANDLE) ] })
        else
          match FindMemoryType p.memoryProperties (p.memoryRequirements s.fresh).memoryTypeBits
              mem_properties with
          | .error what =>
            (.thrown what,
              { image_ref s.fresh s with
                trace := s.trace ++
                  [ .setup (.vkCreateImage s._vk_logical_device width height format tiling
                      usage VK_SUCCESS s.fresh) ]
                fresh := s.fresh + 1 })
          | .ok memoryTypeIndex =>
            if d.result (s.trace.length + 1) ≠ VK_SUCCESS then
              (.thrown "Failed To Allocate Image Memory!",
                { image_ref s.fresh s with
                  trace := s.trace ++
                    [ .setup (.vkCreateImage s._vk_logical_device width height format tiling
                      usage VK_SUCCESS s.fresh),
                      .setup (.vkAllocateMemory s._vk_logical_device
                        (p.memoryRequirements s.fresh).size memoryTypeIndex
                        (d.result (s.trace.length + 1)) VK_NULL_HANDLE) ]
                  fresh := s.fresh + 1 })
            else
              (.ok (s.fresh, s.fresh + 1),
                { image_memory_ref (s.fresh + 1) (image_ref s.fresh s) with
                  trace := s.trace ++
                    [ .setup (.vkCreateImage s._vk_logical_device width height format tiling
                      usage VK_SUCCESS s.fresh),
                      .setup (.vkAllocateMemory s._vk_logical_device
                        (p.memoryRequirements s.fresh).size memoryTypeIndex VK_SUCCESS
                        (s.fresh + 1)),
                      .setup (.vkBindImageMemory s._vk_logical_device s.fresh (s.fresh + 1) 0) ]
                  fresh := s.fresh + 2 }))) ∧
    (∀ size usage properties : Nat,
      (∀ value,
        (CreateBuffer d p size usage properties buffer_ref buffer_memory_ref s).1 ≠ .ok value) →
      ∃ new,
        (CreateBuffer d p size usage properties buffer_ref buffer_memory_ref s).2.trace =
          s.trace ++ new ∧
        ∀ c ∈ new, c.destroyed = [] ∧ c.isBindMemory = false) ∧
    (∀ (width height : Nat) (format : VkFormat) (tiling : VkImageTiling)
        (usage mem_properties : Nat),
      (∀ value,
        (CreateImage d p width height format tiling usage mem_properties image_ref
          image_memory_ref s).1 ≠ .ok value) →
      ∃ new,
        (CreateImage d p width height format tiling usage mem_properties image_ref
          image_memory_ref s).2.trace = s.trace ++ new ∧
        ∀ c ∈ new, c.destroyed = [] ∧ c.isBindMemory = false) := by
  refine ⟨fun size usage properties => CreateBuffer_run d p size usage properties _ _ hb hbm s,
    fun width height format tiling usage mem_properties =>
      CreateImage_run d p width height format tiling usage mem_properties _ _ hi him s,
    fun size usage properties hne => ?_,
    fun width height format tiling usage mem_properties hne => ?_⟩
  · rw [CreateBuffer_run d p size usage properties _ _ hb hbm s] at hne ⊢
    cases hfind : FindMemoryType p.memoryProperties
        (p.memoryRequirements s.fresh).memoryTypeBits properties with
    | error what =>
      simp only [hfind] at hne ⊢
      split_ifs
      · exact ⟨_, rfl, fun c hc => by
          simp only [List.mem_singleton] at hc
          subst hc
          exact ⟨rfl, rfl⟩⟩
      · exact ⟨_, rfl, fun c hc => by
          simp only [List.mem_singleton] at hc
          subst hc
          exact ⟨rfl, rfl⟩⟩
    | ok memoryTypeIndex =>
      simp only [hfind] at hne ⊢
      split_ifs at hne ⊢
      · exact ⟨_, rfl, fun c hc => by
          simp only [List.mem_singleton] at hc
          subst hc
          exact ⟨rfl, rfl⟩⟩
      · exact ⟨_, rfl, fun c hc => by
          simp only [List.mem_cons, List.mem_singleton, List.not_mem_nil, or_false] at hc
          rcases hc with h | h <;> subst h <;> exact ⟨rfl, rfl⟩⟩
      · exact absurd rfl (hne _)
  · rw [CreateImage_run d p width height format tiling usage mem_properties _ _ hi him s]
      at hne ⊢
    cases hfind : FindMemoryType p.memoryProperties
        (p.memoryRequirements s.fresh).memoryTypeBits mem_properties with
    | error what =>
      simp only [hfind] at hne ⊢
      split_ifs
      · exact ⟨_, rfl, fun c hc => by
          simp only [List.mem_singleton] at hc
          subst hc
          exact ⟨rfl, rfl⟩⟩
      · exact ⟨_, rfl, fun c hc => by
          simp only [List.mem_singleton] at hc
          subst hc
          exact ⟨rfl, rfl⟩⟩
    | ok memoryTypeIndex =>
      simp only [hfind] at hne ⊢
      split_ifs at hne ⊢
      · exact ⟨_, rfl, fun c hc => by
          simp only [List.mem_singleton] at hc
          subst hc
          exact ⟨rfl, rfl⟩⟩
      · exact ⟨_, rfl, fun c hc => by
          simp only [List.mem_cons, List.mem_singleton, List.not_mem_nil, or_false] at hc
          rcases hc with h | h <;> subst h <;> exact ⟨rfl, rfl⟩⟩
      · exact absurd rfl (hne _)

/-- Witness of C24 (amended), on the example session (next handle 49) with
local variables as reference parameters: on the driver that always succeeds
`CreateBuffer` returns buffer 49 bound at offset 0 to memory 50 of size 64 and
type index 1; on the driver whose second call fails `CreateImage` raises with
image 49 created, not bound and not destroyed. -/
theorem CreateBuffer_CreateImage_bound_on_return_witness :
    CreateBuffer successDriver examplePlatform 64 VK_BUFFER_USAGE_TRANSFER_SRC_BIT
        (VK_MEMORY_PROPERTY_HOST_VISIBLE_BIT ||| VK_MEMORY_PROPERTY_HOST_COHERENT_BIT)
        localVariable localVariable exampleSession =
      (.ok (49, 50),
        { exampleSession with
          trace :=
            [ .setup (.vkCreateBuffer 5 64 VK_BUFFER_USAGE_TRANSFER_SRC_BIT VK_SUCCESS 49),
              .setup (.vkAllocateMemory 5 64 1 VK_SUCCESS 50),
              .setup (.vkBindBufferMemory 5 49 50 0) ]
          fresh := 51 }) ∧
    CreateImage (failingDriver 1) examplePlatform 100 100 VK_FORMAT_D32_SFLOAT
        VK_IMAGE_TILING_OPTIMAL VK_IMAGE_USAGE_DEPTH_STENCIL_ATTACHMENT_BIT
        VK_MEMORY_PROPERTY_DEVICE_LOCAL_BIT localVariable localVariable exampleSession =
      (.thrown "Failed To Allocate Image Memory!",
        { exampleSession with
          trace :=
            [ .setup (.vkCreateImage 5 100 100 VK_FORMAT_D32_SFLOAT VK_IMAGE_TILING_OPTIMAL
                VK_IMAGE_USAGE_DEPTH_STENCIL_ATTACHMENT_BIT VK_SUCCESS 49),
              .setup (.vkAllocateMemory 5 64 0 VK_ERROR_INITIALIZATION_FAILED VK_NULL_HANDLE) ]
          fresh := 50 }) :=
  ⟨((CreateBuffer_CreateImage_bound_on_return successDriver examplePlatform exampleSession
      localVariable localVariable localVariable localVariable localVariable_isMemberRef
      localVariable_isMemberRef localVariable_isMemberRef localVariable_isMemberRef).1
      64 VK_BUFFER_USAGE_TRANSFER_SRC_BIT
      (VK_MEMORY_PROPERTY_HOST_VISIBLE_BIT ||| VK_MEMORY_PROPERTY_HOST_COHERENT_BIT)).trans
      (by decide!),
    ((CreateBuffer_CreateImage_bound_on_return (failingDriver 1) examplePlatform exampleSession
      localVariable localVariable localVariable localVariable localVariable_isMemberRef
      localVariable_isMemberRef localVariable_isMemberRef localVariable_isMemberRef).2.1
      100 100 VK_FORMAT_D32_SFLOAT VK_IMAGE_TILING_OPTIMAL
      VK_IMAGE_USAGE_DEPTH_STENCIL_ATTACHMENT_BIT VK_MEMORY_PROPERTY_DEVICE_LOCAL_BIT).trans
      (by decide!)⟩

/-! ## One-shot command buffers on every path -/

theorem oneShotLive_append (a b : List VkCall) (ha : oneShotLive a = []) :
    oneShotLive (a ++ b) = oneShotLive b := by
  unfold oneShotLive at ha ⊢
  rw [List.foldl_append, ha]

theorem oneShotLive_of_not_oneShot (calls : List VkCall)
    (h : ∀ c ∈ calls, c.isOneShot = false) : oneShotLive calls = [] := by
  induction calls with
  | nil => rfl
  | cons c rest ih =>
    have hc := h c (List.mem_cons_self _ _)
    have hstep : VkCall.oneShotStep [] c = [] := by
      cases c <;> first | rfl | (simp [VkCall.isOneShot] at hc)
    have := oneShotLive_append [c] rest (by simp [oneShotLive, hstep])
    rw [List.singleton_append] at this
    rw [this]
    exact ih (fun x hx => h x (List.mem_cons_of_mem _ hx))

theorem oneShotLive_oneShotCalls (s : Session) (command : VkCall)
    (h : ∀ live, VkCall.oneShotStep live command = live) :
    oneShotLive (oneShotCalls s command) = [] := by
  have hfold : oneShotLive (oneShotCalls s command) =
      VkCall.oneShotStep (VkCall.oneShotStep [s.fresh] command)
        (.vkFreeCommandBuffers s._vk_logical_device s._vk_command_pool [s.fresh]) := rfl
  rw [hfold, h]
  simp [VkCall.oneShotStep]

theorem EmitsList_of_emits {α : Type} (m : Step α)
    (h : Emits (fun c => c.isOneShot = false) m) :
    EmitsList (fun new => oneShotLive new = []) m :=
  fun s =>
    let ⟨new, h1, h2⟩ := h s
    ⟨new, h1, oneShotLive_of_not_oneShot new h2⟩

theorem EmitsList_bind {α β : Type} (m : Step α) (k : α → Step β)
    (hm : EmitsList (fun new => oneShotLive new = []) m)
    (hk : ∀ value, EmitsList (fun new => oneShotLive new = []) (k value)) :
    EmitsList (fun new => oneShotLive new = []) (m >>= k) := by
  intro s
  obtain ⟨new1, h1, hQ1⟩ := hm s
  show ∃ new, (Step.bind m k s).2.trace = s.trace ++ new ∧ oneShotLive new = []
  unfold Step.bind
  rcases hms : m s with ⟨outcome, s1⟩
  rw [hms] at h1
  cases outcome with
  | ok value =>
    obtain ⟨new2, h2, hQ2⟩ := hk value s1
    refine ⟨new1 ++ new2, ?_, ?_⟩
    · have h1eq : s1.trace = s.trace ++ new1 := h1
      rw [h2, h1eq, List.append_assoc]
    · rw [oneShotLive_append _ _ hQ1]
      exact hQ2
  | thrown what => exact ⟨new1, h1, hQ1⟩
  | undefined => exact ⟨new1, h1, hQ1⟩

theorem CreateImage_emits_setup (P : VkCall → Prop) (hP : ∀ call, P (.setup call))
    (d : Driver) (p : Platform) (width height : Nat) (format : VkFormat)
    (tiling : VkImageTiling) (usage mem_properties : Nat)
    (image_ref image_memory_ref : Nat → Session → Session) (hi : IsMemberRef image_ref)
    (hm : IsMemberRef image_memory_ref) :
    Emits P
      (CreateImage d p width height format tiling usage mem_properties image_ref
        image_memory_ref) := by
  unfold CreateImage
  refine Emits_bind _ _ _ (Emits_read _) (fun s => ?_)
  refine Emits_bind _ _ _ (Emits_create _ _ _ (fun _ _ => hP _)) (fun created => ?_)
  split_ifs
  · exact Emits_raise _ _
  · refine Emits_bind _ _ _
      (Emits_write _ _ (fun s1 => (IsMemberRef_trace _ hi _ s1).1)) (fun _ => ?_)
    dsimp only
    split
    · exact Emits_raise _ _
    · refine Emits_bind _ _ _ (Emits_create _ _ _ (fun _ _ => hP _)) (fun allocated => ?_)
      split_ifs
      · exact Emits_raise _ _
      · refine Emits_bind _ _ _
          (Emits_write _ _ (fun s1 => (IsMemberRef_trace _ hm _ s1).1)) (fun _ => ?_)
        refine Emits_bind _ _ _ (Emits_call _ _ (hP _)) (fun _ => ?_)
        exact Emits_pure _ _

theorem CreateBuffer_emits_setup (P : VkCall → Prop) (hP : ∀ call, P (.setup call))
    (d : Driver) (p : Platform) (size usage properties : Nat)
    (buffer_ref buffer_memory_ref : Nat → Session → Session) (hb : IsMemberRef buffer_ref)
    (hm : IsMemberRef buffer_memory_ref) :
    Emits P (CreateBuffer d p size usage properties buffer_ref buffer_memory_ref) := by
  unfold CreateBuffer
  refine Emits_bind _ _ _ (Emits_read _) (fun s => ?_)
  refine Emits_bind _ _ _ (Emits_create _ _ _ (fun _ _ => hP _)) (fun created => ?_)
  split_ifs
  · exact Emits_raise _ _
  · refine Emits_bind _ _ _
      (Emits_write _ _ (fun s1 => (IsMemberRef_trace _ hb _ s1).1)) (fun _ => ?_)
    dsimp only
    split
    · exact Emits_raise _ _
    · refine Emits_bind _ _ _ (Emits_create _ _ _ (fun _ _ => hP _)) (fun allocated => ?_)
      split_ifs
      · exact Emits_raise _ _
      · refine Emits_bind _ _ _
          (Emits_write _ _ (fun s1 => (IsMemberRef_trace _ hm _ s1).1)) (fun _ => ?_)
        refine Emits_bind _ _ _ (Emits_call _ _ (hP _)) (fun _ => ?_)
        exact Emits_pure _ _

/-- The three pairs of layouts `TransitionImageLayout` knows. -/
theorem TransitionImageLayout_select_supported (barrier : VkImageMemoryBarrier) :
    TransitionImageLayout.select barrier VK_IMAGE_LAYOUT_UNDEFINED
        VK_IMAGE_LAYOUT_TRANSFER_DST_OPTIMAL =
      .ok ({ barrier with srcAccessMask := 0, dstAccessMask := VK_ACCESS_TRANSFER_WRITE_BIT },
        VK_PIPELINE_STAGE_TOP_OF_PIPE_BIT, VK_PIPELINE_STAGE_TRANSFER_BIT) ∧
    TransitionImageLayout.select barrier VK_IMAGE_LAYOUT_TRANSFER_DST_OPTIMAL
        VK_IMAGE_LAYOUT_SHADER_READ_ONLY_OPTIMAL =
      .ok ({ barrier with srcAccessMask := VK_ACCESS_TRANSFER_WRITE_BIT,
                          dstAccessMask := VK_ACCESS_SHADER_READ_BIT },
        VK_PIPELINE_STAGE_TRANSFER_BIT, VK_PIPELINE_STAGE_FRAGMENT_SHADER_BIT) ∧
    TransitionImageLayout.select barrier VK_IMAGE_LAYOUT_UNDEFINED
        VK_IMAGE_LAYOUT_DEPTH_STENCIL_ATTACHMENT_OPTIMAL =
      .ok ({ barrier with srcAccessMask := 0,
                          dstAccessMask := VK_ACCESS_DEPTH_STENCIL_ATTACHMENT_READ_BIT |||
                            VK_ACCESS_DEPTH_STENCIL_ATTACHMENT_WRITE_BIT },
        VK_PIPELINE_STAGE_TOP_OF_PIPE_BIT, VK_PIPELINE_STAGE_EARLY_FRAGMENT_TESTS_BIT) := by
  refine ⟨?_, ?_, ?_⟩
  · simp [TransitionImageLayout.select]
  · simp [TransitionImageLayout.select, VK_IMAGE_LAYOUT_UNDEFINED,
      VK_IMAGE_LAYOUT_TRANSFER_DST_OPTIMAL, VK_IMAGE_LAYOUT_SHADER_READ_ONLY_OPTIMAL]
  · simp [TransitionImageLayout.select, VK_IMAGE_LAYOUT_UNDEFINED,
      VK_IMAGE_LAYOUT_TRANSFER_DST_OPTIMAL, VK_IMAGE_LAYOUT_DEPTH_STENCIL_ATTACHMENT_OPTIMAL]

theorem TransitionImageLayout_step_complete (image : Nat) (format : VkFormat)
    (old_layout new_layout : VkImageLayout)
    (h : (old_layout = VK_IMAGE_LAYOUT_UNDEFINED ∧
          new_layout = VK_IMAGE_LAYOUT_TRANSFER_DST_OPTIMAL) ∨
        (old_layout = VK_IMAGE_LAYOUT_TRANSFER_DST_OPTIMAL ∧
          new_layout = VK_IMAGE_LAYOUT_SHADER_READ_ONLY_OPTIMAL) ∨
        (old_layout = VK_IMAGE_LAYOUT_UNDEFINED ∧
          new_layout = VK_IMAGE_LAYOUT_DEPTH_STENCIL_ATTACHMENT_OPTIMAL)) :
    EmitsList (fun new => oneShotLive new = [])
      (TransitionImageLayout.step image format old_layout new_layout) := by
  intro s
  rcases h with ⟨rfl, rfl⟩ | ⟨rfl, rfl⟩ | ⟨rfl, rfl⟩
  · rw [TransitionImageLayout_step_supported _ _ _ _ s _
      (TransitionImageLayout_select_supported _).1]
    exact ⟨_, rfl, oneShotLive_oneShotCalls s _ (fun _ => rfl)⟩
  · rw [TransitionImageLayout_step_supported _ _ _ _ s _
      (TransitionImageLayout_select_supported _).2.1]
    exact ⟨_, rfl, oneShotLive_oneShotCalls s _ (fun _ => rfl)⟩
  · rw [TransitionImageLayout_step_supported _ _ _ _ s _
      (TransitionImageLayout_select_supported _).2.2]
    exact ⟨_, rfl, oneShotLive_oneShotCalls s _ (fun _ => rfl)⟩

theorem CopyBuffer_complete (src dst size : Nat) :
    EmitsList (fun new => oneShotLive new = []) (CopyBuffer src dst size) := by
  intro s
  rw [CopyBuffer_run]
  exact ⟨_, rfl, oneShotLive_oneShotCalls s _ (fun _ => rfl)⟩

theorem CopyBufferToImage_complete (buffer image width height : Nat) :
    EmitsList (fun new => oneShotLive new = [])
      (CopyBufferToImage buffer image width height) := by
  intro s
  rw [CopyBufferToImage_run]
  exact ⟨_, rfl, oneShotLive_oneShotCalls s _ (fun _ => rfl)⟩

theorem CreateDepthResources_complete (d : Driver) (p : Platform) :
    EmitsList (fun new => oneShotLive new = []) (CreateDepthResources d p) := by
  unfold CreateDepthResources
  split
  · exact EmitsList_of_emits _ (Emits_undefinedBehaviour _)
  · exact EmitsList_of_emits _ (Emits_raise _ _)
  · refine EmitsList_bind _ _ (EmitsList_of_emits _ (Emits_read _)) (fun s => ?_)
    refine EmitsList_bind _ _
      (EmitsList_of_emits _ (CreateImage_emits_setup (fun c => c.isOneShot = false)
        (fun _ => rfl) _ _ _ _ _ _ _ _ _ _
        (fun _ _ _ _ => rfl) (fun _ _ _ _ => rfl)))
      (fun depth => ?_)
    refine EmitsList_bind _ _
      (EmitsList_of_emits _ (Emits_mono _ _ _ (fun c h => (isRebuild_not_helper c h).2)
        (CreateImageView_emits _ _ _ _)))
      (fun view => ?_)
    refine EmitsList_bind _ _ (EmitsList_of_emits _ (Emits_write _ _ (fun _ => rfl)))
      (fun _ => ?_)
    exact TransitionImageLayout_step_complete _ _ _ _ (Or.inr (Or.inr ⟨rfl, rfl⟩))

theorem CreateTextureImage_complete (d : Driver) (p : Platform) :
    EmitsList (fun new => oneShotLive new = []) (CreateTextureImage d p) := by
  unfold CreateTextureImage
  split
  · exact EmitsList_of_emits _ (Emits_raise _ _)
  · split_ifs
    · exact EmitsList_of_emits _ (Emits_undefinedBehaviour _)
    · refine EmitsList_bind _ _
        (EmitsList_of_emits _ (CreateBuffer_emits_setup (fun c => c.isOneShot = false)
        (fun _ => rfl) _ _ _ _ _ _ _
          localVariable_isMemberRef localVariable_isMemberRef))
        (fun staging => ?_)
      refine EmitsList_bind _ _ (EmitsList_of_emits _ (Emits_read _)) (fun s => ?_)
      refine EmitsList_bind _ _ (EmitsList_of_emits _ (Emits_call _ _ rfl)) (fun _ => ?_)
      refine EmitsList_bind _ _ (EmitsList_of_emits _ (Emits_call _ _ rfl)) (fun _ => ?_)
      refine EmitsList_bind _ _
        (EmitsList_of_emits _ (CreateImage_emits_setup (fun c => c.isOneShot = false)
        (fun _ => rfl) _ _ _ _ _ _ _ _ _ _
          (fun _ _ _ _ => rfl) (fun _ _ _ _ => rfl)))
        (fun texture => ?_)
      refine EmitsList_bind _ _
        (TransitionImageLayout_step_complete _ _ _ _ (Or.inl ⟨rfl, rfl⟩)) (fun _ => ?_)
      refine EmitsList_bind _ _ (CopyBufferToImage_complete _ _ _ _) (fun _ => ?_)
      refine EmitsList_bind _ _
        (TransitionImageLayout_step_complete _ _ _ _ (Or.inr (Or.inl ⟨rfl, rfl⟩)))
        (fun _ => ?_)
      refine EmitsList_bind _ _ (EmitsList_of_emits _ (Emits_call _ _ rfl)) (fun _ => ?_)
      exact EmitsList_of_emits _ (Emits_call _ _ rfl)

theorem CreateVertexBuffer_complete (d : Driver) (p : Platform) :
    EmitsList (fun new => oneShotLive new = []) (CreateVertexBuffer d p) := by
  unfold CreateVertexBuffer
  refine EmitsList_bind _ _
    (EmitsList_of_emits _ (CreateBuffer_emits_setup (fun c => c.isOneShot = false)
        (fun _ => rfl) _ _ _ _ _ _ _
      localVariable_isMemberRef localVariable_isMemberRef))
    (fun staging => ?_)
  refine EmitsList_bind _ _ (EmitsList_of_emits _ (Emits_read _)) (fun s => ?_)
  refine EmitsList_bind _ _ (EmitsList_of_emits _ (Emits_call _ _ rfl)) (fun _ => ?_)
  refine EmitsList_bind _ _ (EmitsList_of_emits _ (Emits_call _ _ rfl)) (fun _ => ?_)
  refine EmitsList_bind _ _
    (EmitsList_of_emits _ (CreateBuffer_emits_setup (fun c => c.isOneShot = false)
        (fun _ => rfl) _ _ _ _ _ _ _
      (fun _ _ _ _ => rfl) (fun _ _ _ _ => rfl)))
    (fun vertex => ?_)
  refine EmitsList_bind _ _ (CopyBuffer_complete _ _ _) (fun _ => ?_)
  refine EmitsList_bind _ _ (EmitsList_of_emits _ (Emits_call _ _ rfl)) (fun _ => ?_)
  exact EmitsList_of_emits _ (Emits_call _ _ rfl)

theorem CreateIndexBuffer_complete (d : Driver) (p : Platform) :
    EmitsList (fun new => oneShotLive new = []) (CreateIndexBuffer d p) := by
  unfold CreateIndexBuffer
  refine EmitsList_bind _ _ (EmitsList_of_emits _ (Emits_read _)) (fun s0 => ?_)
  refine EmitsList_bind _ _
    (EmitsList_of_emits _ (CreateBuffer_emits_setup (fun c => c.isOneShot = false)
        (fun _ => rfl) _ _ _ _ _ _ _
      localVariable_isMemberRef localVariable_isMemberRef))
    (fun staging => ?_)
  refine EmitsList_bind _ _ (EmitsList_of_emits _ (Emits_read _)) (fun s => ?_)
  refine EmitsList_bind _ _ (EmitsList_of_emits _ (Emits_call _ _ rfl)) (fun _ => ?_)
  refine EmitsList_bind _ _ (EmitsList_of_emits _ (Emits_call _ _ rfl)) (fun _ => ?_)
  refine EmitsList_bind _ _
    (EmitsList_of_emits _ (CreateBuffer_emits_setup (fun c => c.isOneShot = false)
        (fun _ => rfl) _ _ _ _ _ _ _
      (fun _ _ _ _ => rfl) (fun _ _ _ _ => rfl)))
    (fun index => ?_)
  refine EmitsList_bind _ _ (CopyBuffer_complete _ _ _) (fun _ => ?_)
  refine EmitsList_bind _ _ (EmitsList_of_emits _ (Emits_call _ _ rfl)) (fun _ => ?_)
  exact EmitsList_of_emits _ (Emits_call _ _ rfl)

/-- C25 (amended): inside `CopyBuffer`, inside `CopyBufferToImage`, and inside
`TransitionImageLayout` called with one of its three supported pairs of
layouts, the command buffer acquired by `StartSingleTimeCommands` is begun,
records one command, is ended, submitted to the graphics queue, followed by a
queue-idle wait and freed to the command pool, in that order, and the operation
returns. Called with any other pair, `TransitionImageLayout` raises
"Unsupported Layout Transition!" after the allocation and the begin, and the
buffer stays allocated. The callers in the program pass supported pairs only:
on every path of `CreateDepthResources`, `CreateTextureImage`,
`CreateVertexBuffer` and `CreateIndexBuffer`, whatever the driver and the
platform answer, the calls added leave no one-shot command buffer allocated.
`Draw` makes no call of the one-shot helper. -/
theorem one_shot_command_buffers_complete :
    (∀ (image : Nat) (format : VkFormat) (old_layout new_layout : VkImageLayout)
        (s : Session),
      ((old_layout = VK_IMAGE_LAYOUT_UNDEFINED ∧
          new_layout = VK_IMAGE_LAYOUT_TRANSFER_DST_OPTIMAL) ∨
        (old_layout = VK_IMAGE_LAYOUT_TRANSFER_DST_OPTIMAL ∧
          new_layout = VK_IMAGE_LAYOUT_SHADER_READ_ONLY_OPTIMAL) ∨
        (old_layout = VK_IMAGE_LAYOUT_UNDEFINED ∧
          new_layout = VK_IMAGE_LAYOUT_DEPTH_STENCIL_ATTACHMENT_OPTIMAL)) →
      ∃ (barrier : VkImageMemoryBarrier) (source_stage dest_stage : Nat),
        TransitionImageLayout.step image format old_layout new_layout s =
          (.ok (), { s with
            trace := s.trace ++
              [ .vkAllocateCommandBuffers s._vk_logical_device s._vk_command_pool
                  VK_COMMAND_BUFFER_LEVEL_PRIMARY 1 s.fresh,
                .vkBeginCommandBuffer s.fresh VK_COMMAND_BUFFER_USAGE_ONE_TIME_SUBMIT_BIT,
                .vkCmdPipelineBarrier s.fresh source_stage dest_stage 0 0 0 [barrier],
                .vkEndCommandBuffer s.fresh,
                .vkQueueSubmit s._vk_graphics_queue [s.fresh] VK_NULL_HANDLE,
                .vkQueueWaitIdle s._vk_graphics_queue,
                .vkFreeCommandBuffers s._vk_logical_device s._vk_command_pool [s.fresh] ]
            fresh := s.fresh + 1 })) ∧
    (∀ (image : Nat) (format : VkFormat) (old_layout new_layout : VkImageLayout)
        (s : Session),
      ¬ ((old_layout = VK_IMAGE_LAYOUT_UNDEFINED ∧
            new_layout = VK_IMAGE_LAYOUT_TRANSFER_DST_OPTIMAL) ∨
          (old_layout = VK_IMAGE_LAYOUT_TRANSFER_DST_OPTIMAL ∧
            new_layout = VK_IMAGE_LAYOUT_SHADER_READ_ONLY_OPTIMAL) ∨
          (old_layout = VK_IMAGE_LAYOUT_UNDEFINED ∧
            new_layout = VK_IMAGE_LAYOUT_DEPTH_STENCIL_ATTACHMENT_OPTIMAL)) →
      TransitionImageLayout.step image format old_layout new_layout s =
        (.thrown "Unsupported Layout Transition!", { s with
          trace := s.trace ++
            [ .vkAllocateCommandBuffers s._vk_logical_device s._vk_command_pool
                VK_COMMAND_BUFFER_LEVEL_PRIMARY 1 s.fresh,
              .vkBeginCommandBuffer s.fresh VK_COMMAND_BUFFER_USAGE_ONE_TIME_SUBMIT_BIT ]
          fresh := s.fresh + 1 })) ∧
    (∀ (src dst size : Nat) (s : Session),
      CopyBuffer src dst size s =
        (.ok (), { s with
          trace := s.trace ++
            [ .vkAllocateCommandBuffers s._vk_logical_device s._vk_command_pool
                VK_COMMAND_BUFFER_LEVEL_PRIMARY 1 s.fresh,
              .vkBeginCommandBuffer s.fresh VK_COMMAND_BUFFER_USAGE_ONE_TIME_SUBMIT_BIT,
              .setup (.vkCmdCopyBuffer s.fresh src dst size),
              .vkEndCommandBuffer s.fresh,
              .vkQueueSubmit s._vk_graphics_queue [s.fresh] VK_NULL_HANDLE,
              .vkQueueWaitIdle s._vk_graphics_queue,
              .vkFreeCommandBuffers s._vk_logical_device s._vk_command_pool [s.fresh] ]
          fresh := s.fresh + 1 })) ∧
    (∀ (buffer image width height : Nat) (s : Session),
      CopyBufferToImage buffer image width height s =
        (.ok (), { s with
          trace := s.trace ++
            [ .vkAllocateCommandBuffers s._vk_logical_device s._vk_command_pool
                VK_COMMAND_BUFFER_LEVEL_PRIMARY 1 s.fresh,
              .vkBeginCommandBuffer s.fresh VK_COMMAND_BUFFER_USAGE_ONE_TIME_SUBMIT_BIT,
              .setup (.vkCmdCopyBufferToImage s.fresh buffer image
                VK_IMAGE_LAYOUT_TRANSFER_DST_OPTIMAL width height),
              .vkEndCommandBuffer s.fresh,
              .vkQueueSubmit s._vk_graphics_queue [s.fresh] VK_NULL_HANDLE,
              .vkQueueWaitIdle s._vk_graphics_queue,
              .vkFreeCommandBuffers s._vk_logical_device s._vk_command_pool [s.fresh] ]
          fresh := s.fresh + 1 })) ∧
    (∀ (d : Driver) (p : Platform),
      EmitsList (fun new => oneShotLive new = []) (CreateDepthResources d p) ∧
      EmitsList (fun new => oneShotLive new = []) (CreateTextureImage d p) ∧
      EmitsList (fun new => oneShotLive new = []) (CreateVertexBuffer d p) ∧
      EmitsList (fun new => oneShotLive new = []) (CreateIndexBuffer d p)) ∧
    (∀ d : Driver, Emits (fun c => c.isOneShot = false) (Draw d)) := by
  refine ⟨fun image format old_layout new_layout s h => ?_,
    fun image format old_layout new_layout s h => ?_, CopyBuffer_run, CopyBufferToImage_run,
    fun d p => ⟨CreateDepthResources_complete d p, CreateTextureImage_complete d p,
      CreateVertexBuffer_complete d p, CreateIndexBuffer_complete d p⟩,
    fun d => Emits_mono _ _ _ (fun _ h => h.2) (Draw_emits d)⟩
  · rcases h with ⟨rfl, rfl⟩ | ⟨rfl, rfl⟩ | ⟨rfl, rfl⟩
    · exact ⟨_, _, _, TransitionImageLayout_step_supported _ _ _ _ s _
        (TransitionImageLayout_select_supported _).1⟩
    · exact ⟨_, _, _, TransitionImageLayout_step_supported _ _ _ _ s _
        (TransitionImageLayout_select_supported _).2.1⟩
    · exact ⟨_, _, _, TransitionImageLayout_step_supported _ _ _ _ s _
        (TransitionImageLayout_select_supported _).2.2⟩
  · simp only [not_or] at h
    obtain ⟨h1, h2, h3⟩ := h
    exact TransitionImageLayout_step_unsupported image format old_layout new_layout s _
      (by simp [TransitionImageLayout.select, h1, h2, h3])

end ForgeVk
